import Mathlib

/-!
# Glicko-2 rating engine

A shallow embedding of `glicko/config.hpp`, `glicko/rating.hpp`, `glicko/rating.cpp` and
`main.cpp`.  The `while` loops of `Rating::Convergence` take a fuel argument, `assert` is a
fault, and the `thread_local` scratch tables of the batch update are an explicit state.

`real_type` is `double`, and the code is embedded twice, statement for statement.

* In exact arithmetic: `real_type` is read as the real numbers, and `std::exp`, `std::log`,
  `std::sqrt` and `std::fabs` are `Real.exp`, `Real.log`, `Real.sqrt` and the absolute value.
  A theorem about these definitions says nothing about rounding, overflow or underflow.
* In binary64 arithmetic (the definitions named `Dbl.`): `real_type` is read as the type `Fl`
  of the IEEE 754 binary64 values, every operation rounds its exact result to nearest, ties
  to even, with subnormals, signed zeros, infinities and a NaN, without fused multiply-add
  or extended precision; the constants are the doubles nearest to their decimal literals;
  `std::sqrt` is correctly rounded, and `std::exp` and `std::log` are read as correctly
  rounded, with the special values of Annex F of the C standard.

A claim that fails on an input of the binary64 embedding is refuted there, on that input, and
its amended form is the statement for exact arithmetic.
-/

noncomputable section

namespace Glicko

/-! ## `glicko/config.hpp` -/

/-- Constant `kPI`. -/
def kPI : ℝ := Real.pi

/-- The default/initial rating value. -/
def kDefaultR : ℝ := 1500

/-- The default/initial deviation value. -/
def kDefaultRD : ℝ := 350

/-- The default/initial volatility value. -/
def kDefaultS : ℝ := 6 / 100

/-- The Glicko-1 to Glicko-2 scale factor, `173.7178`. -/
def kScale : ℝ := 1737178 / 10000

/-- The system constant (tau). -/
def kSystemConst : ℝ := 1 / 2

/-- The convergence constant (epsilon), `0.000001`. -/
def kConvergence : ℝ := 1 / 1000000

/-! ## `glicko/rating.hpp`: the data model -/

/-- The six data members of `class Rating`. -/
structure Rating where
  /-- The rating u (mu). -/
  u : ℝ
  /-- The rating deviation p (phi). -/
  p : ℝ
  /-- The rating volatility s (sigma). -/
  s : ℝ
  /-- The pending rating value. -/
  uPrime : ℝ
  /-- The pending deviation value. -/
  pPrime : ℝ
  /-- The pending volatility value. -/
  sPrime : ℝ

/-- Ways in which a call does not return normally. -/
inductive Fault where
  /-- The `assert` at the head of the batch update fired. -/
  | assertion
  /-- An array was read past its end (undefined behaviour in the source). -/
  | outOfBounds
  /-- A `while` loop was still running when the fuel ran out. -/
  | fuel
  deriving DecidableEq

/-- The `thread_local` variables of the batch update (`GLICKO_ENABLE_MEMORY_REUSE` is 1):
the two tables, as maps from index to value, and `tableSize`. -/
structure Scratch where
  /-- Contents of `gTable`. -/
  gTable : ℕ → ℝ
  /-- Contents of `eTable`. -/
  eTable : ℕ → ℝ
  /-- Value of `tableSize`. -/
  tableSize : ℕ

/-! ## `glicko/rating.cpp` -/

/-- Constructor `Rating(rating, deviation, volatility)`.  Only `u`, `p`, `s` are initialised;
the pending members keep the indeterminate contents of the storage, passed as `junk`. -/
def Rating.init (rating deviation volatility : ℝ) (junk : ℝ × ℝ × ℝ) : Rating :=
  { u := (rating - kDefaultR) / kScale
    p := deviation / kScale
    s := volatility
    uPrime := junk.1
    pPrime := junk.2.1
    sPrime := junk.2.2 }

/-- Copy constructor `Rating(const Rating&)`.  Only `u`, `p`, `s` are copied; the pending
members keep the indeterminate contents of the storage, passed as `junk`. -/
def Rating.copy (rating : Rating) (junk : ℝ × ℝ × ℝ) : Rating :=
  { u := rating.u
    p := rating.p
    s := rating.s
    uPrime := junk.1
    pPrime := junk.2.1
    sPrime := junk.2.2 }

/-- Method `Rating::G`. -/
def Rating.G (self : Rating) : ℝ :=
  let scale := self.p / kPI
  1 / Real.sqrt (1 + 3 * scale * scale)

/-- Method `Rating::E`: called on the opponent, `rating` is the other player. -/
def Rating.E (self : Rating) (g : ℝ) (rating : Rating) : ℝ :=
  let exponent := -1 * g * (rating.u - self.u)
  1 / (1 + Real.exp exponent)

/-- Static method `Rating::F`. -/
def Rating.F (x dS pS v a tS : ℝ) : ℝ :=
  let eX := Real.exp x
  let num := eX * (dS - pS - v - eX)
  let den := pS + v + eX
  (num / (2 * den * den)) - ((x - a) / tS)

/-- The loop `while (F(B, ...) < 0.0) B -= kSystemConst` of `Rating::Convergence`. -/
def Rating.Convergence.bracket (dS pS v a tS : ℝ) : ℕ → ℝ → Option ℝ
  | 0, _ => none
  | n + 1, B =>
    if Rating.F B dS pS v a tS < 0 then
      Rating.Convergence.bracket dS pS v a tS n (B - kSystemConst)
    else some B

/-- The loop `while (std::fabs(B - A) > kConvergence)` of `Rating::Convergence`. -/
def Rating.Convergence.iterate (dS pS v a tS : ℝ) : ℕ → ℝ → ℝ → ℝ → ℝ → Option ℝ
  | 0, _, _, _, _ => none
  | n + 1, A, B, fA, fB =>
    if |B - A| > kConvergence then
      let C := A + (A - B) * fA / (fB - fA)
      let fC := Rating.F C dS pS v a tS
      if fC * fB < 0 then
        Rating.Convergence.iterate dS pS v a tS n B C fB fC
      else
        Rating.Convergence.iterate dS pS v a tS n A C (fA / 2) fC
    else some A

/-- Static method `Rating::Convergence`; `none` when a loop outlives the fuel. -/
def Rating.Convergence (fuel : ℕ) (d v p s : ℝ) : Option ℝ :=
  let dS := d * d
  let pS := p * p
  let tS := kSystemConst * kSystemConst
  let a := Real.log (s * s)
  let A := a
  let bTest := dS - pS - v
  let Bopt :=
    if bTest > 0 then some (Real.log bTest)
    else Rating.Convergence.bracket dS pS v a tS fuel (a - kSystemConst)
  match Bopt with
  | none => none
  | some B =>
    Rating.Convergence.iterate dS pS v a tS fuel A B
      (Rating.F A dS pS v a tS) (Rating.F B dS pS v a tS)

/-- Private method `Rating::Update(invV, v, dInner, d)`. -/
def Rating.UpdateFinal (fuel : ℕ) (self : Rating) (invV v dInner d : ℝ) :
    Except Fault Rating :=
  match Rating.Convergence fuel d v self.p self.s with
  | none => Except.error Fault.fuel
  | some A =>
    let sPrime := Real.exp (A / 2)
    let pPrime := 1 / Real.sqrt ((1 / (self.p * self.p + sPrime * sPrime)) + invV)
    let uPrime := self.u + pPrime * pPrime * dInner
    Except.ok { self with sPrime := sPrime, pPrime := pPrime, uPrime := uPrime }

/-- First loop of the batch update, from index `j` with `k` rounds to go: reads
`opponents[j]`, stores `g` and `e` in the tables and accumulates `invV`. -/
def Rating.UpdateBatch.loop1 (self : Rating) (opponents : List Rating) :
    ℕ → ℕ → (ℕ → ℝ) → (ℕ → ℝ) → ℝ → Except Fault ((ℕ → ℝ) × (ℕ → ℝ) × ℝ)
  | 0, _, gTable, eTable, invV => Except.ok (gTable, eTable, invV)
  | k + 1, j, gTable, eTable, invV =>
    match opponents[j]? with
    | none => Except.error Fault.outOfBounds
    | some opponent =>
      let g := opponent.G
      let e := opponent.E g self
      Rating.UpdateBatch.loop1 self opponents k (j + 1)
        (Function.update gTable j g) (Function.update eTable j e)
        (invV + g * g * e * (1 - e))

/-- Second loop of the batch update, from index `j` with `k` rounds to go: accumulates
`dInner` from the tables and `score[j]`. -/
def Rating.UpdateBatch.loop2 (gTable eTable : ℕ → ℝ) (score : List ℝ) :
    ℕ → ℕ → ℝ → Except Fault ℝ
  | 0, _, dInner => Except.ok dInner
  | k + 1, j, dInner =>
    match score[j]? with
    | none => Except.error Fault.outOfBounds
    | some sc =>
      Rating.UpdateBatch.loop2 gTable eTable score k (j + 1)
        (dInner + gTable j * (sc - eTable j))

/-- The block `if (tableSize < m) { ... }` of the batch update: replaces both tables by
fresh arrays of `m` entries, of contents `gNew` and `eNew`, when they are too small. -/
def Rating.UpdateBatch.reserve (scratch : Scratch) (gNew eNew : ℕ → ℝ) (m : ℕ) : Scratch :=
  if scratch.tableSize < m then { gTable := gNew, eTable := eNew, tableSize := m }
  else scratch

/-- Public method `Rating::Update(m, opponents, score)`.  A null pointer is `none`; `gNew`
and `eNew` are the indeterminate contents of the arrays that `new real_type[m]` returns when
the tables are too small.  Returns the rating and the new thread-local state. -/
def Rating.UpdateBatch (fuel : ℕ) (scratch : Scratch) (gNew eNew : ℕ → ℝ) (self : Rating)
    (m : ℕ) (opponents : Option (List Rating)) (score : Option (List ℝ)) :
    Except Fault (Rating × Scratch) :=
  match opponents, score with
  | some opps, some scs =>
    if m > 0 then
      let scratch1 := Rating.UpdateBatch.reserve scratch gNew eNew m
      match Rating.UpdateBatch.loop1 self opps m 0 scratch1.gTable scratch1.eTable 0 with
      | Except.error f => Except.error f
      | Except.ok (gTable, eTable, invV) =>
        let v := 1 / invV
        match Rating.UpdateBatch.loop2 gTable eTable scs m 0 0 with
        | Except.error f => Except.error f
        | Except.ok dInner =>
          let d := v * dInner
          match Rating.UpdateFinal fuel self invV v dInner d with
          | Except.error f => Except.error f
          | Except.ok r =>
            Except.ok (r, { gTable := gTable, eTable := eTable,
                            tableSize := scratch1.tableSize })
    else Except.error Fault.assertion
  | _, _ => Except.error Fault.assertion

/-- Public method `Rating::Update(opponent, score)`. -/
def Rating.UpdateSingle (fuel : ℕ) (self : Rating) (opponent : Rating) (score : ℝ) :
    Except Fault Rating :=
  let g := opponent.G
  let e := opponent.E g self
  let invV := g * g * e * (1 - e)
  let v := 1 / invV
  let dInner := g * (score - e)
  let d := v * dInner
  Rating.UpdateFinal fuel self invV v dInner d

/-- Method `Rating::Decay`. -/
def Rating.Decay (self : Rating) : Rating :=
  { self with pPrime := Real.sqrt (self.p * self.p + self.s * self.s) }

/-- Method `Rating::Apply`. -/
def Rating.Apply (self : Rating) : Rating :=
  { self with u := self.uPrime, p := self.pPrime, s := self.sPrime }

/-- Method `Rating::Rating1`. -/
def Rating.Rating1 (self : Rating) : ℝ := (self.u * kScale) + kDefaultR

/-- Method `Rating::Deviation1`. -/
def Rating.Deviation1 (self : Rating) : ℝ := self.p * kScale

/-- Method `Rating::Rating2`. -/
def Rating.Rating2 (self : Rating) : ℝ := self.u

/-- Method `Rating::Deviation2`. -/
def Rating.Deviation2 (self : Rating) : ℝ := self.p

/-! ## `main.cpp` -/

/-- The program `main`: returns the two numbers that `operator<<` prints, `Rating1()` and
`Deviation1()` of the player.  `junk` gives the indeterminate pending members of the four
ratings it constructs. -/
def main (fuel : ℕ) (scratch : Scratch) (gNew eNew : ℕ → ℝ) (junk : Fin 4 → ℝ × ℝ × ℝ) :
    Except Fault (ℝ × ℝ) :=
  let player := Rating.init 1500 200 kDefaultS (junk 0)
  let players : List Rating :=
    [Rating.init 1400 30 kDefaultS (junk 1),
     Rating.init 1550 100 kDefaultS (junk 2),
     Rating.init 1700 300 kDefaultS (junk 3)]
  let scores : List ℝ := [1, 0, 0]
  match Rating.UpdateBatch fuel scratch gNew eNew player 3 (some players) (some scores) with
  | Except.error f => Except.error f
  | Except.ok (player1, _) =>
    let player2 := player1.Apply
    Except.ok (player2.Rating1, player2.Deviation1)

/-! ## IEEE 754 binary64 arithmetic -/

/-- Exponent of the spacing of the doubles around the real `r`: 52 below the binary
exponent of `r`, and `-1074` in the subnormal range. -/
def ulpExp (r : ℝ) : ℤ := max (Int.log 2 |r| - 52) (-1074)

/-- Nearest integer, a tie going to the even one. -/
def rne (t : ℝ) : ℤ :=
  if t - ⌊t⌋ < 1 / 2 then ⌊t⌋
  else if 1 / 2 < t - ⌊t⌋ then ⌊t⌋ + 1
  else if Even ⌊t⌋ then ⌊t⌋ else ⌊t⌋ + 1

/-- The real `r` rounded to the nearest multiple of the spacing around it, a tie going to the
even multiple: round-to-nearest-even of binary64, before overflow is looked at. -/
def round64 (r : ℝ) : ℝ := (rne (r / 2 ^ ulpExp r) : ℝ) * 2 ^ ulpExp r

/-- A value of type `double`: a finite number (`fin 0` is `+0`), `-0`, an infinity or a NaN. -/
inductive Fl where
  | fin (x : ℝ)
  | nzero
  | pinf
  | ninf
  | nan

/-- The real number a finite value stands for (0 for the others). -/
def Fl.toReal : Fl → ℝ
  | Fl.fin x => x
  | _ => 0

/-- Sign bit of a value. -/
def Fl.sign : Fl → Bool
  | Fl.fin x => decide (x < 0)
  | Fl.nzero => true
  | Fl.pinf => false
  | Fl.ninf => true
  | Fl.nan => false

/-- The value is `+0` or `-0`. -/
def Fl.isZero : Fl → Bool
  | Fl.fin x => decide (x = 0)
  | Fl.nzero => true
  | _ => false

/-- The result of an operation whose exact value is the real `r`: `r` rounded to nearest, an
infinity on overflow, and a zero of sign `neg` when the rounded value is zero. -/
def Fl.ofReal (neg : Bool) (r : ℝ) : Fl :=
  if 2 ^ 1024 ≤ |round64 r| then (if 0 < r then Fl.pinf else Fl.ninf)
  else if round64 r = 0 then (if neg then Fl.nzero else Fl.fin 0)
  else Fl.fin (round64 r)

/-- An infinity of the sign `neg`. -/
def Fl.inf (neg : Bool) : Fl := if neg then Fl.ninf else Fl.pinf

/-- A zero of the sign `neg`. -/
def Fl.zero (neg : Bool) : Fl := if neg then Fl.nzero else Fl.fin 0

/-- Operator `-` (unary) on `double`. -/
def Fl.neg : Fl → Fl
  | Fl.fin x => if x = 0 then Fl.nzero else Fl.fin (-x)
  | Fl.nzero => Fl.fin 0
  | Fl.pinf => Fl.ninf
  | Fl.ninf => Fl.pinf
  | Fl.nan => Fl.nan

/-- Operator `+` on `double`. -/
def Fl.add : Fl → Fl → Fl
  | Fl.nan, _ => Fl.nan
  | _, Fl.nan => Fl.nan
  | Fl.pinf, Fl.ninf => Fl.nan
  | Fl.ninf, Fl.pinf => Fl.nan
  | Fl.pinf, _ => Fl.pinf
  | _, Fl.pinf => Fl.pinf
  | Fl.ninf, _ => Fl.ninf
  | _, Fl.ninf => Fl.ninf
  | Fl.nzero, Fl.nzero => Fl.nzero
  | Fl.nzero, Fl.fin y => Fl.fin y
  | Fl.fin x, Fl.nzero => Fl.fin x
  | Fl.fin x, Fl.fin y => Fl.ofReal false (x + y)

/-- Operator `-` (binary) on `double`. -/
def Fl.sub (a b : Fl) : Fl := Fl.add a (Fl.neg b)

/-- Operator `*` on `double`. -/
def Fl.mul : Fl → Fl → Fl
  | Fl.nan, _ => Fl.nan
  | _, Fl.nan => Fl.nan
  | Fl.pinf, b => if b.isZero then Fl.nan else Fl.inf b.sign
  | Fl.ninf, b => if b.isZero then Fl.nan else Fl.inf (!b.sign)
  | a, Fl.pinf => if a.isZero then Fl.nan else Fl.inf a.sign
  | a, Fl.ninf => if a.isZero then Fl.nan else Fl.inf (!a.sign)
  | a, b => Fl.ofReal (xor a.sign b.sign) (a.toReal * b.toReal)

/-- Operator `/` on `double`. -/
def Fl.div : Fl → Fl → Fl
  | Fl.nan, _ => Fl.nan
  | _, Fl.nan => Fl.nan
  | Fl.pinf, Fl.pinf => Fl.nan
  | Fl.pinf, Fl.ninf => Fl.nan
  | Fl.ninf, Fl.pinf => Fl.nan
  | Fl.ninf, Fl.ninf => Fl.nan
  | Fl.pinf, b => Fl.inf b.sign
  | Fl.ninf, b => Fl.inf (!b.sign)
  | a, Fl.pinf => Fl.zero a.sign
  | a, Fl.ninf => Fl.zero (!a.sign)
  | a, b =>
    if b.isZero then (if a.isZero then Fl.nan else Fl.inf (xor a.sign b.sign))
    else Fl.ofReal (xor a.sign b.sign) (a.toReal / b.toReal)

/-- Function `std::sqrt` on `double`, correctly rounded as IEEE 754 requires. -/
def Fl.sqrt : Fl → Fl
  | Fl.nan => Fl.nan
  | Fl.ninf => Fl.nan
  | Fl.pinf => Fl.pinf
  | Fl.nzero => Fl.nzero
  | Fl.fin x => if x < 0 then Fl.nan else Fl.ofReal false (Real.sqrt x)

/-- Function `std::fabs` on `double`. -/
def Fl.fabs : Fl → Fl
  | Fl.fin x => Fl.fin |x|
  | Fl.nzero => Fl.fin 0
  | Fl.pinf => Fl.pinf
  | Fl.ninf => Fl.pinf
  | Fl.nan => Fl.nan

/-- Function `std::exp` on `double`.  The standard leaves its accuracy to the library; it is
read as correctly rounded, with the special values of Annex F of the C standard. -/
def Fl.exp : Fl → Fl
  | Fl.nan => Fl.nan
  | Fl.pinf => Fl.pinf
  | Fl.ninf => Fl.fin 0
  | Fl.nzero => Fl.fin 1
  | Fl.fin x => Fl.ofReal false (Real.exp x)

/-- Function `std::log` on `double`.  The standard leaves its accuracy to the library; it is
read as correctly rounded, with the special values of Annex F of the C standard. -/
def Fl.log : Fl → Fl
  | Fl.nan => Fl.nan
  | Fl.pinf => Fl.pinf
  | Fl.ninf => Fl.nan
  | Fl.nzero => Fl.ninf
  | Fl.fin x => if x = 0 then Fl.ninf else if x < 0 then Fl.nan else Fl.ofReal false (Real.log x)

/-- Operator `<` on `double`: false when a side is a NaN, and `-0` equals `+0`. -/
def Fl.lt : Fl → Fl → Prop
  | Fl.nan, _ => False
  | _, Fl.nan => False
  | Fl.pinf, _ => False
  | _, Fl.ninf => False
  | Fl.ninf, _ => True
  | _, Fl.pinf => True
  | a, b => a.toReal < b.toReal

instance : Add Fl := ⟨Fl.add⟩
instance : Sub Fl := ⟨Fl.sub⟩
instance : Mul Fl := ⟨Fl.mul⟩
instance : Div Fl := ⟨Fl.div⟩
instance : LT Fl := ⟨Fl.lt⟩

instance Fl.decLt (a b : Fl) : Decidable (a < b) := Classical.propDecidable (a < b)

/-! ## The program in binary64 arithmetic

The same statements as above with `real_type` read as IEEE 754 binary64: every operation
rounds its exact result to the nearest double, ties to even, with no fused multiply-add and
no extended precision. -/

/-- Constant `kPI`: the double nearest to pi, 3.141592653589793. -/
def Dbl.kPI : Fl := Fl.fin (884279719003555 / 2 ^ 48)

/-- Constant `kDefaultR`. -/
def Dbl.kDefaultR : Fl := Fl.fin 1500

/-- Constant `kDefaultRD`. -/
def Dbl.kDefaultRD : Fl := Fl.fin 350

/-- Constant `kDefaultS`: the double nearest to 0.06. -/
def Dbl.kDefaultS : Fl := Fl.fin (1080863910568919 / 2 ^ 54)

/-- Constant `kScale`: the double nearest to 173.7178. -/
def Dbl.kScale : Fl := Fl.fin (1528037928413325 / 2 ^ 43)

/-- Constant `kSystemConst`. -/
def Dbl.kSystemConst : Fl := Fl.fin (1 / 2)

/-- Constant `kConvergence`: the double nearest to 0.000001. -/
def Dbl.kConvergence : Fl := Fl.fin (4722366482869645 / 2 ^ 72)

/-- Class `Rating` with members of type `double`. -/
structure Dbl.Rating where
  /-- Committed rating. -/
  u : Fl
  /-- Committed deviation. -/
  p : Fl
  /-- Committed volatility. -/
  s : Fl
  /-- Pending rating. -/
  uPrime : Fl
  /-- Pending deviation. -/
  pPrime : Fl
  /-- Pending volatility. -/
  sPrime : Fl

/-- The `thread_local` variables of the batch update, with tables of `double`. -/
structure Dbl.Scratch where
  /-- Array `gTable`. -/
  gTable : ℕ → Fl
  /-- Array `eTable`. -/
  eTable : ℕ → Fl
  /-- Variable `tableSize`. -/
  tableSize : ℕ

/-- Constructor `Rating(rating, deviation, volatility)` in binary64. -/
def Dbl.Rating.init (rating deviation volatility : Fl) (junk : Fl × Fl × Fl) : Dbl.Rating :=
  { u := (rating - Dbl.kDefaultR) / Dbl.kScale
    p := deviation / Dbl.kScale
    s := volatility
    uPrime := junk.1
    pPrime := junk.2.1
    sPrime := junk.2.2 }

/-- Method `Rating::G` in binary64. -/
def Dbl.Rating.G (self : Dbl.Rating) : Fl :=
  let scale := self.p / Dbl.kPI
  Fl.fin 1 / Fl.sqrt (Fl.fin 1 + Fl.fin 3 * scale * scale)

/-- Method `Rating::E` in binary64: called on the opponent, `rating` is the other player. -/
def Dbl.Rating.E (self : Dbl.Rating) (g : Fl) (rating : Dbl.Rating) : Fl :=
  let exponent := Fl.fin (-1) * g * (rating.u - self.u)
  Fl.fin 1 / (Fl.fin 1 + Fl.exp exponent)

/-- Static method `Rating::F` in binary64. -/
def Dbl.Rating.F (x dS pS v a tS : Fl) : Fl :=
  let eX := Fl.exp x
  let num := eX * (dS - pS - v - eX)
  let den := pS + v + eX
  (num / (Fl.fin 2 * den * den)) - ((x - a) / tS)

/-- The loop `while (F(B, ...) < 0.0) B -= kSystemConst` of `Rating::Convergence` in
binary64. -/
def Dbl.Rating.Convergence.bracket (dS pS v a tS : Fl) : ℕ → Fl → Option Fl
  | 0, _ => none
  | n + 1, B =>
    if Dbl.Rating.F B dS pS v a tS < Fl.fin 0 then
      Dbl.Rating.Convergence.bracket dS pS v a tS n (B - Dbl.kSystemConst)
    else some B

/-- The loop `while (std::fabs(B - A) > kConvergence)` of `Rating::Convergence` in binary64. -/
def Dbl.Rating.Convergence.iterate (dS pS v a tS : Fl) : ℕ → Fl → Fl → Fl → Fl → Option Fl
  | 0, _, _, _, _ => none
  | n + 1, A, B, fA, fB =>
    if Fl.fabs (B - A) > Dbl.kConvergence then
      let C := A + (A - B) * fA / (fB - fA)
      let fC := Dbl.Rating.F C dS pS v a tS
      if fC * fB < Fl.fin 0 then
        Dbl.Rating.Convergence.iterate dS pS v a tS n B C fB fC
      else
        Dbl.Rating.Convergence.iterate dS pS v a tS n A C (fA / Fl.fin 2) fC
    else some A

/-- Static method `Rating::Convergence` in binary64; `none` when a loop outlives the fuel. -/
def Dbl.Rating.Convergence (fuel : ℕ) (d v p s : Fl) : Option Fl :=
  let dS := d * d
  let pS := p * p
  let tS := Dbl.kSystemConst * Dbl.kSystemConst
  let a := Fl.log (s * s)
  let A := a
  let bTest := dS - pS - v
  let Bopt :=
    if bTest > Fl.fin 0 then some (Fl.log bTest)
    else Dbl.Rating.Convergence.bracket dS pS v a tS fuel (a - Dbl.kSystemConst)
  match Bopt with
  | none => none
  | some B =>
    Dbl.Rating.Convergence.iterate dS pS v a tS fuel A B
      (Dbl.Rating.F A dS pS v a tS) (Dbl.Rating.F B dS pS v a tS)

/-- Private method `Rating::Update(invV, v, dInner, d)` in binary64. -/
def Dbl.Rating.UpdateFinal (fuel : ℕ) (self : Dbl.Rating) (invV v dInner d : Fl) :
    Except Fault Dbl.Rating :=
  match Dbl.Rating.Convergence fuel d v self.p self.s with
  | none => Except.error Fault.fuel
  | some A =>
    let sPrime := Fl.exp (A / Fl.fin 2)
    let pPrime := Fl.fin 1 / Fl.sqrt ((Fl.fin 1 / (self.p * self.p + sPrime * sPrime)) + invV)
    let uPrime := self.u + pPrime * pPrime * dInner
    Except.ok { self with sPrime := sPrime, pPrime := pPrime, uPrime := uPrime }

/-- First loop of the batch update in binary64. -/
def Dbl.Rating.UpdateBatch.loop1 (self : Dbl.Rating) (opponents : List Dbl.Rating) :
    ℕ → ℕ → (ℕ → Fl) → (ℕ → Fl) → Fl → Except Fault ((ℕ → Fl) × (ℕ → Fl) × Fl)
  | 0, _, gTable, eTable, invV => Except.ok (gTable, eTable, invV)
  | k + 1, j, gTable, eTable, invV =>
    match opponents[j]? with
    | none => Except.error Fault.outOfBounds
    | some opponent =>
      let g := opponent.G
      let e := opponent.E g self
      Dbl.Rating.UpdateBatch.loop1 self opponents k (j + 1)
        (Function.update gTable j g) (Function.update eTable j e)
        (invV + g * g * e * (Fl.fin 1 - e))

/-- Second loop of the batch update in binary64. -/
def Dbl.Rating.UpdateBatch.loop2 (gTable eTable : ℕ → Fl) (score : List Fl) :
    ℕ → ℕ → Fl → Except Fault Fl
  | 0, _, dInner => Except.ok dInner
  | k + 1, j, dInner =>
    match score[j]? with
    | none => Except.error Fault.outOfBounds
    | some sc =>
      Dbl.Rating.UpdateBatch.loop2 gTable eTable score k (j + 1)
        (dInner + gTable j * (sc - eTable j))

/-- The block `if (tableSize < m) { ... }` of the batch update, on tables of `double`. -/
def Dbl.Rating.UpdateBatch.reserve (scratch : Dbl.Scratch) (gNew eNew : ℕ → Fl) (m : ℕ) :
    Dbl.Scratch :=
  if scratch.tableSize < m then { gTable := gNew, eTable := eNew, tableSize := m }
  else scratch

/-- Public method `Rating::Update(m, opponents, score)` in binary64. -/
def Dbl.Rating.UpdateBatch (fuel : ℕ) (scratch : Dbl.Scratch) (gNew eNew : ℕ → Fl)
    (self : Dbl.Rating) (m : ℕ) (opponents : Option (List Dbl.Rating))
    (score : Option (List Fl)) : Except Fault (Dbl.Rating × Dbl.Scratch) :=
  match opponents, score with
  | some opps, some scs =>
    if m > 0 then
      let scratch1 := Dbl.Rating.UpdateBatch.reserve scratch gNew eNew m
      match Dbl.Rating.UpdateBatch.loop1 self opps m 0 scratch1.gTable scratch1.eTable
          (Fl.fin 0) with
      | Except.error f => Except.error f
      | Except.ok (gTable, eTable, invV) =>
        let v := Fl.fin 1 / invV
        match Dbl.Rating.UpdateBatch.loop2 gTable eTable scs m 0 (Fl.fin 0) with
        | Except.error f => Except.error f
        | Except.ok dInner =>
          let d := v * dInner
          match Dbl.Rating.UpdateFinal fuel self invV v dInner d with
          | Except.error f => Except.error f
          | Except.ok r =>
            Except.ok (r, { gTable := gTable, eTable := eTable,
                            tableSize := scratch1.tableSize })
    else Except.error Fault.assertion
  | _, _ => Except.error Fault.assertion

/-- Public method `Rating::Update(opponent, score)` in binary64. -/
def Dbl.Rating.UpdateSingle (fuel : ℕ) (self : Dbl.Rating) (opponent : Dbl.Rating)
    (score : Fl) : Except Fault Dbl.Rating :=
  let g := opponent.G
  let e := opponent.E g self
  let invV := g * g * e * (Fl.fin 1 - e)
  let v := Fl.fin 1 / invV
  let dInner := g * (score - e)
  let d := v * dInner
  Dbl.Rating.UpdateFinal fuel self invV v dInner d

/-- Method `Rating::Decay` in binary64. -/
def Dbl.Rating.Decay (self : Dbl.Rating) : Dbl.Rating :=
  { self with pPrime := Fl.sqrt (self.p * self.p + self.s * self.s) }

/-- Method `Rating::Apply` on members of type `double`. -/
def Dbl.Rating.Apply (self : Dbl.Rating) : Dbl.Rating :=
  { self with u := self.uPrime, p := self.pPrime, s := self.sPrime }

/-- Method `Rating::Rating1` in binary64. -/
def Dbl.Rating.Rating1 (self : Dbl.Rating) : Fl := (self.u * Dbl.kScale) + Dbl.kDefaultR

/-- Method `Rating::Deviation1` in binary64. -/
def Dbl.Rating.Deviation1 (self : Dbl.Rating) : Fl := self.p * Dbl.kScale

/-- Method `Rating::Rating2` on members of type `double`. -/
def Dbl.Rating.Rating2 (self : Dbl.Rating) : Fl := self.u

/-- Method `Rating::Deviation2` on members of type `double`. -/
def Dbl.Rating.Deviation2 (self : Dbl.Rating) : Fl := self.p

/-! ## Auxiliary definitions for the proofs -/

/-- The real `x` lies in the closed interval from `lo` to `hi`. -/
def Bnd (x lo hi : ℝ) : Prop := lo ≤ x ∧ x ≤ hi

/-- Taylor polynomial of the exponential with `n` terms. -/
def expSum (n : ℕ) (x : ℝ) : ℝ := ∑ m ∈ Finset.range n, x ^ m / (m.factorial : ℝ)

/-- Remainder bound going with `expSum n` on `|x| ≤ b ≤ 1`. -/
def expErr (n : ℕ) (b : ℝ) : ℝ := b ^ n * (((n : ℝ) + 1) / ((n.factorial : ℝ) * n))

/-- One summand of `invV` in the batch update, for one opponent. -/
def invVTerm (self opponent : Rating) : ℝ :=
  opponent.G * opponent.G * opponent.E opponent.G self * (1 - opponent.E opponent.G self)

/-- One summand of `dInner` in the batch update, for one opponent and score. -/
def dInnerTerm (self opponent : Rating) (sc : ℝ) : ℝ :=
  opponent.G * (sc - opponent.E opponent.G self)

/-- First term of `Rating::F` at `x = log X + log γ`, with `β = dS - pS - v`, `w = pS + v`. -/
def hFun (X β w γ : ℝ) : ℝ := X * γ * (β - X * γ) / (2 * (w + X * γ) * (w + X * γ))

/-- Value `F(A)` at the start `A = a`. -/
def trFA (X β w : ℝ) : ℝ := hFun X β w 1

/-- Value `F(B)` at the start `B = a - tau`. -/
def trFB (X β w : ℝ) : ℝ := hFun X β w (Real.exp (-(1 / 2))) + 2

/-- Offset `C - a` of the first iterate. -/
def trD1 (X β w : ℝ) : ℝ := 1 / 2 * trFA X β w / (trFB X β w - trFA X β w)

/-- Value `F(C)` at the first iterate. -/
def trFC1 (X β w : ℝ) : ℝ := hFun X β w (Real.exp (trD1 X β w)) - 4 * trD1 X β w

/-- Offset `C - a` of the second iterate, after `fA` was halved. -/
def trD2 (X β w : ℝ) : ℝ :=
  -trD1 X β w * (trFA X β w / 2) / (trFC1 X β w - trFA X β w / 2)

/-- Value `F(C)` at the second iterate. -/
def trFC2 (X β w : ℝ) : ℝ := hFun X β w (Real.exp (trD2 X β w)) - 4 * trD2 X β w

/-- Value of `F` at `log X + δ`, with `β = dS - pS - v`, `w = pS + v`. -/
def trF (X β w δ : ℝ) : ℝ := hFun X β w (Real.exp δ) - 4 * δ

/-- Certificate that every real between `lo` and `hi` rounds to the finite nonzero double
`z = m * 2^e`: the interval lies in one binade of spacing `2^e` (or in the subnormal range,
`e = -1074`) and strictly within half a spacing of `z`. -/
def Fl.Cert (lo hi z : ℝ) (m e : ℤ) : Prop :=
  -1074 ≤ e ∧ z = m * 2 ^ e ∧ z ≠ 0 ∧ (-(2 ^ 1024) < z ∧ z < 2 ^ 1024) ∧ (0 < lo ∨ hi < 0) ∧
  (e = -1074 ∨ 2 ^ 52 * 2 ^ e ≤ lo ∨ hi ≤ -(2 ^ 52 * 2 ^ e)) ∧
  (-(2 ^ 53 * 2 ^ e) < lo ∧ hi < 2 ^ 53 * 2 ^ e) ∧
  ((m - 1 / 2) * 2 ^ e < lo ∧ hi < (m + 1 / 2) * 2 ^ e)

/-- Certificate that the real `r`, half way between two doubles, rounds to the one with the
even significand, `z = m * 2^e`; `up` tells that `z` is the upper one. -/
def Fl.CertTie (r z : ℝ) (m e : ℤ) (up : Bool) : Prop :=
  -1074 ≤ e ∧ z = m * 2 ^ e ∧ z ≠ 0 ∧ (-(2 ^ 1024) < z ∧ z < 2 ^ 1024) ∧ r ≠ 0 ∧
  (e = -1074 ∨ 2 ^ 52 * 2 ^ e ≤ r ∨ r ≤ -(2 ^ 52 * 2 ^ e)) ∧
  (-(2 ^ 53 * 2 ^ e) < r ∧ r < 2 ^ 53 * 2 ^ e) ∧
  (r = (if up then (m : ℝ) - 1 / 2 else (m : ℝ) + 1 / 2) * 2 ^ e) ∧ m % 2 = 0

/-! ## Reference definitions, in the words of the specification -/

/-- Reference weighting function: `g = 1 / sqrt(1 + 3 (p / pi)^2)`. -/
def Spec.g (p : ℝ) : ℝ := 1 / Real.sqrt (1 + 3 * (p / Real.pi) ^ 2)

/-- Reference expected score of the caller: `e = 1 / (1 + exp(-g (uSelf - uOpp)))`. -/
def Spec.e (g uOpp uSelf : ℝ) : ℝ := 1 / (1 + Real.exp (-g * (uSelf - uOpp)))

/-- Reference `invV`: the sum over the opponents of `g_j^2 e_j (1 - e_j)`. -/
def Spec.invV (self : Rating) (opps : List Rating) : ℝ :=
  (opps.map fun o =>
    Spec.g o.p ^ 2 * Spec.e (Spec.g o.p) o.u self.u * (1 - Spec.e (Spec.g o.p) o.u self.u)).sum

/-- Reference `dInner`: the sum over the opponents of `g_j (score_j - e_j)`. -/
def Spec.dInner (self : Rating) (opps : List Rating) (scs : List ℝ) : ℝ :=
  (List.zipWith (fun o sc => Spec.g o.p * (sc - Spec.e (Spec.g o.p) o.u self.u)) opps scs).sum

/-- Reference pending state for a solver result `A`: `s' = exp(A/2)`,
`p' = 1 / sqrt(1 / (p^2 + s'^2) + invV)`, `u' = u + p'^2 dInner`. -/
def Spec.pending (self : Rating) (invV dInner A : ℝ) : Rating :=
  { self with
    sPrime := Real.exp (A / 2)
    pPrime := 1 / Real.sqrt (1 / (self.p ^ 2 + Real.exp (A / 2) ^ 2) + invV)
    uPrime := self.u + (1 / Real.sqrt (1 / (self.p ^ 2 + Real.exp (A / 2) ^ 2) + invV)) ^ 2
      * dInner }

/-- Reference function of the solver, `f(x) = exp(x) (d^2 - p^2 - v - exp(x)) /
(2 (p^2 + v + exp(x))^2) - (x - ln(s^2)) / tau^2` with `tau = 0.5`. -/
def Spec.f (d v p s x : ℝ) : ℝ :=
  Real.exp x * (d ^ 2 - p ^ 2 - v - Real.exp x) / (2 * (p ^ 2 + v + Real.exp x) ^ 2)
    - (x - Real.log (s ^ 2)) / (1 / 2) ^ 2

/-- The committed members and the four accessors of `r` are those of `self`. -/
def Rating.sameCommitted (self r : Rating) : Prop :=
  r.u = self.u ∧ r.p = self.p ∧ r.s = self.s ∧ r.Rating1 = self.Rating1 ∧
    r.Deviation1 = self.Deviation1 ∧ r.Rating2 = self.Rating2 ∧
    r.Deviation2 = self.Deviation2

/-! ## Concrete inputs -/

/-- The thread-local state before the first batch update: no table yet. -/
def emptyScratch : Scratch := { gTable := fun _ => 0, eTable := fun _ => 0, tableSize := 0 }

/-- The player of `main`, its pending members read as zero. -/
def mainPlayer : Rating := Rating.init 1500 200 kDefaultS (0, 0, 0)

/-- The three opponents of `main`. -/
def mainPlayers : List Rating :=
  [Rating.init 1400 30 kDefaultS (0, 0, 0), Rating.init 1550 100 kDefaultS (0, 0, 0),
    Rating.init 1700 300 kDefaultS (0, 0, 0)]

/-- The three scores of `main`. -/
def mainScores : List ℝ := [1, 0, 0]

/-- The rating `Rating()` of the default arguments, its pending members read as zero. -/
def defaultRating : Rating := Rating.init 1500 350 kDefaultS (0, 0, 0)

/-- A state whose pending members differ from the committed ones, as after an update that
was not applied. -/
def staleRating : Rating := { u := 0, p := 1, s := 1, uPrime := 1, pPrime := 1, sPrime := 2 }

/-- The rating `Rating(1500, 1)`: a deviation of 1 on the external scale. -/
def smallDevRating : Rating := Rating.init 1500 1 kDefaultS (0, 0, 0)

/-- The rating `Rating(1500, 50, 0.89966)`. -/
def surprisePlayer : Rating := Rating.init 1500 50 0.89966 (0, 0, 0)

/-- The opponent `Rating(1499.9999, 350)`. -/
def surpriseLo : Rating := Rating.init 1499.9999 350 kDefaultS (0, 0, 0)

/-- The opponent `Rating(1500.0001, 350)`. -/
def surpriseHi : Rating := Rating.init 1500.0001 350 kDefaultS (0, 0, 0)

/-- The opponent `Rating(1501, 350)`. -/
def surpriseFar : Rating := Rating.init 1501 350 kDefaultS (0, 0, 0)

/-- Scratch tables of the binary64 batch update before the first call. -/
def Dbl.emptyScratch : Dbl.Scratch :=
  { gTable := fun _ => Fl.fin 0, eTable := fun _ => Fl.fin 0, tableSize := 0 }

/-- Object `Rating(1400, 30)` of type `double`; the pending members are not initialised. -/
def Dbl.narrowRating : Dbl.Rating :=
  Dbl.Rating.init (Fl.fin 1400) (Fl.fin 30) Dbl.kDefaultS (Fl.nan, Fl.nan, Fl.nan)

/-- Object `Rating(1500, 1e10)` of type `double`. -/
def Dbl.wideRating : Dbl.Rating :=
  Dbl.Rating.init (Fl.fin 1500) (Fl.fin 10000000000) Dbl.kDefaultS (Fl.nan, Fl.nan, Fl.nan)

/-- Object `Rating(1500, 350)` of type `double`. -/
def Dbl.defaultRating : Dbl.Rating :=
  Dbl.Rating.init (Fl.fin 1500) (Fl.fin 350) Dbl.kDefaultS (Fl.nan, Fl.nan, Fl.nan)

/-- Object `Rating(1500, 350, 0x1p-600)` of type `double`: the volatility is `2^-600`, about
`2.4e-181`. -/
def Dbl.tinyVolRating : Dbl.Rating :=
  Dbl.Rating.init (Fl.fin 1500) (Fl.fin 350) (Fl.fin (1 / 2 ^ 600)) (Fl.nan, Fl.nan, Fl.nan)

/-- Object `Rating(1500, 355, 1.0)` of type `double`. -/
def Dbl.cycleRating : Dbl.Rating :=
  Dbl.Rating.init (Fl.fin 1500) (Fl.fin 355) (Fl.fin 1) (Fl.nan, Fl.nan, Fl.nan)

/-- Object `Rating(1500, 355)` of type `double`. -/
def Dbl.cycleOpponent : Dbl.Rating :=
  Dbl.Rating.init (Fl.fin 1500) (Fl.fin 355) Dbl.kDefaultS (Fl.nan, Fl.nan, Fl.nan)

/-- Object `Rating(8000, 200, 1.0)` of type `double`. -/
def Dbl.strongRating : Dbl.Rating :=
  Dbl.Rating.init (Fl.fin 8000) (Fl.fin 200) (Fl.fin 1) (Fl.nan, Fl.nan, Fl.nan)

/-- Object `Rating(1500, 30)` of type `double`. -/
def Dbl.weakRating : Dbl.Rating :=
  Dbl.Rating.init (Fl.fin 1500) (Fl.fin 30) Dbl.kDefaultS (Fl.nan, Fl.nan, Fl.nan)

set_option maxRecDepth 4000

set_option linter.unusedVariables false

/-! ## Interval bookkeeping for the numerical scenarios -/

/-- A constant bounds itself. -/
theorem Bnd.const (c : ℝ) : Bnd c c c := ⟨le_refl c, le_refl c⟩

/-- Wider bounds. -/
theorem Bnd.weaken {x lo hi : ℝ} (lo1 hi1 : ℝ) (h : Bnd x lo hi) (hl : lo1 ≤ lo)
    (hh : hi ≤ hi1) : Bnd x lo1 hi1 :=
  ⟨le_trans hl h.1, le_trans h.2 hh⟩

/-- Bounds of a sum. -/
theorem Bnd.add {x y a b c d : ℝ} (hx : Bnd x a b) (hy : Bnd y c d) :
    Bnd (x + y) (a + c) (b + d) :=
  ⟨add_le_add hx.1 hy.1, add_le_add hx.2 hy.2⟩

/-- Bounds of a difference. -/
theorem Bnd.sub {x y a b c d : ℝ} (hx : Bnd x a b) (hy : Bnd y c d) :
    Bnd (x - y) (a - d) (b - c) :=
  ⟨sub_le_sub hx.1 hy.2, sub_le_sub hx.2 hy.1⟩

/-- Bounds of an opposite. -/
theorem Bnd.neg {x a b : ℝ} (hx : Bnd x a b) : Bnd (-x) (-b) (-a) :=
  ⟨neg_le_neg hx.2, neg_le_neg hx.1⟩

/-- Product of two nonnegative quantities. -/
theorem Bnd.mul_pp {x y a b c d : ℝ} (hx : Bnd x a b) (hy : Bnd y c d) (ha : 0 ≤ a)
    (hc : 0 ≤ c) : Bnd (x * y) (a * c) (b * d) :=
  ⟨mul_le_mul hx.1 hy.1 hc (le_trans ha hx.1),
   mul_le_mul hx.2 hy.2 (le_trans hc hy.1) (le_trans ha (le_trans hx.1 hx.2))⟩

/-- Product of a nonnegative and a nonpositive quantity. -/
theorem Bnd.mul_pn {x y a b c d : ℝ} (hx : Bnd x a b) (hy : Bnd y c d) (ha : 0 ≤ a)
    (hd : d ≤ 0) : Bnd (x * y) (b * c) (a * d) := by
  have h := Bnd.mul_pp hx (Bnd.neg hy) ha (neg_nonneg.mpr hd)
  constructor
  · have := h.2; nlinarith
  · have := h.1; nlinarith

/-- Product of a nonpositive and a nonnegative quantity. -/
theorem Bnd.mul_np {x y a b c d : ℝ} (hx : Bnd x a b) (hy : Bnd y c d) (hb : b ≤ 0)
    (hc : 0 ≤ c) : Bnd (x * y) (a * d) (b * c) := by
  have h := Bnd.mul_pn hy hx hc hb
  rw [mul_comm x y, mul_comm a d, mul_comm b c]
  exact h

/-- Product of two nonpositive quantities. -/
theorem Bnd.mul_nn {x y a b c d : ℝ} (hx : Bnd x a b) (hy : Bnd y c d) (hb : b ≤ 0)
    (hd : d ≤ 0) : Bnd (x * y) (b * d) (a * c) := by
  have h := Bnd.mul_pp (Bnd.neg hx) (Bnd.neg hy) (neg_nonneg.mpr hb) (neg_nonneg.mpr hd)
  constructor
  · have := h.1; nlinarith
  · have := h.2; nlinarith

/-- Reciprocal of a positive quantity. -/
theorem Bnd.inv_p {y c d : ℝ} (hy : Bnd y c d) (hc : 0 < c) : Bnd (1 / y) (1 / d) (1 / c) :=
  ⟨one_div_le_one_div_of_le (lt_of_lt_of_le hc hy.1) hy.2, one_div_le_one_div_of_le hc hy.1⟩

/-- Quotient of a nonnegative by a positive quantity. -/
theorem Bnd.div_pp {x y a b c d : ℝ} (hx : Bnd x a b) (hy : Bnd y c d) (ha : 0 ≤ a)
    (hc : 0 < c) : Bnd (x / y) (a / d) (b / c) := by
  have h := Bnd.mul_pp hx (Bnd.inv_p hy hc) ha
    (le_of_lt (one_div_pos.mpr (lt_of_lt_of_le hc (le_trans hy.1 hy.2))))
  rw [div_eq_mul_one_div x y, div_eq_mul_one_div a d, div_eq_mul_one_div b c]
  exact h

/-- Quotient of a nonpositive by a positive quantity. -/
theorem Bnd.div_np {x y a b c d : ℝ} (hx : Bnd x a b) (hy : Bnd y c d) (hb : b ≤ 0)
    (hc : 0 < c) : Bnd (x / y) (a / c) (b / d) := by
  have h := Bnd.mul_np hx (Bnd.inv_p hy hc) hb
    (le_of_lt (one_div_pos.mpr (lt_of_lt_of_le hc (le_trans hy.1 hy.2))))
  rw [div_eq_mul_one_div x y, div_eq_mul_one_div a c, div_eq_mul_one_div b d]
  exact h

/-- Square root, checked by squaring the bounds. -/
theorem Bnd.sqrt {y c d : ℝ} (lo hi : ℝ) (hy : Bnd y c d) (hhi : 0 ≤ hi)
    (h1 : lo * lo ≤ c) (h2 : d ≤ hi * hi) : Bnd (Real.sqrt y) lo hi := by
  constructor
  · apply Real.le_sqrt_of_sq_le
    rw [pow_two]; exact le_trans h1 hy.1
  · apply Real.sqrt_le_iff.mpr
    refine ⟨hhi, ?_⟩
    rw [pow_two]; exact le_trans hy.2 h2

/-- The exponential is within `expErr n b` of its Taylor polynomial on `|x| ≤ b ≤ 1`. -/
theorem exp_near (n : ℕ) (hn : 0 < n) {x b : ℝ} (hxb : |x| ≤ b) (hb : b ≤ 1) :
    expSum n x - expErr n b ≤ Real.exp x ∧ Real.exp x ≤ expSum n x + expErr n b := by
  have h := Real.exp_bound (le_trans hxb hb) hn
  have hpow : |x| ^ n ≤ b ^ n := pow_le_pow_left₀ (abs_nonneg x) hxb n
  have hc : (0:ℝ) ≤ ((n : ℝ) + 1) / ((n.factorial : ℝ) * n) := by positivity
  have h2 : |Real.exp x - expSum n x| ≤ expErr n b := by
    refine le_trans h ?_
    have : ((n.succ : ℕ) : ℝ) = (n : ℝ) + 1 := by push_cast; ring
    rw [this]
    exact mul_le_mul_of_nonneg_right hpow hc
  have h3 := abs_le.mp h2
  constructor <;> linarith [h3.1, h3.2]

/-- Exponential of a quantity between `-b` and `b`, by `n` Taylor terms at the endpoints. -/
theorem Bnd.exp {x xl xh : ℝ} (n : ℕ) (b lo hi : ℝ) (hx : Bnd x xl xh) (hn : 0 < n)
    (hb : b ≤ 1) (hl : -b ≤ xl) (hh : xh ≤ b)
    (h1 : lo ≤ expSum n xl - expErr n b) (h2 : expSum n xh + expErr n b ≤ hi) :
    Bnd (Real.exp x) lo hi := by
  have hxlh : xl ≤ xh := le_trans hx.1 hx.2
  have hl1 : |xl| ≤ b := abs_le.mpr ⟨hl, le_trans hxlh hh⟩
  have hh1 : |xh| ≤ b := abs_le.mpr ⟨le_trans hl hxlh, hh⟩
  exact ⟨le_trans (le_trans h1 (exp_near n hn hl1 hb).1) (Real.exp_le_exp.mpr hx.1),
    le_trans (Real.exp_le_exp.mpr hx.2) (le_trans (exp_near n hn hh1 hb).2 h2)⟩

/-- Twenty decimals of `kPI`. -/
theorem Bnd.pi : Bnd kPI 3.14159265358979323846 3.14159265358979323847 :=
  ⟨le_of_lt Real.pi_gt_d20, le_of_lt Real.pi_lt_d20⟩

/-- The first loop of the batch update over the opponents `rest` that follow `pre`: it adds
their summands to `invV` and stores their `g` and `e` in the tables. -/
theorem loop1_spec (self : Rating) (rest : List Rating) :
    ∀ (pre : List Rating) (gT eT : ℕ → ℝ) (invV : ℝ),
      ∃ gT1 eT1 : ℕ → ℝ,
        Rating.UpdateBatch.loop1 self (pre ++ rest) rest.length pre.length gT eT invV
          = Except.ok (gT1, eT1, invV + (rest.map (invVTerm self)).sum) ∧
        (∀ i (hi : i < rest.length), gT1 (pre.length + i) = (rest[i]).G ∧
          eT1 (pre.length + i) = (rest[i]).E (rest[i]).G self) ∧
        (∀ i, i < pre.length → gT1 i = gT i ∧ eT1 i = eT i) := by
  induction rest with
  | nil =>
    intro pre gT eT invV
    exact ⟨gT, eT, by simp [Rating.UpdateBatch.loop1], by simp, fun i _ => ⟨rfl, rfl⟩⟩
  | cons o rest ih =>
    intro pre gT eT invV
    obtain ⟨gT1, eT1, hrun, hnew, hold⟩ := ih (pre ++ [o])
      (Function.update gT pre.length o.G) (Function.update eT pre.length (o.E o.G self))
      (invV + o.G * o.G * o.E o.G self * (1 - o.E o.G self))
    refine ⟨gT1, eT1, ?_, ?_, ?_⟩
    · have hget : (pre ++ o :: rest)[pre.length]? = some o := by
        rw [List.getElem?_append_right (le_refl _)]; simp
      simp only [List.length_cons, Rating.UpdateBatch.loop1, hget]
      have hl : (pre ++ [o]).length = pre.length + 1 := by simp
      rw [hl, List.append_assoc] at hrun
      simp only [List.singleton_append] at hrun
      rw [hrun]
      simp only [List.map_cons, List.sum_cons, invVTerm]
      rw [add_assoc]
    · intro i hi
      cases i with
      | zero =>
        have h0 := hold pre.length (by simp)
        simp only [Function.update_same] at h0
        simpa using h0
      | succ i =>
        have hi1 : i < rest.length := by simpa using hi
        have h1 := hnew i hi1
        have hl : (pre ++ [o]).length + i = pre.length + (i + 1) := by simp; ring
        rw [hl] at h1
        simpa using h1
    · intro i hi
      have h0 := hold i (by simp; omega)
      have hne : i ≠ pre.length := by omega
      simpa [Function.update_noteq hne] using h0

/-- The second loop of the batch update over the scores `sRest` that follow `sPre`, on tables
that hold the `g` and `e` of the opponents `oRest`. -/
theorem loop2_spec (self : Rating) (gT eT : ℕ → ℝ) (oRest : List Rating) :
    ∀ (sPre sRest : List ℝ) (dInner : ℝ), sRest.length = oRest.length →
      (∀ i (hi : i < oRest.length), gT (sPre.length + i) = (oRest[i]).G ∧
          eT (sPre.length + i) = (oRest[i]).E (oRest[i]).G self) →
      Rating.UpdateBatch.loop2 gT eT (sPre ++ sRest) sRest.length sPre.length dInner
        = Except.ok (dInner + (List.zipWith (dInnerTerm self) oRest sRest).sum) := by
  induction oRest with
  | nil =>
    intro sPre sRest dInner hlen _
    have : sRest = [] := by simpa using hlen
    subst this
    simp [Rating.UpdateBatch.loop2]
  | cons o oRest ih =>
    intro sPre sRest dInner hlen H
    cases sRest with
    | nil => simp at hlen
    | cons sc sRest =>
      have hget : (sPre ++ sc :: sRest)[sPre.length]? = some sc := by
        rw [List.getElem?_append_right (le_refl _)]; simp
      simp only [List.length_cons, Rating.UpdateBatch.loop2, hget]
      have hlen1 : sRest.length = oRest.length := by simpa using hlen
      have hstep := ih (sPre ++ [sc]) sRest
        (dInner + gT sPre.length * (sc - eT sPre.length)) hlen1 (by
          intro i hi
          have h1 := H (i + 1) (by simpa using hi)
          have hl : (sPre ++ [sc]).length + i = sPre.length + (i + 1) := by simp; ring
          rw [hl]
          simpa using h1)
      have hl : (sPre ++ [sc]).length = sPre.length + 1 := by simp
      rw [hl, List.append_assoc] at hstep
      simp only [List.singleton_append] at hstep
      rw [hstep]
      have h0 := H 0 (by simp)
      simp only [add_zero, List.getElem_cons_zero] at h0
      simp only [List.zipWith_cons_cons, List.sum_cons, dInnerTerm, h0.1, h0.2]
      rw [add_assoc]

/-- The batch update on `m` opponents and `m` scores, `m > 0`, is the finishing step applied to
the two sums. -/
theorem UpdateBatch_eq (fuel : ℕ) (scratch : Scratch) (gNew eNew : ℕ → ℝ) (self : Rating)
    (opps : List Rating) (scs : List ℝ) (hlen : scs.length = opps.length)
    (hpos : 0 < opps.length) :
    Except.map Prod.fst
        (Rating.UpdateBatch fuel scratch gNew eNew self opps.length (some opps) (some scs))
      = Rating.UpdateFinal fuel self ((opps.map (invVTerm self)).sum)
          (1 / (opps.map (invVTerm self)).sum)
          ((List.zipWith (dInnerTerm self) opps scs).sum)
          (1 / (opps.map (invVTerm self)).sum * (List.zipWith (dInnerTerm self) opps scs).sum)
      := by
  unfold Rating.UpdateBatch
  simp only [gt_iff_lt, hpos, if_true]
  generalize Rating.UpdateBatch.reserve scratch gNew eNew opps.length = s1
  obtain ⟨gT1, eT1, hrun, hnew, -⟩ := loop1_spec self opps [] s1.gTable s1.eTable 0
  simp only [List.nil_append, List.length_nil, zero_add] at hrun hnew
  rw [hrun]
  have h2 := loop2_spec self gT1 eT1 opps [] scs 0 hlen (by simpa using hnew)
  simp only [List.nil_append, List.length_nil, zero_add, hlen] at h2
  simp only [h2]
  cases Rating.UpdateFinal fuel self _ _ _ _ <;> simp [Except.map]

/-! ## The volatility solver on a start bracket of width tau -/

/-- The function `F` at `log(s * s) + δ`, in terms of `hFun`. -/
theorem F_shift (s dS pS v δ : ℝ) (hs : s ≠ 0) :
    Rating.F (Real.log (s * s) + δ) dS pS v (Real.log (s * s)) (kSystemConst * kSystemConst)
      = hFun (s * s) (dS - pS - v) (pS + v) (Real.exp δ) - 4 * δ := by
  have hX : 0 < s * s := mul_self_pos.mpr hs
  unfold Rating.F hFun kSystemConst
  simp only [Real.exp_add, Real.exp_log hX]
  ring

/-- The function `F` at `A = log(s * s)`. -/
theorem F_at_a (s dS pS v : ℝ) (hs : s ≠ 0) :
    Rating.F (Real.log (s * s)) dS pS v (Real.log (s * s)) (kSystemConst * kSystemConst)
      = trFA (s * s) (dS - pS - v) (pS + v) := by
  have h := F_shift s dS pS v 0 hs
  simp only [add_zero, Real.exp_zero, mul_zero, sub_zero] at h
  exact h

/-- The function `F` at `B = log(s * s) - tau`. -/
theorem F_at_b (s dS pS v : ℝ) (hs : s ≠ 0) :
    Rating.F (Real.log (s * s) - kSystemConst) dS pS v (Real.log (s * s))
        (kSystemConst * kSystemConst)
      = trFB (s * s) (dS - pS - v) (pS + v) := by
  have h := F_shift s dS pS v (-(1 / 2)) hs
  have e : Real.log (s * s) - kSystemConst = Real.log (s * s) + -(1 / 2) := by
    unfold kSystemConst; ring
  rw [e, h, trFB]
  ring

/-- When `dS - pS - v ≤ 0`, the first iterate keeps `A` and halves `fA`, the second iterate
moves `A`, and the bracket is then narrower than epsilon, `Convergence` returns the first
iterate. -/
theorem Convergence_two_step (n : ℕ) (d v p s : ℝ) (hs : s ≠ 0)
    (h0 : ¬ (d * d - p * p - v > 0))
    (h1 : ¬ (trFB (s * s) (d * d - p * p - v) (p * p + v) < 0))
    (h2 : ¬ (trFC1 (s * s) (d * d - p * p - v) (p * p + v)
              * trFB (s * s) (d * d - p * p - v) (p * p + v) < 0))
    (h3 : |trD1 (s * s) (d * d - p * p - v) (p * p + v)| > kConvergence)
    (h4 : trFC2 (s * s) (d * d - p * p - v) (p * p + v)
              * trFC1 (s * s) (d * d - p * p - v) (p * p + v) < 0)
    (h5 : ¬ (|trD2 (s * s) (d * d - p * p - v) (p * p + v)
              - trD1 (s * s) (d * d - p * p - v) (p * p + v)| > kConvergence)) :
    Rating.Convergence (n + 3) d v p s
      = some (Real.log (s * s) + trD1 (s * s) (d * d - p * p - v) (p * p + v)) := by
  unfold Rating.Convergence
  simp only [h0, if_false, Rating.Convergence.bracket, F_at_b s _ _ _ hs, h1,
    F_at_a s _ _ _ hs]
  set a := Real.log (s * s) with ha
  set X := s * s with hX
  set β := d * d - p * p - v with hβ
  set w := p * p + v with hw
  have hw0 : |a - kSystemConst - a| > kConvergence := by
    have : a - kSystemConst - a = -(1 / 2) := by unfold kSystemConst; ring
    rw [this, abs_neg, abs_of_pos (by norm_num : (0:ℝ) < 1 / 2)]
    unfold kConvergence; norm_num
  have hC1 : a + (a - (a - kSystemConst)) * trFA X β w / (trFB X β w - trFA X β w)
      = a + trD1 X β w := by
    unfold trD1 kSystemConst; ring
  have hF1 : Rating.F (a + trD1 X β w) (d * d) (p * p) v a (kSystemConst * kSystemConst)
      = trFC1 X β w := by
    rw [ha, F_shift s _ _ _ _ hs]; rfl
  have hw1 : |a + trD1 X β w - a| > kConvergence := by
    have : a + trD1 X β w - a = trD1 X β w := by ring
    rw [this]; exact h3
  have hC2 : a + (a - (a + trD1 X β w)) * (trFA X β w / 2) / (trFC1 X β w - trFA X β w / 2)
      = a + trD2 X β w := by
    unfold trD2; ring
  have hF2 : Rating.F (a + trD2 X β w) (d * d) (p * p) v a (kSystemConst * kSystemConst)
      = trFC2 X β w := by
    rw [ha, F_shift s _ _ _ _ hs]; rfl
  have hw2 : ¬ (|a + trD2 X β w - (a + trD1 X β w)| > kConvergence) := by
    have : a + trD2 X β w - (a + trD1 X β w) = trD2 X β w - trD1 X β w := by ring
    rw [this]; exact h5
  rw [Rating.Convergence.iterate]
  simp only [hw0, if_true, hC1, hF1, h2, if_false]
  rw [Rating.Convergence.iterate]
  simp only [hw1, if_true, hC2, hF2, h4]
  rw [Rating.Convergence.iterate]
  simp only [hw2, if_false]

/-- The first term of `F` is at least `-1/2` when `pS + v > 0` and `dS ≥ 0`. -/
theorem hFun_ge {X β w γ : ℝ} (hX : 0 ≤ X) (hγ : 0 ≤ γ) (hw : 0 < w) (hβ : -w ≤ β) :
    -(1 / 2) ≤ hFun X β w γ := by
  unfold hFun
  have ht : 0 ≤ X * γ := mul_nonneg hX hγ
  have hden : 0 < 2 * (w + X * γ) * (w + X * γ) := by positivity
  rw [le_div_iff₀ hden]
  nlinarith [mul_nonneg ht (by linarith : 0 ≤ β + w), mul_nonneg ht ht, mul_pos hw hw,
    mul_nonneg ht (le_of_lt hw)]

/-- The value `F(B)` at `B = a - tau` is at least `3/2`: the bracket loop stops at once. -/
theorem trFB_ge {X β w : ℝ} (hX : 0 ≤ X) (hw : 0 < w) (hβ : -w ≤ β) :
    3 / 2 ≤ trFB X β w := by
  unfold trFB
  have := hFun_ge (γ := Real.exp (-(1 / 2))) hX (le_of_lt (Real.exp_pos _)) hw hβ
  linarith

/-! ## The scenario of `main`, one interval at a time -/

/-- Value of `G()` for the first opponent of `main`, `Rating(1400, 30)`. -/
theorem mainOpp1_G (j : ℝ × ℝ × ℝ) :
    Bnd ((Rating.init 1400 30 kDefaultS j).G) 0.9954980064506081 0.9954980064506084 := by
  have h1 : Bnd ((30 : ℝ) / kScale) 0.1726938747785201 0.1726938747785202 := ⟨by norm_num [kScale], by norm_num [kScale]⟩
  have h2 := Bnd.weaken 0.0549701676253885 0.0549701676253886 (Bnd.div_pp h1 Bnd.pi (by norm_num) (by norm_num)) (by norm_num) (by norm_num)
  have h3 := Bnd.const (3 : ℝ)
  have h4 := Bnd.weaken 0.1649105028761655 0.1649105028761658 (Bnd.mul_pp h3 h2 (by norm_num) (by norm_num)) (by norm_num) (by norm_num)
  have h5 := Bnd.weaken 0.0090651579862899 0.00906515798629 (Bnd.mul_pp h4 h2 (by norm_num) (by norm_num)) (by norm_num) (by norm_num)
  have h6 := Bnd.const (1 : ℝ)
  have h7 := Bnd.weaken 1.0090651579862899 1.00906515798629 (Bnd.add h6 h5) (by norm_num) (by norm_num)
  have h8 := Bnd.sqrt 1.0045223531541196 1.0045223531541198 h7 (by norm_num) (by norm_num) (by norm_num)
  have h9 := Bnd.weaken 0.9954980064506081 0.9954980064506084 (Bnd.inv_p h8 (by norm_num)) (by norm_num) (by norm_num)
  exact h9

/-- Expected score of the player of `main` against its first opponent. -/
theorem mainOpp1_E (j0 j1 : ℝ × ℝ × ℝ) :
    Bnd ((Rating.init 1400 30 kDefaultS j1).E (Rating.init 1400 30 kDefaultS j1).G (Rating.init 1500 200 kDefaultS j0)) 0.6394677305521532 0.6394677305521534 := by
  have h1 := Bnd.const (-1 : ℝ)
  have h2 := Bnd.weaken (-0.9954980064506084) (-0.9954980064506081) (Bnd.mul_np h1 (mainOpp1_G j1) (by norm_num) (by norm_num)) (by norm_num) (by norm_num)
  have h3 : Bnd (((1500 : ℝ) - kDefaultR) / kScale - ((1400 : ℝ) - kDefaultR) / kScale) 0.5756462492617336 0.5756462492617337 := ⟨by norm_num [kDefaultR, kScale], by norm_num [kDefaultR, kScale]⟩
  have h4 := Bnd.weaken (-0.573054693560826) (-0.5730546935608256) (Bnd.mul_np h2 h3 (by norm_num) (by norm_num)) (by norm_num) (by norm_num)
  have h5 := Bnd.exp 17 0.58 0.56380056760103 0.5638005676010303 h4 (by norm_num) (by norm_num) (by norm_num) (by norm_num)
    (by norm_num [expSum, expErr, Finset.sum_range_succ, Nat.factorial])
    (by norm_num [expSum, expErr, Finset.sum_range_succ, Nat.factorial])
  have h6 := Bnd.const (1 : ℝ)
  have h7 := Bnd.weaken 1.56380056760103 1.5638005676010303 (Bnd.add h6 h5) (by norm_num) (by norm_num)
  have h8 := Bnd.weaken 0.6394677305521532 0.6394677305521534 (Bnd.inv_p h7 (by norm_num)) (by norm_num) (by norm_num)
  exact h8

/-- Value of `G()` for the second opponent of `main`, `Rating(1550, 100)`. -/
theorem mainOpp2_G (j : ℝ × ℝ × ℝ) :
    Bnd ((Rating.init 1550 100 kDefaultS j).G) 0.9531489778689763 0.9531489778689766 := by
  have h1 : Bnd ((100 : ℝ) / kScale) 0.5756462492617336 0.5756462492617337 := ⟨by norm_num [kScale], by norm_num [kScale]⟩
  have h2 := Bnd.weaken 0.1832338920846284 0.1832338920846285 (Bnd.div_pp h1 Bnd.pi (by norm_num) (by norm_num)) (by norm_num) (by norm_num)
  have h3 := Bnd.const (3 : ℝ)
  have h4 := Bnd.weaken 0.5497016762538852 0.5497016762538855 (Bnd.mul_pp h3 h2 (by norm_num) (by norm_num)) (by norm_num) (by norm_num)
  have h5 := Bnd.weaken 0.1007239776254437 0.1007239776254439 (Bnd.mul_pp h4 h2 (by norm_num) (by norm_num)) (by norm_num) (by norm_num)
  have h6 := Bnd.const (1 : ℝ)
  have h7 := Bnd.weaken 1.1007239776254437 1.1007239776254439 (Bnd.add h6 h5) (by norm_num) (by norm_num)
  have h8 := Bnd.sqrt 1.0491539341895657 1.0491539341895659 h7 (by norm_num) (by norm_num) (by norm_num)
  have h9 := Bnd.weaken 0.9531489778689763 0.9531489778689766 (Bnd.inv_p h8 (by norm_num)) (by norm_num) (by norm_num)
  exact h9

/-- Expected score of the player of `main` against its second opponent. -/
theorem mainOpp2_E (j0 j1 : ℝ × ℝ × ℝ) :
    Bnd ((Rating.init 1550 100 kDefaultS j1).E (Rating.init 1550 100 kDefaultS j1).G (Rating.init 1500 200 kDefaultS j0)) 0.4318423561076678 0.431842356107668 := by
  have h1 := Bnd.const (-1 : ℝ)
  have h2 := Bnd.weaken (-0.9531489778689766) (-0.9531489778689763) (Bnd.mul_np h1 (mainOpp2_G j1) (by norm_num) (by norm_num)) (by norm_num) (by norm_num)
  have h3 : Bnd (((1500 : ℝ) - kDefaultR) / kScale - ((1550 : ℝ) - kDefaultR) / kScale) (-0.2878231246308669) (-0.2878231246308668) := ⟨by norm_num [kDefaultR, kScale], by norm_num [kDefaultR, kScale]⟩
  have h4 := Bnd.weaken 0.2743383170489656 0.2743383170489659 (Bnd.mul_nn h2 h3 (by norm_num) (by norm_num)) (by norm_num) (by norm_num)
  have h5 := Bnd.exp 14 0.28 1.3156598371065705 1.315659837106571 h4 (by norm_num) (by norm_num) (by norm_num) (by norm_num)
    (by norm_num [expSum, expErr, Finset.sum_range_succ, Nat.factorial])
    (by norm_num [expSum, expErr, Finset.sum_range_succ, Nat.factorial])
  have h6 := Bnd.const (1 : ℝ)
  have h7 := Bnd.weaken 2.3156598371065705 2.315659837106571 (Bnd.add h6 h5) (by norm_num) (by norm_num)
  have h8 := Bnd.weaken 0.4318423561076678 0.431842356107668 (Bnd.inv_p h7 (by norm_num)) (by norm_num) (by norm_num)
  exact h8

/-- Value of `G()` for the third opponent of `main`, `Rating(1700, 300)`. -/
theorem mainOpp3_G (j : ℝ × ℝ × ℝ) :
    Bnd ((Rating.init 1700 300 kDefaultS j).G) 0.7242354780877524 0.7242354780877527 := by
  have h1 : Bnd ((300 : ℝ) / kScale) 1.726938747785201 1.7269387477852011 := ⟨by norm_num [kScale], by norm_num [kScale]⟩
  have h2 := Bnd.weaken 0.5497016762538853 0.5497016762538854 (Bnd.div_pp h1 Bnd.pi (by norm_num) (by norm_num)) (by norm_num) (by norm_num)
  have h3 := Bnd.const (3 : ℝ)
  have h4 := Bnd.weaken 1.6491050287616559 1.6491050287616562 (Bnd.mul_pp h3 h2 (by norm_num) (by norm_num)) (by norm_num) (by norm_num)
  have h5 := Bnd.weaken 0.9065157986289939 0.9065157986289944 (Bnd.mul_pp h4 h2 (by norm_num) (by norm_num)) (by norm_num) (by norm_num)
  have h6 := Bnd.const (1 : ℝ)
  have h7 := Bnd.weaken 1.9065157986289939 1.9065157986289944 (Bnd.add h6 h5) (by norm_num) (by norm_num)
  have h8 := Bnd.sqrt 1.3807663809019228 1.3807663809019231 h7 (by norm_num) (by norm_num) (by norm_num)
  have h9 := Bnd.weaken 0.7242354780877524 0.7242354780877527 (Bnd.inv_p h8 (by norm_num)) (by norm_num) (by norm_num)
  exact h9

/-- Expected score of the player of `main` against its third opponent. -/
theorem mainOpp3_E (j0 j1 : ℝ × ℝ × ℝ) :
    Bnd ((Rating.init 1700 300 kDefaultS j1).E (Rating.init 1700 300 kDefaultS j1).G (Rating.init 1500 200 kDefaultS j0)) 0.3028407290952191 0.3028407290952194 := by
  have h1 := Bnd.const (-1 : ℝ)
  have h2 := Bnd.weaken (-0.7242354780877527) (-0.7242354780877524) (Bnd.mul_np h1 (mainOpp3_G j1) (by norm_num) (by norm_num)) (by norm_num) (by norm_num)
  have h3 : Bnd (((1500 : ℝ) - kDefaultR) / kScale - ((1700 : ℝ) - kDefaultR) / kScale) (-1.1512924985234674) (-1.1512924985234673) := ⟨by norm_num [kDefaultR, kScale], by norm_num [kDefaultR, kScale]⟩
  have h4 := Bnd.weaken 0.8338068730869863 0.8338068730869868 (Bnd.mul_nn h2 h3 (by norm_num) (by norm_num)) (by norm_num) (by norm_num)
  have h5 := Bnd.exp 19 0.84 2.3020657524753865 2.3020657524753877 h4 (by norm_num) (by norm_num) (by norm_num) (by norm_num)
    (by norm_num [expSum, expErr, Finset.sum_range_succ, Nat.factorial])
    (by norm_num [expSum, expErr, Finset.sum_range_succ, Nat.factorial])
  have h6 := Bnd.const (1 : ℝ)
  have h7 := Bnd.weaken 3.3020657524753865 3.3020657524753877 (Bnd.add h6 h5) (by norm_num) (by norm_num)
  have h8 := Bnd.weaken 0.3028407290952191 0.3028407290952194 (Bnd.inv_p h7 (by norm_num)) (by norm_num) (by norm_num)
  exact h8

/-- The sum `invV` of the batch update in `main`. -/
theorem main_invV (j0 j1 j2 j3 : ℝ × ℝ × ℝ) :
    Bnd (invVTerm (Rating.init 1500 200 kDefaultS j0) (Rating.init 1400 30 kDefaultS j1) + invVTerm (Rating.init 1500 200 kDefaultS j0) (Rating.init 1550 100 kDefaultS j2) + invVTerm (Rating.init 1500 200 kDefaultS j0) (Rating.init 1700 300 kDefaultS j3)) 0.5621207860271801 0.5621207860271814 := by
  have h1 := Bnd.const (1 : ℝ)
  have h2 := Bnd.weaken 0.9910162808471349 0.9910162808471356 (Bnd.mul_pp (mainOpp1_G j1) (mainOpp1_G j1) (by norm_num) (by norm_num)) (by norm_num) (by norm_num)
  have h3 := Bnd.weaken 0.6337229320535526 0.6337229320535533 (Bnd.mul_pp h2 (mainOpp1_E j0 j1) (by norm_num) (by norm_num)) (by norm_num) (by norm_num)
  have h4 := Bnd.weaken 0.3605322694478466 0.3605322694478468 (Bnd.sub h1 (mainOpp1_E j0 j1)) (by norm_num) (by norm_num)
  have h5 := Bnd.weaken 0.2284775668944108 0.2284775668944112 (Bnd.mul_pp h3 h4 (by norm_num) (by norm_num)) (by norm_num) (by norm_num)
  have h6 := Bnd.const (1 : ℝ)
  have h7 := Bnd.weaken 0.9084929740126742 0.9084929740126749 (Bnd.mul_pp (mainOpp2_G j2) (mainOpp2_G j2) (by norm_num) (by norm_num)) (by norm_num) (by norm_num)
  have h8 := Bnd.weaken 0.3923257464048954 0.392325746404896 (Bnd.mul_pp h7 (mainOpp2_E j0 j2) (by norm_num) (by norm_num)) (by norm_num) (by norm_num)
  have h9 := Bnd.weaken 0.568157643892332 0.5681576438923322 (Bnd.sub h6 (mainOpp2_E j0 j2)) (by norm_num) (by norm_num)
  have h10 := Bnd.weaken 0.2229028717157059 0.2229028717157064 (Bnd.mul_pp h8 h9 (by norm_num) (by norm_num)) (by norm_num) (by norm_num)
  have h11 := Bnd.const (1 : ℝ)
  have h12 := Bnd.weaken 0.5245170277209952 0.5245170277209958 (Bnd.mul_pp (mainOpp3_G j3) (mainOpp3_G j3) (by norm_num) (by norm_num)) (by norm_num) (by norm_num)
  have h13 := Bnd.weaken 0.1588451190978834 0.1588451190978838 (Bnd.mul_pp h12 (mainOpp3_E j0 j3) (by norm_num) (by norm_num)) (by norm_num) (by norm_num)
  have h14 := Bnd.weaken 0.6971592709047806 0.6971592709047809 (Bnd.sub h11 (mainOpp3_E j0 j3)) (by norm_num) (by norm_num)
  have h15 := Bnd.weaken 0.1107403474170634 0.1107403474170638 (Bnd.mul_pp h13 h14 (by norm_num) (by norm_num)) (by norm_num) (by norm_num)
  have h16 := Bnd.weaken 0.4513804386101167 0.4513804386101176 (Bnd.add h5 h10) (by norm_num) (by norm_num)
  have h17 := Bnd.weaken 0.5621207860271801 0.5621207860271814 (Bnd.add h16 h15) (by norm_num) (by norm_num)
  exact h17

/-- The sum `dInner` of the batch update in `main`. -/
theorem main_dInner (j0 j1 j2 j3 : ℝ × ℝ × ℝ) :
    Bnd (dInnerTerm (Rating.init 1500 200 kDefaultS j0) (Rating.init 1400 30 kDefaultS j1) 1 + dInnerTerm (Rating.init 1500 200 kDefaultS j0) (Rating.init 1550 100 kDefaultS j2) 0 + dInnerTerm (Rating.init 1500 200 kDefaultS j0) (Rating.init 1700 300 kDefaultS j3) 0) (-0.2720289450488296) (-0.2720289450488284) := by
  have h1 := Bnd.const (1 : ℝ)
  have h2 := Bnd.weaken 0.3605322694478466 0.3605322694478468 (Bnd.sub h1 (mainOpp1_E j0 j1)) (by norm_num) (by norm_num)
  have h3 := Bnd.weaken 0.3589091554964447 0.3589091554964451 (Bnd.mul_pp (mainOpp1_G j1) h2 (by norm_num) (by norm_num)) (by norm_num) (by norm_num)
  have h4 := Bnd.const (0 : ℝ)
  have h5 := Bnd.weaken (-0.431842356107668) (-0.4318423561076678) (Bnd.sub h4 (mainOpp2_E j0 j2)) (by norm_num) (by norm_num)
  have h6 := Bnd.weaken (-0.4116101003245544) (-0.411610100324554) (Bnd.mul_pn (mainOpp2_G j2) h5 (by norm_num) (by norm_num)) (by norm_num) (by norm_num)
  have h7 := Bnd.const (0 : ℝ)
  have h8 := Bnd.weaken (-0.3028407290952194) (-0.3028407290952191) (Bnd.sub h7 (mainOpp3_E j0 j3)) (by norm_num) (by norm_num)
  have h9 := Bnd.weaken (-0.2193280002207199) (-0.2193280002207195) (Bnd.mul_pn (mainOpp3_G j3) h8 (by norm_num) (by norm_num)) (by norm_num) (by norm_num)
  have h10 := Bnd.weaken (-0.0527009448281097) (-0.0527009448281089) (Bnd.add h3 h6) (by norm_num) (by norm_num)
  have h11 := Bnd.weaken (-0.2720289450488296) (-0.2720289450488284) (Bnd.add h10 h9) (by norm_num) (by norm_num)
  exact h11

/-- The quantities `dS - pS - v` and `pS + v` of the solver call in `main`. -/
theorem main_beta_w (invV dInner : ℝ) (hI : Bnd invV 0.5621207860271801 0.5621207860271814)
    (hD : Bnd dInner (-0.2720289450488296) (-0.2720289450488284)) :
    Bnd (1 / invV * dInner * (1 / invV * dInner) - 200 / kScale * (200 / kScale) - 1 / invV) (-2.8702601057941352) (-2.8702601057941273) ∧
    Bnd (200 / kScale * (200 / kScale) + 1 / invV) 3.1044515068804034 3.1044515068804079 := by
  have h1 := Bnd.weaken 1.7789770897239955 1.7789770897239997 (Bnd.inv_p hI (by norm_num)) (by norm_num) (by norm_num)
  have h2 := Bnd.weaken (-0.4839332609836568) (-0.4839332609836534) (Bnd.mul_pn h1 hD (by norm_num) (by norm_num)) (by norm_num) (by norm_num)
  have h3 := Bnd.weaken 0.2341914010862727 0.2341914010862761 (Bnd.mul_nn h2 h2 (by norm_num) (by norm_num)) (by norm_num) (by norm_num)
  have h4 : Bnd ((200 : ℝ) / kScale) 1.1512924985234673 1.1512924985234674 := ⟨by norm_num [kScale], by norm_num [kScale]⟩
  have h5 := Bnd.weaken 1.3254744171564079 1.3254744171564082 (Bnd.mul_pp h4 h4 (by norm_num) (by norm_num)) (by norm_num) (by norm_num)
  have h6 := Bnd.weaken (-1.0912830160701355) (-1.0912830160701318) (Bnd.sub h3 h5) (by norm_num) (by norm_num)
  have h7 := Bnd.weaken (-2.8702601057941352) (-2.8702601057941273) (Bnd.sub h6 h1) (by norm_num) (by norm_num)
  have h8 := Bnd.weaken 3.1044515068804034 3.1044515068804079 (Bnd.add h5 h1) (by norm_num) (by norm_num)
  exact ⟨h7, h8⟩

/-- The solver call in `main`: signs and bracket widths along its two iterations. -/
theorem main_trace (X β w : ℝ) (hX : Bnd X 0.0036 0.0036)
    (hβ : Bnd β (-2.8702601057941352) (-2.8702601057941273))
    (hw : Bnd w 3.1044515068804034 3.1044515068804079) :
    ¬ (trFB X β w < 0) ∧ ¬ (trFC1 X β w * trFB X β w < 0) ∧ |trD1 X β w| > kConvergence ∧
    trFC2 X β w * trFC1 X β w < 0 ∧ ¬ (|trD2 X β w - trD1 X β w| > kConvergence) ∧
    Bnd (X * Real.exp (trD1 X β w)) 0.0035995181305045 0.0035995181305046 := by
  have h1 := Bnd.const (1 : ℝ)
  have h2 := Bnd.weaken 0.0036 0.0036 (Bnd.mul_pp hX h1 (by norm_num) (by norm_num)) (by norm_num) (by norm_num)
  have h3 := Bnd.weaken (-2.8738601057941352) (-2.8738601057941273) (Bnd.sub hβ h2) (by norm_num) (by norm_num)
  have h4 := Bnd.weaken (-0.0103458963808589) (-0.0103458963808588) (Bnd.mul_pn h2 h3 (by norm_num) (by norm_num)) (by norm_num) (by norm_num)
  have h5 := Bnd.weaken 3.1080515068804034 3.1080515068804079 (Bnd.add hw h2) (by norm_num) (by norm_num)
  have h6 := Bnd.const (2 : ℝ)
  have h7 := Bnd.weaken 6.2161030137608068 6.2161030137608158 (Bnd.mul_pp h6 h5 (by norm_num) (by norm_num)) (by norm_num) (by norm_num)
  have h8 := Bnd.weaken 19.3199683388430925 19.3199683388431485 (Bnd.mul_pp h7 h5 (by norm_num) (by norm_num)) (by norm_num) (by norm_num)
  have h9 := Bnd.weaken (-0.0005355027606365) (-0.0005355027606364) (Bnd.div_np h4 h8 (by norm_num) (by norm_num)) (by norm_num) (by norm_num)
  have h10 : Bnd (trFA X β w) (-0.0005355027606365) (-0.0005355027606364) := h9
  have h11 := Bnd.const (-(1 / 2) : ℝ)
  have h12 := Bnd.exp 16 0.5 0.6065306597126334 0.6065306597126335 h11 (by norm_num) (by norm_num) (by norm_num) (by norm_num)
    (by norm_num [expSum, expErr, Finset.sum_range_succ, Nat.factorial])
    (by norm_num [expSum, expErr, Finset.sum_range_succ, Nat.factorial])
  have h13 := Bnd.weaken 0.0021835103749654 0.0021835103749655 (Bnd.mul_pp hX h12 (by norm_num) (by norm_num)) (by norm_num) (by norm_num)
  have h14 := Bnd.weaken (-2.8724436161691007) (-2.8724436161690927) (Bnd.sub hβ h13) (by norm_num) (by norm_num)
  have h15 := Bnd.weaken (-0.0062720104374087) (-0.0062720104374083) (Bnd.mul_pn h13 h14 (by norm_num) (by norm_num)) (by norm_num) (by norm_num)
  have h16 := Bnd.weaken 3.1066350172553688 3.1066350172553734 (Bnd.add hw h13) (by norm_num) (by norm_num)
  have h17 := Bnd.const (2 : ℝ)
  have h18 := Bnd.weaken 6.2132700345107376 6.2132700345107468 (Bnd.mul_pp h17 h16 (by norm_num) (by norm_num)) (by norm_num) (by norm_num)
  have h19 := Bnd.weaken 19.3023622608745312 19.3023622608745884 (Bnd.mul_pp h18 h16 (by norm_num) (by norm_num)) (by norm_num) (by norm_num)
  have h20 := Bnd.weaken (-0.0003249348630309) (-0.0003249348630308) (Bnd.div_np h15 h19 (by norm_num) (by norm_num)) (by norm_num) (by norm_num)
  have h21 := Bnd.const (2 : ℝ)
  have h22 := Bnd.weaken 1.9996750651369691 1.9996750651369692 (Bnd.add h20 h21) (by norm_num) (by norm_num)
  have h23 : Bnd (trFB X β w) 1.9996750651369691 1.9996750651369692 := h22
  have h24 := Bnd.const (1 / 2 : ℝ)
  have h25 := Bnd.weaken (-0.0002677513803183) (-0.0002677513803182) (Bnd.mul_pn h24 h10 (by norm_num) (by norm_num)) (by norm_num) (by norm_num)
  have h26 := Bnd.weaken 2.0002105678976055 2.0002105678976057 (Bnd.sub h23 h10) (by norm_num) (by norm_num)
  have h27 := Bnd.weaken (-0.0001338615966817) (-0.0001338615966816) (Bnd.div_np h25 h26 (by norm_num) (by norm_num)) (by norm_num) (by norm_num)
  have h28 : Bnd (trD1 X β w) (-0.0001338615966817) (-0.0001338615966816) := h27
  have h29 := Bnd.exp 5 0.00014 0.999866147362382 0.9998661473623822 h28 (by norm_num) (by norm_num) (by norm_num) (by norm_num)
    (by norm_num [expSum, expErr, Finset.sum_range_succ, Nat.factorial])
    (by norm_num [expSum, expErr, Finset.sum_range_succ, Nat.factorial])
  have h30 := Bnd.const (4 : ℝ)
  have h31 := Bnd.weaken 0.0035995181305045 0.0035995181305046 (Bnd.mul_pp hX h29 (by norm_num) (by norm_num)) (by norm_num) (by norm_num)
  have h32 := Bnd.weaken (-2.8738596239246398) (-2.8738596239246318) (Bnd.sub hβ h31) (by norm_num) (by norm_num)
  have h33 := Bnd.weaken (-0.0103445098208419) (-0.0103445098208415) (Bnd.mul_pn h31 h32 (by norm_num) (by norm_num)) (by norm_num) (by norm_num)
  have h34 := Bnd.weaken 3.1080510250109079 3.1080510250109125 (Bnd.add hw h31) (by norm_num) (by norm_num)
  have h35 := Bnd.const (2 : ℝ)
  have h36 := Bnd.weaken 6.2161020500218158 6.216102050021825 (Bnd.mul_pp h35 h34 (by norm_num) (by norm_num)) (by norm_num) (by norm_num)
  have h37 := Bnd.weaken 19.3199623481427104 19.3199623481427677 (Bnd.mul_pp h36 h34 (by norm_num) (by norm_num)) (by norm_num) (by norm_num)
  have h38 := Bnd.weaken (-0.0005354311584276) (-0.0005354311584274) (Bnd.div_np h33 h37 (by norm_num) (by norm_num)) (by norm_num) (by norm_num)
  have h39 := Bnd.weaken (-0.0005354463867268) (-0.0005354463867264) (Bnd.mul_pn h30 h28 (by norm_num) (by norm_num)) (by norm_num) (by norm_num)
  have h40 := Bnd.weaken 0.0000000152282988 0.0000000152282994 (Bnd.sub h38 h39) (by norm_num) (by norm_num)
  have h41 : Bnd (trFC1 X β w) 0.0000000152282988 0.0000000152282994 := h40
  have h42 := Bnd.const (2 : ℝ)
  have h43 := Bnd.weaken (-0.0002677513803183) (-0.0002677513803182) (Bnd.div_np h10 h42 (by norm_num) (by norm_num)) (by norm_num) (by norm_num)
  have h44 := Bnd.weaken 0.0001338615966816 0.0001338615966817 (Bnd.neg h28) (by norm_num) (by norm_num)
  have h45 := Bnd.weaken (-0.0000000358416273) (-0.0000000358416272) (Bnd.mul_pn h44 h43 (by norm_num) (by norm_num)) (by norm_num) (by norm_num)
  have h46 := Bnd.weaken 0.000267766608617 0.0002677666086177 (Bnd.sub h41 h43) (by norm_num) (by norm_num)
  have h47 := Bnd.weaken (-0.0001338539838299) (-0.000133853983456) (Bnd.div_np h45 h46 (by norm_num) (by norm_num)) (by norm_num) (by norm_num)
  have h48 : Bnd (trD2 X β w) (-0.0001338539838299) (-0.000133853983456) := h47
  have h49 := Bnd.exp 5 0.00014 0.9998661549742148 0.9998661549745888 h48 (by norm_num) (by norm_num) (by norm_num) (by norm_num)
    (by norm_num [expSum, expErr, Finset.sum_range_succ, Nat.factorial])
    (by norm_num [expSum, expErr, Finset.sum_range_succ, Nat.factorial])
  have h50 := Bnd.weaken 0.0035995181579071 0.0035995181579086 (Bnd.mul_pp hX h49 (by norm_num) (by norm_num)) (by norm_num) (by norm_num)
  have h51 := Bnd.weaken (-2.8738596239520438) (-2.8738596239520344) (Bnd.sub hβ h50) (by norm_num) (by norm_num)
  have h52 := Bnd.weaken (-0.0103445098996958) (-0.0103445098996914) (Bnd.mul_pn h50 h51 (by norm_num) (by norm_num)) (by norm_num) (by norm_num)
  have h53 := Bnd.weaken 3.1080510250383105 3.1080510250383165 (Bnd.add hw h50) (by norm_num) (by norm_num)
  have h54 := Bnd.const (2 : ℝ)
  have h55 := Bnd.weaken 6.216102050076621 6.216102050076633 (Bnd.mul_pp h54 h53 (by norm_num) (by norm_num)) (by norm_num) (by norm_num)
  have h56 := Bnd.weaken 19.3199623484833852 19.3199623484834598 (Bnd.mul_pp h55 h53 (by norm_num) (by norm_num)) (by norm_num) (by norm_num)
  have h57 := Bnd.weaken (-0.0005354311624996) (-0.0005354311624993) (Bnd.div_np h52 h56 (by norm_num) (by norm_num)) (by norm_num) (by norm_num)
  have h58 := Bnd.weaken (-0.0005354159353196) (-0.000535415933824) (Bnd.mul_pn h30 h48 (by norm_num) (by norm_num)) (by norm_num) (by norm_num)
  have h59 := Bnd.weaken (-0.0000000152286756) (-0.0000000152271797) (Bnd.sub h57 h58) (by norm_num) (by norm_num)
  have h60 : Bnd (trFC2 X β w) (-0.0000000152286756) (-0.0000000152271797) := h59
  have h61 := Bnd.weaken 0.0000000076128517 0.0000000076132257 (Bnd.sub h48 h28) (by norm_num) (by norm_num)
  have h62 := Bnd.weaken 0.0035995181305045 0.0035995181305046 (Bnd.mul_pp hX h29 (by norm_num) (by norm_num)) (by norm_num) (by norm_num)
  have pB : 0 < trFB X β w := lt_of_lt_of_le (by norm_num) h23.1
  have pC1 : 0 < trFC1 X β w := lt_of_lt_of_le (by norm_num) h41.1
  have nC2 : trFC2 X β w < 0 := lt_of_le_of_lt h60.2 (by norm_num)
  have nD1 : trD1 X β w < -kConvergence := lt_of_le_of_lt h28.2 (by norm_num [kConvergence])
  refine ⟨not_lt.mpr (le_of_lt pB), not_lt.mpr (le_of_lt (mul_pos pC1 pB)), ?_,
    mul_neg_of_neg_of_pos nC2 pC1, ?_, h62⟩
  · rw [abs_of_neg (by linarith [show (0:ℝ) < kConvergence by norm_num [kConvergence]])]
    linarith
  · rw [not_lt, abs_le]
    exact ⟨le_trans (by norm_num [kConvergence]) h61.1,
      le_trans h61.2 (by norm_num [kConvergence])⟩

/-- The values `Rating1()` and `Deviation1()` after the update in `main` and `Apply`. -/
theorem main_final (invV dInner E2 : ℝ) (hI : Bnd invV 0.5621207860271801 0.5621207860271814)
    (hD : Bnd dInner (-0.2720289450488296) (-0.2720289450488284))
    (hE : Bnd E2 0.0035995181305045 0.0035995181305046) :
    Bnd (((1500 - kDefaultR) / kScale + 1 / Real.sqrt (1 / (200 / kScale * (200 / kScale) + E2) + invV) * (1 / Real.sqrt (1 / (200 / kScale * (200 / kScale) + E2) + invV)) * dInner) * kScale + kDefaultR)
      1464.0506 1464.0507 ∧
    Bnd (1 / Real.sqrt (1 / (200 / kScale * (200 / kScale) + E2) + invV) * kScale) 151.5165 151.5166 := by
  have h1 : Bnd ((200 : ℝ) / kScale) 1.1512924985234673 1.1512924985234674 := ⟨by norm_num [kScale], by norm_num [kScale]⟩
  have h2 := Bnd.weaken 1.3254744171564079 1.3254744171564082 (Bnd.mul_pp h1 h1 (by norm_num) (by norm_num)) (by norm_num) (by norm_num)
  have h3 := Bnd.weaken 1.3290739352869124 1.3290739352869128 (Bnd.add h2 hE) (by norm_num) (by norm_num)
  have h4 := Bnd.weaken 0.7524035897853386 0.7524035897853389 (Bnd.inv_p h3 (by norm_num)) (by norm_num) (by norm_num)
  have h5 := Bnd.weaken 1.3145243758125187 1.3145243758125203 (Bnd.add h4 hI) (by norm_num) (by norm_num)
  have h6 := Bnd.sqrt 1.1465270933617394 1.1465270933617402 h5 (by norm_num) (by norm_num) (by norm_num)
  have h7 := Bnd.weaken 0.8721991881307339 0.8721991881307346 (Bnd.inv_p h6 (by norm_num)) (by norm_num) (by norm_num)
  have h8 := Bnd.weaken 0.7607314237759113 0.7607314237759126 (Bnd.mul_pp h7 h7 (by norm_num) (by norm_num)) (by norm_num) (by norm_num)
  have h9 := Bnd.weaken (-0.2069409666752557) (-0.2069409666752543) (Bnd.mul_pn h8 hD (by norm_num) (by norm_num)) (by norm_num) (by norm_num)
  have h10 : Bnd (((1500 : ℝ) - kDefaultR) / kScale) 0 0 := ⟨by norm_num [kDefaultR, kScale], by norm_num [kDefaultR, kScale]⟩
  have h11 := Bnd.weaken (-0.2069409666752557) (-0.2069409666752543) (Bnd.add h10 h9) (by norm_num) (by norm_num)
  have h12 : Bnd (kScale) 173.7178 173.7178 := ⟨by norm_num [kScale], by norm_num [kScale]⟩
  have h13 : Bnd (kDefaultR) 1500 1500 := ⟨by norm_num [kDefaultR], by norm_num [kDefaultR]⟩
  have h14 := Bnd.weaken (-35.9493294606987347) (-35.9493294606984914) (Bnd.mul_np h11 h12 (by norm_num) (by norm_num)) (by norm_num) (by norm_num)
  have h15 := Bnd.weaken 1464.0506705393012653 1464.0506705393015086 (Bnd.add h14 h13) (by norm_num) (by norm_num)
  have h16 := Bnd.weaken 151.5165241238572054 151.5165241238573271 (Bnd.mul_pp h7 h12 (by norm_num) (by norm_num)) (by norm_num) (by norm_num)
  exact ⟨Bnd.weaken _ _ h15 (by norm_num) (by norm_num), Bnd.weaken _ _ h16 (by norm_num) (by norm_num)⟩

/-- The square of `exp(A / 2)` at `A = log(s * s) + δ`. -/
theorem exp_half_sq (s δ : ℝ) (hs : s ≠ 0) :
    Real.exp ((Real.log (s * s) + δ) / 2) * Real.exp ((Real.log (s * s) + δ) / 2)
      = s * s * Real.exp δ := by
  have hX : 0 < s * s := mul_self_pos.mpr hs
  rw [← Real.exp_add, add_halves, Real.exp_add, Real.exp_log hX]

/-- A sum over a list of three. -/
theorem sum_three {α : Type} (f : α → ℝ) (a b c : α) :
    ([a, b, c].map f).sum = f a + f b + f c := by
  simp [add_assoc]

/-- A sum over two zipped lists of three. -/
theorem zipsum_three {α β : Type} (f : α → β → ℝ) (a b c : α) (x y z : β) :
    (List.zipWith f [a, b, c] [x, y, z]).sum = f a x + f b y + f c z := by
  simp [add_assoc]

/-- A call whose first component is a result has returned. -/
theorem ok_of_map_fst {α β : Type} {x : Except Fault (α × β)} {a : α}
    (h : Except.map Prod.fst x = Except.ok a) : ∃ b, x = Except.ok (a, b) := by
  cases x with
  | error e => simp [Except.map] at h
  | ok v =>
    simp only [Except.map, Except.ok.injEq] at h
    exact ⟨v.2, by rw [← h]⟩

/-- The finishing step, once the solver has returned `A`. -/
theorem UpdateFinal_of_Convergence {fuel : ℕ} {self : Rating} {invV v dInner d A : ℝ}
    (h : Rating.Convergence fuel d v self.p self.s = some A) :
    Rating.UpdateFinal fuel self invV v dInner d = Except.ok
      { self with
        sPrime := Real.exp (A / 2)
        pPrime := 1 / Real.sqrt ((1 / (self.p * self.p + Real.exp (A / 2) * Real.exp (A / 2)))
          + invV)
        uPrime := self.u + 1 / Real.sqrt ((1 / (self.p * self.p
            + Real.exp (A / 2) * Real.exp (A / 2))) + invV)
          * (1 / Real.sqrt ((1 / (self.p * self.p + Real.exp (A / 2) * Real.exp (A / 2)))
            + invV)) * dInner } := by
  unfold Rating.UpdateFinal
  simp only [h]

/-- The finishing step of the update in `main` returns, with these values after `Apply`. -/
theorem main_UpdateFinal (n : ℕ) (j0 : ℝ × ℝ × ℝ) (invV dInner : ℝ)
    (hI : Bnd invV 0.5621207860271801 0.5621207860271814)
    (hD : Bnd dInner (-0.2720289450488296) (-0.2720289450488284)) :
    ∃ r, Rating.UpdateFinal (n + 3) (Rating.init 1500 200 kDefaultS j0) invV (1 / invV) dInner
        (1 / invV * dInner) = Except.ok r ∧
      Bnd r.Apply.Rating1 1464.0506 1464.0507 ∧ Bnd r.Apply.Deviation1 151.5165 151.5166 := by
  have hs : kDefaultS ≠ 0 := by norm_num [kDefaultS]
  obtain ⟨hβ, hw⟩ := main_beta_w invV dInner hI hD
  have hX : Bnd (kDefaultS * kDefaultS) 0.0036 0.0036 := by
    constructor <;> norm_num [kDefaultS]
  obtain ⟨h1, h2, h3, h4, h5, hE⟩ := main_trace _ _ _ hX hβ hw
  have h0 : ¬ (1 / invV * dInner * (1 / invV * dInner) - 200 / kScale * (200 / kScale)
      - 1 / invV > 0) := not_lt.mpr (le_trans hβ.2 (by norm_num))
  have hconv := Convergence_two_step n (1 / invV * dInner) (1 / invV) (200 / kScale) kDefaultS
    hs h0 h1 h2 h3 h4 h5
  obtain ⟨hR, hDv⟩ := main_final invV dInner _ hI hD hE
  refine ⟨_, UpdateFinal_of_Convergence hconv, ?_, ?_⟩
  · simp only [Rating.Apply, Rating.Rating1, exp_half_sq _ _ hs]
    exact hR
  · simp only [Rating.Apply, Rating.Deviation1, exp_half_sq _ _ hs]
    exact hDv

/-- The batch update of `main` returns for every fuel of at least 3. -/
theorem main_batch_run (n : ℕ) (scratch : Scratch) (gNew eNew : ℕ → ℝ)
    (junk : Fin 4 → ℝ × ℝ × ℝ) :
    ∃ r scratch1, Rating.UpdateBatch (n + 3) scratch gNew eNew
        (Rating.init 1500 200 kDefaultS (junk 0)) 3
        (some [Rating.init 1400 30 kDefaultS (junk 1), Rating.init 1550 100 kDefaultS (junk 2),
          Rating.init 1700 300 kDefaultS (junk 3)]) (some [1, 0, 0])
        = Except.ok (r, scratch1) ∧
      Bnd r.Apply.Rating1 1464.0506 1464.0507 ∧ Bnd r.Apply.Deviation1 151.5165 151.5166 := by
  have hI := main_invV (junk 0) (junk 1) (junk 2) (junk 3)
  have hD := main_dInner (junk 0) (junk 1) (junk 2) (junk 3)
  rw [← sum_three] at hI
  rw [← zipsum_three (dInnerTerm (Rating.init 1500 200 kDefaultS (junk 0)))] at hD
  obtain ⟨r, hr, hR, hDv⟩ := main_UpdateFinal n (junk 0) _ _ hI hD
  have hb := UpdateBatch_eq (n + 3) scratch gNew eNew (Rating.init 1500 200 kDefaultS (junk 0))
    [Rating.init 1400 30 kDefaultS (junk 1), Rating.init 1550 100 kDefaultS (junk 2),
      Rating.init 1700 300 kDefaultS (junk 3)] [1, 0, 0] rfl (by simp)
  rw [hr] at hb
  obtain ⟨sc, hsc⟩ := ok_of_map_fst hb
  exact ⟨r, sc, hsc, hR, hDv⟩

/-- The program `main` returns for every fuel of at least 3, and prints these values. -/
theorem main_run (n : ℕ) (scratch : Scratch) (gNew eNew : ℕ → ℝ)
    (junk : Fin 4 → ℝ × ℝ × ℝ) :
    ∃ R1 D1, main (n + 3) scratch gNew eNew junk = Except.ok (R1, D1) ∧
      Bnd R1 1464.0506 1464.0507 ∧ Bnd D1 151.5165 151.5166 := by
  obtain ⟨r, sc, hsc, hR, hDv⟩ := main_batch_run n scratch gNew eNew junk
  refine ⟨r.Apply.Rating1, r.Apply.Deviation1, ?_, hR, hDv⟩
  unfold main
  simp only [hsc]

/-! ## A draw between two default ratings -/

/-- Value of `G()` for a rating of deviation 350. -/
theorem default_G (s : ℝ) (j : ℝ × ℝ × ℝ) :
    Bnd (Rating.init 1500 350 s j).G 0.66906941258119 0.66906941258122 := by
  have h1 : Bnd ((350 : ℝ) / kScale) 2.01476187241606 2.01476187241607 := ⟨by norm_num [kScale], by norm_num [kScale]⟩
  have h2 := Bnd.weaken 0.64131862229619 0.64131862229621 (Bnd.div_pp h1 Bnd.pi (by norm_num) (by norm_num)) (by norm_num) (by norm_num)
  have h3 := Bnd.const (3 : ℝ)
  have h4 := Bnd.weaken 1.92395586688857 1.92395586688863 (Bnd.mul_pp h3 h2 (by norm_num) (by norm_num)) (by norm_num) (by norm_num)
  have h5 := Bnd.weaken 1.23386872591164 1.23386872591173 (Bnd.mul_pp h4 h2 (by norm_num) (by norm_num)) (by norm_num) (by norm_num)
  have h6 := Bnd.const (1 : ℝ)
  have h7 := Bnd.weaken 2.23386872591164 2.23386872591173 (Bnd.add h6 h5) (by norm_num) (by norm_num)
  have h8 := Bnd.sqrt 1.49461323622923 1.49461323622927 h7 (by norm_num) (by norm_num) (by norm_num)
  have h9 := Bnd.weaken 0.66906941258119 0.66906941258122 (Bnd.inv_p h8 (by norm_num)) (by norm_num) (by norm_num)
  exact h9

/-- The quantities `dS - pS - v` and `pS + v` of the solver call for a draw between two ratings
of deviation 350. -/
theorem draw_beta_w (g : ℝ) (hG : Bnd g 0.66906941258119 0.66906941258122) :
    Bnd (0 * 0 - 350 / kScale * (350 / kScale) - 1 / (g * g * (1 / 2) * (1 - 1 / 2))) (-12.99474030618901) (-12.99474030618735) ∧
    Bnd (350 / kScale * (350 / kScale) + 1 / (g * g * (1 / 2) * (1 - 1 / 2))) 12.99474030618735 12.99474030618901 := by
  have h1 := Bnd.const (1 / 2 : ℝ)
  have h2 := Bnd.weaken 0.44765387885173 0.44765387885178 (Bnd.mul_pp hG hG (by norm_num) (by norm_num)) (by norm_num) (by norm_num)
  have h3 := Bnd.weaken 0.22382693942586 0.22382693942589 (Bnd.mul_pp h2 h1 (by norm_num) (by norm_num)) (by norm_num) (by norm_num)
  have h4 := Bnd.const (1 : ℝ)
  have h5 := Bnd.weaken 0.5 0.5 (Bnd.sub h4 h1) (by norm_num) (by norm_num)
  have h6 := Bnd.weaken 0.11191346971293 0.11191346971295 (Bnd.mul_pp h3 h5 (by norm_num) (by norm_num)) (by norm_num) (by norm_num)
  have h7 := Bnd.weaken 8.93547490364589 8.9354749036475 (Bnd.inv_p h6 (by norm_num)) (by norm_num) (by norm_num)
  have h8 := Bnd.const (0 : ℝ)
  have h9 := Bnd.weaken 0 0 (Bnd.mul_pp h8 h8 (by norm_num) (by norm_num)) (by norm_num) (by norm_num)
  have h10 : Bnd ((350 : ℝ) / kScale) 2.01476187241606 2.01476187241607 := ⟨by norm_num [kScale], by norm_num [kScale]⟩
  have h11 := Bnd.weaken 4.05926540254146 4.05926540254151 (Bnd.mul_pp h10 h10 (by norm_num) (by norm_num)) (by norm_num) (by norm_num)
  have h12 := Bnd.weaken (-4.05926540254151) (-4.05926540254146) (Bnd.sub h9 h11) (by norm_num) (by norm_num)
  have h13 := Bnd.weaken (-12.99474030618901) (-12.99474030618735) (Bnd.sub h12 h7) (by norm_num) (by norm_num)
  have h14 := Bnd.weaken 12.99474030618735 12.99474030618901 (Bnd.add h11 h7) (by norm_num) (by norm_num)
  exact ⟨h13, h14⟩

/-- The solver call for a draw between two default ratings: signs and bracket widths along its
two iterations. -/
theorem draw_trace (X β w : ℝ) (hX : Bnd X 0.0036 0.0036)
    (hβ : Bnd β (-12.99474030618901) (-12.99474030618735))
    (hw : Bnd w 12.99474030618735 12.99474030618901) :
    ¬ (trFB X β w < 0) ∧ ¬ (trFC1 X β w * trFB X β w < 0) ∧ |trD1 X β w| > kConvergence ∧
    trFC2 X β w * trFC1 X β w < 0 ∧ ¬ (|trD2 X β w - trD1 X β w| > kConvergence) ∧
    Bnd (X * Real.exp (trD1 X β w)) 0.0035998753742558 0.0035998753742559 := by
  have h1 := Bnd.const (1 : ℝ)
  have h2 := Bnd.weaken 0.0036 0.0036 (Bnd.mul_pp hX h1 (by norm_num) (by norm_num)) (by norm_num) (by norm_num)
  have h3 := Bnd.weaken (-12.99834030618901) (-12.99834030618735) (Bnd.sub hβ h2) (by norm_num) (by norm_num)
  have h4 := Bnd.weaken (-0.0467940251022805) (-0.0467940251022744) (Bnd.mul_pn h2 h3 (by norm_num) (by norm_num)) (by norm_num) (by norm_num)
  have h5 := Bnd.weaken 12.99834030618735 12.99834030618901 (Bnd.add hw h2) (by norm_num) (by norm_num)
  have h6 := Bnd.const (2 : ℝ)
  have h7 := Bnd.weaken 25.9966806123747 25.99668061237802 (Bnd.mul_pp h6 h5 (by norm_num) (by norm_num)) (by norm_num) (by norm_num)
  have h8 := Bnd.weaken 337.9137014309093034 337.9137014309956125 (Bnd.mul_pp h7 h5 (by norm_num) (by norm_num)) (by norm_num) (by norm_num)
  have h9 := Bnd.weaken (-0.0001384792179309) (-0.0001384792179308) (Bnd.div_np h4 h8 (by norm_num) (by norm_num)) (by norm_num) (by norm_num)
  have h10 : Bnd (trFA X β w) (-0.0001384792179309) (-0.0001384792179308) := h9
  have h11 := Bnd.const (-(1 / 2) : ℝ)
  have h12 := Bnd.exp 16 0.5 0.6065306597126334 0.6065306597126335 h11 (by norm_num) (by norm_num) (by norm_num) (by norm_num)
    (by norm_num [expSum, expErr, Finset.sum_range_succ, Nat.factorial])
    (by norm_num [expSum, expErr, Finset.sum_range_succ, Nat.factorial])
  have h13 := Bnd.weaken 0.0021835103749654 0.0021835103749655 (Bnd.mul_pp hX h12 (by norm_num) (by norm_num)) (by norm_num) (by norm_num)
  have h14 := Bnd.weaken (-12.9969238165639755) (-12.9969238165623154) (Bnd.sub hβ h13) (by norm_num) (by norm_num)
  have h15 := Bnd.weaken (-0.0283789179961037) (-0.0283789179960987) (Bnd.mul_pn h13 h14 (by norm_num) (by norm_num)) (by norm_num) (by norm_num)
  have h16 := Bnd.weaken 12.9969238165623154 12.9969238165639755 (Bnd.add hw h13) (by norm_num) (by norm_num)
  have h17 := Bnd.const (2 : ℝ)
  have h18 := Bnd.weaken 25.9938476331246308 25.993847633127951 (Bnd.mul_pp h17 h16 (by norm_num) (by norm_num)) (by norm_num) (by norm_num)
  have h19 := Bnd.weaken 337.8400573870494853 337.8400573871357902 (Bnd.mul_pp h18 h16 (by norm_num) (by norm_num)) (by norm_num) (by norm_num)
  have h20 := Bnd.weaken (-0.0000840010453929) (-0.0000840010453928) (Bnd.div_np h15 h19 (by norm_num) (by norm_num)) (by norm_num) (by norm_num)
  have h21 := Bnd.const (2 : ℝ)
  have h22 := Bnd.weaken 1.9999159989546071 1.9999159989546072 (Bnd.add h20 h21) (by norm_num) (by norm_num)
  have h23 : Bnd (trFB X β w) 1.9999159989546071 1.9999159989546072 := h22
  have h24 := Bnd.const (1 / 2 : ℝ)
  have h25 := Bnd.weaken (-0.0000692396089655) (-0.0000692396089654) (Bnd.mul_pn h24 h10 (by norm_num) (by norm_num)) (by norm_num) (by norm_num)
  have h26 := Bnd.weaken 2.0000544781725379 2.0000544781725381 (Bnd.sub h23 h10) (by norm_num) (by norm_num)
  have h27 := Bnd.weaken (-0.0000346188614966) (-0.0000346188614965) (Bnd.div_np h25 h26 (by norm_num) (by norm_num)) (by norm_num) (by norm_num)
  have h28 : Bnd (trD1 X β w) (-0.0000346188614966) (-0.0000346188614965) := h27
  have h29 := Bnd.exp 4 0.000035 0.9999653817377292 0.9999653817377294 h28 (by norm_num) (by norm_num) (by norm_num) (by norm_num)
    (by norm_num [expSum, expErr, Finset.sum_range_succ, Nat.factorial])
    (by norm_num [expSum, expErr, Finset.sum_range_succ, Nat.factorial])
  have h30 := Bnd.const (4 : ℝ)
  have h31 := Bnd.weaken 0.0035998753742558 0.0035998753742559 (Bnd.mul_pp hX h29 (by norm_num) (by norm_num)) (by norm_num) (by norm_num)
  have h32 := Bnd.weaken (-12.9983401815632659) (-12.9983401815616058) (Bnd.sub hβ h31) (by norm_num) (by norm_num)
  have h33 := Bnd.weaken (-0.0467924047258106) (-0.0467924047258032) (Bnd.mul_pn h31 h32 (by norm_num) (by norm_num)) (by norm_num) (by norm_num)
  have h34 := Bnd.weaken 12.9983401815616058 12.9983401815632659 (Bnd.add hw h31) (by norm_num) (by norm_num)
  have h35 := Bnd.const (2 : ℝ)
  have h36 := Bnd.weaken 25.9966803631232116 25.9966803631265318 (Bnd.mul_pp h35 h34 (by norm_num) (by norm_num)) (by norm_num) (by norm_num)
  have h37 := Bnd.weaken 337.9136949511979984 337.9136949512843127 (Bnd.mul_pp h36 h34 (by norm_num) (by norm_num)) (by norm_num) (by norm_num)
  have h38 := Bnd.weaken (-0.0001384744253487) (-0.0001384744253486) (Bnd.div_np h33 h37 (by norm_num) (by norm_num)) (by norm_num) (by norm_num)
  have h39 := Bnd.weaken (-0.0001384754459864) (-0.000138475445986) (Bnd.mul_pn h30 h28 (by norm_num) (by norm_num)) (by norm_num) (by norm_num)
  have h40 := Bnd.weaken 0.0000000010206373 0.0000000010206378 (Bnd.sub h38 h39) (by norm_num) (by norm_num)
  have h41 : Bnd (trFC1 X β w) 0.0000000010206373 0.0000000010206378 := h40
  have h42 := Bnd.const (2 : ℝ)
  have h43 := Bnd.weaken (-0.0000692396089655) (-0.0000692396089654) (Bnd.div_np h10 h42 (by norm_num) (by norm_num)) (by norm_num) (by norm_num)
  have h44 := Bnd.weaken 0.0000346188614965 0.0000346188614966 (Bnd.neg h28) (by norm_num) (by norm_num)
  have h45 := Bnd.weaken (-0.0000000023969965) (-0.0000000023969964) (Bnd.mul_pn h44 h43 (by norm_num) (by norm_num)) (by norm_num) (by norm_num)
  have h46 := Bnd.weaken 0.0000692406296027 0.0000692406296033 (Bnd.sub h41 h43) (by norm_num) (by norm_num)
  have h47 := Bnd.weaken (-0.0000346183521692) (-0.0000346183507246) (Bnd.div_np h45 h46 (by norm_num) (by norm_num)) (by norm_num) (by norm_num)
  have h48 : Bnd (trD2 X β w) (-0.0000346183521692) (-0.0000346183507246) := h47
  have h49 := Bnd.exp 4 0.000035 0.999965382247039 0.9999653822484836 h48 (by norm_num) (by norm_num) (by norm_num) (by norm_num)
    (by norm_num [expSum, expErr, Finset.sum_range_succ, Nat.factorial])
    (by norm_num [expSum, expErr, Finset.sum_range_succ, Nat.factorial])
  have h50 := Bnd.weaken 0.0035998753760893 0.0035998753760946 (Bnd.mul_pp hX h49 (by norm_num) (by norm_num)) (by norm_num) (by norm_num)
  have h51 := Bnd.weaken (-12.9983401815651046) (-12.9983401815634393) (Bnd.sub hβ h50) (by norm_num) (by norm_num)
  have h52 := Bnd.weaken (-0.0467924047497173) (-0.0467924047496423) (Bnd.mul_pn h50 h51 (by norm_num) (by norm_num)) (by norm_num) (by norm_num)
  have h53 := Bnd.weaken 12.9983401815634393 12.9983401815651046 (Bnd.add hw h50) (by norm_num) (by norm_num)
  have h54 := Bnd.const (2 : ℝ)
  have h55 := Bnd.weaken 25.9966803631268786 25.9966803631302092 (Bnd.mul_pp h54 h53 (by norm_num) (by norm_num)) (by norm_num) (by norm_num)
  have h56 := Bnd.weaken 337.9136949512933282 337.9136949513799129 (Bnd.mul_pp h55 h53 (by norm_num) (by norm_num)) (by norm_num) (by norm_num)
  have h57 := Bnd.weaken (-0.0001384744254194) (-0.0001384744254191) (Bnd.div_np h52 h56 (by norm_num) (by norm_num)) (by norm_num) (by norm_num)
  have h58 := Bnd.weaken (-0.0001384734086768) (-0.0001384734028984) (Bnd.mul_pn h30 h48 (by norm_num) (by norm_num)) (by norm_num) (by norm_num)
  have h59 := Bnd.weaken (-0.000000001022521) (-0.0000000010167423) (Bnd.sub h57 h58) (by norm_num) (by norm_num)
  have h60 : Bnd (trFC2 X β w) (-0.000000001022521) (-0.0000000010167423) := h59
  have h61 := Bnd.weaken 0.0000000005093273 0.000000000510772 (Bnd.sub h48 h28) (by norm_num) (by norm_num)
  have h62 := Bnd.weaken 0.0035998753742558 0.0035998753742559 (Bnd.mul_pp hX h29 (by norm_num) (by norm_num)) (by norm_num) (by norm_num)
  have pB : 0 < trFB X β w := lt_of_lt_of_le (by norm_num) h23.1
  have pC1 : 0 < trFC1 X β w := lt_of_lt_of_le (by norm_num) h41.1
  have nC2 : trFC2 X β w < 0 := lt_of_le_of_lt h60.2 (by norm_num)
  have nD1 : trD1 X β w < -kConvergence := lt_of_le_of_lt h28.2 (by norm_num [kConvergence])
  refine ⟨not_lt.mpr (le_of_lt pB), not_lt.mpr (le_of_lt (mul_pos pC1 pB)), ?_,
    mul_neg_of_neg_of_pos nC2 pC1, ?_, h62⟩
  · rw [abs_of_neg (by linarith [show (0:ℝ) < kConvergence by norm_num [kConvergence]])]
    linarith
  · rw [not_lt, abs_le]
    exact ⟨le_trans (by norm_num [kConvergence]) h61.1,
      le_trans h61.2 (by norm_num [kConvergence])⟩

/-- The expected score against an opponent of the same rating is one half. -/
theorem E_same_u (opponent self : Rating) (g : ℝ) (hu : opponent.u = self.u) :
    opponent.E g self = 1 / 2 := by
  unfold Rating.E
  simp only [hu, sub_self, mul_zero, Real.exp_zero]
  norm_num

/-- The single-opponent update for a draw against an opponent of the same rating. -/
theorem UpdateSingle_draw (fuel : ℕ) (self opponent : Rating) (hu : opponent.u = self.u) :
    Rating.UpdateSingle fuel self opponent (1 / 2)
      = Rating.UpdateFinal fuel self (opponent.G * opponent.G * (1 / 2) * (1 - 1 / 2))
          (1 / (opponent.G * opponent.G * (1 / 2) * (1 - 1 / 2))) 0 0 := by
  unfold Rating.UpdateSingle
  simp only [E_same_u opponent self _ hu, sub_self, mul_zero]

/-- The finishing step does not return when the solver does not. -/
theorem UpdateFinal_of_none {fuel : ℕ} {self : Rating} {invV v dInner d : ℝ}
    (h : Rating.Convergence fuel d v self.p self.s = none) :
    Rating.UpdateFinal fuel self invV v dInner d = Except.error Fault.fuel := by
  unfold Rating.UpdateFinal
  simp only [h]

/-- A draw between two default ratings: the single-opponent update returns for every fuel
of at least 3. -/
theorem draw_run (n : ℕ) (j0 j1 : ℝ × ℝ × ℝ) :
    ∃ r, Rating.UpdateSingle (n + 3) (Rating.init 1500 350 kDefaultS j0)
      (Rating.init 1500 350 kDefaultS j1) (1 / 2) = Except.ok r := by
  have hs : kDefaultS ≠ 0 := by norm_num [kDefaultS]
  obtain ⟨hβ, hw⟩ := draw_beta_w _ (default_G kDefaultS j1)
  have hX : Bnd (kDefaultS * kDefaultS) 0.0036 0.0036 := by
    constructor <;> norm_num [kDefaultS]
  obtain ⟨h1, h2, h3, h4, h5, -⟩ := draw_trace _ _ _ hX hβ hw
  have h0 : ¬ (0 * 0 - 350 / kScale * (350 / kScale)
      - 1 / ((Rating.init 1500 350 kDefaultS j1).G * (Rating.init 1500 350 kDefaultS j1).G
        * (1 / 2) * (1 - 1 / 2)) > 0) := not_lt.mpr (le_trans hβ.2 (by norm_num))
  have hconv := Convergence_two_step n 0 _ (350 / kScale) kDefaultS hs h0 h1 h2 h3 h4 h5
  rw [UpdateSingle_draw (n + 3) (Rating.init 1500 350 kDefaultS j0)
    (Rating.init 1500 350 kDefaultS j1) rfl]
  exact ⟨_, UpdateFinal_of_Convergence hconv⟩

/-! ## Frame lemmas and the reference form of the batch update -/

/-- The private finishing step writes only pending members. -/
theorem UpdateFinal_frame {fuel : ℕ} {self r : Rating} {invV v dInner d : ℝ}
    (h : Rating.UpdateFinal fuel self invV v dInner d = Except.ok r) :
    r.u = self.u ∧ r.p = self.p ∧ r.s = self.s := by
  unfold Rating.UpdateFinal at h
  split at h
  · cases h
  · simp only [Except.ok.injEq] at h
    subst h
    exact ⟨rfl, rfl, rfl⟩

/-- The batch update writes only pending members. -/
theorem UpdateBatch_frame {fuel : ℕ} {scratch scratch1 : Scratch} {gNew eNew : ℕ → ℝ}
    {self r : Rating} {m : ℕ} {opponents : Option (List Rating)} {score : Option (List ℝ)}
    (h : Rating.UpdateBatch fuel scratch gNew eNew self m opponents score
      = Except.ok (r, scratch1)) :
    r.u = self.u ∧ r.p = self.p ∧ r.s = self.s := by
  unfold Rating.UpdateBatch at h
  split at h
  · split at h
    · generalize Rating.UpdateBatch.reserve scratch gNew eNew m = s1 at h
      simp only at h
      split at h
      · cases h
      · split at h
        · cases h
        · split at h
          · cases h
          · rename_i r1 hr
            simp only [Except.ok.injEq, Prod.mk.injEq] at h
            rw [← h.1]
            exact UpdateFinal_frame hr
    · cases h
  · cases h

/-- Equal committed members give equal accessors. -/
theorem sameCommitted_of_eq {self r : Rating} (h : r.u = self.u ∧ r.p = self.p ∧ r.s = self.s) :
    self.sameCommitted r := by
  obtain ⟨hu, hp, hs⟩ := h
  unfold Rating.sameCommitted Rating.Rating1 Rating.Deviation1 Rating.Rating2 Rating.Deviation2
  rw [hu, hp]
  exact ⟨rfl, rfl, hs, rfl, rfl, rfl, rfl⟩

/-- One round of the first loop of the batch update. -/
theorem loop1_one (self opp : Rating) (rest : List Rating) (gT eT : ℕ → ℝ) (invV : ℝ) :
    Rating.UpdateBatch.loop1 self (opp :: rest) 1 0 gT eT invV =
      Except.ok (Function.update gT 0 opp.G, Function.update eT 0 (opp.E opp.G self),
        invV + opp.G * opp.G * opp.E opp.G self * (1 - opp.E opp.G self)) := by
  simp [Rating.UpdateBatch.loop1]

/-- The batch update with `m = 1` is the single-opponent update. -/
theorem UpdateBatch_one (fuel : ℕ) (scratch : Scratch) (gNew eNew : ℕ → ℝ)
    (self opponent : Rating) (score : ℝ) (restO : List Rating) (restS : List ℝ) :
    Except.map Prod.fst
        (Rating.UpdateBatch fuel scratch gNew eNew self 1 (some (opponent :: restO))
          (some (score :: restS)))
      = Rating.UpdateSingle fuel self opponent score := by
  simp only [Rating.UpdateBatch, Rating.UpdateSingle, loop1_one, Rating.UpdateBatch.loop2]
  simp
  cases h : Rating.UpdateFinal fuel self _ _ _ _ <;> simp [Except.map]

/-- A call whose first component is a fault has ended in that fault. -/
theorem error_of_map_fst {α β : Type} {x : Except Fault (α × β)} {e : Fault}
    (h : Except.map Prod.fst x = Except.error e) : x = Except.error e := by
  cases x with
  | error e1 =>
    simp only [Except.map, Except.error.injEq] at h
    rw [h]
  | ok v => simp [Except.map] at h

/-- The method `G` computes the reference `g`. -/
theorem G_eq_spec (o : Rating) : o.G = Spec.g o.p := by
  unfold Rating.G Spec.g kPI
  have h : 3 * (o.p / Real.pi) * (o.p / Real.pi) = 3 * (o.p / Real.pi) ^ 2 := by ring
  simp only [h]

/-- The method `E` computes the reference `e`. -/
theorem E_eq_spec (o self : Rating) (g : ℝ) : o.E g self = Spec.e g o.u self.u := by
  unfold Rating.E Spec.e
  have h : -1 * g * (self.u - o.u) = -g * (self.u - o.u) := by ring
  simp only [h]

/-- The sum of the first loop is the reference `invV`. -/
theorem invV_eq_spec (self : Rating) (opps : List Rating) :
    (opps.map (invVTerm self)).sum = Spec.invV self opps := by
  unfold Spec.invV
  congr 1
  apply List.map_congr_left
  intro o _
  unfold invVTerm
  rw [E_eq_spec, G_eq_spec]
  ring

/-- The sum of the second loop is the reference `dInner`. -/
theorem dInner_eq_spec (self : Rating) (opps : List Rating) (scs : List ℝ) :
    (List.zipWith (dInnerTerm self) opps scs).sum = Spec.dInner self opps scs := by
  unfold Spec.dInner
  congr 1
  have h : dInnerTerm self
      = fun o sc => Spec.g o.p * (sc - Spec.e (Spec.g o.p) o.u self.u) := by
    funext o sc
    unfold dInnerTerm
    rw [E_eq_spec, G_eq_spec]
  rw [h]

/-- The state written by the finishing step is the reference pending state. -/
theorem pending_eq_spec (self : Rating) (invV dInner A : ℝ) :
    ({ self with
        sPrime := Real.exp (A / 2)
        pPrime := 1 / Real.sqrt ((1 / (self.p * self.p + Real.exp (A / 2) * Real.exp (A / 2)))
          + invV)
        uPrime := self.u + 1 / Real.sqrt ((1 / (self.p * self.p
            + Real.exp (A / 2) * Real.exp (A / 2))) + invV)
          * (1 / Real.sqrt ((1 / (self.p * self.p + Real.exp (A / 2) * Real.exp (A / 2)))
            + invV)) * dInner } : Rating)
      = Spec.pending self invV dInner A := by
  unfold Spec.pending
  have h1 : self.p * self.p + Real.exp (A / 2) * Real.exp (A / 2)
      = self.p ^ 2 + Real.exp (A / 2) ^ 2 := by ring
  rw [h1]
  congr 1
  ring

/-- The batch update on `m` opponents and `m` scores, `m > 0`, in the reference form. -/
theorem UpdateBatch_spec (fuel : ℕ) (scratch : Scratch) (gNew eNew : ℕ → ℝ) (self : Rating)
    (opps : List Rating) (scs : List ℝ) (hlen : scs.length = opps.length)
    (hpos : 0 < opps.length) :
    Except.map Prod.fst
        (Rating.UpdateBatch fuel scratch gNew eNew self opps.length (some opps) (some scs))
      = match Rating.Convergence fuel (1 / Spec.invV self opps * Spec.dInner self opps scs)
          (1 / Spec.invV self opps) self.p self.s with
        | none => Except.error Fault.fuel
        | some A =>
          Except.ok (Spec.pending self (Spec.invV self opps) (Spec.dInner self opps scs) A) := by
  rw [UpdateBatch_eq fuel scratch gNew eNew self opps scs hlen hpos, invV_eq_spec,
    dInner_eq_spec]
  cases h : Rating.Convergence fuel (1 / Spec.invV self opps * Spec.dInner self opps scs)
      (1 / Spec.invV self opps) self.p self.s with
  | none => exact UpdateFinal_of_none h
  | some A => rw [UpdateFinal_of_Convergence h, pending_eq_spec]

/-! ## Ranges of `g`, `e` and `invV`, and what a returned update satisfies -/

/-- The weight `g` is positive. -/
theorem G_pos (o : Rating) : 0 < o.G := by
  unfold Rating.G
  have h : 0 < 1 + 3 * (o.p / kPI) * (o.p / kPI) := by nlinarith [mul_self_nonneg (o.p / kPI)]
  exact one_div_pos.mpr (Real.sqrt_pos.mpr h)

/-- The weight `g` is at most 1. -/
theorem G_le_one (o : Rating) : o.G ≤ 1 := by
  unfold Rating.G
  have h : 1 ≤ 1 + 3 * (o.p / kPI) * (o.p / kPI) := by nlinarith [mul_self_nonneg (o.p / kPI)]
  have h1 : 1 ≤ Real.sqrt (1 + 3 * (o.p / kPI) * (o.p / kPI)) := Real.one_le_sqrt.mpr h
  rw [div_le_one (lt_of_lt_of_le one_pos h1)]
  exact h1

/-- The expected score is positive. -/
theorem E_pos (o self : Rating) (g : ℝ) : 0 < o.E g self := by
  unfold Rating.E
  exact one_div_pos.mpr (by positivity)

/-- The expected score is less than 1. -/
theorem E_lt_one (o self : Rating) (g : ℝ) : o.E g self < 1 := by
  unfold Rating.E
  have h : 0 < Real.exp (-1 * g * (self.u - o.u)) := Real.exp_pos _
  rw [div_lt_one (by linarith)]
  linarith

/-- Each summand of `invV` is positive. -/
theorem invVTerm_pos (self o : Rating) : 0 < invVTerm self o := by
  unfold invVTerm
  have hg := G_pos o
  have he := E_pos o self o.G
  have he1 := E_lt_one o self o.G
  exact mul_pos (mul_pos (mul_pos hg hg) he) (by linarith)

/-- The sum `invV` over a nonempty list of opponents is positive. -/
theorem invV_sum_pos (self : Rating) (opps : List Rating) (h : opps ≠ []) :
    0 < (opps.map (invVTerm self)).sum := by
  cases opps with
  | nil => exact absurd rfl h
  | cons o rest =>
    simp only [List.map_cons, List.sum_cons]
    have h1 := invVTerm_pos self o
    have h2 : 0 ≤ (rest.map (invVTerm self)).sum := by
      apply List.sum_nonneg
      intro x hx
      obtain ⟨o1, -, rfl⟩ := List.mem_map.mp hx
      exact le_of_lt (invVTerm_pos self o1)
    linarith

/-- What the finishing step has written when it returns. -/
theorem UpdateFinal_ok {fuel : ℕ} {self r : Rating} {invV v dInner d : ℝ}
    (h : Rating.UpdateFinal fuel self invV v dInner d = Except.ok r) :
    ∃ A, Rating.Convergence fuel d v self.p self.s = some A ∧
      r.sPrime = Real.exp (A / 2) ∧
      r.pPrime = 1 / Real.sqrt (1 / (self.p * self.p + r.sPrime * r.sPrime) + invV) ∧
      r.uPrime = self.u + r.pPrime * r.pPrime * dInner ∧
      r.u = self.u ∧ r.p = self.p ∧ r.s = self.s := by
  unfold Rating.UpdateFinal at h
  split at h
  · cases h
  · rename_i A hA
    simp only [Except.ok.injEq] at h
    subst h
    exact ⟨A, hA, rfl, rfl, rfl, rfl, rfl, rfl⟩

/-- The pending deviation is positive once `invV` is not negative. -/
theorem pPrime_pos {p sP invV : ℝ} (hs : 0 < sP) (hI : 0 ≤ invV) :
    0 < 1 / Real.sqrt (1 / (p * p + sP * sP) + invV) := by
  have h1 : 0 < p * p + sP * sP := by nlinarith [mul_self_nonneg p, mul_pos hs hs]
  have h2 : 0 < 1 / (p * p + sP * sP) + invV := by
    have := one_div_pos.mpr h1
    linarith
  exact one_div_pos.mpr (Real.sqrt_pos.mpr h2)

/-- The square of the pending deviation. -/
theorem pPrime_sq {p sP invV : ℝ} (hs : 0 < sP) (hI : 0 ≤ invV) :
    1 / Real.sqrt (1 / (p * p + sP * sP) + invV) * (1 / Real.sqrt (1 / (p * p + sP * sP) + invV))
      = 1 / (1 / (p * p + sP * sP) + invV) := by
  have h1 : 0 < p * p + sP * sP := by nlinarith [mul_self_nonneg p, mul_pos hs hs]
  have h2 : 0 < 1 / (p * p + sP * sP) + invV := by
    have := one_div_pos.mpr h1
    linarith
  rw [div_mul_div_comm, one_mul, Real.mul_self_sqrt (le_of_lt h2)]

/-- The batch update with `m` opponents and `m` scores returns what the finishing step
returns on the two sums. -/
theorem UpdateBatch_ok {fuel : ℕ} {scratch scratch1 : Scratch} {gNew eNew : ℕ → ℝ}
    {self r : Rating} {opps : List Rating} {scs : List ℝ} (hlen : scs.length = opps.length)
    (hpos : 0 < opps.length)
    (h : Rating.UpdateBatch fuel scratch gNew eNew self opps.length (some opps) (some scs)
      = Except.ok (r, scratch1)) :
    Rating.UpdateFinal fuel self ((opps.map (invVTerm self)).sum)
        (1 / (opps.map (invVTerm self)).sum)
        ((List.zipWith (dInnerTerm self) opps scs).sum)
        (1 / (opps.map (invVTerm self)).sum * (List.zipWith (dInnerTerm self) opps scs).sum)
      = Except.ok r := by
  rw [← UpdateBatch_eq fuel scratch gNew eNew self opps scs hlen hpos, h]
  rfl

/-- The bracket loop of the solver stops at its first test: `F(a - tau) ≥ 3/2`. -/
theorem bracket_first (n : ℕ) (d v p s : ℝ) (hv : 0 < v) (hs : s ≠ 0) :
    Rating.Convergence.bracket (d * d) (p * p) v (Real.log (s * s))
        (kSystemConst * kSystemConst) (n + 1) (Real.log (s * s) - kSystemConst)
      = some (Real.log (s * s) - kSystemConst) ∧
    3 / 2 ≤ Rating.F (Real.log (s * s) - kSystemConst) (d * d) (p * p) v (Real.log (s * s))
        (kSystemConst * kSystemConst) := by
  have hw : 0 < p * p + v := by nlinarith [mul_self_nonneg p]
  have hβ : -(p * p + v) ≤ d * d - p * p - v := by nlinarith [mul_self_nonneg d]
  have h := trFB_ge (X := s * s) (mul_self_nonneg s) hw hβ
  rw [← F_at_b s (d * d) (p * p) v hs] at h
  refine ⟨?_, h⟩
  unfold Rating.Convergence.bracket
  rw [if_neg (not_lt.mpr (by linarith))]

/-! ## The bracket of the solver -/

/-- The new point `C` of an iteration lies between `A` and `B` (`B` included) when the stored
values at `A` and `B` do not have the same sign and the one at `A` is not zero. -/
theorem iterate_C_between {A B fA fB lo hi : ℝ} (hA : fA ≠ 0) (hAB : fA * fB ≤ 0)
    (hlA : lo ≤ A) (hAh : A ≤ hi) (hlB : lo ≤ B) (hBh : B ≤ hi) :
    lo ≤ A + (A - B) * fA / (fB - fA) ∧ A + (A - B) * fA / (fB - fA) ≤ hi := by
  have hsq : 0 < fA * fA := mul_self_pos.mpr hA
  have hden : 0 < fA * (fA - fB) := by nlinarith
  have hne : fA - fB ≠ 0 := by
    intro h
    rw [h, mul_zero] at hden
    exact lt_irrefl 0 hden
  have hne1 : fB - fA ≠ 0 := by
    intro h
    apply hne
    linarith
  have ht0 : 0 < fA / (fA - fB) := by
    have h1 : fA / (fA - fB) = fA * (fA - fB) / ((fA - fB) * (fA - fB)) := by
      field_simp
      ring
    rw [h1]
    exact div_pos hden (mul_self_pos.mpr hne)
  have ht1 : fA / (fA - fB) ≤ 1 := by
    have h1 : 1 - fA / (fA - fB) = -(fB * (fA - fB)) / ((fA - fB) * (fA - fB)) := by
      field_simp
      ring
    have h2 : 0 ≤ -(fB * (fA - fB)) / ((fA - fB) * (fA - fB)) := by
      apply div_nonneg
      · nlinarith [mul_self_nonneg fB]
      · exact mul_self_nonneg _
    linarith
  have hC : A + (A - B) * fA / (fB - fA) = A + (B - A) * (fA / (fA - fB)) := by
    field_simp
    ring
  rw [hC]
  constructor
  · rcases le_total A B with h | h
    · nlinarith [mul_nonneg (sub_nonneg.mpr h) (le_of_lt ht0)]
    · nlinarith [mul_nonneg (sub_nonneg.mpr h) (sub_nonneg.mpr ht1)]
  · rcases le_total A B with h | h
    · nlinarith [mul_nonneg (sub_nonneg.mpr h) (sub_nonneg.mpr ht1)]
    · nlinarith [mul_nonneg (sub_nonneg.mpr h) (le_of_lt ht0)]

/-- When the value at `B` is zero, the new point is `B` itself. -/
theorem iterate_C_of_zero {A B fA : ℝ} (hA : fA ≠ 0) :
    A + (A - B) * fA / (0 - fA) = B := by
  have h : (A - B) * fA / (0 - fA) = -(A - B) := by
    rw [zero_sub, div_neg, mul_div_assoc, div_self hA, mul_one]
  rw [h]
  ring

/-- Invariant of the iteration loop.  If `fB` is the value of `F` at `B`, `fA` a positive
multiple of the value at `A`, the two values do not have the same sign, the value at `A` is
not zero while the bracket is wider than epsilon, and `A`, `B` lie between `lo` and `hi`,
then a result `R` of the loop lies between `lo` and `hi` and there is a point `B1` within
epsilon of `R` where `F` does not have the sign it has at `R`. -/
theorem iterate_invariant (dS pS v a tS lo hi : ℝ) :
    ∀ (n : ℕ) (A B fA fB R : ℝ),
      fB = Rating.F B dS pS v a tS →
      (∃ c : ℝ, 0 < c ∧ fA = c * Rating.F A dS pS v a tS) →
      Rating.F A dS pS v a tS * Rating.F B dS pS v a tS ≤ 0 →
      (|B - A| > kConvergence → Rating.F A dS pS v a tS ≠ 0) →
      lo ≤ A → A ≤ hi → lo ≤ B → B ≤ hi →
      Rating.Convergence.iterate dS pS v a tS n A B fA fB = some R →
      ∃ B1, |B1 - R| ≤ kConvergence ∧
        Rating.F R dS pS v a tS * Rating.F B1 dS pS v a tS ≤ 0 ∧ lo ≤ R ∧ R ≤ hi := by
  intro n
  induction n with
  | zero =>
    intro A B fA fB R _ _ _ _ _ _ _ _ h
    simp [Rating.Convergence.iterate] at h
  | succ n ih =>
    intro A B fA fB R hfB hfA hsign hne hlA hAh hlB hBh h
    obtain ⟨c, hc, hfAc⟩ := hfA
    rw [Rating.Convergence.iterate] at h
    by_cases hw : |B - A| > kConvergence
    · have hFA := hne hw
      have hfA0 : fA ≠ 0 := by
        rw [hfAc]
        exact mul_ne_zero (ne_of_gt hc) hFA
      have hprod : fA * fB ≤ 0 := by
        rw [hfAc, hfB, mul_assoc]
        exact mul_nonpos_of_nonneg_of_nonpos (le_of_lt hc) hsign
      have hC := iterate_C_between hfA0 hprod hlA hAh hlB hBh
      simp only [hw, if_true] at h
      by_cases hs : Rating.F (A + (A - B) * fA / (fB - fA)) dS pS v a tS * fB < 0
      · simp only [hs, if_true] at h
        have hs1 : Rating.F B dS pS v a tS
            * Rating.F (A + (A - B) * fA / (fB - fA)) dS pS v a tS < 0 := by
          rw [mul_comm, ← hfB]
          exact hs
        have hB0 : Rating.F B dS pS v a tS ≠ 0 := by
          intro h0
          rw [h0, zero_mul] at hs1
          exact lt_irrefl 0 hs1
        exact ih B _ fB _ R rfl ⟨1, one_pos, by rw [one_mul]; exact hfB⟩ (le_of_lt hs1)
          (fun _ => hB0) hlB hBh hC.1 hC.2 h
      · simp only [hs, if_false] at h
        have hs1 : 0 ≤ Rating.F (A + (A - B) * fA / (fB - fA)) dS pS v a tS
            * Rating.F B dS pS v a tS := by
          rw [← hfB]
          exact not_lt.mp hs
        have hsign1 : Rating.F A dS pS v a tS
            * Rating.F (A + (A - B) * fA / (fB - fA)) dS pS v a tS ≤ 0 := by
          by_cases hB0 : Rating.F B dS pS v a tS = 0
          · have hfB0 : fB = 0 := by rw [hfB, hB0]
            rw [hfB0, iterate_C_of_zero hfA0, hB0, mul_zero]
          · by_contra hpos
            rw [not_le] at hpos
            have h1 : 0 < Rating.F B dS pS v a tS * Rating.F B dS pS v a tS :=
              mul_self_pos.mpr hB0
            nlinarith [mul_pos hpos h1, mul_nonneg (neg_nonneg.mpr hsign) hs1]
        exact ih A _ (fA / 2) _ R rfl ⟨c / 2, by linarith, by rw [hfAc]; ring⟩ hsign1
          (fun _ => hFA) hlA hAh hC.1 hC.2 h
    · simp only [hw, if_false, Option.some.injEq] at h
      subst h
      exact ⟨B, not_lt.mp hw, hsign, hlA, hAh⟩

/-- The function `F` is continuous in `x` when `pS + v > 0`. -/
theorem F_continuous (dS pS v a tS : ℝ) (hw : 0 < pS + v) :
    Continuous fun x => Rating.F x dS pS v a tS := by
  unfold Rating.F
  apply Continuous.sub
  · apply Continuous.div
    · exact Real.continuous_exp.mul (continuous_const.sub Real.continuous_exp)
    · exact (continuous_const.mul (continuous_const.add Real.continuous_exp)).mul
        (continuous_const.add Real.continuous_exp)
    · intro x
      have : 0 < pS + v + Real.exp x := by linarith [Real.exp_pos x]
      positivity
  · exact (continuous_id.sub continuous_const).div_const tS

/-- The value `F(a)` has the sign of `dS - pS - v - exp(a)`. -/
theorem F_at_start (dS pS v a tS : ℝ) :
    Rating.F a dS pS v a tS
      = Real.exp a * (dS - pS - v - Real.exp a)
        / (2 * (pS + v + Real.exp a) * (pS + v + Real.exp a)) := by
  unfold Rating.F
  rw [sub_self, zero_div, sub_zero]

/-- The value of `F` at `log(dS - pS - v)`. -/
theorem F_at_log (dS pS v a tS : ℝ) (hβ : 0 < dS - pS - v) :
    Rating.F (Real.log (dS - pS - v)) dS pS v a tS = -((Real.log (dS - pS - v) - a) / tS) := by
  simp only [Rating.F, Real.exp_log hβ, sub_self, mul_zero, zero_div, zero_sub]

/-- What a result of `Convergence` satisfies: it is within epsilon of a point where `F` does
not have the sign it has at the result, and it lies in the start bracket. -/
theorem Convergence_invariant (fuel : ℕ) (d v p s R : ℝ) (hv : 0 < v) (hs : s ≠ 0)
    (h : Rating.Convergence fuel d v p s = some R) :
    (∃ B1, |B1 - R| ≤ kConvergence ∧
      Rating.F R (d * d) (p * p) v (Real.log (s * s)) (kSystemConst * kSystemConst)
        * Rating.F B1 (d * d) (p * p) v (Real.log (s * s)) (kSystemConst * kSystemConst) ≤ 0) ∧
    (d * d - p * p - v ≤ 0 → Real.log (s * s) - kSystemConst ≤ R ∧ R ≤ Real.log (s * s)) ∧
    (s * s ≤ d * d - p * p - v → Real.log (s * s) ≤ R) := by
  have hw : 0 < p * p + v := by nlinarith [mul_self_nonneg p]
  have hX : 0 < s * s := mul_self_pos.mpr hs
  have htS : (0:ℝ) < kSystemConst * kSystemConst := by unfold kSystemConst; norm_num
  have hE : 0 < Real.exp (Real.log (s * s)) := Real.exp_pos _
  have hden : 0 < 2 * (p * p + v + Real.exp (Real.log (s * s)))
      * (p * p + v + Real.exp (Real.log (s * s))) := by positivity
  unfold Rating.Convergence at h
  by_cases hb : d * d - p * p - v > 0
  · simp only [hb, if_true] at h
    set a := Real.log (s * s) with ha
    set β := d * d - p * p - v with hβ
    have hFa := F_at_start (d * d) (p * p) v a (kSystemConst * kSystemConst)
    have hFb := F_at_log (d * d) (p * p) v a (kSystemConst * kSystemConst) hb
    rw [← hβ] at hFa hFb
    have hsign : Rating.F a (d * d) (p * p) v a (kSystemConst * kSystemConst)
        * Rating.F (Real.log β) (d * d) (p * p) v a (kSystemConst * kSystemConst) ≤ 0 := by
      rw [hFa, hFb]
      have hcmp : 0 ≤ (β - Real.exp a) * (Real.log β - a) := by
        rcases le_total (Real.exp a) β with h1 | h1
        · have : a ≤ Real.log β := (Real.le_log_iff_exp_le hb).mpr h1
          exact mul_nonneg (by linarith) (by linarith)
        · have : Real.log β ≤ a := (Real.log_le_iff_le_exp hb).mpr h1
          exact mul_nonneg_of_nonpos_of_nonpos (by linarith) (by linarith)
      have e1 : Real.exp a * (β - Real.exp a)
            / (2 * (p * p + v + Real.exp a) * (p * p + v + Real.exp a))
            * -((Real.log β - a) / (kSystemConst * kSystemConst))
          = -(Real.exp a * ((β - Real.exp a) * (Real.log β - a))
            / (2 * (p * p + v + Real.exp a) * (p * p + v + Real.exp a)
              * (kSystemConst * kSystemConst))) := by
        field_simp
        ring
      rw [e1, neg_nonpos]
      exact div_nonneg (mul_nonneg (le_of_lt hE) hcmp) (le_of_lt (mul_pos hden htS))
    have hne : |Real.log β - a| > kConvergence
        → Rating.F a (d * d) (p * p) v a (kSystemConst * kSystemConst) ≠ 0 := by
      intro hwid h0
      rw [hFa, div_eq_zero_iff] at h0
      rcases h0 with h0 | h0
      · rcases mul_eq_zero.mp h0 with h1 | h1
        · exact (ne_of_gt hE) h1
        · have h2 : β = Real.exp a := by linarith
          have h3 : Real.log β = a := by rw [h2, Real.log_exp]
          rw [h3, sub_self, abs_zero] at hwid
          have : (0:ℝ) < kConvergence := by unfold kConvergence; norm_num
          linarith
      · exact (ne_of_gt hden) h0
    rcases le_total a (Real.log β) with hcase | hcase
    · obtain ⟨B1, h1, h2, h3, -⟩ := iterate_invariant (d * d) (p * p) v a
        (kSystemConst * kSystemConst) a (Real.log β) fuel a (Real.log β) _ _ R rfl
        ⟨1, one_pos, by rw [one_mul]⟩ hsign hne (le_refl a) hcase hcase (le_refl _) h
      exact ⟨⟨B1, h1, h2⟩, fun hle => absurd hb (not_lt.mpr hle), fun _ => h3⟩
    · obtain ⟨B1, h1, h2, -, -⟩ := iterate_invariant (d * d) (p * p) v a
        (kSystemConst * kSystemConst) (Real.log β) a fuel a (Real.log β) _ _ R rfl
        ⟨1, one_pos, by rw [one_mul]⟩ hsign hne hcase (le_refl a) (le_refl _) hcase h
      refine ⟨⟨B1, h1, h2⟩, fun hle => absurd hb (not_lt.mpr hle), fun hle => ?_⟩
      have h5 : a ≤ Real.log β := Real.log_le_log hX hle
      have h6 : a = Real.log β := le_antisymm h5 hcase
      obtain ⟨B2, -, -, h7, -⟩ := iterate_invariant (d * d) (p * p) v a
        (kSystemConst * kSystemConst) a (Real.log β) fuel a (Real.log β) _ _ R rfl
        ⟨1, one_pos, by rw [one_mul]⟩ hsign hne (le_refl a) h5 h5 (le_refl _) h
      exact h7
  · simp only [hb, if_false] at h
    cases fuel with
    | zero => simp [Rating.Convergence.bracket] at h
    | succ n =>
      obtain ⟨hbr, hFB⟩ := bracket_first n d v p s hv hs
      rw [hbr] at h
      simp only at h
      set a := Real.log (s * s) with ha
      have hFa := F_at_start (d * d) (p * p) v a (kSystemConst * kSystemConst)
      have hneg : Rating.F a (d * d) (p * p) v a (kSystemConst * kSystemConst) < 0 := by
        rw [hFa]
        apply div_neg_of_neg_of_pos _ hden
        exact mul_neg_of_pos_of_neg hE (by linarith [not_lt.mp hb])
      have hsign : Rating.F a (d * d) (p * p) v a (kSystemConst * kSystemConst)
          * Rating.F (a - kSystemConst) (d * d) (p * p) v a (kSystemConst * kSystemConst)
          ≤ 0 :=
        mul_nonpos_of_nonpos_of_nonneg (le_of_lt hneg) (by linarith)
      have hk : (0:ℝ) ≤ kSystemConst := by unfold kSystemConst; norm_num
      obtain ⟨B1, h1, h2, h3, h4⟩ := iterate_invariant (d * d) (p * p) v a
        (kSystemConst * kSystemConst) (a - kSystemConst) a (n + 1) a (a - kSystemConst) _ _ R
        rfl ⟨1, one_pos, by rw [one_mul]⟩ hsign (fun _ => ne_of_lt hneg) (by linarith)
        (le_refl a) (le_refl _) (by linarith) h
      refine ⟨⟨B1, h1, h2⟩, fun _ => ⟨h3, h4⟩, fun hle => ?_⟩
      exact absurd (lt_of_lt_of_le hX hle) hb

/-- Zero lies between two reals that do not have the same sign. -/
theorem zero_mem_uIcc_of_mul_nonpos {x y : ℝ} (h : x * y ≤ 0) : (0:ℝ) ∈ Set.uIcc x y := by
  rw [Set.mem_uIcc]
  rcases le_total 0 x with hx | hx <;> rcases le_total 0 y with hy | hy
  · have h0 : x * y = 0 := le_antisymm h (mul_nonneg hx hy)
    rcases mul_eq_zero.mp h0 with h1 | h1
    · left; exact ⟨le_of_eq h1, hy⟩
    · right; exact ⟨le_of_eq h1, hx⟩
  · right; exact ⟨hy, hx⟩
  · left; exact ⟨hx, hy⟩
  · have h0 : x * y = 0 := le_antisymm h (mul_nonneg_of_nonpos_of_nonpos hx hy)
    rcases mul_eq_zero.mp h0 with h1 | h1
    · right; exact ⟨hy, le_of_eq h1.symm⟩
    · left; exact ⟨hx, le_of_eq h1.symm⟩

/-- A result of `Convergence` is within epsilon of a zero of `F`. -/
theorem Convergence_root (fuel : ℕ) (d v p s R : ℝ) (hv : 0 < v) (hs : s ≠ 0)
    (h : Rating.Convergence fuel d v p s = some R) :
    ∃ x, Rating.F x (d * d) (p * p) v (Real.log (s * s)) (kSystemConst * kSystemConst) = 0 ∧
      |R - x| ≤ kConvergence := by
  obtain ⟨⟨B1, hB1, hsign⟩, -, -⟩ := Convergence_invariant fuel d v p s R hv hs h
  have hw : 0 < p * p + v := by nlinarith [mul_self_nonneg p]
  have hcont := F_continuous (d * d) (p * p) v (Real.log (s * s))
    (kSystemConst * kSystemConst) hw
  have hivt := intermediate_value_uIcc (a := R) (b := B1) hcont.continuousOn
  have hmem : (0:ℝ) ∈ Set.uIcc
      (Rating.F R (d * d) (p * p) v (Real.log (s * s)) (kSystemConst * kSystemConst))
      (Rating.F B1 (d * d) (p * p) v (Real.log (s * s)) (kSystemConst * kSystemConst)) := by
    exact zero_mem_uIcc_of_mul_nonpos hsign
  obtain ⟨x, hx, hfx⟩ := hivt hmem
  refine ⟨x, hfx, ?_⟩
  have := Set.abs_sub_left_of_mem_uIcc hx
  rw [abs_sub_comm]
  exact le_trans this hB1

/-! ## The loop of the solver, one round at a time -/

/-- The function `F` of the code, called as in `Convergence`, is the reference `f`. -/
theorem F_eq_spec (d v p s x : ℝ) :
    Rating.F x (d * d) (p * p) v (Real.log (s * s)) (kSystemConst * kSystemConst)
      = Spec.f d v p s x := by
  unfold Rating.F Spec.f kSystemConst
  simp only [pow_two]
  ring

/-- The function `F` at `log(s * s) + δ`, as `trF`. -/
theorem F_off (s dS pS v δ : ℝ) (hs : s ≠ 0) :
    Rating.F (Real.log (s * s) + δ) dS pS v (Real.log (s * s)) (kSystemConst * kSystemConst)
      = trF (s * s) (dS - pS - v) (pS + v) δ := by
  rw [F_shift s dS pS v δ hs]
  rfl

/-- The loop of the solver returns `A` once the bracket is no wider than epsilon. -/
theorem iterate_off_exit (n : ℕ) (s dS pS v δA δB fA fB : ℝ)
    (h : ¬ (|δB - δA| > kConvergence)) :
    Rating.Convergence.iterate dS pS v (Real.log (s * s)) (kSystemConst * kSystemConst) (n + 1)
        (Real.log (s * s) + δA) (Real.log (s * s) + δB) fA fB
      = some (Real.log (s * s) + δA) := by
  have e1 : Real.log (s * s) + δB - (Real.log (s * s) + δA) = δB - δA := by ring
  rw [Rating.Convergence.iterate]
  simp only [e1, h, if_false]

/-- One round of the loop of the solver in which the sign changes between `B` and `C`:
`A` takes the place of `B`. -/
theorem iterate_off_swap (n : ℕ) (s dS pS v δA δB fA fB δC fC R : ℝ) (hs : s ≠ 0)
    (hw : |δB - δA| > kConvergence) (hC : δC = δA + (δA - δB) * fA / (fB - fA))
    (hfC : fC = trF (s * s) (dS - pS - v) (pS + v) δC) (hsign : fC * fB < 0)
    (hrest : Rating.Convergence.iterate dS pS v (Real.log (s * s))
        (kSystemConst * kSystemConst) n (Real.log (s * s) + δB) (Real.log (s * s) + δC) fB fC
      = some R) :
    Rating.Convergence.iterate dS pS v (Real.log (s * s)) (kSystemConst * kSystemConst) (n + 1)
        (Real.log (s * s) + δA) (Real.log (s * s) + δB) fA fB = some R := by
  have e1 : Real.log (s * s) + δB - (Real.log (s * s) + δA) = δB - δA := by ring
  have e2 : Real.log (s * s) + δA
      + (Real.log (s * s) + δA - (Real.log (s * s) + δB)) * fA / (fB - fA)
      = Real.log (s * s) + δC := by rw [hC]; ring
  have e3 : Rating.F (Real.log (s * s) + δC) dS pS v (Real.log (s * s))
      (kSystemConst * kSystemConst) = fC := by rw [F_off s dS pS v δC hs, hfC]
  rw [Rating.Convergence.iterate]
  simp only [e1, hw, if_true, e2, e3, hsign]
  exact hrest

/-- One round of the loop of the solver in which the sign does not change between `B` and
`C`: `A` stays and `fA` is halved. -/
theorem iterate_off_halve (n : ℕ) (s dS pS v δA δB fA fB δC fC R : ℝ) (hs : s ≠ 0)
    (hw : |δB - δA| > kConvergence) (hC : δC = δA + (δA - δB) * fA / (fB - fA))
    (hfC : fC = trF (s * s) (dS - pS - v) (pS + v) δC) (hsign : ¬ (fC * fB < 0))
    (hrest : Rating.Convergence.iterate dS pS v (Real.log (s * s))
        (kSystemConst * kSystemConst) n (Real.log (s * s) + δA) (Real.log (s * s) + δC)
        (fA / 2) fC = some R) :
    Rating.Convergence.iterate dS pS v (Real.log (s * s)) (kSystemConst * kSystemConst) (n + 1)
        (Real.log (s * s) + δA) (Real.log (s * s) + δB) fA fB = some R := by
  have e1 : Real.log (s * s) + δB - (Real.log (s * s) + δA) = δB - δA := by ring
  have e2 : Real.log (s * s) + δA
      + (Real.log (s * s) + δA - (Real.log (s * s) + δB)) * fA / (fB - fA)
      = Real.log (s * s) + δC := by rw [hC]; ring
  have e3 : Rating.F (Real.log (s * s) + δC) dS pS v (Real.log (s * s))
      (kSystemConst * kSystemConst) = fC := by rw [F_off s dS pS v δC hs, hfC]
  rw [Rating.Convergence.iterate]
  simp only [e1, hw, if_true, e2, e3, hsign, if_false]
  exact hrest

/-- When `dS - pS - v ≤ 0` and `F(a - tau) ≥ 0`, the solver is its loop started on the bracket
from `a - tau` to `a`. -/
theorem Convergence_of_iterate (m : ℕ) (d v p s R : ℝ) (hs : s ≠ 0)
    (h0 : ¬ (d * d - p * p - v > 0))
    (h1 : ¬ (trF (s * s) (d * d - p * p - v) (p * p + v) (-(1 / 2)) < 0))
    (hrun : Rating.Convergence.iterate (d * d) (p * p) v (Real.log (s * s))
        (kSystemConst * kSystemConst) (m + 1) (Real.log (s * s) + 0)
        (Real.log (s * s) + -(1 / 2)) (trF (s * s) (d * d - p * p - v) (p * p + v) 0)
        (trF (s * s) (d * d - p * p - v) (p * p + v) (-(1 / 2))) = some R) :
    Rating.Convergence (m + 1) d v p s = some R := by
  have e : Real.log (s * s) - kSystemConst = Real.log (s * s) + -(1 / 2) := by
    unfold kSystemConst; ring
  have hFa := F_off s (d * d) (p * p) v 0 hs
  have hFb := F_off s (d * d) (p * p) v (-(1 / 2)) hs
  rw [← e] at hFb hrun
  rw [add_zero] at hFa hrun
  unfold Rating.Convergence
  simp only [h0, if_false, Rating.Convergence.bracket, hFb, h1, hFa]
  exact hrun

/-! ## What the updates read, and the direction of the change -/

/-- The finishing step reads only the committed members of the rating. -/
theorem UpdateFinal_congr (fuel : ℕ) (self1 self2 : Rating) (invV v dInner d : ℝ)
    (hu : self1.u = self2.u) (hp : self1.p = self2.p) (hs : self1.s = self2.s) :
    Rating.UpdateFinal fuel self1 invV v dInner d
      = Rating.UpdateFinal fuel self2 invV v dInner d := by
  unfold Rating.UpdateFinal
  rw [hu, hp, hs]

/-- A summand of `invV` reads only `u` of the caller and `u`, `p` of the opponent. -/
theorem invVTerm_congr {self1 self2 o1 o2 : Rating} (hu : self1.u = self2.u)
    (hou : o1.u = o2.u) (hop : o1.p = o2.p) : invVTerm self1 o1 = invVTerm self2 o2 := by
  unfold invVTerm Rating.G Rating.E
  rw [hu, hou, hop]

/-- A summand of `dInner` reads only `u` of the caller and `u`, `p` of the opponent. -/
theorem dInnerTerm_congr {self1 self2 o1 o2 : Rating} (hu : self1.u = self2.u)
    (hou : o1.u = o2.u) (hop : o1.p = o2.p) (sc : ℝ) :
    dInnerTerm self1 o1 sc = dInnerTerm self2 o2 sc := by
  unfold dInnerTerm Rating.G Rating.E
  rw [hu, hou, hop]

/-- The two sums of the batch update read only `u` of the caller and `u`, `p` of the
opponents. -/
theorem sums_congr {self1 self2 : Rating} (hu : self1.u = self2.u) (opps1 : List Rating) :
    ∀ (opps2 : List Rating) (scs : List ℝ),
      opps1.map (fun o => (o.u, o.p)) = opps2.map (fun o => (o.u, o.p)) →
      (opps1.map (invVTerm self1)).sum = (opps2.map (invVTerm self2)).sum ∧
      (List.zipWith (dInnerTerm self1) opps1 scs).sum
        = (List.zipWith (dInnerTerm self2) opps2 scs).sum := by
  induction opps1 with
  | nil =>
    intro opps2 scs h
    cases opps2 with
    | nil => simp
    | cons o2 t2 => simp at h
  | cons o1 t ih =>
    intro opps2 scs h
    cases opps2 with
    | nil => simp at h
    | cons o2 t2 =>
      simp only [List.map_cons, List.cons.injEq, Prod.mk.injEq] at h
      obtain ⟨⟨hou, hop⟩, ht⟩ := h
      cases scs with
      | nil =>
        simp only [List.map_cons, List.sum_cons, List.zipWith_nil_right, List.sum_nil,
          invVTerm_congr hu hou hop, (ih t2 [] ht).1, and_self]
      | cons sc ss =>
        simp only [List.map_cons, List.sum_cons, List.zipWith_cons_cons,
          invVTerm_congr hu hou hop, dInnerTerm_congr hu hou hop sc, (ih t2 ss ht).1,
          (ih t2 ss ht).2, and_self]

/-- The pending rating moves by the square of the pending deviation times `dInner`. -/
theorem UpdateFinal_sign {fuel : ℕ} {self r : Rating} {invV v dInner d : ℝ} (hI : 0 ≤ invV)
    (h : Rating.UpdateFinal fuel self invV v dInner d = Except.ok r) :
    0 < r.pPrime ∧ 0 < r.sPrime ∧ r.uPrime - self.u = r.pPrime * r.pPrime * dInner := by
  obtain ⟨A, -, hsP, hpP, huP, -, -, -⟩ := UpdateFinal_ok h
  have hs0 : 0 < r.sPrime := by rw [hsP]; exact Real.exp_pos _
  refine ⟨?_, hs0, ?_⟩
  · rw [hpP]; exact pPrime_pos hs0 hI
  · rw [huP]; ring

/-- The summand of `invV` of one opponent, as the single-opponent update computes it. -/
theorem invV_single_pos (self o : Rating) :
    0 < o.G * o.G * o.E o.G self * (1 - o.E o.G self) := invVTerm_pos self o

/-- The gain `p'^2 (1 - e)` of a win grows when the expected score `e` drops and the new
volatility does not. -/
theorem gain_lt {g p eL eH yL yH : ℝ} (hg : 0 < g) (hyL : 0 < yL) (hy : yL ≤ yH)
    (heH0 : 0 < eH) (heHL : eH < eL) (heL1 : eL < 1) :
    1 / (1 / (p * p + yL) + g * g * eL * (1 - eL)) * (g * (1 - eL))
      < 1 / (1 / (p * p + yH) + g * g * eH * (1 - eH)) * (g * (1 - eH)) := by
  have hpL : 0 < p * p + yL := by nlinarith [mul_self_nonneg p]
  have hpH : 0 < p * p + yH := by nlinarith [mul_self_nonneg p]
  have hqL : 0 < 1 / (p * p + yL) := by positivity
  have hqH : 0 < 1 / (p * p + yH) := by positivity
  have hq : 1 / (p * p + yH) ≤ 1 / (p * p + yL) :=
    one_div_le_one_div_of_le hpL (by linarith)
  have heL0 : 0 < eL := lt_trans heH0 heHL
  have heH1 : eH < 1 := lt_trans heHL heL1
  have hIL : 0 < g * g * eL * (1 - eL) :=
    mul_pos (mul_pos (mul_pos hg hg) heL0) (by linarith)
  have hIH : 0 < g * g * eH * (1 - eH) :=
    mul_pos (mul_pos (mul_pos hg hg) heH0) (by linarith)
  have hDL : 0 < 1 / (p * p + yL) + g * g * eL * (1 - eL) := by linarith
  have hDH : 0 < 1 / (p * p + yH) + g * g * eH * (1 - eH) := by linarith
  rw [one_div_mul_eq_div, one_div_mul_eq_div, div_lt_div_iff₀ hDL hDH]
  set qL := 1 / (p * p + yL) with hqLdef
  set qH := 1 / (p * p + yH) with hqHdef
  have h1 : 0 < (1 - eL) := by linarith
  have h2 : 0 < (1 - eH) := by linarith
  have h3 : 0 < eL - eH := by linarith
  have key : g * (1 - eH) * (qL + g * g * eL * (1 - eL))
      - g * (1 - eL) * (qH + g * g * eH * (1 - eH))
      = g * ((1 - eH) * qL - (1 - eL) * qH + g * g * (1 - eL) * (1 - eH) * (eL - eH)) := by
    ring
  have hpos : 0 < (1 - eH) * qL - (1 - eL) * qH + g * g * (1 - eL) * (1 - eH) * (eL - eH) := by
    have t1 : 0 < g * g * (1 - eL) * (1 - eH) * (eL - eH) :=
      mul_pos (mul_pos (mul_pos (mul_pos hg hg) h1) h2) h3
    have t2 : (1 - eL) * qH ≤ (1 - eL) * qL := mul_le_mul_of_nonneg_left hq (le_of_lt h1)
    have t3 : (1 - eL) * qL ≤ (1 - eH) * qL :=
      mul_le_mul_of_nonneg_right (by linarith) (le_of_lt hqL)
    linarith
  have := mul_pos hg hpos
  linarith

/-- The expected score of the caller drops when the opponent's rating rises. -/
theorem E_lt_of_u_lt {lo hi self : Rating} {g : ℝ} (hg : 0 < g) (h : lo.u < hi.u) :
    hi.E g self < lo.E g self := by
  unfold Rating.E
  have hexp : Real.exp (-1 * g * (self.u - lo.u)) < Real.exp (-1 * g * (self.u - hi.u)) := by
    apply Real.exp_lt_exp.mpr
    nlinarith
  have h1 : 0 < 1 + Real.exp (-1 * g * (self.u - lo.u)) := by
    linarith [Real.exp_pos (-1 * g * (self.u - lo.u))]
  exact one_div_lt_one_div_of_lt h1 (by linarith)

/-- The method `G` reads only the deviation. -/
theorem G_congr {o1 o2 : Rating} (h : o1.p = o2.p) : o1.G = o2.G := by
  unfold Rating.G
  rw [h]

/-- The expected score of the caller is at least one half against an opponent rated no
higher. -/
theorem E_ge_half {o self : Rating} {g : ℝ} (hg : 0 < g) (h : o.u ≤ self.u) :
    1 / 2 ≤ o.E g self := by
  unfold Rating.E
  have hx : -1 * g * (self.u - o.u) ≤ 0 := by nlinarith
  have hexp := Real.exp_le_exp.mpr hx
  rw [Real.exp_zero] at hexp
  have hpos := Real.exp_pos (-1 * g * (self.u - o.u))
  exact one_div_le_one_div_of_le (by linarith) (by linarith)

/-- With an expected score of at least one half, a win gives `d * d - p * p - v ≤ 0`. -/
theorem win_beta_nonpos {g e p : ℝ} (hg : 0 < g) (he : 1 / 2 ≤ e) (he1 : e < 1) :
    1 / (g * g * e * (1 - e)) * (g * (1 - e)) * (1 / (g * g * e * (1 - e)) * (g * (1 - e)))
      - p * p - 1 / (g * g * e * (1 - e)) ≤ 0 := by
  have h1 : 0 < 1 - e := by linarith
  have he0 : 0 < e := by linarith
  have hI : 0 < g * g * e * (1 - e) := mul_pos (mul_pos (mul_pos hg hg) he0) h1
  have key : 1 / (g * g * e * (1 - e)) * (g * (1 - e))
      * (1 / (g * g * e * (1 - e)) * (g * (1 - e))) - 1 / (g * g * e * (1 - e))
      = (1 - 2 * e) / (g * g * e * e * e * (1 - e)) * e := by
    field_simp
    ring
  have hden : 0 < g * g * e * e * e * (1 - e) := by positivity
  have : (1 - 2 * e) / (g * g * e * e * e * (1 - e)) * e ≤ 0 :=
    mul_nonpos_of_nonpos_of_nonneg
      (div_nonpos_of_nonpos_of_nonneg (by linarith) (le_of_lt hden)) (le_of_lt he0)
  nlinarith [mul_self_nonneg p]

/-- The exponential of half the logarithm of `s * s` is `s`, for positive `s`. -/
theorem exp_half_log (s : ℝ) (hs : 0 < s) : Real.exp (Real.log (s * s) / 2) = s := by
  rw [Real.log_mul (ne_of_gt hs) (ne_of_gt hs)]
  have : (Real.log s + Real.log s) / 2 = Real.log s := by ring
  rw [this, Real.exp_log hs]

/-- A draw between two ratings of deviation 350 at the default volatility: the solver returns
for every fuel of at least 3. -/
theorem draw_conv (n : ℕ) (j : ℝ × ℝ × ℝ) :
    ∃ A, Rating.Convergence (n + 3) 0
      (1 / ((Rating.init 1500 350 kDefaultS j).G * (Rating.init 1500 350 kDefaultS j).G
        * (1 / 2) * (1 - 1 / 2))) (350 / kScale) kDefaultS = some A := by
  have hs : kDefaultS ≠ 0 := by norm_num [kDefaultS]
  obtain ⟨hβ, hw⟩ := draw_beta_w _ (default_G kDefaultS j)
  have hX : Bnd (kDefaultS * kDefaultS) 0.0036 0.0036 := by
    constructor <;> norm_num [kDefaultS]
  obtain ⟨h1, h2, h3, h4, h5, -⟩ := draw_trace _ _ _ hX hβ hw
  have h0 : ¬ (0 * 0 - 350 / kScale * (350 / kScale)
      - 1 / ((Rating.init 1500 350 kDefaultS j).G * (Rating.init 1500 350 kDefaultS j).G
        * (1 / 2) * (1 - 1 / 2)) > 0) := not_lt.mpr (le_trans hβ.2 (by norm_num))
  exact ⟨_, Convergence_two_step n 0 _ (350 / kScale) kDefaultS hs h0 h1 h2 h3 h4 h5⟩

/-- The pending deviation `1 / sqrt(1 / (p^2 + y) + invV)` against the committed `p`. -/
theorem pPrime_lt_iff {p y invV : ℝ} (hp : 0 < p) (hy : 0 < y) (hI : 0 < invV) :
    (1 / Real.sqrt (1 / (p * p + y) + invV) < p ↔ y < invV * (p * p) * (p * p + y)) ∧
    1 / Real.sqrt (1 / (p * p + y) + invV) < Real.sqrt (p * p + y) := by
  have hP : 0 < p * p + y := by positivity
  have hq : 0 < 1 / (p * p + y) + invV := by positivity
  have hsq : 0 < Real.sqrt (1 / (p * p + y) + invV) := Real.sqrt_pos.mpr hq
  have hqP : (1 / (p * p + y) + invV) * (p * p + y) = 1 + invV * (p * p + y) := by
    field_simp
  have hx : 0 < p * Real.sqrt (1 / (p * p + y) + invV) := mul_pos hp hsq
  have hxx : p * Real.sqrt (1 / (p * p + y) + invV)
      * (p * Real.sqrt (1 / (p * p + y) + invV)) = p * p * (1 / (p * p + y) + invV) := by
    calc p * Real.sqrt (1 / (p * p + y) + invV)
          * (p * Real.sqrt (1 / (p * p + y) + invV))
        = p * p * (Real.sqrt (1 / (p * p + y) + invV)
          * Real.sqrt (1 / (p * p + y) + invV)) := by ring
      _ = p * p * (1 / (p * p + y) + invV) := by rw [Real.mul_self_sqrt (le_of_lt hq)]
  have hPq : p * p * (1 / (p * p + y) + invV) * (p * p + y)
      = p * p + invV * (p * p) * (p * p + y) := by
    rw [mul_assoc, hqP]; ring
  have hmid : 1 < p * p * (1 / (p * p + y) + invV) ↔ y < invV * (p * p) * (p * p + y) := by
    constructor
    · intro h
      have h3 := mul_lt_mul_of_pos_right h hP
      rw [hPq] at h3
      linarith
    · intro h
      have h3 : 1 * (p * p + y) < p * p * (1 / (p * p + y) + invV) * (p * p + y) := by
        rw [hPq]; linarith
      exact lt_of_mul_lt_mul_right h3 (le_of_lt hP)
  constructor
  · rw [div_lt_iff₀ hsq, ← hmid, ← hxx]
    constructor
    · intro h
      nlinarith
    · intro h
      by_contra hcon
      push_neg at hcon
      nlinarith
  · rw [div_lt_iff₀ hsq, ← Real.sqrt_mul (le_of_lt hP)]
    have h1 : (1:ℝ) < (p * p + y) * (1 / (p * p + y) + invV) := by
      rw [mul_comm, hqP]
      have := mul_pos hI hP
      linarith
    calc (1:ℝ) = Real.sqrt 1 := Real.sqrt_one.symm
      _ < Real.sqrt ((p * p + y) * (1 / (p * p + y) + invV)) :=
        Real.sqrt_lt_sqrt (by norm_num) h1

/-! ## More numerical scenarios -/

/-- Quotient of a nonnegative by a negative quantity. -/
theorem Bnd.div_pn {x y a b c d : ℝ} (hx : Bnd x a b) (hy : Bnd y c d) (ha : 0 ≤ a)
    (hd : d < 0) : Bnd (x / y) (b / d) (a / c) := by
  have h := Bnd.div_np (Bnd.neg hx) (Bnd.neg hy) (by linarith) (by linarith)
  rwa [neg_div_neg_eq, neg_div_neg_eq, neg_div_neg_eq] at h

/-- Quotient of a nonpositive by a negative quantity. -/
theorem Bnd.div_nn {x y a b c d : ℝ} (hx : Bnd x a b) (hy : Bnd y c d) (hb : b ≤ 0)
    (hd : d < 0) : Bnd (x / y) (b / c) (a / d) := by
  have h := Bnd.div_pp (Bnd.neg hx) (Bnd.neg hy) (by linarith) (by linarith)
  rwa [neg_div_neg_eq, neg_div_neg_eq, neg_div_neg_eq] at h

/-- Value of `G()` for a rating of deviation 350, to 24 decimals. -/
theorem opp350_G (R s : ℝ) (j : ℝ × ℝ × ℝ) :
    Bnd (Rating.init R 350 s j).G 0.669069412581204108245062 0.669069412581204108246241 := by
  have h1 : Bnd ((350 : ℝ) / kScale) 2.014761872416067898626392 2.014761872416067898626393 := ⟨by norm_num [kScale], by norm_num [kScale]⟩
  have h2 := Bnd.weaken 0.641318622296199554898563 0.641318622296199554900606 (Bnd.div_pp h1 Bnd.pi (by norm_num) (by norm_num)) (by norm_num) (by norm_num)
  have h3 := Bnd.const (3 : ℝ)
  have h4 := Bnd.weaken 1.923955866888598664695689 1.923955866888598664701818 (Bnd.mul_pp h3 h2 (by norm_num) (by norm_num)) (by norm_num) (by norm_num)
  have h5 := Bnd.weaken 1.233868725911686394570561 1.233868725911686394578423 (Bnd.mul_pp h4 h2 (by norm_num) (by norm_num)) (by norm_num) (by norm_num)
  have h6 := Bnd.const (1 : ℝ)
  have h7 := Bnd.weaken 2.233868725911686394570561 2.233868725911686394578423 (Bnd.add h6 h5) (by norm_num) (by norm_num)
  have h8 := Bnd.sqrt 1.494613236229254860726391 1.494613236229254860729022 h7 (by norm_num) (by norm_num) (by norm_num)
  have h9 := Bnd.weaken 0.669069412581204108245062 0.669069412581204108246241 (Bnd.inv_p h8 (by norm_num)) (by norm_num) (by norm_num)
  exact h9

/-- Expected score of `Rating(1500, 50)` against an opponent rated 1499.9999 of deviation 350. -/
theorem winLo_E (g s0 s1 : ℝ) (j0 j1 : ℝ × ℝ × ℝ) (hG : Bnd g 0.669069412581204108245062 0.669069412581204108246241) :
    Bnd ((Rating.init 1499.9999 350 s1 j1).E g (Rating.init 1500 50 s0 j0))
      0.500000096286824462029198 0.5000000962868244620292 := by
  have h1 := Bnd.const (-1 : ℝ)
  have h2 := Bnd.weaken (-0.669069412581204108246241) (-0.669069412581204108245062) (Bnd.mul_np h1 hG (by norm_num) (by norm_num)) (by norm_num) (by norm_num)
  have h3 : Bnd (((1500 : ℝ) - kDefaultR) / kScale - ((1499.9999 : ℝ) - kDefaultR) / kScale) 0.000000575646249261733685 0.000000575646249261733686 := ⟨by norm_num [kDefaultR, kScale], by norm_num [kDefaultR, kScale]⟩
  have h4 := Bnd.weaken (-0.000000385147297848121557) (-0.000000385147297848121555) (Bnd.mul_np h2 h3 (by norm_num) (by norm_num)) (by norm_num) (by norm_num)
  have h5 := Bnd.exp 4 0.00000039 0.99999961485277632108944 0.999999614852776321089443 h4 (by norm_num) (by norm_num) (by norm_num) (by norm_num)
    (by norm_num [expSum, expErr, Finset.sum_range_succ, Nat.factorial])
    (by norm_num [expSum, expErr, Finset.sum_range_succ, Nat.factorial])
  have h6 := Bnd.const (1 : ℝ)
  have h7 := Bnd.weaken 1.99999961485277632108944 1.999999614852776321089443 (Bnd.add h6 h5) (by norm_num) (by norm_num)
  have h8 := Bnd.weaken 0.500000096286824462029198 0.5000000962868244620292 (Bnd.inv_p h7 (by norm_num)) (by norm_num) (by norm_num)
  exact h8

/-- The quantities `invV`, `dInner`, `dS - pS - v` and `pS + v` of a win of `Rating(1500, 50)` against an opponent rated 1499.9999 of deviation 350. -/
theorem winLo_beta_w (g e : ℝ) (hG : Bnd g 0.669069412581204108245062 0.669069412581204108246241)
    (hE : Bnd e 0.500000096286824462029198 0.5000000962868244620292) :
    Bnd (g * g * e * (1 - e)) 0.111913469712935231294795 0.111913469712935231295192 ∧
    Bnd (g * (1 - e)) 0.334534641868032972003139 0.334534641868032972003731 ∧
    Bnd (1 / (g * g * e * (1 - e)) * (g * (1 - e)) * (1 / (g * g * e * (1 - e)) * (g * (1 - e))) - 50 / kScale * (50 / kScale) - 1 / (g * g * e * (1 - e)))
      (-0.08284559254562689967925) (-0.082845592545626899552515) ∧
    Bnd (50 / kScale * (50 / kScale) + 1 / (g * g * e * (1 - e))) 9.01831705471935245424977 9.018317054719352454281471 := by
  have h1 := Bnd.const (1 : ℝ)
  have h2 := Bnd.weaken 0.447653878851757526248814 0.447653878851757526250392 (Bnd.mul_pp hG hG (by norm_num) (by norm_num)) (by norm_num) (by norm_num)
  have h3 := Bnd.weaken 0.223826982529049215870068 0.223826982529049215870859 (Bnd.mul_pp h2 hE (by norm_num) (by norm_num)) (by norm_num) (by norm_num)
  have h4 := Bnd.weaken 0.4999999037131755379708 0.499999903713175537970802 (Bnd.sub h1 hE) (by norm_num) (by norm_num)
  have h5 := Bnd.weaken 0.111913469712935231294795 0.111913469712935231295192 (Bnd.mul_pp h3 h4 (by norm_num) (by norm_num)) (by norm_num) (by norm_num)
  have h6 := Bnd.weaken 8.935474903647076946886417 8.935474903647076946918116 (Bnd.inv_p h5 (by norm_num)) (by norm_num) (by norm_num)
  have h7 := Bnd.const (1 : ℝ)
  have h8 := Bnd.weaken 0.4999999037131755379708 0.499999903713175537970802 (Bnd.sub h7 hE) (by norm_num) (by norm_num)
  have h9 := Bnd.weaken 0.334534641868032972003139 0.334534641868032972003731 (Bnd.mul_pp hG h8 (by norm_num) (by norm_num)) (by norm_num) (by norm_num)
  have h10 := Bnd.weaken 2.989225896812371313998257 2.989225896812371314014153 (Bnd.mul_pp h6 h9 (by norm_num) (by norm_num)) (by norm_num) (by norm_num)
  have h11 := Bnd.weaken 8.935471462173725554602221 8.935471462173725554697255 (Bnd.mul_pp h10 h10 (by norm_num) (by norm_num)) (by norm_num) (by norm_num)
  have h12 : Bnd ((50 : ℝ) / kScale) 0.287823124630866842660913 0.287823124630866842660914 := ⟨by norm_num [kScale], by norm_num [kScale]⟩
  have h13 := Bnd.weaken 0.082842151072275507363353 0.082842151072275507363355 (Bnd.mul_pp h12 h12 (by norm_num) (by norm_num)) (by norm_num) (by norm_num)
  have h14 := Bnd.weaken 8.852629311101450047238866 8.852629311101450047333902 (Bnd.sub h11 h13) (by norm_num) (by norm_num)
  have h15 := Bnd.weaken (-0.08284559254562689967925) (-0.082845592545626899552515) (Bnd.sub h14 h6) (by norm_num) (by norm_num)
  have h16 := Bnd.weaken 9.01831705471935245424977 9.018317054719352454281471 (Bnd.add h13 h6) (by norm_num) (by norm_num)
  exact ⟨h5, h9, h15, h16⟩

/-- Expected score of `Rating(1500, 50)` against an opponent rated 1500.0001 of deviation 350. -/
theorem winHi_E (g s0 s1 : ℝ) (j0 j1 : ℝ × ℝ × ℝ) (hG : Bnd g 0.669069412581204108245062 0.669069412581204108246241) :
    Bnd ((Rating.init 1500.0001 350 s1 j1).E g (Rating.init 1500 50 s0 j0))
      0.4999999037131755379708 0.499999903713175537970802 := by
  have h1 := Bnd.const (-1 : ℝ)
  have h2 := Bnd.weaken (-0.669069412581204108246241) (-0.669069412581204108245062) (Bnd.mul_np h1 hG (by norm_num) (by norm_num)) (by norm_num) (by norm_num)
  have h3 : Bnd (((1500 : ℝ) - kDefaultR) / kScale - ((1500.0001 : ℝ) - kDefaultR) / kScale) (-0.000000575646249261733686) (-0.000000575646249261733685) := ⟨by norm_num [kDefaultR, kScale], by norm_num [kDefaultR, kScale]⟩
  have h4 := Bnd.weaken 0.000000385147297848121555 0.000000385147297848121557 (Bnd.mul_nn h2 h3 (by norm_num) (by norm_num)) (by norm_num) (by norm_num)
  have h5 := Bnd.exp 4 0.00000039 1.000000385147372017351596 1.000000385147372017351599 h4 (by norm_num) (by norm_num) (by norm_num) (by norm_num)
    (by norm_num [expSum, expErr, Finset.sum_range_succ, Nat.factorial])
    (by norm_num [expSum, expErr, Finset.sum_range_succ, Nat.factorial])
  have h6 := Bnd.const (1 : ℝ)
  have h7 := Bnd.weaken 2.000000385147372017351596 2.000000385147372017351599 (Bnd.add h6 h5) (by norm_num) (by norm_num)
  have h8 := Bnd.weaken 0.4999999037131755379708 0.499999903713175537970802 (Bnd.inv_p h7 (by norm_num)) (by norm_num) (by norm_num)
  exact h8

/-- The quantities `invV`, `dInner`, `dS - pS - v` and `pS + v` of a win of `Rating(1500, 50)` against an opponent rated 1500.0001 of deviation 350. -/
theorem winHi_beta_w (g e : ℝ) (hG : Bnd g 0.669069412581204108245062 0.669069412581204108246241)
    (hE : Bnd e 0.4999999037131755379708 0.499999903713175537970802) :
    Bnd (g * g * e * (1 - e)) 0.111913469712935231294795 0.111913469712935231295192 ∧
    Bnd (g * (1 - e)) 0.33453477071317113624192 0.334534770713171136242512 ∧
    Bnd (1 / (g * g * e * (1 - e)) * (g * (1 - e)) * (1 / (g * g * e * (1 - e)) * (g * (1 - e))) - 50 / kScale * (50 / kScale) - 1 / (g * g * e * (1 - e)))
      (-0.082838709597598640757041) (-0.082838709597598640630312) ∧
    Bnd (50 / kScale * (50 / kScale) + 1 / (g * g * e * (1 - e))) 9.01831705471935245424977 9.018317054719352454281471 := by
  have h1 := Bnd.const (1 : ℝ)
  have h2 := Bnd.weaken 0.447653878851757526248814 0.447653878851757526250392 (Bnd.mul_pp hG hG (by norm_num) (by norm_num)) (by norm_num) (by norm_num)
  have h3 := Bnd.weaken 0.223826896322708310378744 0.223826896322708310379535 (Bnd.mul_pp h2 hE (by norm_num) (by norm_num)) (by norm_num) (by norm_num)
  have h4 := Bnd.weaken 0.500000096286824462029198 0.5000000962868244620292 (Bnd.sub h1 hE) (by norm_num) (by norm_num)
  have h5 := Bnd.weaken 0.111913469712935231294795 0.111913469712935231295192 (Bnd.mul_pp h3 h4 (by norm_num) (by norm_num)) (by norm_num) (by norm_num)
  have h6 := Bnd.weaken 8.935474903647076946886417 8.935474903647076946918116 (Bnd.inv_p h5 (by norm_num)) (by norm_num) (by norm_num)
  have h7 := Bnd.const (1 : ℝ)
  have h8 := Bnd.weaken 0.500000096286824462029198 0.5000000962868244620292 (Bnd.sub h7 hE) (by norm_num) (by norm_num)
  have h9 := Bnd.weaken 0.33453477071317113624192 0.334534770713171136242512 (Bnd.mul_pp hG h8 (by norm_num) (by norm_num)) (by norm_num) (by norm_num)
  have h10 := Bnd.weaken 2.989227048104869837494096 2.989227048104869837509991 (Bnd.mul_pp h6 h9 (by norm_num) (by norm_num)) (by norm_num) (by norm_num)
  have h11 := Bnd.weaken 8.93547834512175381352443 8.935478345121753813619458 (Bnd.mul_pp h10 h10 (by norm_num) (by norm_num)) (by norm_num) (by norm_num)
  have h12 : Bnd ((50 : ℝ) / kScale) 0.287823124630866842660913 0.287823124630866842660914 := ⟨by norm_num [kScale], by norm_num [kScale]⟩
  have h13 := Bnd.weaken 0.082842151072275507363353 0.082842151072275507363355 (Bnd.mul_pp h12 h12 (by norm_num) (by norm_num)) (by norm_num) (by norm_num)
  have h14 := Bnd.weaken 8.852636194049478306161075 8.852636194049478306256105 (Bnd.sub h11 h13) (by norm_num) (by norm_num)
  have h15 := Bnd.weaken (-0.082838709597598640757041) (-0.082838709597598640630312) (Bnd.sub h14 h6) (by norm_num) (by norm_num)
  have h16 := Bnd.weaken 9.01831705471935245424977 9.018317054719352454281471 (Bnd.add h13 h6) (by norm_num) (by norm_num)
  exact ⟨h5, h9, h15, h16⟩

/-- Expected score of `Rating(1500, 50)` against an opponent rated 1501 of deviation 350. -/
theorem winFar_E (g s0 s1 : ℝ) (j0 j1 : ℝ × ℝ × ℝ) (hG : Bnd g 0.669069412581204108245062 0.669069412581204108246241) :
    Bnd ((Rating.init 1501 350 s1 j1).E g (Rating.init 1500 50 s0 j0))
      0.499037132945631049956776 0.499037132945631049956779 := by
  have h1 := Bnd.const (-1 : ℝ)
  have h2 := Bnd.weaken (-0.669069412581204108246241) (-0.669069412581204108245062) (Bnd.mul_np h1 hG (by norm_num) (by norm_num)) (by norm_num) (by norm_num)
  have h3 : Bnd (((1500 : ℝ) - kDefaultR) / kScale - ((1501 : ℝ) - kDefaultR) / kScale) (-0.005756462492617336853219) (-0.005756462492617336853218) := ⟨by norm_num [kDefaultR, kScale], by norm_num [kDefaultR, kScale]⟩
  have h4 := Bnd.weaken 0.003851472978481215559056 0.003851472978481215559064 (Bnd.mul_nn h2 h3 (by norm_num) (by norm_num)) (by norm_num) (by norm_num)
  have h5 := Bnd.exp 9 0.0039 1.003858899431733679018368 1.003858899431733679018377 h4 (by norm_num) (by norm_num) (by norm_num) (by norm_num)
    (by norm_num [expSum, expErr, Finset.sum_range_succ, Nat.factorial])
    (by norm_num [expSum, expErr, Finset.sum_range_succ, Nat.factorial])
  have h6 := Bnd.const (1 : ℝ)
  have h7 := Bnd.weaken 2.003858899431733679018368 2.003858899431733679018377 (Bnd.add h6 h5) (by norm_num) (by norm_num)
  have h8 := Bnd.weaken 0.499037132945631049956776 0.499037132945631049956779 (Bnd.inv_p h7 (by norm_num)) (by norm_num) (by norm_num)
  exact h8

/-- The quantities `invV`, `dInner`, `dS - pS - v` and `pS + v` of a win of `Rating(1500, 50)` against an opponent rated 1501 of deviation 350. -/
theorem winFar_beta_w (g e : ℝ) (hG : Bnd g 0.669069412581204108245062 0.669069412581204108246241)
    (hE : Bnd e 0.499037132945631049956776 0.499037132945631049956779) :
    Bnd (g * g * e * (1 - e)) 0.111913054687224739012962 0.11191305468722473901336 ∧
    Bnd (g * (1 - e)) 0.335178931185062481846699 0.335178931185062481847292 ∧
    Bnd (1 / (g * g * e * (1 - e)) * (g * (1 - e)) * (1 / (g * g * e * (1 - e)) * (g * (1 - e))) - 50 / kScale * (50 / kScale) - 1 / (g * g * e * (1 - e)))
      (-0.048360924172352582785737) (-0.048360924172352582658403) ∧
    Bnd (50 / kScale * (50 / kScale) + 1 / (g * g * e * (1 - e))) 9.018350191620412267910758 9.018350191620412267942539 := by
  have h1 := Bnd.const (1 : ℝ)
  have h2 := Bnd.weaken 0.447653878851757526248814 0.447653878851757526250392 (Bnd.mul_pp hG hG (by norm_num) (by norm_num)) (by norm_num) (by norm_num)
  have h3 := Bnd.weaken 0.223395908254171936534433 0.223395908254171936535223 (Bnd.mul_pp h2 hE (by norm_num) (by norm_num)) (by norm_num) (by norm_num)
  have h4 := Bnd.weaken 0.500962867054368950043221 0.500962867054368950043224 (Bnd.sub h1 hE) (by norm_num) (by norm_num)
  have h5 := Bnd.weaken 0.111913054687224739012962 0.11191305468722473901336 (Bnd.mul_pp h3 h4 (by norm_num) (by norm_num)) (by norm_num) (by norm_num)
  have h6 := Bnd.weaken 8.935508040548136760547405 8.935508040548136760579184 (Bnd.inv_p h5 (by norm_num)) (by norm_num) (by norm_num)
  have h7 := Bnd.const (1 : ℝ)
  have h8 := Bnd.weaken 0.500962867054368950043221 0.500962867054368950043224 (Bnd.sub h7 hE) (by norm_num) (by norm_num)
  have h9 := Bnd.weaken 0.335178931185062481846699 0.335178931185062481847292 (Bnd.mul_pp hG h8 (by norm_num) (by norm_num)) (by norm_num) (by norm_num)
  have h10 := Bnd.weaken 2.994994034626456427987054 2.994994034626456428003006 (Bnd.mul_pp h6 h9 (by norm_num) (by norm_num)) (by norm_num) (by norm_num)
  have h11 := Bnd.weaken 8.969989267448059685156802 8.969989267448059685252355 (Bnd.mul_pp h10 h10 (by norm_num) (by norm_num)) (by norm_num) (by norm_num)
  have h12 : Bnd ((50 : ℝ) / kScale) 0.287823124630866842660913 0.287823124630866842660914 := ⟨by norm_num [kScale], by norm_num [kScale]⟩
  have h13 := Bnd.weaken 0.082842151072275507363353 0.082842151072275507363355 (Bnd.mul_pp h12 h12 (by norm_num) (by norm_num)) (by norm_num) (by norm_num)
  have h14 := Bnd.weaken 8.887147116375784177793447 8.887147116375784177889002 (Bnd.sub h11 h13) (by norm_num) (by norm_num)
  have h15 := Bnd.weaken (-0.048360924172352582785737) (-0.048360924172352582658403) (Bnd.sub h14 h6) (by norm_num) (by norm_num)
  have h16 := Bnd.weaken 9.018350191620412267910758 9.018350191620412267942539 (Bnd.add h13 h6) (by norm_num) (by norm_num)
  exact ⟨h5, h9, h15, h16⟩

/-- The quantities `invV`, `dInner`, `dS - pS - v` and `pS + v` of a loss of `Rating(1500, 50)` against an opponent rated 1499.9999 of deviation 350. -/
theorem lossLo_beta_w (g e : ℝ) (hG : Bnd g 0.669069412581204108245062 0.669069412581204108246241)
    (hE : Bnd e 0.500000096286824462029198 0.5000000962868244620292) :
    Bnd (g * g * e * (1 - e)) 0.111913469712935231294795 0.111913469712935231295192 ∧
    Bnd (g * (0 - e)) (-0.334534770713171136242512) (-0.33453477071317113624192) ∧
    Bnd (1 / (g * g * e * (1 - e)) * (g * (0 - e)) * (1 / (g * g * e * (1 - e)) * (g * (0 - e))) - 50 / kScale * (50 / kScale) - 1 / (g * g * e * (1 - e)))
      (-0.082838709597598640757041) (-0.082838709597598640630312) ∧
    Bnd (50 / kScale * (50 / kScale) + 1 / (g * g * e * (1 - e))) 9.01831705471935245424977 9.018317054719352454281471 := by
  have h1 := Bnd.const (1 : ℝ)
  have h2 := Bnd.weaken 0.447653878851757526248814 0.447653878851757526250392 (Bnd.mul_pp hG hG (by norm_num) (by norm_num)) (by norm_num) (by norm_num)
  have h3 := Bnd.weaken 0.223826982529049215870068 0.223826982529049215870859 (Bnd.mul_pp h2 hE (by norm_num) (by norm_num)) (by norm_num) (by norm_num)
  have h4 := Bnd.weaken 0.4999999037131755379708 0.499999903713175537970802 (Bnd.sub h1 hE) (by norm_num) (by norm_num)
  have h5 := Bnd.weaken 0.111913469712935231294795 0.111913469712935231295192 (Bnd.mul_pp h3 h4 (by norm_num) (by norm_num)) (by norm_num) (by norm_num)
  have h6 := Bnd.weaken 8.935474903647076946886417 8.935474903647076946918116 (Bnd.inv_p h5 (by norm_num)) (by norm_num) (by norm_num)
  have h7 := Bnd.const (0 : ℝ)
  have h8 := Bnd.weaken (-0.5000000962868244620292) (-0.500000096286824462029198) (Bnd.sub h7 hE) (by norm_num) (by norm_num)
  have h9 := Bnd.weaken (-0.334534770713171136242512) (-0.33453477071317113624192) (Bnd.mul_pn hG h8 (by norm_num) (by norm_num)) (by norm_num) (by norm_num)
  have h10 := Bnd.weaken (-2.989227048104869837509991) (-2.989227048104869837494096) (Bnd.mul_pn h6 h9 (by norm_num) (by norm_num)) (by norm_num) (by norm_num)
  have h11 := Bnd.weaken 8.93547834512175381352443 8.935478345121753813619458 (Bnd.mul_nn h10 h10 (by norm_num) (by norm_num)) (by norm_num) (by norm_num)
  have h12 : Bnd ((50 : ℝ) / kScale) 0.287823124630866842660913 0.287823124630866842660914 := ⟨by norm_num [kScale], by norm_num [kScale]⟩
  have h13 := Bnd.weaken 0.082842151072275507363353 0.082842151072275507363355 (Bnd.mul_pp h12 h12 (by norm_num) (by norm_num)) (by norm_num) (by norm_num)
  have h14 := Bnd.weaken 8.852636194049478306161075 8.852636194049478306256105 (Bnd.sub h11 h13) (by norm_num) (by norm_num)
  have h15 := Bnd.weaken (-0.082838709597598640757041) (-0.082838709597598640630312) (Bnd.sub h14 h6) (by norm_num) (by norm_num)
  have h16 := Bnd.weaken 9.01831705471935245424977 9.018317054719352454281471 (Bnd.add h13 h6) (by norm_num) (by norm_num)
  exact ⟨h5, h9, h15, h16⟩

/-- The loop of the solver for a win of `Rating(1500, 50, 0.89966)` against an opponent rated 1499.9999 of deviation 350: it exits with the offset `δ` of the result from `log(s * s)` in this interval. -/
theorem winLo_trace (n : ℕ) (s dS pS v : ℝ) (hs : s ≠ 0)
    (hX : Bnd (s * s) 0.8093881156 0.8093881156)
    (hβ : Bnd (dS - pS - v) (-0.08284559254562689967925) (-0.082845592545626899552515))
    (hw : Bnd (pS + v) 9.01831705471935245424977 9.018317054719352454281471) :
    ∃ δ, Rating.Convergence.iterate dS pS v (Real.log (s * s)) (kSystemConst * kSystemConst)
        (n + 4) (Real.log (s * s) + 0) (Real.log (s * s) + -(1 / 2))
        (trF (s * s) (dS - pS - v) (pS + v) 0) (trF (s * s) (dS - pS - v) (pS + v) (-(1 / 2))) = some (Real.log (s * s) + δ) ∧
      ¬ (trF (s * s) (dS - pS - v) (pS + v) (-(1 / 2)) < 0) ∧
      Bnd δ (-0.000932615108319743919534) (-0.000932615108319743917769) ∧
      Bnd (s * s * Real.exp δ) 0.808633619896629591027228 0.808633619896629591028657 := by
  have h1 := Bnd.const (0 : ℝ)
  have h2 := Bnd.const (-(1 / 2) : ℝ)
  have h3 := Bnd.exp 5 0.000001 0.999999999999999999999999 1.000000000000000000000001 h1 (by norm_num) (by norm_num) (by norm_num) (by norm_num)
    (by norm_num [expSum, expErr, Finset.sum_range_succ, Nat.factorial])
    (by norm_num [expSum, expErr, Finset.sum_range_succ, Nat.factorial])
  have h4 := Bnd.const (4 : ℝ)
  have h5 := Bnd.weaken 0.809388115599999999999999 0.809388115600000000000001 (Bnd.mul_pp hX h3 (by norm_num) (by norm_num)) (by norm_num) (by norm_num)
  have h6 := Bnd.weaken (-0.892233708145626899679251) (-0.892233708145626899552514) (Bnd.sub hβ h5) (by norm_num) (by norm_num)
  have h7 := Bnd.weaken (-0.722163359710789326712061) (-0.722163359710789326609478) (Bnd.mul_pn h5 h6 (by norm_num) (by norm_num)) (by norm_num) (by norm_num)
  have h8 := Bnd.weaken 9.827705170319352454249769 9.827705170319352454281472 (Bnd.add hw h5) (by norm_num) (by norm_num)
  have h9 := Bnd.const (2 : ℝ)
  have h10 := Bnd.weaken 19.655410340638704908499538 19.655410340638704908562944 (Bnd.mul_pp h9 h8 (by norm_num) (by norm_num)) (by norm_num) (by norm_num)
  have h11 := Bnd.weaken 193.167577829443464862934545 193.167577829443464864180817 (Bnd.mul_pp h10 h8 (by norm_num) (by norm_num)) (by norm_num) (by norm_num)
  have h12 := Bnd.weaken (-0.003738532976524769377622) (-0.003738532976524769377066) (Bnd.div_np h7 h11 (by norm_num) (by norm_num)) (by norm_num) (by norm_num)
  have h13 := Bnd.weaken 0 0 (Bnd.mul_pp h4 h1 (by norm_num) (by norm_num)) (by norm_num) (by norm_num)
  have h14 := Bnd.weaken (-0.003738532976524769377622) (-0.003738532976524769377066) (Bnd.sub h12 h13) (by norm_num) (by norm_num)
  have h15 : Bnd (trF (s * s) (dS - pS - v) (pS + v) 0) (-0.003738532976524769377622) (-0.003738532976524769377066) := h14
  obtain ⟨fA0, efA0⟩ : ∃ x : ℝ, x = trF (s * s) (dS - pS - v) (pS + v) 0 := ⟨_, rfl⟩
  have h16 : Bnd fA0 (-0.003738532976524769377622) (-0.003738532976524769377066) := by rw [efA0]; exact h15
  have h17 := Bnd.exp 21 0.5 0.606530659712633423603799 0.6065306597126334236038 h2 (by norm_num) (by norm_num) (by norm_num) (by norm_num)
    (by norm_num [expSum, expErr, Finset.sum_range_succ, Nat.factorial])
    (by norm_num [expSum, expErr, Finset.sum_range_succ, Nat.factorial])
  have h18 := Bnd.const (4 : ℝ)
  have h19 := Bnd.weaken 0.490918707718433204244255 0.490918707718433204244257 (Bnd.mul_pp hX h17 (by norm_num) (by norm_num)) (by norm_num) (by norm_num)
  have h20 := Bnd.weaken (-0.573764300264060103923507) (-0.57376430026406010379677) (Bnd.sub hβ h19) (by norm_num) (by norm_num)
  have h21 := Bnd.weaken (-0.281671628820603469508087) (-0.281671628820603469445867) (Bnd.mul_pn h19 h20 (by norm_num) (by norm_num)) (by norm_num) (by norm_num)
  have h22 := Bnd.weaken 9.509235762437785658494025 9.509235762437785658525728 (Bnd.add hw h19) (by norm_num) (by norm_num)
  have h23 := Bnd.const (2 : ℝ)
  have h24 := Bnd.weaken 19.01847152487557131698805 19.018471524875571317051456 (Bnd.mul_pp h23 h22 (by norm_num) (by norm_num)) (by norm_num) (by norm_num)
  have h25 := Bnd.weaken 180.851129571251469447751718 180.851129571251469448957605 (Bnd.mul_pp h24 h22 (by norm_num) (by norm_num)) (by norm_num) (by norm_num)
  have h26 := Bnd.weaken (-0.001557477852023207208773) (-0.001557477852023207208418) (Bnd.div_np h21 h25 (by norm_num) (by norm_num)) (by norm_num) (by norm_num)
  have h27 := Bnd.weaken (-2) (-2) (Bnd.mul_pn h18 h2 (by norm_num) (by norm_num)) (by norm_num) (by norm_num)
  have h28 := Bnd.weaken 1.998442522147976792791227 1.998442522147976792791582 (Bnd.sub h26 h27) (by norm_num) (by norm_num)
  have h29 : Bnd (trF (s * s) (dS - pS - v) (pS + v) (-(1 / 2))) 1.998442522147976792791227 1.998442522147976792791582 := h28
  obtain ⟨fB0, efB0⟩ : ∃ x : ℝ, x = trF (s * s) (dS - pS - v) (pS + v) (-(1 / 2)) := ⟨_, rfl⟩
  have h30 : Bnd fB0 1.998442522147976792791227 1.998442522147976792791582 := by rw [efB0]; exact h29
  have h31 := Bnd.weaken (-0.5) (-0.5) (Bnd.sub h2 h1) (by norm_num) (by norm_num)
  have hw1 : |(-(1 / 2)) - 0| > kConvergence :=
    lt_of_lt_of_le (by norm_num [kConvergence]) (le_trans (neg_le_neg h31.2) (neg_le_abs _))
  have h32 := Bnd.weaken 0.5 0.5 (Bnd.sub h1 h2) (by norm_num) (by norm_num)
  have h33 := Bnd.weaken (-0.001869266488262384688811) (-0.001869266488262384688533) (Bnd.mul_pn h32 h16 (by norm_num) (by norm_num)) (by norm_num) (by norm_num)
  have h34 := Bnd.weaken 2.002181055124501562168293 2.002181055124501562169204 (Bnd.sub h30 h16) (by norm_num) (by norm_num)
  have h35 := Bnd.weaken (-0.000933615111119982178142) (-0.000933615111119982178002) (Bnd.div_np h33 h34 (by norm_num) (by norm_num)) (by norm_num) (by norm_num)
  have h36 := Bnd.weaken (-0.000933615111119982178142) (-0.000933615111119982178002) (Bnd.add h1 h35) (by norm_num) (by norm_num)
  obtain ⟨δ1, eδ1⟩ : ∃ x : ℝ, x = 0 + (0 - (-(1 / 2))) * fA0 / (fB0 - fA0) := ⟨_, rfl⟩
  have h37 : Bnd δ1 (-0.000933615111119982178142) (-0.000933615111119982178002) := by rw [eδ1]; exact h36
  have h38 := Bnd.exp 8 0.00094 0.999066820571870584230692 0.999066820571870584230833 h37 (by norm_num) (by norm_num) (by norm_num) (by norm_num)
    (by norm_num [expSum, expErr, Finset.sum_range_succ, Nat.factorial])
    (by norm_num [expSum, expErr, Finset.sum_range_succ, Nat.factorial])
  have h39 := Bnd.const (4 : ℝ)
  have h40 := Bnd.weaken 0.80863281126114964653755 0.808632811261149646537665 (Bnd.mul_pp hX h38 (by norm_num) (by norm_num)) (by norm_num) (by norm_num)
  have h41 := Bnd.weaken (-0.891478403806776546216915) (-0.891478403806776546090065) (Bnd.sub hβ h40) (by norm_num) (by norm_num)
  have h42 := Bnd.weaken (-0.720878687848876089466357) (-0.720878687848876089363679) (Bnd.mul_pn h40 h41 (by norm_num) (by norm_num)) (by norm_num) (by norm_num)
  have h43 := Bnd.weaken 9.82694986598050210078732 9.826949865980502100819136 (Bnd.add hw h40) (by norm_num) (by norm_num)
  have h44 := Bnd.const (2 : ℝ)
  have h45 := Bnd.weaken 19.65389973196100420157464 19.653899731961004201638272 (Bnd.mul_pp h44 h43 (by norm_num) (by norm_num)) (by norm_num) (by norm_num)
  have h46 := Bnd.weaken 193.137887336988416399779451 193.137887336988416401030069 (Bnd.mul_pp h45 h43 (by norm_num) (by norm_num)) (by norm_num) (by norm_num)
  have h47 := Bnd.weaken (-0.003732456110960153640659) (-0.003732456110960153640103) (Bnd.div_np h42 h46 (by norm_num) (by norm_num)) (by norm_num) (by norm_num)
  have h48 := Bnd.weaken (-0.003734460444479928712568) (-0.003734460444479928712008) (Bnd.mul_pn h39 h37 (by norm_num) (by norm_num)) (by norm_num) (by norm_num)
  have h49 := Bnd.weaken 0.000002004333519775071349 0.000002004333519775072465 (Bnd.sub h47 h48) (by norm_num) (by norm_num)
  have h50 : Bnd (trF (s * s) (dS - pS - v) (pS + v) δ1) 0.000002004333519775071349 0.000002004333519775072465 := h49
  obtain ⟨f1, ef1⟩ : ∃ x : ℝ, x = trF (s * s) (dS - pS - v) (pS + v) δ1 := ⟨_, rfl⟩
  have h51 : Bnd f1 0.000002004333519775071349 0.000002004333519775072465 := by rw [ef1]; exact h50
  have hs1 : ¬ (f1 * fB0 < 0) := not_lt.mpr (le_of_lt (mul_pos (lt_of_lt_of_le (by norm_num) h51.1) (lt_of_lt_of_le (by norm_num) h30.1)))
  have h52 := Bnd.const (2 : ℝ)
  have h53 := Bnd.weaken (-0.001869266488262384688811) (-0.001869266488262384688533) (Bnd.div_np h16 h52 (by norm_num) (by norm_num)) (by norm_num) (by norm_num)
  have h54 := Bnd.weaken (-0.000933615111119982178142) (-0.000933615111119982178002) (Bnd.sub h37 h1) (by norm_num) (by norm_num)
  have hw2 : |δ1 - 0| > kConvergence :=
    lt_of_lt_of_le (by norm_num [kConvergence]) (le_trans (neg_le_neg h54.2) (neg_le_abs _))
  have h55 := Bnd.weaken 0.000933615111119982178002 0.000933615111119982178142 (Bnd.sub h1 h37) (by norm_num) (by norm_num)
  have h56 := Bnd.weaken (-0.000001745175440151945144) (-0.000001745175440151945142) (Bnd.mul_pn h55 h53 (by norm_num) (by norm_num)) (by norm_num) (by norm_num)
  have h57 := Bnd.weaken 0.001871270821782159759882 0.001871270821782159761276 (Bnd.sub h51 h53) (by norm_num) (by norm_num)
  have h58 := Bnd.weaken (-0.000932615108319743919534) (-0.000932615108319743917769) (Bnd.div_np h56 h57 (by norm_num) (by norm_num)) (by norm_num) (by norm_num)
  have h59 := Bnd.weaken (-0.000932615108319743919534) (-0.000932615108319743917769) (Bnd.add h1 h58) (by norm_num) (by norm_num)
  obtain ⟨δ2, eδ2⟩ : ∃ x : ℝ, x = 0 + (0 - δ1) * (fA0 / 2) / (f1 - (fA0 / 2)) := ⟨_, rfl⟩
  have h60 : Bnd δ2 (-0.000932615108319743919534) (-0.000932615108319743917769) := by rw [eδ2]; exact h59
  have h61 := Bnd.exp 8 0.00094 0.999067819641988317609575 0.99906781964198831761134 h60 (by norm_num) (by norm_num) (by norm_num) (by norm_num)
    (by norm_num [expSum, expErr, Finset.sum_range_succ, Nat.factorial])
    (by norm_num [expSum, expErr, Finset.sum_range_succ, Nat.factorial])
  have h62 := Bnd.const (4 : ℝ)
  have h63 := Bnd.weaken 0.808633619896629591027228 0.808633619896629591028657 (Bnd.mul_pp hX h61 (by norm_num) (by norm_num)) (by norm_num) (by norm_num)
  have h64 := Bnd.weaken (-0.891479212442256490707907) (-0.891479212442256490579743) (Bnd.sub hβ h63) (by norm_num) (by norm_num)
  have h65 := Bnd.weaken (-0.720880062619778336270025) (-0.720880062619778336165112) (Bnd.mul_pn h63 h64 (by norm_num) (by norm_num)) (by norm_num) (by norm_num)
  have h66 := Bnd.weaken 9.826950674615982045276998 9.826950674615982045310128 (Bnd.add hw h63) (by norm_num) (by norm_num)
  have h67 := Bnd.const (2 : ℝ)
  have h68 := Bnd.weaken 19.653901349231964090553996 19.653901349231964090620256 (Bnd.mul_pp h67 h66 (by norm_num) (by norm_num)) (by norm_num) (by norm_num)
  have h69 := Bnd.weaken 193.137919122671009252785643 193.137919122671009254087912 (Bnd.mul_pp h68 h66 (by norm_num) (by norm_num)) (by norm_num) (by norm_num)
  have h70 := Bnd.weaken (-0.003732462614769673376868) (-0.003732462614769673376299) (Bnd.div_np h65 h69 (by norm_num) (by norm_num)) (by norm_num) (by norm_num)
  have h71 := Bnd.weaken (-0.003730460433278975678136) (-0.003730460433278975671076) (Bnd.mul_pn h62 h60 (by norm_num) (by norm_num)) (by norm_num) (by norm_num)
  have h72 := Bnd.weaken (-0.000002002181490697705792) (-0.000002002181490697698163) (Bnd.sub h70 h71) (by norm_num) (by norm_num)
  have h73 : Bnd (trF (s * s) (dS - pS - v) (pS + v) δ2) (-0.000002002181490697705792) (-0.000002002181490697698163) := h72
  obtain ⟨f2, ef2⟩ : ∃ x : ℝ, x = trF (s * s) (dS - pS - v) (pS + v) δ2 := ⟨_, rfl⟩
  have h74 : Bnd f2 (-0.000002002181490697705792) (-0.000002002181490697698163) := by rw [ef2]; exact h73
  have hs2 : f2 * f1 < 0 := mul_neg_of_neg_of_pos (lt_of_le_of_lt h74.2 (by norm_num)) (lt_of_lt_of_le (by norm_num) h51.1)
  have h75 := Bnd.weaken 0.000001000002800238258468 0.000001000002800238260373 (Bnd.sub h60 h37) (by norm_num) (by norm_num)
  have hw3 : |δ2 - δ1| > kConvergence :=
    lt_of_lt_of_le (by norm_num [kConvergence]) (le_trans h75.1 (le_abs_self _))
  have h76 := Bnd.weaken (-0.000001000002800238260373) (-0.000001000002800238258468) (Bnd.sub h37 h60) (by norm_num) (by norm_num)
  have h77 := Bnd.weaken (-0.000000000002004339132387) (-0.000000000002004339132386) (Bnd.mul_np h76 h51 (by norm_num) (by norm_num)) (by norm_num) (by norm_num)
  have h78 := Bnd.weaken (-0.000004006515010472778257) (-0.000004006515010472769512) (Bnd.sub h74 h51) (by norm_num) (by norm_num)
  have h79 := Bnd.weaken 0.000000500269967077817895 0.000000500269967078068582 (Bnd.div_nn h77 h78 (by norm_num) (by norm_num)) (by norm_num) (by norm_num)
  have h80 := Bnd.weaken (-0.000933114841152904360247) (-0.00093311484115290410942) (Bnd.add h37 h79) (by norm_num) (by norm_num)
  obtain ⟨δ3, eδ3⟩ : ∃ x : ℝ, x = δ1 + (δ1 - δ2) * f1 / (f2 - f1) := ⟨_, rfl⟩
  have h81 : Bnd δ3 (-0.000933114841152904360247) (-0.00093311484115290410942) := by rw [eδ3]; exact h80
  have h82 := Bnd.exp 8 0.00094 0.999067320375121038527989 0.999067320375121038778583 h81 (by norm_num) (by norm_num) (by norm_num) (by norm_num)
    (by norm_num [expSum, expErr, Finset.sum_range_succ, Nat.factorial])
    (by norm_num [expSum, expErr, Finset.sum_range_succ, Nat.factorial])
  have h83 := Bnd.const (4 : ℝ)
  have h84 := Bnd.weaken 0.808633215795960702496084 0.808633215795960702698912 (Bnd.mul_pp hX h82 (by norm_num) (by norm_num)) (by norm_num) (by norm_num)
  have h85 := Bnd.weaken (-0.891478808341587602378162) (-0.891478808341587602048599) (Bnd.sub hβ h84) (by norm_num) (by norm_num)
  have h86 := Bnd.weaken (-0.720879375603208899843954) (-0.720879375603208899396641) (Bnd.mul_pn h84 h85 (by norm_num) (by norm_num)) (by norm_num) (by norm_num)
  have h87 := Bnd.weaken 9.826950270515313156745854 9.826950270515313156980383 (Bnd.add hw h84) (by norm_num) (by norm_num)
  have h88 := Bnd.const (2 : ℝ)
  have h89 := Bnd.weaken 19.653900541030626313491708 19.653900541030626313960766 (Bnd.mul_pp h88 h87 (by norm_num) (by norm_num)) (by norm_num) (by norm_num)
  have h90 := Bnd.weaken 193.137903238361972859803984 193.137903238361972869022804 (Bnd.mul_pp h89 h87 (by norm_num) (by norm_num)) (by norm_num) (by norm_num)
  have h91 := Bnd.weaken (-0.003732459364610231488723) (-0.003732459364610231486228) (Bnd.div_np h86 h90 (by norm_num) (by norm_num)) (by norm_num) (by norm_num)
  have h92 := Bnd.weaken (-0.003732459364611617440988) (-0.00373245936461161643768) (Bnd.mul_pn h83 h81 (by norm_num) (by norm_num)) (by norm_num) (by norm_num)
  have h93 := Bnd.weaken 0.000000000000001384948957 0.00000000000000138595476 (Bnd.sub h91 h92) (by norm_num) (by norm_num)
  have h94 : Bnd (trF (s * s) (dS - pS - v) (pS + v) δ3) 0.000000000000001384948957 0.00000000000000138595476 := h93
  obtain ⟨f3, ef3⟩ : ∃ x : ℝ, x = trF (s * s) (dS - pS - v) (pS + v) δ3 := ⟨_, rfl⟩
  have h95 : Bnd f3 0.000000000000001384948957 0.00000000000000138595476 := by rw [ef3]; exact h94
  have hs3 : f3 * f2 < 0 := mul_neg_of_pos_of_neg (lt_of_lt_of_le (by norm_num) h95.1) (lt_of_le_of_lt h74.2 (by norm_num))
  have h96 := Bnd.weaken (-0.000000499732833160442478) (-0.000000499732833160189886) (Bnd.sub h81 h60) (by norm_num) (by norm_num)
  have hwx : ¬ (|δ3 - δ2| > kConvergence) := by
    rw [not_lt, abs_le]
    exact ⟨le_trans (by norm_num [kConvergence]) h96.1, le_trans h96.2 (by norm_num [kConvergence])⟩
  have h97 := Bnd.exp 8 0.00094 0.999067819641988317609575 0.99906781964198831761134 h60 (by norm_num) (by norm_num) (by norm_num) (by norm_num)
    (by norm_num [expSum, expErr, Finset.sum_range_succ, Nat.factorial])
    (by norm_num [expSum, expErr, Finset.sum_range_succ, Nat.factorial])
  have h98 := Bnd.weaken 0.808633619896629591027228 0.808633619896629591028657 (Bnd.mul_pp hX h97 (by norm_num) (by norm_num)) (by norm_num) (by norm_num)
  have r4 := iterate_off_exit n s dS pS v δ2 δ3 f2 f3 hwx
  have r3 := iterate_off_swap (n + 1) s dS pS v δ1 δ2 f1 f2 δ3 f3 _ hs hw3 eδ3 ef3 hs3 r4
  have r2 := iterate_off_swap (n + 1 + 1) s dS pS v 0 δ1 (fA0 / 2) f1 δ2 f2 _ hs hw2 eδ2 ef2 hs2 r3
  have r1 := iterate_off_halve (n + 1 + 1 + 1) s dS pS v 0 (-(1 / 2)) fA0 fB0 δ1 f1 _ hs hw1 eδ1 ef1 hs1 r2
  rw [efA0, efB0] at r1
  exact ⟨δ2, r1, not_lt.mpr (le_of_lt (by rw [← efB0]; exact (lt_of_lt_of_le (by norm_num) h30.1))), h60, h98⟩

/-- The loop of the solver for a win of `Rating(1500, 50, 0.89966)` against an opponent rated 1500.0001 of deviation 350: it exits with the offset `δ` of the result from `log(s * s)` in this interval. -/
theorem winHi_trace (n : ℕ) (s dS pS v : ℝ) (hs : s ≠ 0)
    (hX : Bnd (s * s) 0.8093881156 0.8093881156)
    (hβ : Bnd (dS - pS - v) (-0.082838709597598640757041) (-0.082838709597598640630312))
    (hw : Bnd (pS + v) 9.01831705471935245424977 9.018317054719352454281471) :
    ∃ δ, Rating.Convergence.iterate dS pS v (Real.log (s * s)) (kSystemConst * kSystemConst)
        (n + 3) (Real.log (s * s) + 0) (Real.log (s * s) + -(1 / 2))
        (trF (s * s) (dS - pS - v) (pS + v) 0) (trF (s * s) (dS - pS - v) (pS + v) (-(1 / 2))) = some (Real.log (s * s) + δ) ∧
      ¬ (trF (s * s) (dS - pS - v) (pS + v) (-(1 / 2)) < 0) ∧
      Bnd δ (-0.000933607913679776082435) (-0.000933607913679776082294) ∧
      Bnd (s * s * Real.exp δ) 0.808632817081235975221612 0.808632817081235975221728 := by
  have h1 := Bnd.const (0 : ℝ)
  have h2 := Bnd.const (-(1 / 2) : ℝ)
  have h3 := Bnd.exp 5 0.000001 0.999999999999999999999999 1.000000000000000000000001 h1 (by norm_num) (by norm_num) (by norm_num) (by norm_num)
    (by norm_num [expSum, expErr, Finset.sum_range_succ, Nat.factorial])
    (by norm_num [expSum, expErr, Finset.sum_range_succ, Nat.factorial])
  have h4 := Bnd.const (4 : ℝ)
  have h5 := Bnd.weaken 0.809388115599999999999999 0.809388115600000000000001 (Bnd.mul_pp hX h3 (by norm_num) (by norm_num)) (by norm_num) (by norm_num)
  have h6 := Bnd.weaken (-0.892226825197598640757042) (-0.892226825197598640630311) (Bnd.sub hβ h5) (by norm_num) (by norm_num)
  have h7 := Bnd.weaken (-0.722157788734454961487465) (-0.722157788734454961384888) (Bnd.mul_pn h5 h6 (by norm_num) (by norm_num)) (by norm_num) (by norm_num)
  have h8 := Bnd.weaken 9.827705170319352454249769 9.827705170319352454281472 (Bnd.add hw h5) (by norm_num) (by norm_num)
  have h9 := Bnd.const (2 : ℝ)
  have h10 := Bnd.weaken 19.655410340638704908499538 19.655410340638704908562944 (Bnd.mul_pp h9 h8 (by norm_num) (by norm_num)) (by norm_num) (by norm_num)
  have h11 := Bnd.weaken 193.167577829443464862934545 193.167577829443464864180817 (Bnd.mul_pp h10 h8 (by norm_num) (by norm_num)) (by norm_num) (by norm_num)
  have h12 := Bnd.weaken (-0.003738504136403684026044) (-0.003738504136403684025488) (Bnd.div_np h7 h11 (by norm_num) (by norm_num)) (by norm_num) (by norm_num)
  have h13 := Bnd.weaken 0 0 (Bnd.mul_pp h4 h1 (by norm_num) (by norm_num)) (by norm_num) (by norm_num)
  have h14 := Bnd.weaken (-0.003738504136403684026044) (-0.003738504136403684025488) (Bnd.sub h12 h13) (by norm_num) (by norm_num)
  have h15 : Bnd (trF (s * s) (dS - pS - v) (pS + v) 0) (-0.003738504136403684026044) (-0.003738504136403684025488) := h14
  obtain ⟨fA0, efA0⟩ : ∃ x : ℝ, x = trF (s * s) (dS - pS - v) (pS + v) 0 := ⟨_, rfl⟩
  have h16 : Bnd fA0 (-0.003738504136403684026044) (-0.003738504136403684025488) := by rw [efA0]; exact h15
  have h17 := Bnd.exp 21 0.5 0.606530659712633423603799 0.6065306597126334236038 h2 (by norm_num) (by norm_num) (by norm_num) (by norm_num)
    (by norm_num [expSum, expErr, Finset.sum_range_succ, Nat.factorial])
    (by norm_num [expSum, expErr, Finset.sum_range_succ, Nat.factorial])
  have h18 := Bnd.const (4 : ℝ)
  have h19 := Bnd.weaken 0.490918707718433204244255 0.490918707718433204244257 (Bnd.mul_pp hX h17 (by norm_num) (by norm_num)) (by norm_num) (by norm_num)
  have h20 := Bnd.weaken (-0.573757417316031845001298) (-0.573757417316031844874567) (Bnd.sub hβ h19) (by norm_num) (by norm_num)
  have h21 := Bnd.weaken (-0.281668249852652143500128) (-0.281668249852652143437911) (Bnd.mul_pn h19 h20 (by norm_num) (by norm_num)) (by norm_num) (by norm_num)
  have h22 := Bnd.weaken 9.509235762437785658494025 9.509235762437785658525728 (Bnd.add hw h19) (by norm_num) (by norm_num)
  have h23 := Bnd.const (2 : ℝ)
  have h24 := Bnd.weaken 19.01847152487557131698805 19.018471524875571317051456 (Bnd.mul_pp h23 h22 (by norm_num) (by norm_num)) (by norm_num) (by norm_num)
  have h25 := Bnd.weaken 180.851129571251469447751718 180.851129571251469448957605 (Bnd.mul_pp h24 h22 (by norm_num) (by norm_num)) (by norm_num) (by norm_num)
  have h26 := Bnd.weaken (-0.001557459168324856324175) (-0.001557459168324856323819) (Bnd.div_np h21 h25 (by norm_num) (by norm_num)) (by norm_num) (by norm_num)
  have h27 := Bnd.weaken (-2) (-2) (Bnd.mul_pn h18 h2 (by norm_num) (by norm_num)) (by norm_num) (by norm_num)
  have h28 := Bnd.weaken 1.998442540831675143675825 1.998442540831675143676181 (Bnd.sub h26 h27) (by norm_num) (by norm_num)
  have h29 : Bnd (trF (s * s) (dS - pS - v) (pS + v) (-(1 / 2))) 1.998442540831675143675825 1.998442540831675143676181 := h28
  obtain ⟨fB0, efB0⟩ : ∃ x : ℝ, x = trF (s * s) (dS - pS - v) (pS + v) (-(1 / 2)) := ⟨_, rfl⟩
  have h30 : Bnd fB0 1.998442540831675143675825 1.998442540831675143676181 := by rw [efB0]; exact h29
  have h31 := Bnd.weaken (-0.5) (-0.5) (Bnd.sub h2 h1) (by norm_num) (by norm_num)
  have hw1 : |(-(1 / 2)) - 0| > kConvergence :=
    lt_of_lt_of_le (by norm_num [kConvergence]) (le_trans (neg_le_neg h31.2) (neg_le_abs _))
  have h32 := Bnd.weaken 0.5 0.5 (Bnd.sub h1 h2) (by norm_num) (by norm_num)
  have h33 := Bnd.weaken (-0.001869252068201842013022) (-0.001869252068201842012744) (Bnd.mul_pn h32 h16 (by norm_num) (by norm_num)) (by norm_num) (by norm_num)
  have h34 := Bnd.weaken 2.002181044968078827701313 2.002181044968078827702225 (Bnd.sub h30 h16) (by norm_num) (by norm_num)
  have h35 := Bnd.weaken (-0.000933607913679776082435) (-0.000933607913679776082294) (Bnd.div_np h33 h34 (by norm_num) (by norm_num)) (by norm_num) (by norm_num)
  have h36 := Bnd.weaken (-0.000933607913679776082435) (-0.000933607913679776082294) (Bnd.add h1 h35) (by norm_num) (by norm_num)
  obtain ⟨δ1, eδ1⟩ : ∃ x : ℝ, x = 0 + (0 - (-(1 / 2))) * fA0 / (fB0 - fA0) := ⟨_, rfl⟩
  have h37 : Bnd δ1 (-0.000933607913679776082435) (-0.000933607913679776082294) := by rw [eδ1]; exact h36
  have h38 := Bnd.exp 8 0.00094 0.999066827762594313068281 0.999066827762594313068423 h37 (by norm_num) (by norm_num) (by norm_num) (by norm_num)
    (by norm_num [expSum, expErr, Finset.sum_range_succ, Nat.factorial])
    (by norm_num [expSum, expErr, Finset.sum_range_succ, Nat.factorial])
  have h39 := Bnd.const (4 : ℝ)
  have h40 := Bnd.weaken 0.808632817081235975221612 0.808632817081235975221728 (Bnd.mul_pp hX h38 (by norm_num) (by norm_num)) (by norm_num) (by norm_num)
  have h41 := Bnd.weaken (-0.891471526678834615978769) (-0.891471526678834615851924) (Bnd.sub hβ h40) (by norm_num) (by norm_num)
  have h42 := Bnd.weaken (-0.720873131966016248648184) (-0.720873131966016248545508) (Bnd.mul_pn h40 h41 (by norm_num) (by norm_num)) (by norm_num) (by norm_num)
  have h43 := Bnd.weaken 9.826949871800588429471382 9.826949871800588429503199 (Bnd.add hw h40) (by norm_num) (by norm_num)
  have h44 := Bnd.const (2 : ℝ)
  have h45 := Bnd.weaken 19.653899743601176858942764 19.653899743601176859006398 (Bnd.mul_pp h44 h43 (by norm_num) (by norm_num)) (by norm_num) (by norm_num)
  have h46 := Bnd.weaken 193.137887565763202738153443 193.1378875657632027394041 (Bnd.mul_pp h45 h43 (by norm_num) (by norm_num)) (by norm_num) (by norm_num)
  have h47 := Bnd.weaken (-0.003732427340133146443231) (-0.003732427340133146442674) (Bnd.div_np h42 h46 (by norm_num) (by norm_num)) (by norm_num) (by norm_num)
  have h48 := Bnd.weaken (-0.00373443165471910432974) (-0.003734431654719104329176) (Bnd.mul_pn h39 h37 (by norm_num) (by norm_num)) (by norm_num) (by norm_num)
  have h49 := Bnd.weaken 0.000002004314585957885945 0.000002004314585957887066 (Bnd.sub h47 h48) (by norm_num) (by norm_num)
  have h50 : Bnd (trF (s * s) (dS - pS - v) (pS + v) δ1) 0.000002004314585957885945 0.000002004314585957887066 := h49
  obtain ⟨f1, ef1⟩ : ∃ x : ℝ, x = trF (s * s) (dS - pS - v) (pS + v) δ1 := ⟨_, rfl⟩
  have h51 : Bnd f1 0.000002004314585957885945 0.000002004314585957887066 := by rw [ef1]; exact h50
  have hs1 : ¬ (f1 * fB0 < 0) := not_lt.mpr (le_of_lt (mul_pos (lt_of_lt_of_le (by norm_num) h51.1) (lt_of_lt_of_le (by norm_num) h30.1)))
  have h52 := Bnd.const (2 : ℝ)
  have h53 := Bnd.weaken (-0.001869252068201842013022) (-0.001869252068201842012744) (Bnd.div_np h16 h52 (by norm_num) (by norm_num)) (by norm_num) (by norm_num)
  have h54 := Bnd.weaken (-0.000933607913679776082435) (-0.000933607913679776082294) (Bnd.sub h37 h1) (by norm_num) (by norm_num)
  have hw2 : |δ1 - 0| > kConvergence :=
    lt_of_lt_of_le (by norm_num [kConvergence]) (le_trans (neg_le_neg h54.2) (neg_le_abs _))
  have h55 := Bnd.weaken 0.000933607913679776082294 0.000933607913679776082435 (Bnd.sub h1 h37) (by norm_num) (by norm_num)
  have h56 := Bnd.weaken (-0.000001745148523535528233) (-0.000001745148523535528232) (Bnd.mul_pn h55 h53 (by norm_num) (by norm_num)) (by norm_num) (by norm_num)
  have h57 := Bnd.weaken 0.001871256382787799898689 0.001871256382787799900088 (Bnd.sub h51 h53) (by norm_num) (by norm_num)
  have h58 := Bnd.weaken (-0.000932607920319076730265) (-0.000932607920319076729033) (Bnd.div_np h56 h57 (by norm_num) (by norm_num)) (by norm_num) (by norm_num)
  have h59 := Bnd.weaken (-0.000932607920319076730265) (-0.000932607920319076729033) (Bnd.add h1 h58) (by norm_num) (by norm_num)
  obtain ⟨δ2, eδ2⟩ : ∃ x : ℝ, x = 0 + (0 - δ1) * (fA0 / 2) / (f1 - (fA0 / 2)) := ⟨_, rfl⟩
  have h60 : Bnd δ2 (-0.000932607920319076730265) (-0.000932607920319076729033) := by rw [eδ2]; exact h59
  have h61 := Bnd.exp 8 0.00094 0.999067826823288497573111 0.999067826823288497574343 h60 (by norm_num) (by norm_num) (by norm_num) (by norm_num)
    (by norm_num [expSum, expErr, Finset.sum_range_succ, Nat.factorial])
    (by norm_num [expSum, expErr, Finset.sum_range_succ, Nat.factorial])
  have h62 := Bnd.const (4 : ℝ)
  have h63 := Bnd.weaken 0.808633625709088611245855 0.808633625709088611246853 (Bnd.mul_pp hX h61 (by norm_num) (by norm_num)) (by norm_num) (by norm_num)
  have h64 := Bnd.weaken (-0.891472335306687252003894) (-0.891472335306687251876167) (Bnd.sub hβ h63) (by norm_num) (by norm_num)
  have h65 := Bnd.weaken (-0.720874506718394879536806) (-0.720874506718394879432631) (Bnd.mul_pn h63 h64 (by norm_num) (by norm_num)) (by norm_num) (by norm_num)
  have h66 := Bnd.weaken 9.826950680428441065495625 9.826950680428441065528324 (Bnd.add hw h63) (by norm_num) (by norm_num)
  have h67 := Bnd.const (2 : ℝ)
  have h68 := Bnd.weaken 19.65390136085688213099125 19.653901360856882131056648 (Bnd.mul_pp h67 h66 (by norm_num) (by norm_num)) (by norm_num) (by norm_num)
  have h69 := Bnd.weaken 193.13791935114600168001575 193.137919351146001681301076 (Bnd.mul_pp h68 h66 (by norm_num) (by norm_num)) (by norm_num) (by norm_num)
  have h70 := Bnd.weaken (-0.003732433843857278273415) (-0.00373243384385727827285) (Bnd.div_np h65 h69 (by norm_num) (by norm_num)) (by norm_num) (by norm_num)
  have h71 := Bnd.weaken (-0.00373043168127630692106) (-0.003730431681276306916132) (Bnd.mul_pn h62 h60 (by norm_num) (by norm_num)) (by norm_num) (by norm_num)
  have h72 := Bnd.weaken (-0.000002002162580971357283) (-0.00000200216258097135179) (Bnd.sub h70 h71) (by norm_num) (by norm_num)
  have h73 : Bnd (trF (s * s) (dS - pS - v) (pS + v) δ2) (-0.000002002162580971357283) (-0.00000200216258097135179) := h72
  obtain ⟨f2, ef2⟩ : ∃ x : ℝ, x = trF (s * s) (dS - pS - v) (pS + v) δ2 := ⟨_, rfl⟩
  have h74 : Bnd f2 (-0.000002002162580971357283) (-0.00000200216258097135179) := by rw [ef2]; exact h73
  have hs2 : f2 * f1 < 0 := mul_neg_of_neg_of_pos (lt_of_le_of_lt h74.2 (by norm_num)) (lt_of_lt_of_le (by norm_num) h51.1)
  have h75 := Bnd.weaken 0.000000999993360699352029 0.000000999993360699353402 (Bnd.sub h60 h37) (by norm_num) (by norm_num)
  have hwx : ¬ (|δ2 - δ1| > kConvergence) := by
    rw [not_lt, abs_le]
    exact ⟨le_trans (by norm_num [kConvergence]) h75.1, le_trans h75.2 (by norm_num [kConvergence])⟩
  have h76 := Bnd.exp 8 0.00094 0.999066827762594313068281 0.999066827762594313068423 h37 (by norm_num) (by norm_num) (by norm_num) (by norm_num)
    (by norm_num [expSum, expErr, Finset.sum_range_succ, Nat.factorial])
    (by norm_num [expSum, expErr, Finset.sum_range_succ, Nat.factorial])
  have h77 := Bnd.weaken 0.808632817081235975221612 0.808632817081235975221728 (Bnd.mul_pp hX h76 (by norm_num) (by norm_num)) (by norm_num) (by norm_num)
  have r3 := iterate_off_exit n s dS pS v δ1 δ2 f1 f2 hwx
  have r2 := iterate_off_swap (n + 1) s dS pS v 0 δ1 (fA0 / 2) f1 δ2 f2 _ hs hw2 eδ2 ef2 hs2 r3
  have r1 := iterate_off_halve (n + 1 + 1) s dS pS v 0 (-(1 / 2)) fA0 fB0 δ1 f1 _ hs hw1 eδ1 ef1 hs1 r2
  rw [efA0, efB0] at r1
  exact ⟨δ1, r1, not_lt.mpr (le_of_lt (by rw [← efB0]; exact (lt_of_lt_of_le (by norm_num) h30.1))), h37, h77⟩

/-- The loop of the solver for a win of `Rating(1500, 50, 0.89966)` against an opponent rated 1501 of deviation 350: it exits with the offset `δ` of the result from `log(s * s)` in this interval. -/
theorem winFar_trace (n : ℕ) (s dS pS v : ℝ) (hs : s ≠ 0)
    (hX : Bnd (s * s) 0.8093881156 0.8093881156)
    (hβ : Bnd (dS - pS - v) (-0.048360924172352582785737) (-0.048360924172352582658403))
    (hw : Bnd (pS + v) 9.018350191620412267910758 9.018350191620412267942539) :
    ∃ δ, Rating.Convergence.iterate dS pS v (Real.log (s * s)) (kSystemConst * kSystemConst)
        (n + 3) (Real.log (s * s) + 0) (Real.log (s * s) + -(1 / 2))
        (trF (s * s) (dS - pS - v) (pS + v) 0) (trF (s * s) (dS - pS - v) (pS + v) (-(1 / 2))) = some (Real.log (s * s) + δ) ∧
      ¬ (trF (s * s) (dS - pS - v) (pS + v) (-(1 / 2)) < 0) ∧
      Bnd δ (-0.000897547824027211133026) (-0.000897547824027211132885) ∧
      Bnd (s * s * Real.exp δ) 0.808661976978867032371279 0.808661976978867032371395 := by
  have h1 := Bnd.const (0 : ℝ)
  have h2 := Bnd.const (-(1 / 2) : ℝ)
  have h3 := Bnd.exp 5 0.000001 0.999999999999999999999999 1.000000000000000000000001 h1 (by norm_num) (by norm_num) (by norm_num) (by norm_num)
    (by norm_num [expSum, expErr, Finset.sum_range_succ, Nat.factorial])
    (by norm_num [expSum, expErr, Finset.sum_range_succ, Nat.factorial])
  have h4 := Bnd.const (4 : ℝ)
  have h5 := Bnd.weaken 0.809388115599999999999999 0.809388115600000000000001 (Bnd.mul_pp hX h3 (by norm_num) (by norm_num)) (by norm_num) (by norm_num)
  have h6 := Bnd.weaken (-0.857749039772352582785738) (-0.857749039772352582658402) (Bnd.sub hβ h5) (by norm_num) (by norm_num)
  have h7 := Bnd.weaken (-0.694251878959053909959743) (-0.694251878959053909856676) (Bnd.mul_pn h5 h6 (by norm_num) (by norm_num)) (by norm_num) (by norm_num)
  have h8 := Bnd.weaken 9.827738307220412267910757 9.82773830722041226794254 (Bnd.add hw h5) (by norm_num) (by norm_num)
  have h9 := Bnd.const (2 : ℝ)
  have h10 := Bnd.weaken 19.655476614440824535821514 19.65547661444082453588508 (Bnd.mul_pp h9 h8 (by norm_num) (by norm_num)) (by norm_num) (by norm_num)
  have h11 := Bnd.weaken 193.168880470415068852814336 193.168880470415068854063757 (Bnd.mul_pp h10 h8 (by norm_num) (by norm_num)) (by norm_num) (by norm_num)
  have h12 := Bnd.weaken (-0.003594015129498990910744) (-0.003594015129498990910186) (Bnd.div_np h7 h11 (by norm_num) (by norm_num)) (by norm_num) (by norm_num)
  have h13 := Bnd.weaken 0 0 (Bnd.mul_pp h4 h1 (by norm_num) (by norm_num)) (by norm_num) (by norm_num)
  have h14 := Bnd.weaken (-0.003594015129498990910744) (-0.003594015129498990910186) (Bnd.sub h12 h13) (by norm_num) (by norm_num)
  have h15 : Bnd (trF (s * s) (dS - pS - v) (pS + v) 0) (-0.003594015129498990910744) (-0.003594015129498990910186) := h14
  obtain ⟨fA0, efA0⟩ : ∃ x : ℝ, x = trF (s * s) (dS - pS - v) (pS + v) 0 := ⟨_, rfl⟩
  have h16 : Bnd fA0 (-0.003594015129498990910744) (-0.003594015129498990910186) := by rw [efA0]; exact h15
  have h17 := Bnd.exp 21 0.5 0.606530659712633423603799 0.6065306597126334236038 h2 (by norm_num) (by norm_num) (by norm_num) (by norm_num)
    (by norm_num [expSum, expErr, Finset.sum_range_succ, Nat.factorial])
    (by norm_num [expSum, expErr, Finset.sum_range_succ, Nat.factorial])
  have h18 := Bnd.const (4 : ℝ)
  have h19 := Bnd.weaken 0.490918707718433204244255 0.490918707718433204244257 (Bnd.mul_pp hX h17 (by norm_num) (by norm_num)) (by norm_num) (by norm_num)
  have h20 := Bnd.weaken (-0.539279631890785787029994) (-0.539279631890785786902658) (Bnd.sub hβ h19) (by norm_num) (by norm_num)
  have h21 := Bnd.weaken (-0.264742459986696917705703) (-0.264742459986696917643189) (Bnd.mul_pn h19 h20 (by norm_num) (by norm_num)) (by norm_num) (by norm_num)
  have h22 := Bnd.weaken 9.509268899338845472155013 9.509268899338845472186796 (Bnd.add hw h19) (by norm_num) (by norm_num)
  have h23 := Bnd.const (2 : ℝ)
  have h24 := Bnd.weaken 19.018537798677690944310026 19.018537798677690944373592 (Bnd.mul_pp h23 h22 (by norm_num) (by norm_num)) (by norm_num) (by norm_num)
  have h25 := Bnd.weaken 180.852389999866035241952175 180.852389999866035243161108 (Bnd.mul_pp h24 h22 (by norm_num) (by norm_num)) (by norm_num) (by norm_num)
  have h26 := Bnd.weaken (-0.001463859338474282940181) (-0.001463859338474282939824) (Bnd.div_np h21 h25 (by norm_num) (by norm_num)) (by norm_num) (by norm_num)
  have h27 := Bnd.weaken (-2) (-2) (Bnd.mul_pn h18 h2 (by norm_num) (by norm_num)) (by norm_num) (by norm_num)
  have h28 := Bnd.weaken 1.998536140661525717059819 1.998536140661525717060176 (Bnd.sub h26 h27) (by norm_num) (by norm_num)
  have h29 : Bnd (trF (s * s) (dS - pS - v) (pS + v) (-(1 / 2))) 1.998536140661525717059819 1.998536140661525717060176 := h28
  obtain ⟨fB0, efB0⟩ : ∃ x : ℝ, x = trF (s * s) (dS - pS - v) (pS + v) (-(1 / 2)) := ⟨_, rfl⟩
  have h30 : Bnd fB0 1.998536140661525717059819 1.998536140661525717060176 := by rw [efB0]; exact h29
  have h31 := Bnd.weaken (-0.5) (-0.5) (Bnd.sub h2 h1) (by norm_num) (by norm_num)
  have hw1 : |(-(1 / 2)) - 0| > kConvergence :=
    lt_of_lt_of_le (by norm_num [kConvergence]) (le_trans (neg_le_neg h31.2) (neg_le_abs _))
  have h32 := Bnd.weaken 0.5 0.5 (Bnd.sub h1 h2) (by norm_num) (by norm_num)
  have h33 := Bnd.weaken (-0.001797007564749495455372) (-0.001797007564749495455093) (Bnd.mul_pn h32 h16 (by norm_num) (by norm_num)) (by norm_num) (by norm_num)
  have h34 := Bnd.weaken 2.002130155791024707970005 2.00213015579102470797092 (Bnd.sub h30 h16) (by norm_num) (by norm_num)
  have h35 := Bnd.weaken (-0.000897547824027211133026) (-0.000897547824027211132885) (Bnd.div_np h33 h34 (by norm_num) (by norm_num)) (by norm_num) (by norm_num)
  have h36 := Bnd.weaken (-0.000897547824027211133026) (-0.000897547824027211132885) (Bnd.add h1 h35) (by norm_num) (by norm_num)
  obtain ⟨δ1, eδ1⟩ : ∃ x : ℝ, x = 0 + (0 - (-(1 / 2))) * fA0 / (fB0 - fA0) := ⟨_, rfl⟩
  have h37 : Bnd δ1 (-0.000897547824027211133026) (-0.000897547824027211132885) := by rw [eδ1]; exact h36
  have h38 := Bnd.exp 8 0.0009 0.999102854851538460581864 0.999102854851538460582006 h37 (by norm_num) (by norm_num) (by norm_num) (by norm_num)
    (by norm_num [expSum, expErr, Finset.sum_range_succ, Nat.factorial])
    (by norm_num [expSum, expErr, Finset.sum_range_succ, Nat.factorial])
  have h39 := Bnd.const (4 : ℝ)
  have h40 := Bnd.weaken 0.808661976978867032371279 0.808661976978867032371395 (Bnd.mul_pp hX h38 (by norm_num) (by norm_num)) (by norm_num) (by norm_num)
  have h41 := Bnd.weaken (-0.857022901151219615157132) (-0.857022901151219615029682) (Bnd.sub hβ h40) (by norm_num) (by norm_num)
  have h42 := Bnd.weaken (-0.693041833561109392727144) (-0.69304183356110939262398) (Bnd.mul_pn h40 h41 (by norm_num) (by norm_num)) (by norm_num) (by norm_num)
  have h43 := Bnd.weaken 9.827012168599279300282037 9.827012168599279300313934 (Bnd.add hw h40) (by norm_num) (by norm_num)
  have h44 := Bnd.const (2 : ℝ)
  have h45 := Bnd.weaken 19.654024337198558600564074 19.654024337198558600627868 (Bnd.mul_pp h44 h43 (by norm_num) (by norm_num)) (by norm_num) (by norm_num)
  have h46 := Bnd.weaken 193.140336323596620352326685 193.140336323596620353580494 (Bnd.mul_pp h45 h43 (by norm_num) (by norm_num)) (by norm_num) (by norm_num)
  have h47 := Bnd.weaken (-0.003588281178096085173122) (-0.003588281178096085172564) (Bnd.div_np h42 h46 (by norm_num) (by norm_num)) (by norm_num) (by norm_num)
  have h48 := Bnd.weaken (-0.003590191296108844532104) (-0.00359019129610884453154) (Bnd.mul_pn h39 h37 (by norm_num) (by norm_num)) (by norm_num) (by norm_num)
  have h49 := Bnd.weaken 0.000001910118012759358418 0.00000191011801275935954 (Bnd.sub h47 h48) (by norm_num) (by norm_num)
  have h50 : Bnd (trF (s * s) (dS - pS - v) (pS + v) δ1) 0.000001910118012759358418 0.00000191011801275935954 := h49
  obtain ⟨f1, ef1⟩ : ∃ x : ℝ, x = trF (s * s) (dS - pS - v) (pS + v) δ1 := ⟨_, rfl⟩
  have h51 : Bnd f1 0.000001910118012759358418 0.00000191011801275935954 := by rw [ef1]; exact h50
  have hs1 : ¬ (f1 * fB0 < 0) := not_lt.mpr (le_of_lt (mul_pos (lt_of_lt_of_le (by norm_num) h51.1) (lt_of_lt_of_le (by norm_num) h30.1)))
  have h52 := Bnd.const (2 : ℝ)
  have h53 := Bnd.weaken (-0.001797007564749495455372) (-0.001797007564749495455093) (Bnd.div_np h16 h52 (by norm_num) (by norm_num)) (by norm_num) (by norm_num)
  have h54 := Bnd.weaken (-0.000897547824027211133026) (-0.000897547824027211132885) (Bnd.sub h37 h1) (by norm_num) (by norm_num)
  have hw2 : |δ1 - 0| > kConvergence :=
    lt_of_lt_of_le (by norm_num [kConvergence]) (le_trans (neg_le_neg h54.2) (neg_le_abs _))
  have h55 := Bnd.weaken 0.000897547824027211132885 0.000897547824027211133026 (Bnd.sub h1 h37) (by norm_num) (by norm_num)
  have h56 := Bnd.weaken (-0.000001612900229501347363) (-0.000001612900229501347362) (Bnd.mul_pn h55 h53 (by norm_num) (by norm_num)) (by norm_num) (by norm_num)
  have h57 := Bnd.weaken 0.001798917682762254813511 0.001798917682762254814912 (Bnd.sub h51 h53) (by norm_num) (by norm_num)
  have h58 := Bnd.weaken (-0.000896594794167971086393) (-0.000896594794167971085138) (Bnd.div_np h56 h57 (by norm_num) (by norm_num)) (by norm_num) (by norm_num)
  have h59 := Bnd.weaken (-0.000896594794167971086393) (-0.000896594794167971085138) (Bnd.add h1 h58) (by norm_num) (by norm_num)
  obtain ⟨δ2, eδ2⟩ : ∃ x : ℝ, x = 0 + (0 - δ1) * (fA0 / 2) / (f1 - (fA0 / 2)) := ⟨_, rfl⟩
  have h60 : Bnd δ2 (-0.000896594794167971086393) (-0.000896594794167971085138) := by rw [eδ2]; exact h59
  have h61 := Bnd.exp 8 0.0009 0.999103807026845311749567 0.999103807026845311750822 h60 (by norm_num) (by norm_num) (by norm_num) (by norm_num)
    (by norm_num [expSum, expErr, Finset.sum_range_succ, Nat.factorial])
    (by norm_num [expSum, expErr, Finset.sum_range_succ, Nat.factorial])
  have h62 := Bnd.const (4 : ℝ)
  have h63 := Bnd.weaken 0.808662747658244365489676 0.808662747658244365490693 (Bnd.mul_pp hX h61 (by norm_num) (by norm_num)) (by norm_num) (by norm_num)
  have h64 := Bnd.weaken (-0.85702367183059694827643) (-0.857023671830596948148079) (Bnd.sub hβ h63) (by norm_num) (by norm_num)
  have h65 := Bnd.weaken (-0.69304311727068804991767) (-0.693043117270688049813005) (Bnd.mul_pn h63 h64 (by norm_num) (by norm_num)) (by norm_num) (by norm_num)
  have h66 := Bnd.weaken 9.827012939278656633400434 9.827012939278656633433232 (Bnd.add hw h63) (by norm_num) (by norm_num)
  have h67 := Bnd.const (2 : ℝ)
  have h68 := Bnd.weaken 19.654025878557313266800868 19.654025878557313266866464 (Bnd.mul_pp h67 h66 (by norm_num) (by norm_num)) (by norm_num) (by norm_num)
  have h69 := Bnd.weaken 193.140366617500284810012276 193.140366617500284811301503 (Bnd.mul_pp h68 h66 (by norm_num) (by norm_num)) (by norm_num) (by norm_num)
  have h70 := Bnd.weaken (-0.003588287261788245983667) (-0.0035882872617882459831) (Bnd.div_np h65 h69 (by norm_num) (by norm_num)) (by norm_num) (by norm_num)
  have h71 := Bnd.weaken (-0.003586379176671884345572) (-0.003586379176671884340552) (Bnd.mul_pn h62 h60 (by norm_num) (by norm_num)) (by norm_num) (by norm_num)
  have h72 := Bnd.weaken (-0.000001908085116361643115) (-0.000001908085116361637528) (Bnd.sub h70 h71) (by norm_num) (by norm_num)
  have h73 : Bnd (trF (s * s) (dS - pS - v) (pS + v) δ2) (-0.000001908085116361643115) (-0.000001908085116361637528) := h72
  obtain ⟨f2, ef2⟩ : ∃ x : ℝ, x = trF (s * s) (dS - pS - v) (pS + v) δ2 := ⟨_, rfl⟩
  have h74 : Bnd f2 (-0.000001908085116361643115) (-0.000001908085116361637528) := by rw [ef2]; exact h73
  have hs2 : f2 * f1 < 0 := mul_neg_of_neg_of_pos (lt_of_le_of_lt h74.2 (by norm_num)) (lt_of_lt_of_le (by norm_num) h51.1)
  have h75 := Bnd.weaken 0.000000953029859240046492 0.000000953029859240047888 (Bnd.sub h60 h37) (by norm_num) (by norm_num)
  have hwx : ¬ (|δ2 - δ1| > kConvergence) := by
    rw [not_lt, abs_le]
    exact ⟨le_trans (by norm_num [kConvergence]) h75.1, le_trans h75.2 (by norm_num [kConvergence])⟩
  have h76 := Bnd.exp 8 0.0009 0.999102854851538460581864 0.999102854851538460582006 h37 (by norm_num) (by norm_num) (by norm_num) (by norm_num)
    (by norm_num [expSum, expErr, Finset.sum_range_succ, Nat.factorial])
    (by norm_num [expSum, expErr, Finset.sum_range_succ, Nat.factorial])
  have h77 := Bnd.weaken 0.808661976978867032371279 0.808661976978867032371395 (Bnd.mul_pp hX h76 (by norm_num) (by norm_num)) (by norm_num) (by norm_num)
  have r3 := iterate_off_exit n s dS pS v δ1 δ2 f1 f2 hwx
  have r2 := iterate_off_swap (n + 1) s dS pS v 0 δ1 (fA0 / 2) f1 δ2 f2 _ hs hw2 eδ2 ef2 hs2 r3
  have r1 := iterate_off_halve (n + 1 + 1) s dS pS v 0 (-(1 / 2)) fA0 fB0 δ1 f1 _ hs hw1 eδ1 ef1 hs1 r2
  rw [efA0, efB0] at r1
  exact ⟨δ1, r1, not_lt.mpr (le_of_lt (by rw [← efB0]; exact (lt_of_lt_of_le (by norm_num) h30.1))), h37, h77⟩

/-- The pending rating and deviation of `Rating(1500, 50, 0.89966)` after a win against an opponent rated 1499.9999 of deviation 350. -/
theorem winLo_final (invV dInner E2 : ℝ) (hI : Bnd invV 0.111913469712935231294795 0.111913469712935231295192)
    (hD : Bnd dInner 0.334534641868032972003139 0.334534641868032972003731)
    (hE : Bnd E2 0.808633619896629591027228 0.808633619896629591028657) :
    Bnd ((1500 - kDefaultR) / kScale + 1 / Real.sqrt (1 / (50 / kScale * (50 / kScale) + E2) + invV) * (1 / Real.sqrt (1 / (50 / kScale * (50 / kScale) + E2) + invV)) * dInner)
      0.271174909613063821397166 0.271174909613063821398132 ∧
    Bnd (1 / Real.sqrt (1 / (50 / kScale * (50 / kScale) + E2) + invV)) 0.900335145700068546300626 0.900335145700068546301431 := by
  have h1 : Bnd ((50 : ℝ) / kScale) 0.287823124630866842660913 0.287823124630866842660914 := ⟨by norm_num [kScale], by norm_num [kScale]⟩
  have h2 := Bnd.weaken 0.082842151072275507363353 0.082842151072275507363355 (Bnd.mul_pp h1 h1 (by norm_num) (by norm_num)) (by norm_num) (by norm_num)
  have h3 := Bnd.weaken 0.891475770968905098390581 0.891475770968905098392012 (Bnd.add h2 hE) (by norm_num) (by norm_num)
  have h4 := Bnd.weaken 1.121735477917862844884928 1.12173547791786284488673 (Bnd.inv_p h3 (by norm_num)) (by norm_num) (by norm_num)
  have h5 := Bnd.weaken 1.233648947630798076179723 1.233648947630798076181922 (Bnd.add h4 hI) (by norm_num) (by norm_num)
  have h6 := Bnd.sqrt 1.110697505007910817797173 1.110697505007910817798164 h5 (by norm_num) (by norm_num) (by norm_num)
  have h7 := Bnd.weaken 0.900335145700068546300626 0.900335145700068546301431 (Bnd.inv_p h6 (by norm_num)) (by norm_num) (by norm_num)
  have h8 := Bnd.weaken 0.810603374582763657777122 0.810603374582763657778573 (Bnd.mul_pp h7 h7 (by norm_num) (by norm_num)) (by norm_num) (by norm_num)
  have h9 := Bnd.weaken 0.271174909613063821397166 0.271174909613063821398132 (Bnd.mul_pp h8 hD (by norm_num) (by norm_num)) (by norm_num) (by norm_num)
  have h10 : Bnd (((1500 : ℝ) - kDefaultR) / kScale) 0 0 := ⟨by norm_num [kDefaultR, kScale], by norm_num [kDefaultR, kScale]⟩
  have h11 := Bnd.weaken 0.271174909613063821397166 0.271174909613063821398132 (Bnd.add h10 h9) (by norm_num) (by norm_num)
  exact ⟨h11, h7⟩

/-- A win of `Rating(1500, 50, 0.89966)` against an opponent rated 1499.9999 of deviation 350: the
single-opponent update returns for every fuel of at least 4, after 3 rounds of the loop of
the solver, with these pending values. -/
theorem winLo_run (n : ℕ) (s1 : ℝ) (j0 j1 : ℝ × ℝ × ℝ) :
    ∃ r δ, Rating.UpdateSingle (n + 4) (Rating.init 1500 50 0.89966 j0)
        (Rating.init 1499.9999 350 s1 j1) 1 = Except.ok r ∧
      r.sPrime = Real.exp ((Real.log (0.89966 * 0.89966) + δ) / 2) ∧
      Bnd δ (-0.000932615109) (-0.000932615108) ∧
      Bnd r.uPrime 0.271174909613 0.271174909614 ∧
      Bnd r.pPrime 0.9003351457 0.900335145701 := by
  have hs : (0.89966 : ℝ) ≠ 0 := by norm_num
  have hG := opp350_G 1499.9999 s1 j1
  have hE := winLo_E _ 0.89966 s1 j0 j1 hG
  obtain ⟨hI, hD, hβ, hw⟩ := winLo_beta_w _ _ hG hE
  have hX : Bnd ((0.89966 : ℝ) * 0.89966) 0.8093881156 0.8093881156 := by
    constructor <;> norm_num
  obtain ⟨δ, hit, h1, hδ, hE2⟩ := winLo_trace n 0.89966 _ _ _ hs hX
    (Bnd.weaken _ _ hβ (by norm_num) (by norm_num)) (Bnd.weaken _ _ hw (by norm_num) (by norm_num))
  have h0 := not_lt.mpr (le_trans hβ.2 (by norm_num : ((-0.082845592545626899552515) : ℝ) ≤ 0))
  have hconv := Convergence_of_iterate (n + 3) _ _ _ 0.89966 _ hs h0 h1 hit
  obtain ⟨hU, hP⟩ := winLo_final _ _ _ hI hD hE2
  refine ⟨_, δ, UpdateFinal_of_Convergence hconv, rfl,
    Bnd.weaken _ _ hδ (by norm_num) (by norm_num), ?_, ?_⟩
  · simp only [Rating.init, exp_half_sq _ _ hs]
    exact Bnd.weaken _ _ hU (by norm_num) (by norm_num)
  · simp only [Rating.init, exp_half_sq _ _ hs]
    exact Bnd.weaken _ _ hP (by norm_num) (by norm_num)

/-- The pending rating and deviation of `Rating(1500, 50, 0.89966)` after a win against an opponent rated 1500.0001 of deviation 350. -/
theorem winHi_final (invV dInner E2 : ℝ) (hI : Bnd invV 0.111913469712935231294795 0.111913469712935231295192)
    (hD : Bnd dInner 0.33453477071317113624192 0.334534770713171136242512)
    (hE : Bnd E2 0.808632817081235975221612 0.808632817081235975221728) :
    Bnd ((1500 - kDefaultR) / kScale + 1 / Real.sqrt (1 / (50 / kScale * (50 / kScale) + E2) + invV) * (1 / Real.sqrt (1 / (50 / kScale * (50 / kScale) + E2) + invV)) * dInner)
      0.271174792003353303166521 0.271174792003353303167123 ∧
    Bnd (1 / Real.sqrt (1 / (50 / kScale * (50 / kScale) + E2) + invV)) 0.900334777079688305632337 0.900334777079688305632538 := by
  have h1 : Bnd ((50 : ℝ) / kScale) 0.287823124630866842660913 0.287823124630866842660914 := ⟨by norm_num [kScale], by norm_num [kScale]⟩
  have h2 := Bnd.weaken 0.082842151072275507363353 0.082842151072275507363355 (Bnd.mul_pp h1 h1 (by norm_num) (by norm_num)) (by norm_num) (by norm_num)
  have h3 := Bnd.weaken 0.891474968153511482584965 0.891474968153511482585083 (Bnd.add h2 hE) (by norm_num) (by norm_num)
  have h4 := Bnd.weaken 1.121736488093741481973889 1.121736488093741481974038 (Bnd.inv_p h3 (by norm_num)) (by norm_num) (by norm_num)
  have h5 := Bnd.weaken 1.233649957806676713268684 1.23364995780667671326923 (Bnd.add h4 hI) (by norm_num) (by norm_num)
  have h6 := Bnd.sqrt 1.110697959756241162633118 1.110697959756241162633365 h5 (by norm_num) (by norm_num) (by norm_num)
  have h7 := Bnd.weaken 0.900334777079688305632337 0.900334777079688305632538 (Bnd.inv_p h6 (by norm_num)) (by norm_num) (by norm_num)
  have h8 := Bnd.weaken 0.810602710819132034768346 0.810602710819132034768709 (Bnd.mul_pp h7 h7 (by norm_num) (by norm_num)) (by norm_num) (by norm_num)
  have h9 := Bnd.weaken 0.271174792003353303166521 0.271174792003353303167123 (Bnd.mul_pp h8 hD (by norm_num) (by norm_num)) (by norm_num) (by norm_num)
  have h10 : Bnd (((1500 : ℝ) - kDefaultR) / kScale) 0 0 := ⟨by norm_num [kDefaultR, kScale], by norm_num [kDefaultR, kScale]⟩
  have h11 := Bnd.weaken 0.271174792003353303166521 0.271174792003353303167123 (Bnd.add h10 h9) (by norm_num) (by norm_num)
  exact ⟨h11, h7⟩

/-- A win of `Rating(1500, 50, 0.89966)` against an opponent rated 1500.0001 of deviation 350: the
single-opponent update returns for every fuel of at least 3, after 2 rounds of the loop of
the solver, with these pending values. -/
theorem winHi_run (n : ℕ) (s1 : ℝ) (j0 j1 : ℝ × ℝ × ℝ) :
    ∃ r δ, Rating.UpdateSingle (n + 3) (Rating.init 1500 50 0.89966 j0)
        (Rating.init 1500.0001 350 s1 j1) 1 = Except.ok r ∧
      r.sPrime = Real.exp ((Real.log (0.89966 * 0.89966) + δ) / 2) ∧
      Bnd δ (-0.000933607914) (-0.000933607913) ∧
      Bnd r.uPrime 0.271174792003 0.271174792004 ∧
      Bnd r.pPrime 0.900334777079 0.90033477708 := by
  have hs : (0.89966 : ℝ) ≠ 0 := by norm_num
  have hG := opp350_G 1500.0001 s1 j1
  have hE := winHi_E _ 0.89966 s1 j0 j1 hG
  obtain ⟨hI, hD, hβ, hw⟩ := winHi_beta_w _ _ hG hE
  have hX : Bnd ((0.89966 : ℝ) * 0.89966) 0.8093881156 0.8093881156 := by
    constructor <;> norm_num
  obtain ⟨δ, hit, h1, hδ, hE2⟩ := winHi_trace n 0.89966 _ _ _ hs hX
    (Bnd.weaken _ _ hβ (by norm_num) (by norm_num)) (Bnd.weaken _ _ hw (by norm_num) (by norm_num))
  have h0 := not_lt.mpr (le_trans hβ.2 (by norm_num : ((-0.082838709597598640630312) : ℝ) ≤ 0))
  have hconv := Convergence_of_iterate (n + 2) _ _ _ 0.89966 _ hs h0 h1 hit
  obtain ⟨hU, hP⟩ := winHi_final _ _ _ hI hD hE2
  refine ⟨_, δ, UpdateFinal_of_Convergence hconv, rfl,
    Bnd.weaken _ _ hδ (by norm_num) (by norm_num), ?_, ?_⟩
  · simp only [Rating.init, exp_half_sq _ _ hs]
    exact Bnd.weaken _ _ hU (by norm_num) (by norm_num)
  · simp only [Rating.init, exp_half_sq _ _ hs]
    exact Bnd.weaken _ _ hP (by norm_num) (by norm_num)

/-- The pending rating and deviation of `Rating(1500, 50, 0.89966)` after a win against an opponent rated 1501 of deviation 350. -/
theorem winFar_final (invV dInner E2 : ℝ) (hI : Bnd invV 0.111913054687224739012962 0.11191305468722473901336)
    (hD : Bnd dInner 0.335178931185062481846699 0.335178931185062481847292)
    (hE : Bnd E2 0.808661976978867032371279 0.808661976978867032371395) :
    Bnd ((1500 - kDefaultR) / kScale + 1 / Real.sqrt (1 / (50 / kScale * (50 / kScale) + E2) + invV) * (1 / Real.sqrt (1 / (50 / kScale * (50 / kScale) + E2) + invV)) * dInner)
      0.271705122528469956532931 0.271705122528469956533535 ∧
    Bnd (1 / Real.sqrt (1 / (50 / kScale * (50 / kScale) + E2) + invV)) 0.900348317443178290034327 0.900348317443178290034529 := by
  have h1 : Bnd ((50 : ℝ) / kScale) 0.287823124630866842660913 0.287823124630866842660914 := ⟨by norm_num [kScale], by norm_num [kScale]⟩
  have h2 := Bnd.weaken 0.082842151072275507363353 0.082842151072275507363355 (Bnd.mul_pp h1 h1 (by norm_num) (by norm_num)) (by norm_num) (by norm_num)
  have h3 := Bnd.weaken 0.891504128051142539734632 0.89150412805114253973475 (Bnd.add h2 hE) (by norm_num) (by norm_num)
  have h4 := Bnd.weaken 1.121699797606134498493838 1.121699797606134498493988 (Bnd.inv_p h3 (by norm_num)) (by norm_num) (by norm_num)
  have h5 := Bnd.weaken 1.2336128522933592375068 1.233612852293359237507348 (Bnd.add h4 hI) (by norm_num) (by norm_num)
  have h6 := Bnd.sqrt 1.110681255938606014209638 1.110681255938606014209886 h5 (by norm_num) (by norm_num) (by norm_num)
  have h7 := Bnd.weaken 0.900348317443178290034327 0.900348317443178290034529 (Bnd.inv_p h6 (by norm_num)) (by norm_num) (by norm_num)
  have h8 := Bnd.weaken 0.810627092722762144323095 0.81062709272276214432346 (Bnd.mul_pp h7 h7 (by norm_num) (by norm_num)) (by norm_num) (by norm_num)
  have h9 := Bnd.weaken 0.271705122528469956532931 0.271705122528469956533535 (Bnd.mul_pp h8 hD (by norm_num) (by norm_num)) (by norm_num) (by norm_num)
  have h10 : Bnd (((1500 : ℝ) - kDefaultR) / kScale) 0 0 := ⟨by norm_num [kDefaultR, kScale], by norm_num [kDefaultR, kScale]⟩
  have h11 := Bnd.weaken 0.271705122528469956532931 0.271705122528469956533535 (Bnd.add h10 h9) (by norm_num) (by norm_num)
  exact ⟨h11, h7⟩

/-- A win of `Rating(1500, 50, 0.89966)` against an opponent rated 1501 of deviation 350: the
single-opponent update returns for every fuel of at least 3, after 2 rounds of the loop of
the solver, with these pending values. -/
theorem winFar_run (n : ℕ) (s1 : ℝ) (j0 j1 : ℝ × ℝ × ℝ) :
    ∃ r δ, Rating.UpdateSingle (n + 3) (Rating.init 1500 50 0.89966 j0)
        (Rating.init 1501 350 s1 j1) 1 = Except.ok r ∧
      r.sPrime = Real.exp ((Real.log (0.89966 * 0.89966) + δ) / 2) ∧
      Bnd δ (-0.000897547825) (-0.000897547824) ∧
      Bnd r.uPrime 0.271705122528 0.271705122529 ∧
      Bnd r.pPrime 0.900348317443 0.900348317444 := by
  have hs : (0.89966 : ℝ) ≠ 0 := by norm_num
  have hG := opp350_G 1501 s1 j1
  have hE := winFar_E _ 0.89966 s1 j0 j1 hG
  obtain ⟨hI, hD, hβ, hw⟩ := winFar_beta_w _ _ hG hE
  have hX : Bnd ((0.89966 : ℝ) * 0.89966) 0.8093881156 0.8093881156 := by
    constructor <;> norm_num
  obtain ⟨δ, hit, h1, hδ, hE2⟩ := winFar_trace n 0.89966 _ _ _ hs hX
    (Bnd.weaken _ _ hβ (by norm_num) (by norm_num)) (Bnd.weaken _ _ hw (by norm_num) (by norm_num))
  have h0 := not_lt.mpr (le_trans hβ.2 (by norm_num : ((-0.048360924172352582658403) : ℝ) ≤ 0))
  have hconv := Convergence_of_iterate (n + 2) _ _ _ 0.89966 _ hs h0 h1 hit
  obtain ⟨hU, hP⟩ := winFar_final _ _ _ hI hD hE2
  refine ⟨_, δ, UpdateFinal_of_Convergence hconv, rfl,
    Bnd.weaken _ _ hδ (by norm_num) (by norm_num), ?_, ?_⟩
  · simp only [Rating.init, exp_half_sq _ _ hs]
    exact Bnd.weaken _ _ hU (by norm_num) (by norm_num)
  · simp only [Rating.init, exp_half_sq _ _ hs]
    exact Bnd.weaken _ _ hP (by norm_num) (by norm_num)

/-- The pending rating and deviation of `Rating(1500, 50, 0.89966)` after a loss against an opponent rated 1499.9999 of deviation 350. -/
theorem lossLo_final (invV dInner E2 : ℝ) (hI : Bnd invV 0.111913469712935231294795 0.111913469712935231295192)
    (hD : Bnd dInner (-0.334534770713171136242512) (-0.33453477071317113624192))
    (hE : Bnd E2 0.808632817081235975221612 0.808632817081235975221728) :
    Bnd ((1500 - kDefaultR) / kScale + 1 / Real.sqrt (1 / (50 / kScale * (50 / kScale) + E2) + invV) * (1 / Real.sqrt (1 / (50 / kScale * (50 / kScale) + E2) + invV)) * dInner)
      (-0.271174792003353303167123) (-0.271174792003353303166521) ∧
    Bnd (1 / Real.sqrt (1 / (50 / kScale * (50 / kScale) + E2) + invV)) 0.900334777079688305632337 0.900334777079688305632538 := by
  have h1 : Bnd ((50 : ℝ) / kScale) 0.287823124630866842660913 0.287823124630866842660914 := ⟨by norm_num [kScale], by norm_num [kScale]⟩
  have h2 := Bnd.weaken 0.082842151072275507363353 0.082842151072275507363355 (Bnd.mul_pp h1 h1 (by norm_num) (by norm_num)) (by norm_num) (by norm_num)
  have h3 := Bnd.weaken 0.891474968153511482584965 0.891474968153511482585083 (Bnd.add h2 hE) (by norm_num) (by norm_num)
  have h4 := Bnd.weaken 1.121736488093741481973889 1.121736488093741481974038 (Bnd.inv_p h3 (by norm_num)) (by norm_num) (by norm_num)
  have h5 := Bnd.weaken 1.233649957806676713268684 1.23364995780667671326923 (Bnd.add h4 hI) (by norm_num) (by norm_num)
  have h6 := Bnd.sqrt 1.110697959756241162633118 1.110697959756241162633365 h5 (by norm_num) (by norm_num) (by norm_num)
  have h7 := Bnd.weaken 0.900334777079688305632337 0.900334777079688305632538 (Bnd.inv_p h6 (by norm_num)) (by norm_num) (by norm_num)
  have h8 := Bnd.weaken 0.810602710819132034768346 0.810602710819132034768709 (Bnd.mul_pp h7 h7 (by norm_num) (by norm_num)) (by norm_num) (by norm_num)
  have h9 := Bnd.weaken (-0.271174792003353303167123) (-0.271174792003353303166521) (Bnd.mul_pn h8 hD (by norm_num) (by norm_num)) (by norm_num) (by norm_num)
  have h10 : Bnd (((1500 : ℝ) - kDefaultR) / kScale) 0 0 := ⟨by norm_num [kDefaultR, kScale], by norm_num [kDefaultR, kScale]⟩
  have h11 := Bnd.weaken (-0.271174792003353303167123) (-0.271174792003353303166521) (Bnd.add h10 h9) (by norm_num) (by norm_num)
  exact ⟨h11, h7⟩

/-- A loss of `Rating(1500, 50, 0.89966)` against an opponent rated 1499.9999 of deviation 350: the
single-opponent update returns for every fuel of at least 3, after 2 rounds of the loop of
the solver, with these pending values. -/
theorem lossLo_run (n : ℕ) (s1 : ℝ) (j0 j1 : ℝ × ℝ × ℝ) :
    ∃ r δ, Rating.UpdateSingle (n + 3) (Rating.init 1500 50 0.89966 j0)
        (Rating.init 1499.9999 350 s1 j1) 0 = Except.ok r ∧
      r.sPrime = Real.exp ((Real.log (0.89966 * 0.89966) + δ) / 2) ∧
      Bnd δ (-0.000933607914) (-0.000933607913) ∧
      Bnd r.uPrime (-0.271174792004) (-0.271174792003) ∧
      Bnd r.pPrime 0.900334777079 0.90033477708 := by
  have hs : (0.89966 : ℝ) ≠ 0 := by norm_num
  have hG := opp350_G 1499.9999 s1 j1
  have hE := winLo_E _ 0.89966 s1 j0 j1 hG
  obtain ⟨hI, hD, hβ, hw⟩ := lossLo_beta_w _ _ hG hE
  have hX : Bnd ((0.89966 : ℝ) * 0.89966) 0.8093881156 0.8093881156 := by
    constructor <;> norm_num
  obtain ⟨δ, hit, h1, hδ, hE2⟩ := winHi_trace n 0.89966 _ _ _ hs hX
    (Bnd.weaken _ _ hβ (by norm_num) (by norm_num)) (Bnd.weaken _ _ hw (by norm_num) (by norm_num))
  have h0 := not_lt.mpr (le_trans hβ.2 (by norm_num : ((-0.082838709597598640630312) : ℝ) ≤ 0))
  have hconv := Convergence_of_iterate (n + 2) _ _ _ 0.89966 _ hs h0 h1 hit
  obtain ⟨hU, hP⟩ := lossLo_final _ _ _ hI hD hE2
  refine ⟨_, δ, UpdateFinal_of_Convergence hconv, rfl,
    Bnd.weaken _ _ hδ (by norm_num) (by norm_num), ?_, ?_⟩
  · simp only [Rating.init, exp_half_sq _ _ hs]
    exact Bnd.weaken _ _ hU (by norm_num) (by norm_num)
  · simp only [Rating.init, exp_half_sq _ _ hs]
    exact Bnd.weaken _ _ hP (by norm_num) (by norm_num)

/-- Value of `G()` for a rating of deviation 1. -/
theorem dev1_G (R s : ℝ) (j : ℝ × ℝ × ℝ) :
    Bnd (Rating.init R 1 s j).G 0.9999949638391632 0.9999949638391635 := by
  have h1 : Bnd ((1 : ℝ) / kScale) 0.0057564624926173 0.0057564624926174 := ⟨by norm_num [kScale], by norm_num [kScale]⟩
  have h2 := Bnd.weaken 0.0018323389208462 0.0018323389208464 (Bnd.div_pp h1 Bnd.pi (by norm_num) (by norm_num)) (by norm_num) (by norm_num)
  have h3 := Bnd.const (3 : ℝ)
  have h4 := Bnd.weaken 0.0054970167625386 0.0054970167625392 (Bnd.mul_pp h3 h2 (by norm_num) (by norm_num)) (by norm_num) (by norm_num)
  have h5 := Bnd.weaken 0.0000100723977625 0.0000100723977626 (Bnd.mul_pp h4 h2 (by norm_num) (by norm_num)) (by norm_num) (by norm_num)
  have h6 := Bnd.const (1 : ℝ)
  have h7 := Bnd.weaken 1.0000100723977625 1.0000100723977626 (Bnd.add h6 h5) (by norm_num) (by norm_num)
  have h8 := Bnd.sqrt 1.0000050361861996 1.0000050361861998 h7 (by norm_num) (by norm_num) (by norm_num)
  have h9 := Bnd.weaken 0.9999949638391632 0.9999949638391635 (Bnd.inv_p h8 (by norm_num)) (by norm_num) (by norm_num)
  exact h9

/-- The quantities `invV`, `dS - pS - v` and `pS + v` of a draw between two ratings of
deviation 1. -/
theorem smallDraw_beta_w (g : ℝ) (hG : Bnd g 0.9999949638391632 0.9999949638391635) :
    Bnd (g * g * (1 / 2) * (1 - 1 / 2)) 0.2499974819259223 0.2499974819259225 ∧
    Bnd (0 * 0 - 1 / kScale * (1 / kScale) - 1 / (g * g * (1 / 2) * (1 - 1 / 2))) (-4.0000734264514809) (-4.0000734264514775) ∧
    Bnd (1 / kScale * (1 / kScale) + 1 / (g * g * (1 / 2) * (1 - 1 / 2))) 4.0000734264514775 4.0000734264514809 := by
  have h1 := Bnd.const (1 / 2 : ℝ)
  have h2 := Bnd.weaken 0.9999899277036893 0.99998992770369 (Bnd.mul_pp hG hG (by norm_num) (by norm_num)) (by norm_num) (by norm_num)
  have h3 := Bnd.weaken 0.4999949638518446 0.499994963851845 (Bnd.mul_pp h2 h1 (by norm_num) (by norm_num)) (by norm_num) (by norm_num)
  have h4 := Bnd.const (1 : ℝ)
  have h5 := Bnd.weaken 0.5 0.5 (Bnd.sub h4 h1) (by norm_num) (by norm_num)
  have h6 := Bnd.weaken 0.2499974819259223 0.2499974819259225 (Bnd.mul_pp h3 h5 (by norm_num) (by norm_num)) (by norm_num) (by norm_num)
  have h7 := Bnd.weaken 4.0000402895910486 4.0000402895910519 (Bnd.inv_p h6 (by norm_num)) (by norm_num) (by norm_num)
  have h8 := Bnd.const (0 : ℝ)
  have h9 := Bnd.weaken 0 0 (Bnd.mul_pp h8 h8 (by norm_num) (by norm_num)) (by norm_num) (by norm_num)
  have h10 : Bnd ((1 : ℝ) / kScale) 0.0057564624926173 0.0057564624926174 := ⟨by norm_num [kScale], by norm_num [kScale]⟩
  have h11 := Bnd.weaken 0.0000331368604289 0.000033136860429 (Bnd.mul_pp h10 h10 (by norm_num) (by norm_num)) (by norm_num) (by norm_num)
  have h12 := Bnd.weaken (-0.000033136860429) (-0.0000331368604289) (Bnd.sub h9 h11) (by norm_num) (by norm_num)
  have h13 := Bnd.weaken (-4.0000734264514809) (-4.0000734264514775) (Bnd.sub h12 h7) (by norm_num) (by norm_num)
  have h14 := Bnd.weaken 4.0000734264514775 4.0000734264514809 (Bnd.add h11 h7) (by norm_num) (by norm_num)
  exact ⟨h6, h13, h14⟩

/-- The loop of the solver for a draw between two ratings `Rating(1500, 1)` at the default volatility: it exits with the offset `δ` of the result from `log(s * s)` in this interval. -/
theorem smallDraw_trace (n : ℕ) (s dS pS v : ℝ) (hs : s ≠ 0)
    (hX : Bnd (s * s) 0.0036 0.0036)
    (hβ : Bnd (dS - pS - v) (-4.0000734264514809) (-4.0000734264514775))
    (hw : Bnd (pS + v) 4.0000734264514775 4.0000734264514809) :
    ∃ δ, Rating.Convergence.iterate dS pS v (Real.log (s * s)) (kSystemConst * kSystemConst)
        (n + 3) (Real.log (s * s) + 0) (Real.log (s * s) + -(1 / 2))
        (trF (s * s) (dS - pS - v) (pS + v) 0) (trF (s * s) (dS - pS - v) (pS + v) (-(1 / 2))) = some (Real.log (s * s) + δ) ∧
      ¬ (trF (s * s) (dS - pS - v) (pS + v) (-(1 / 2)) < 0) ∧
      Bnd δ (-0.0001123868445515) (-0.0001123868445513) ∧
      Bnd (s * s * Real.exp δ) 0.0035995954300942 0.0035995954300943 := by
  have h1 := Bnd.const (0 : ℝ)
  have h2 := Bnd.const (-(1 / 2) : ℝ)
  have h3 := Bnd.exp 3 0.000001 0.9999999999999999 1.0000000000000001 h1 (by norm_num) (by norm_num) (by norm_num) (by norm_num)
    (by norm_num [expSum, expErr, Finset.sum_range_succ, Nat.factorial])
    (by norm_num [expSum, expErr, Finset.sum_range_succ, Nat.factorial])
  have h4 := Bnd.const (4 : ℝ)
  have h5 := Bnd.weaken 0.0035999999999999 0.0036000000000001 (Bnd.mul_pp hX h3 (by norm_num) (by norm_num)) (by norm_num) (by norm_num)
  have h6 := Bnd.weaken (-4.003673426451481) (-4.0036734264514774) (Bnd.sub hβ h5) (by norm_num) (by norm_num)
  have h7 := Bnd.weaken (-0.0144132243352258) (-0.0144132243352249) (Bnd.mul_pn h5 h6 (by norm_num) (by norm_num)) (by norm_num) (by norm_num)
  have h8 := Bnd.weaken 4.0036734264514774 4.003673426451481 (Bnd.add hw h5) (by norm_num) (by norm_num)
  have h9 := Bnd.const (2 : ℝ)
  have h10 := Bnd.weaken 8.0073468529029548 8.007346852902962 (Bnd.mul_pp h9 h8 (by norm_num) (by norm_num)) (by norm_num) (by norm_num)
  have h11 := Bnd.weaken 32.0588018113474272 32.0588018113474849 (Bnd.mul_pp h10 h8 (by norm_num) (by norm_num)) (by norm_num) (by norm_num)
  have h12 := Bnd.weaken (-0.0004495871186965) (-0.0004495871186964) (Bnd.div_np h7 h11 (by norm_num) (by norm_num)) (by norm_num) (by norm_num)
  have h13 := Bnd.weaken 0 0 (Bnd.mul_pp h4 h1 (by norm_num) (by norm_num)) (by norm_num) (by norm_num)
  have h14 := Bnd.weaken (-0.0004495871186965) (-0.0004495871186964) (Bnd.sub h12 h13) (by norm_num) (by norm_num)
  have h15 : Bnd (trF (s * s) (dS - pS - v) (pS + v) 0) (-0.0004495871186965) (-0.0004495871186964) := h14
  obtain ⟨fA0, efA0⟩ : ∃ x : ℝ, x = trF (s * s) (dS - pS - v) (pS + v) 0 := ⟨_, rfl⟩
  have h16 : Bnd fA0 (-0.0004495871186965) (-0.0004495871186964) := by rw [efA0]; exact h15
  have h17 := Bnd.exp 16 0.5 0.6065306597126334 0.6065306597126335 h2 (by norm_num) (by norm_num) (by norm_num) (by norm_num)
    (by norm_num [expSum, expErr, Finset.sum_range_succ, Nat.factorial])
    (by norm_num [expSum, expErr, Finset.sum_range_succ, Nat.factorial])
  have h18 := Bnd.const (4 : ℝ)
  have h19 := Bnd.weaken 0.0021835103749654 0.0021835103749655 (Bnd.mul_pp hX h17 (by norm_num) (by norm_num)) (by norm_num) (by norm_num)
  have h20 := Bnd.weaken (-4.0022569368264464) (-4.0022569368264429) (Bnd.sub hβ h19) (by norm_num) (by norm_num)
  have h21 := Bnd.weaken (-0.0087389695448382) (-0.0087389695448377) (Bnd.mul_pn h19 h20 (by norm_num) (by norm_num)) (by norm_num) (by norm_num)
  have h22 := Bnd.weaken 4.0022569368264429 4.0022569368264464 (Bnd.add hw h19) (by norm_num) (by norm_num)
  have h23 := Bnd.const (2 : ℝ)
  have h24 := Bnd.weaken 8.0045138736528858 8.0045138736528928 (Bnd.mul_pp h23 h22 (by norm_num) (by norm_num)) (by norm_num) (by norm_num)
  have h25 := Bnd.weaken 32.0361211767507635 32.0361211767508196 (Bnd.mul_pp h24 h22 (by norm_num) (by norm_num)) (by norm_num) (by norm_num)
  have h26 := Bnd.weaken (-0.0002727848823091) (-0.000272784882309) (Bnd.div_np h21 h25 (by norm_num) (by norm_num)) (by norm_num) (by norm_num)
  have h27 := Bnd.weaken (-2) (-2) (Bnd.mul_pn h18 h2 (by norm_num) (by norm_num)) (by norm_num) (by norm_num)
  have h28 := Bnd.weaken 1.9997272151176909 1.999727215117691 (Bnd.sub h26 h27) (by norm_num) (by norm_num)
  have h29 : Bnd (trF (s * s) (dS - pS - v) (pS + v) (-(1 / 2))) 1.9997272151176909 1.999727215117691 := h28
  obtain ⟨fB0, efB0⟩ : ∃ x : ℝ, x = trF (s * s) (dS - pS - v) (pS + v) (-(1 / 2)) := ⟨_, rfl⟩
  have h30 : Bnd fB0 1.9997272151176909 1.999727215117691 := by rw [efB0]; exact h29
  have h31 := Bnd.weaken (-0.5) (-0.5) (Bnd.sub h2 h1) (by norm_num) (by norm_num)
  have hw1 : |(-(1 / 2)) - 0| > kConvergence :=
    lt_of_lt_of_le (by norm_num [kConvergence]) (le_trans (neg_le_neg h31.2) (neg_le_abs _))
  have h32 := Bnd.weaken 0.5 0.5 (Bnd.sub h1 h2) (by norm_num) (by norm_num)
  have h33 := Bnd.weaken (-0.0002247935593483) (-0.0002247935593482) (Bnd.mul_pn h32 h16 (by norm_num) (by norm_num)) (by norm_num) (by norm_num)
  have h34 := Bnd.weaken 2.0001768022363873 2.0001768022363875 (Bnd.sub h30 h16) (by norm_num) (by norm_num)
  have h35 := Bnd.weaken (-0.0001123868445515) (-0.0001123868445513) (Bnd.div_np h33 h34 (by norm_num) (by norm_num)) (by norm_num) (by norm_num)
  have h36 := Bnd.weaken (-0.0001123868445515) (-0.0001123868445513) (Bnd.add h1 h35) (by norm_num) (by norm_num)
  obtain ⟨δ1, eδ1⟩ : ∃ x : ℝ, x = 0 + (0 - (-(1 / 2))) * fA0 / (fB0 - fA0) := ⟨_, rfl⟩
  have h37 : Bnd δ1 (-0.0001123868445515) (-0.0001123868445513) := by rw [eδ1]; exact h36
  have h38 := Bnd.exp 5 0.00012 0.9998876194706133 0.9998876194706136 h37 (by norm_num) (by norm_num) (by norm_num) (by norm_num)
    (by norm_num [expSum, expErr, Finset.sum_range_succ, Nat.factorial])
    (by norm_num [expSum, expErr, Finset.sum_range_succ, Nat.factorial])
  have h39 := Bnd.const (4 : ℝ)
  have h40 := Bnd.weaken 0.0035995954300942 0.0035995954300943 (Bnd.mul_pp hX h38 (by norm_num) (by norm_num)) (by norm_num) (by norm_num)
  have h41 := Bnd.weaken (-4.0036730218815752) (-4.0036730218815717) (Bnd.sub hβ h40) (by norm_num) (by norm_num)
  have h42 := Bnd.weaken (-0.0144116031131568) (-0.0144116031131563) (Bnd.mul_pn h40 h41 (by norm_num) (by norm_num)) (by norm_num) (by norm_num)
  have h43 := Bnd.weaken 4.0036730218815717 4.0036730218815752 (Bnd.add hw h40) (by norm_num) (by norm_num)
  have h44 := Bnd.const (2 : ℝ)
  have h45 := Bnd.weaken 8.0073460437631434 8.0073460437631504 (Bnd.mul_pp h44 h43 (by norm_num) (by norm_num)) (by norm_num) (by norm_num)
  have h46 := Bnd.weaken 32.0587953322846322 32.0587953322846883 (Bnd.mul_pp h45 h43 (by norm_num) (by norm_num)) (by norm_num) (by norm_num)
  have h47 := Bnd.weaken (-0.0004495366392837) (-0.0004495366392836) (Bnd.div_np h42 h46 (by norm_num) (by norm_num)) (by norm_num) (by norm_num)
  have h48 := Bnd.weaken (-0.000449547378206) (-0.0004495473782052) (Bnd.mul_pn h39 h37 (by norm_num) (by norm_num)) (by norm_num) (by norm_num)
  have h49 := Bnd.weaken 0.0000000107389215 0.0000000107389224 (Bnd.sub h47 h48) (by norm_num) (by norm_num)
  have h50 : Bnd (trF (s * s) (dS - pS - v) (pS + v) δ1) 0.0000000107389215 0.0000000107389224 := h49
  obtain ⟨f1, ef1⟩ : ∃ x : ℝ, x = trF (s * s) (dS - pS - v) (pS + v) δ1 := ⟨_, rfl⟩
  have h51 : Bnd f1 0.0000000107389215 0.0000000107389224 := by rw [ef1]; exact h50
  have hs1 : ¬ (f1 * fB0 < 0) := not_lt.mpr (le_of_lt (mul_pos (lt_of_lt_of_le (by norm_num) h51.1) (lt_of_lt_of_le (by norm_num) h30.1)))
  have h52 := Bnd.const (2 : ℝ)
  have h53 := Bnd.weaken (-0.0002247935593483) (-0.0002247935593482) (Bnd.div_np h16 h52 (by norm_num) (by norm_num)) (by norm_num) (by norm_num)
  have h54 := Bnd.weaken (-0.0001123868445515) (-0.0001123868445513) (Bnd.sub h37 h1) (by norm_num) (by norm_num)
  have hw2 : |δ1 - 0| > kConvergence :=
    lt_of_lt_of_le (by norm_num [kConvergence]) (le_trans (neg_le_neg h54.2) (neg_le_abs _))
  have h55 := Bnd.weaken 0.0001123868445513 0.0001123868445515 (Bnd.sub h1 h37) (by norm_num) (by norm_num)
  have h56 := Bnd.weaken (-0.0000000252638389) (-0.0000000252638388) (Bnd.mul_pn h55 h53 (by norm_num) (by norm_num)) (by norm_num) (by norm_num)
  have h57 := Bnd.weaken 0.0002248042982697 0.0002248042982707 (Bnd.sub h51 h53) (by norm_num) (by norm_num)
  have h58 := Bnd.weaken (-0.0001123814762194) (-0.000112381475774) (Bnd.div_np h56 h57 (by norm_num) (by norm_num)) (by norm_num) (by norm_num)
  have h59 := Bnd.weaken (-0.0001123814762194) (-0.000112381475774) (Bnd.add h1 h58) (by norm_num) (by norm_num)
  obtain ⟨δ2, eδ2⟩ : ∃ x : ℝ, x = 0 + (0 - δ1) * (fA0 / 2) / (f1 - (fA0 / 2)) := ⟨_, rfl⟩
  have h60 : Bnd δ2 (-0.0001123814762194) (-0.000112381475774) := by rw [eδ2]; exact h59
  have h61 := Bnd.exp 5 0.00012 0.9998876248383421 0.9998876248387875 h60 (by norm_num) (by norm_num) (by norm_num) (by norm_num)
    (by norm_num [expSum, expErr, Finset.sum_range_succ, Nat.factorial])
    (by norm_num [expSum, expErr, Finset.sum_range_succ, Nat.factorial])
  have h62 := Bnd.const (4 : ℝ)
  have h63 := Bnd.weaken 0.003599595449418 0.0035995954494197 (Bnd.mul_pp hX h61 (by norm_num) (by norm_num)) (by norm_num) (by norm_num)
  have h64 := Bnd.weaken (-4.0036730219009006) (-4.0036730219008955) (Bnd.sub hβ h63) (by norm_num) (by norm_num)
  have h65 := Bnd.weaken (-0.014411603190599) (-0.014411603190592) (Bnd.mul_pn h63 h64 (by norm_num) (by norm_num)) (by norm_num) (by norm_num)
  have h66 := Bnd.weaken 4.0036730219008955 4.0036730219009006 (Bnd.add hw h63) (by norm_num) (by norm_num)
  have h67 := Bnd.const (2 : ℝ)
  have h68 := Bnd.weaken 8.007346043801791 8.0073460438018012 (Bnd.mul_pp h67 h66 (by norm_num) (by norm_num)) (by norm_num) (by norm_num)
  have h69 := Bnd.weaken 32.0587953325940969 32.0587953325941786 (Bnd.mul_pp h68 h66 (by norm_num) (by norm_num)) (by norm_num) (by norm_num)
  have h70 := Bnd.weaken (-0.000449536641695) (-0.0004495366416946) (Bnd.div_np h65 h69 (by norm_num) (by norm_num)) (by norm_num) (by norm_num)
  have h71 := Bnd.weaken (-0.0004495259048776) (-0.000449525903096) (Bnd.mul_pn h62 h60 (by norm_num) (by norm_num)) (by norm_num) (by norm_num)
  have h72 := Bnd.weaken (-0.000000010738599) (-0.000000010736817) (Bnd.sub h70 h71) (by norm_num) (by norm_num)
  have h73 : Bnd (trF (s * s) (dS - pS - v) (pS + v) δ2) (-0.000000010738599) (-0.000000010736817) := h72
  obtain ⟨f2, ef2⟩ : ∃ x : ℝ, x = trF (s * s) (dS - pS - v) (pS + v) δ2 := ⟨_, rfl⟩
  have h74 : Bnd f2 (-0.000000010738599) (-0.000000010736817) := by rw [ef2]; exact h73
  have hs2 : f2 * f1 < 0 := mul_neg_of_neg_of_pos (lt_of_le_of_lt h74.2 (by norm_num)) (lt_of_lt_of_le (by norm_num) h51.1)
  have h75 := Bnd.weaken 0.0000000053683319 0.0000000053687775 (Bnd.sub h60 h37) (by norm_num) (by norm_num)
  have hwx : ¬ (|δ2 - δ1| > kConvergence) := by
    rw [not_lt, abs_le]
    exact ⟨le_trans (by norm_num [kConvergence]) h75.1, le_trans h75.2 (by norm_num [kConvergence])⟩
  have h76 := Bnd.exp 5 0.00012 0.9998876194706133 0.9998876194706136 h37 (by norm_num) (by norm_num) (by norm_num) (by norm_num)
    (by norm_num [expSum, expErr, Finset.sum_range_succ, Nat.factorial])
    (by norm_num [expSum, expErr, Finset.sum_range_succ, Nat.factorial])
  have h77 := Bnd.weaken 0.0035995954300942 0.0035995954300943 (Bnd.mul_pp hX h76 (by norm_num) (by norm_num)) (by norm_num) (by norm_num)
  have r3 := iterate_off_exit n s dS pS v δ1 δ2 f1 f2 hwx
  have r2 := iterate_off_swap (n + 1) s dS pS v 0 δ1 (fA0 / 2) f1 δ2 f2 _ hs hw2 eδ2 ef2 hs2 r3
  have r1 := iterate_off_halve (n + 1 + 1) s dS pS v 0 (-(1 / 2)) fA0 fB0 δ1 f1 _ hs hw1 eδ1 ef1 hs1 r2
  rw [efA0, efB0] at r1
  exact ⟨δ1, r1, not_lt.mpr (le_of_lt (by rw [← efB0]; exact (lt_of_lt_of_le (by norm_num) h30.1))), h37, h77⟩

/-- The pending deviation of `Rating(1500, 1)` after a draw against `Rating(1500, 1)`. -/
theorem smallDraw_final (invV E2 : ℝ) (hI : Bnd invV 0.2499974819259223 0.2499974819259225)
    (hE : Bnd E2 0.0035995954300942 0.0035995954300943) :
    Bnd (1 / Real.sqrt (1 / (1 / kScale * (1 / kScale) + E2) + invV)) 0.0602448 0.06024481 := by
  have h1 : Bnd ((1 : ℝ) / kScale) 0.0057564624926173 0.0057564624926174 := ⟨by norm_num [kScale], by norm_num [kScale]⟩
  have h2 := Bnd.weaken 0.0000331368604289 0.000033136860429 (Bnd.mul_pp h1 h1 (by norm_num) (by norm_num)) (by norm_num) (by norm_num)
  have h3 := Bnd.weaken 0.0036327322905231 0.0036327322905233 (Bnd.add h2 hE) (by norm_num) (by norm_num)
  have h4 := Bnd.weaken 275.2748950448943341 275.2748950449094895 (Bnd.inv_p h3 (by norm_num)) (by norm_num) (by norm_num)
  have h5 := Bnd.weaken 275.5248925268202564 275.524892526835412 (Bnd.add h4 hI) (by norm_num) (by norm_num)
  have h6 := Bnd.sqrt 16.5989425123054226 16.5989425123058792 h5 (by norm_num) (by norm_num) (by norm_num)
  have h7 := Bnd.weaken 0.0602448016949654 0.0602448016949672 (Bnd.inv_p h6 (by norm_num)) (by norm_num) (by norm_num)
  exact Bnd.weaken _ _ h7 (by norm_num) (by norm_num)

/-- A draw between two ratings `Rating(1500, 1)` at the default volatility: the
single-opponent update returns for every fuel of at least 3, with a pending deviation near
0.0602, that is 10.47 on the external scale. -/
theorem smallDraw_run (n : ℕ) (j0 j1 : ℝ × ℝ × ℝ) :
    ∃ r, Rating.UpdateSingle (n + 3) (Rating.init 1500 1 kDefaultS j0)
        (Rating.init 1500 1 kDefaultS j1) (1 / 2) = Except.ok r ∧
      Bnd r.pPrime 0.0602448 0.06024481 := by
  have hs : kDefaultS ≠ 0 := by norm_num [kDefaultS]
  obtain ⟨hI, hβ, hw⟩ := smallDraw_beta_w _ (dev1_G 1500 kDefaultS j1)
  have hX : Bnd (kDefaultS * kDefaultS) 0.0036 0.0036 := by
    constructor <;> norm_num [kDefaultS]
  obtain ⟨δ, hit, h1, hδ, hE2⟩ := smallDraw_trace n kDefaultS _ _ _ hs hX hβ hw
  have h0 := not_lt.mpr (le_trans hβ.2 (by norm_num : ((-4.0000734264514775) : ℝ) ≤ 0))
  have hconv := Convergence_of_iterate (n + 2) 0 _ (1 / kScale) kDefaultS _ hs h0 h1 hit
  have hP := smallDraw_final _ _ hI hE2
  rw [UpdateSingle_draw (n + 3) (Rating.init 1500 1 kDefaultS j0)
    (Rating.init 1500 1 kDefaultS j1) rfl]
  refine ⟨_, UpdateFinal_of_Convergence hconv, ?_⟩
  simp only [Rating.init, exp_half_sq _ _ hs]
  exact hP

/-! ## Rounding to binary64, and certificates of single operations -/

/-- The integer nearest to `t`, when `t` is less than one half away from it. -/
theorem rne_of_lt {t : ℝ} {m : ℤ} (h1 : (m : ℝ) - 1 / 2 < t) (h2 : t < m + 1 / 2) :
    rne t = m := by
  unfold rne
  by_cases hm : (m : ℝ) ≤ t
  · have hf : ⌊t⌋ = m := by
      rw [Int.floor_eq_iff]
      exact ⟨hm, by linarith⟩
    rw [hf, if_pos (by linarith)]
  · push_neg at hm
    have hf : ⌊t⌋ = m - 1 := by
      rw [Int.floor_eq_iff]
      push_cast
      exact ⟨by linarith, by linarith⟩
    rw [hf]
    push_cast
    rw [if_neg (by linarith), if_pos (by linarith)]
    ring

/-- A tie just above an even integer goes down to it. -/
theorem rne_tie_up {t : ℝ} {m : ℤ} (h : t = m + 1 / 2) (hm : Even m) : rne t = m := by
  unfold rne
  have hf : ⌊t⌋ = m := by
    rw [Int.floor_eq_iff]
    exact ⟨by linarith, by linarith⟩
  rw [hf, if_neg (by linarith), if_neg (by linarith), if_pos hm]

/-- A tie just below an even integer goes up to it. -/
theorem rne_tie_down {t : ℝ} {m : ℤ} (h : t = m - 1 / 2) (hm : Even m) : rne t = m := by
  unfold rne
  have hf : ⌊t⌋ = m - 1 := by
    rw [Int.floor_eq_iff]
    push_cast
    exact ⟨by linarith, by linarith⟩
  have hodd : ¬ Even (m - 1) := by
    intro h1
    have := hm.sub h1
    simp at this
  rw [hf]
  push_cast
  rw [if_neg (by linarith), if_neg (by linarith), if_neg hodd]
  ring

/-- The exponent of the spacing at `r`, from the binade of `r`. -/
theorem ulpExp_eq {r : ℝ} {e : ℤ} (hr : r ≠ 0) (he : -1074 ≤ e)
    (hnorm : e = -1074 ∨ (2 : ℝ) ^ (e + 52) ≤ |r|) (hbin : |r| < (2 : ℝ) ^ (e + 53)) :
    ulpExp r = e := by
  have h0 : 0 < |r| := abs_pos.mpr hr
  have hb : 1 < 2 := by norm_num
  have h1 : Int.log 2 |r| < e + 53 := by
    rw [← Int.lt_zpow_iff_log_lt hb h0]
    exact_mod_cast hbin
  unfold ulpExp
  rcases hnorm with h | h
  · rw [h] at h1 ⊢
    exact max_eq_right (by omega)
  · have h2 : e + 52 ≤ Int.log 2 |r| := by
      rw [← Int.zpow_le_iff_le_log hb h0]
      exact_mod_cast h
    rw [max_eq_left (by omega)]
    omega

/-- Rounding of zero. -/
theorem round64_zero : round64 0 = 0 := by
  unfold round64 rne
  simp

/-- The exponent of the spacing at `r`, from the binade of `r` written with `ulp = 2^e`. -/
theorem ulpExp_of_bin {r ulp : ℝ} {e : ℤ} (hulp : ulp = 2 ^ e) (hr : r ≠ 0) (he : -1074 ≤ e)
    (hnorm : e = -1074 ∨ 2 ^ 52 * ulp ≤ r ∨ r ≤ -(2 ^ 52 * ulp))
    (hbin : -(2 ^ 53 * ulp) < r ∧ r < 2 ^ 53 * ulp) : ulpExp r = e := by
  have e52 : (2 : ℝ) ^ (e + 52) = 2 ^ 52 * ulp := by
    rw [hulp, zpow_add₀ (by norm_num : (2:ℝ) ≠ 0)]
    norm_cast
    ring
  have e53 : (2 : ℝ) ^ (e + 53) = 2 ^ 53 * ulp := by
    rw [hulp, zpow_add₀ (by norm_num : (2:ℝ) ≠ 0)]
    norm_cast
    ring
  apply ulpExp_eq hr he
  · rcases hnorm with h | h | h
    · exact Or.inl h
    · exact Or.inr (by rw [e52]; exact le_trans h (le_abs_self r))
    · exact Or.inr (by rw [e52]; exact le_trans (by linarith) (neg_le_abs r))
  · rw [e53, abs_lt]
    exact hbin

/-- Certificate of a rounding: `r` lies in the binade whose spacing is `ulp = 2^e` (or in
the subnormal range) and less than half a spacing from `m * ulp`. -/
theorem round64_eq (r ulp : ℝ) (m e : ℤ) (hulp : ulp = 2 ^ e) (hr : r ≠ 0) (he : -1074 ≤ e)
    (hnorm : e = -1074 ∨ 2 ^ 52 * ulp ≤ r ∨ r ≤ -(2 ^ 52 * ulp))
    (hbin : -(2 ^ 53 * ulp) < r ∧ r < 2 ^ 53 * ulp)
    (h1 : ((m : ℝ) - 1 / 2) * ulp < r) (h2 : r < ((m : ℝ) + 1 / 2) * ulp) :
    round64 r = m * ulp := by
  have hu : (0 : ℝ) < ulp := by rw [hulp]; positivity
  have hE : ulpExp r = e := ulpExp_of_bin hulp hr he hnorm hbin
  unfold round64
  rw [hE, ← hulp]
  congr 1
  have : rne (r / ulp) = m := by
    apply rne_of_lt
    · rw [lt_div_iff₀ hu]; exact h1
    · rw [div_lt_iff₀ hu]; exact h2
  rw [this]

/-- Certificate of a rounding at a tie: `r` is half a spacing above `m * ulp`, `m` even. -/
theorem round64_tie_up (r ulp : ℝ) (m e : ℤ) (hulp : ulp = 2 ^ e) (hr : r ≠ 0)
    (he : -1074 ≤ e) (hnorm : e = -1074 ∨ 2 ^ 52 * ulp ≤ r ∨ r ≤ -(2 ^ 52 * ulp))
    (hbin : -(2 ^ 53 * ulp) < r ∧ r < 2 ^ 53 * ulp)
    (h : r = ((m : ℝ) + 1 / 2) * ulp) (hm : Even m) :
    round64 r = m * ulp := by
  have hu : (0 : ℝ) < ulp := by rw [hulp]; positivity
  have hE : ulpExp r = e := ulpExp_of_bin hulp hr he hnorm hbin
  unfold round64
  rw [hE, ← hulp]
  congr 1
  have : rne (r / ulp) = m := by
    apply rne_tie_up _ hm
    rw [h]
    field_simp
    ring
  rw [this]

/-- Certificate of a rounding at a tie: `r` is half a spacing below `m * ulp`, `m` even. -/
theorem round64_tie_down (r ulp : ℝ) (m e : ℤ) (hulp : ulp = 2 ^ e) (hr : r ≠ 0)
    (he : -1074 ≤ e) (hnorm : e = -1074 ∨ 2 ^ 52 * ulp ≤ r ∨ r ≤ -(2 ^ 52 * ulp))
    (hbin : -(2 ^ 53 * ulp) < r ∧ r < 2 ^ 53 * ulp)
    (h : r = ((m : ℝ) - 1 / 2) * ulp) (hm : Even m) :
    round64 r = m * ulp := by
  have hu : (0 : ℝ) < ulp := by rw [hulp]; positivity
  have hE : ulpExp r = e := ulpExp_of_bin hulp hr he hnorm hbin
  unfold round64
  rw [hE, ← hulp]
  congr 1
  have : rne (r / ulp) = m := by
    apply rne_tie_down _ hm
    rw [h]
    field_simp
    ring
  rw [this]

/-- An operation whose exact value rounds to the finite nonzero `z` returns `z`. -/
theorem Fl.ofReal_eq {r z : ℝ} (neg : Bool) (h : round64 r = z) (hz : z ≠ 0)
    (hb : -(2 ^ 1024) < z ∧ z < 2 ^ 1024) : Fl.ofReal neg r = Fl.fin z := by
  unfold Fl.ofReal
  rw [h, if_neg (not_le.mpr (abs_lt.mpr hb)), if_neg hz]

/-- An operation whose exact value is zero returns a zero. -/
theorem Fl.ofReal_zero (neg : Bool) : Fl.ofReal neg 0 = Fl.zero neg := by
  unfold Fl.ofReal Fl.zero
  rw [round64_zero]
  simp

/-- A real inside a certified interval rounds to the certified double. -/
theorem Fl.ofReal_bnd {r lo hi z : ℝ} (neg : Bool) (m e : ℤ) (hr : Bnd r lo hi)
    (c : Fl.Cert lo hi z m e) : Fl.ofReal neg r = Fl.fin z := by
  obtain ⟨he, hz, hz0, hzb, h0, hnorm, hbin, h1, h2⟩ := c
  have hr0 : r ≠ 0 := by
    rcases h0 with h | h
    · exact ne_of_gt (lt_of_lt_of_le h hr.1)
    · exact ne_of_lt (lt_of_le_of_lt hr.2 h)
  have hround : round64 r = z := by
    rw [hz]
    refine round64_eq r (2 ^ e) m e rfl hr0 he ?_ ?_ ?_ ?_
    · rcases hnorm with h | h | h
      · exact Or.inl h
      · exact Or.inr (Or.inl (le_trans h hr.1))
      · exact Or.inr (Or.inr (le_trans hr.2 h))
    · exact ⟨lt_of_lt_of_le hbin.1 hr.1, lt_of_le_of_lt hr.2 hbin.2⟩
    · exact lt_of_lt_of_le h1 hr.1
    · exact lt_of_le_of_lt hr.2 h2
  exact Fl.ofReal_eq neg hround hz0 hzb

/-- A real half way between two doubles rounds to the certified even one. -/
theorem Fl.ofReal_tie {r z : ℝ} (neg : Bool) (m e : ℤ) (up : Bool)
    (c : Fl.CertTie r z m e up) : Fl.ofReal neg r = Fl.fin z := by
  obtain ⟨he, hz, hz0, hzb, hr0, hnorm, hbin, hr, hm⟩ := c
  have hev : Even m := Int.even_iff.mpr hm
  have hround : round64 r = z := by
    rw [hz]
    cases up
    · exact round64_tie_up r (2 ^ e) m e rfl hr0 he hnorm hbin
        (by simpa using hr) hev
    · exact round64_tie_down r (2 ^ e) m e rfl hr0 he hnorm hbin
        (by simpa using hr) hev
  exact Fl.ofReal_eq neg hround hz0 hzb

/-- A certificate stays one when everything is divided by `2^j`, as long as the spacing stays
at or above the smallest one. -/
theorem Fl.Cert.scale {lo hi z : ℝ} {m e : ℤ} (j : ℕ) (c : Fl.Cert lo hi z m e)
    (hj : -1074 ≤ e - j) : Fl.Cert (lo / 2 ^ j) (hi / 2 ^ j) (z / 2 ^ j) m (e - j) := by
  obtain ⟨he, hz, hz0, hzb, h0, hnorm, hbin, h1, h2⟩ := c
  have hp : (0:ℝ) < 2 ^ j := by positivity
  have h1le : (1:ℝ) ≤ 2 ^ j := one_le_pow₀ (by norm_num)
  have hE : (2:ℝ) ^ (e - (j:ℤ)) = 2 ^ e / 2 ^ j := by
    rw [zpow_sub₀ (by norm_num : (2:ℝ) ≠ 0), zpow_natCast]
  have hdiv : ∀ {a b : ℝ}, a < b → a / 2 ^ j < b / 2 ^ j := fun h =>
    div_lt_div_of_pos_right h hp
  have hdivle : ∀ {a b : ℝ}, a ≤ b → a / 2 ^ j ≤ b / 2 ^ j := fun h =>
    div_le_div_of_nonneg_right h (le_of_lt hp)
  refine ⟨hj, ?_, div_ne_zero hz0 (ne_of_gt hp), ?_, ?_, ?_, ?_, ?_⟩
  · rw [hE, hz]; ring
  · have habs : |z / 2 ^ j| ≤ |z| := by
      rw [abs_div, abs_of_pos hp]
      exact div_le_self (abs_nonneg z) h1le
    have hzabs : |z| < 2 ^ 1024 := abs_lt.mpr hzb
    exact abs_lt.mp (lt_of_le_of_lt habs hzabs)
  · rcases h0 with h | h
    · exact Or.inl (div_pos h hp)
    · exact Or.inr (div_neg_of_neg_of_pos h hp)
  · rcases hnorm with h | h | h
    · left
      have : (0:ℤ) ≤ (j:ℤ) := Int.natCast_nonneg j
      omega
    · right; left
      rw [hE]
      have := hdivle h
      calc (2:ℝ) ^ 52 * (2 ^ e / 2 ^ j) = 2 ^ 52 * 2 ^ e / 2 ^ j := by ring
        _ ≤ lo / 2 ^ j := this
    · right; right
      rw [hE]
      have := hdivle h
      calc hi / 2 ^ j ≤ -(2 ^ 52 * 2 ^ e) / 2 ^ j := this
        _ = -(2 ^ 52 * (2 ^ e / 2 ^ j)) := by ring
  · rw [hE]
    constructor
    · have := hdiv hbin.1
      calc -(2 ^ 53 * (2 ^ e / 2 ^ j)) = -(2 ^ 53 * 2 ^ e) / 2 ^ j := by ring
        _ < lo / 2 ^ j := this
    · have := hdiv hbin.2
      calc hi / 2 ^ j < 2 ^ 53 * 2 ^ e / 2 ^ j := this
        _ = 2 ^ 53 * (2 ^ e / 2 ^ j) := by ring
  · rw [hE]
    constructor
    · have := hdiv h1
      calc ((m:ℝ) - 1 / 2) * (2 ^ e / 2 ^ j) = ((m:ℝ) - 1 / 2) * 2 ^ e / 2 ^ j := by ring
        _ < lo / 2 ^ j := this
    · have := hdiv h2
      calc hi / 2 ^ j < ((m:ℝ) + 1 / 2) * 2 ^ e / 2 ^ j := this
        _ = ((m:ℝ) + 1 / 2) * (2 ^ e / 2 ^ j) := by ring

/-- Sum of two finite doubles. -/
theorem Fl.add_fin (x y : ℝ) : Fl.fin x + Fl.fin y = Fl.ofReal false (x + y) := rfl

/-- Difference of two finite doubles, the second not a zero. -/
theorem Fl.sub_fin (x y : ℝ) (hy : y ≠ 0) : Fl.fin x - Fl.fin y = Fl.ofReal false (x - y) := by
  show Fl.add (Fl.fin x) (if y = 0 then Fl.nzero else Fl.fin (-y)) = _
  rw [if_neg hy]
  show Fl.ofReal false (x + -y) = _
  rw [sub_eq_add_neg]

/-- Product of two finite doubles. -/
theorem Fl.mul_fin (x y : ℝ) :
    Fl.fin x * Fl.fin y = Fl.ofReal (xor (decide (x < 0)) (decide (y < 0))) (x * y) := rfl

/-- Quotient of two finite doubles, the second not a zero. -/
theorem Fl.div_fin (x y : ℝ) (hy : y ≠ 0) :
    Fl.fin x / Fl.fin y = Fl.ofReal (xor (decide (x < 0)) (decide (y < 0))) (x / y) := by
  show (if decide (y = 0) = true then
      (if decide (x = 0) = true then Fl.nan else Fl.inf (xor (decide (x < 0)) (decide (y < 0))))
    else Fl.ofReal (xor (decide (x < 0)) (decide (y < 0))) (x / y)) = _
  rw [decide_eq_false hy, if_neg Bool.false_ne_true]

/-- Evaluation of a sum that rounds to a nonzero double. -/
theorem Fl.add_eq {x y z : ℝ} (m e : ℤ) (c : Fl.Cert (x + y) (x + y) z m e) :
    Fl.fin x + Fl.fin y = Fl.fin z := by
  rw [Fl.add_fin]
  exact Fl.ofReal_bnd false m e (Bnd.const _) c

/-- Evaluation of a difference that rounds to a nonzero double. -/
theorem Fl.sub_eq {x y z : ℝ} (m e : ℤ) (hy : y ≠ 0) (c : Fl.Cert (x - y) (x - y) z m e) :
    Fl.fin x - Fl.fin y = Fl.fin z := by
  rw [Fl.sub_fin x y hy]
  exact Fl.ofReal_bnd false m e (Bnd.const _) c

/-- Evaluation of a product that rounds to a nonzero double. -/
theorem Fl.mul_eq {x y z : ℝ} (m e : ℤ) (c : Fl.Cert (x * y) (x * y) z m e) :
    Fl.fin x * Fl.fin y = Fl.fin z := by
  rw [Fl.mul_fin]
  exact Fl.ofReal_bnd _ m e (Bnd.const _) c

/-- Evaluation of a quotient that rounds to a nonzero double. -/
theorem Fl.div_eq {x y z : ℝ} (m e : ℤ) (hy : y ≠ 0) (c : Fl.Cert (x / y) (x / y) z m e) :
    Fl.fin x / Fl.fin y = Fl.fin z := by
  rw [Fl.div_fin x y hy]
  exact Fl.ofReal_bnd _ m e (Bnd.const _) c

/-- Evaluation of a sum at a tie. -/
theorem Fl.add_tie {x y z : ℝ} (m e : ℤ) (up : Bool) (c : Fl.CertTie (x + y) z m e up) :
    Fl.fin x + Fl.fin y = Fl.fin z := by
  rw [Fl.add_fin]
  exact Fl.ofReal_tie false m e up c

/-- Evaluation of a difference at a tie. -/
theorem Fl.sub_tie {x y z : ℝ} (m e : ℤ) (up : Bool) (hy : y ≠ 0)
    (c : Fl.CertTie (x - y) z m e up) : Fl.fin x - Fl.fin y = Fl.fin z := by
  rw [Fl.sub_fin x y hy]
  exact Fl.ofReal_tie false m e up c

/-- A sum whose exact value is zero is `+0`. -/
theorem Fl.add_cancel {x y : ℝ} (h : x + y = 0) : Fl.fin x + Fl.fin y = Fl.fin 0 := by
  rw [Fl.add_fin, h, Fl.ofReal_zero]
  rfl

/-- A difference whose exact value is zero is `+0`. -/
theorem Fl.sub_cancel {x y : ℝ} (h : x - y = 0) : Fl.fin x - Fl.fin y = Fl.fin 0 := by
  by_cases hy : y = 0
  · have hx : x = 0 := by rw [hy] at h; simpa using h
    subst hx; subst hy
    show Fl.add (Fl.fin 0) (if (0:ℝ) = 0 then Fl.nzero else Fl.fin (-0)) = _
    rw [if_pos rfl]
    rfl
  · rw [Fl.sub_fin x y hy, h, Fl.ofReal_zero]
    rfl

/-- Subtracting `+0` changes nothing. -/
theorem Fl.sub_zero (x : ℝ) : Fl.fin x - Fl.fin 0 = Fl.fin x := by
  show Fl.add (Fl.fin x) (if (0:ℝ) = 0 then Fl.nzero else Fl.fin (-0)) = _
  rw [if_pos rfl]
  rfl

/-- Subtracting a finite double that is not a zero is adding its opposite. -/
theorem Fl.sub_fin_eq (a : Fl) {y : ℝ} (hy : y ≠ 0) : a - Fl.fin y = a + Fl.fin (-y) := by
  show Fl.add a (if y = 0 then Fl.nzero else Fl.fin (-y)) = _
  rw [if_neg hy]
  rfl

/-- Subtracting `+0` is adding `-0`. -/
theorem Fl.sub_fin_zero (a : Fl) : a - Fl.fin 0 = a + Fl.nzero := by
  show Fl.add a (if (0:ℝ) = 0 then Fl.nzero else Fl.fin (-0)) = _
  rw [if_pos rfl]
  rfl

/-- The product of a positive double and `+inf` is `+inf`. -/
theorem Fl.mul_pinf_pos {x : ℝ} (h : 0 < x) : Fl.fin x * Fl.pinf = Fl.pinf := by
  show (if decide (x = 0) = true then Fl.nan
    else (if decide (x < 0) = true then Fl.ninf else Fl.pinf)) = _
  rw [decide_eq_false (ne_of_gt h), decide_eq_false (not_lt.mpr (le_of_lt h)),
    if_neg Bool.false_ne_true, if_neg Bool.false_ne_true]

/-- The product of `+inf` and `+0` is a NaN. -/
theorem Fl.pinf_mul_zero : Fl.pinf * Fl.fin 0 = Fl.nan := by
  show (if decide ((0:ℝ) = 0) = true then Fl.nan
    else (if decide ((0:ℝ) < 0) = true then Fl.ninf else Fl.pinf)) = _
  rw [decide_eq_true rfl, if_pos rfl]

/-- The quotient of a positive double and `+0` is `+inf`. -/
theorem Fl.div_zero_pos {x : ℝ} (h : 0 < x) : Fl.fin x / Fl.fin 0 = Fl.pinf := by
  show (if decide ((0:ℝ) = 0) = true then
      (if decide (x = 0) = true then Fl.nan
        else (if xor (decide (x < 0)) (decide ((0:ℝ) < 0)) = true then Fl.ninf else Fl.pinf))
    else Fl.ofReal (xor (decide (x < 0)) (decide ((0:ℝ) < 0))) (x / 0)) = _
  rw [decide_eq_true (rfl : (0:ℝ) = 0), if_pos rfl, decide_eq_false (ne_of_gt h),
    if_neg Bool.false_ne_true, decide_eq_false (not_lt.mpr (le_of_lt h)),
    decide_eq_false (lt_irrefl (0:ℝ))]
  rfl

/-- The quotient of `+inf` and a positive double is `+inf`. -/
theorem Fl.pinf_div_pos {x : ℝ} (h : 0 < x) : Fl.pinf / Fl.fin x = Fl.pinf := by
  show (if decide (x < 0) = true then Fl.ninf else Fl.pinf) = _
  rw [decide_eq_false (not_lt.mpr (le_of_lt h)), if_neg Bool.false_ne_true]

/-- The quotient of `-inf` and a positive double is `-inf`. -/
theorem Fl.ninf_div_pos {x : ℝ} (h : 0 < x) : Fl.ninf / Fl.fin x = Fl.ninf := by
  show (if (!decide (x < 0)) = true then Fl.ninf else Fl.pinf) = _
  rw [decide_eq_false (not_lt.mpr (le_of_lt h))]
  rfl

/-- The quotient of `-0` and a positive double is `-0`. -/
theorem Fl.nzero_div_pos {x : ℝ} (h : 0 < x) : Fl.nzero / Fl.fin x = Fl.nzero := by
  show (if decide (x = 0) = true then (if true = true then Fl.nan
        else Fl.inf (xor true (decide (x < 0))))
    else Fl.ofReal (xor true (decide (x < 0))) (0 / x)) = _
  rw [decide_eq_false (ne_of_gt h), if_neg Bool.false_ne_true, zero_div, Fl.ofReal_zero,
    decide_eq_false (not_lt.mpr (le_of_lt h))]
  rfl

/-- The logarithm of `+0` is `-inf`. -/
theorem Fl.log_zero : Fl.log (Fl.fin 0) = Fl.ninf := by
  show (if (0:ℝ) = 0 then Fl.ninf else if (0:ℝ) < 0 then Fl.nan
    else Fl.ofReal false (Real.log 0)) = _
  rw [if_pos rfl]

/-- A product with `+0`, the other factor not negative, is `+0`. -/
theorem Fl.mul_zero_pos {x : ℝ} (hx : 0 ≤ x) : Fl.fin x * Fl.fin 0 = Fl.fin 0 := by
  rw [Fl.mul_fin, mul_zero, Fl.ofReal_zero]
  simp [Fl.zero, not_lt.mpr hx]

/-- A product with `+0`, the other factor negative, is `-0`. -/
theorem Fl.mul_zero_neg {x : ℝ} (hx : x < 0) : Fl.fin x * Fl.fin 0 = Fl.nzero := by
  rw [Fl.mul_fin, mul_zero, Fl.ofReal_zero]
  simp [Fl.zero, hx]

/-- A product of `+0` with a factor that is not negative is `+0`. -/
theorem Fl.zero_mul_pos {x : ℝ} (hx : 0 ≤ x) : Fl.fin 0 * Fl.fin x = Fl.fin 0 := by
  rw [Fl.mul_fin, zero_mul, Fl.ofReal_zero]
  simp [Fl.zero, not_lt.mpr hx]

/-- A product of `+0` with a negative factor is `-0`. -/
theorem Fl.zero_mul_neg {x : ℝ} (hx : x < 0) : Fl.fin 0 * Fl.fin x = Fl.nzero := by
  rw [Fl.mul_fin, zero_mul, Fl.ofReal_zero]
  simp [Fl.zero, hx]

/-- The quotient of `+0` by a positive double is `+0`. -/
theorem Fl.zero_div_pos {x : ℝ} (hx : 0 < x) : Fl.fin 0 / Fl.fin x = Fl.fin 0 := by
  rw [Fl.div_fin 0 x (ne_of_gt hx), zero_div, Fl.ofReal_zero]
  simp [Fl.zero, not_lt.mpr (le_of_lt hx)]

/-- Evaluation of a square root, from bounds checked by squaring. -/
theorem Fl.sqrt_eq {x z : ℝ} (lo hi : ℝ) (m e : ℤ) (h0 : 0 ≤ lo) (hlo : lo * lo ≤ x)
    (hhi : x ≤ hi * hi) (hh : 0 ≤ hi) (c : Fl.Cert lo hi z m e) :
    Fl.sqrt (Fl.fin x) = Fl.fin z := by
  have hx : ¬ x < 0 := not_lt.mpr (le_trans (mul_nonneg h0 h0) hlo)
  show (if x < 0 then Fl.nan else Fl.ofReal false (Real.sqrt x)) = _
  rw [if_neg hx]
  exact Fl.ofReal_bnd false m e (Bnd.sqrt lo hi (Bnd.const x) hh hlo hhi) c

/-- Evaluation of an exponential, from bounds of the real exponential. -/
theorem Fl.exp_eq {x z : ℝ} (lo hi : ℝ) (m e : ℤ) (h : Bnd (Real.exp x) lo hi)
    (c : Fl.Cert lo hi z m e) : Fl.exp (Fl.fin x) = Fl.fin z :=
  Fl.ofReal_bnd false m e h c

/-- The exponential of `+0` is 1. -/
theorem Fl.exp_zero : Fl.exp (Fl.fin 0) = Fl.fin 1 := by
  show Fl.ofReal false (Real.exp 0) = _
  rw [Real.exp_zero]
  exact Fl.ofReal_bnd false 4503599627370496 (-52) (Bnd.const 1)
    (by unfold Fl.Cert; norm_num)

/-- The logarithm of 1 is `+0`. -/
theorem Fl.log_one : Fl.log (Fl.fin 1) = Fl.fin 0 := by
  show (if (1:ℝ) = 0 then Fl.ninf else if (1:ℝ) < 0 then Fl.nan
    else Fl.ofReal false (Real.log 1)) = _
  rw [if_neg (by norm_num), if_neg (by norm_num), Real.log_one, Fl.ofReal_zero]
  rfl

/-- Comparison of two finite doubles. -/
theorem Fl.fin_lt_fin (x y : ℝ) : (Fl.fin x < Fl.fin y) ↔ x < y := Iff.rfl

/-- A real below half the smallest subnormal rounds to zero. -/
theorem round64_small {r : ℝ} (h : |r| < 2 ^ (-1075 : ℤ)) : round64 r = 0 := by
  by_cases hr : r = 0
  · rw [hr]; exact round64_zero
  · have h2 : (2:ℝ) ^ (-1075 : ℤ) = 2 ^ (-1074 : ℤ) / 2 := by
      rw [show (-1075 : ℤ) = -1074 - 1 by norm_num, zpow_sub₀ (by norm_num : (2:ℝ) ≠ 0)]
      norm_num
    have hp : (0:ℝ) < 2 ^ (-1074 : ℤ) := by positivity
    have hlt := abs_lt.mp h
    have hE : ulpExp r = -1074 := by
      apply ulpExp_eq hr (le_refl _) (Or.inl rfl)
      refine lt_trans h ?_
      apply zpow_lt_zpow_right₀ (by norm_num) (by norm_num)
    unfold round64
    rw [hE]
    have : rne (r / 2 ^ (-1074 : ℤ)) = 0 := by
      apply rne_of_lt
      · rw [lt_div_iff₀ hp]
        have := hlt.1
        rw [h2] at this
        push_cast
        linarith
      · rw [div_lt_iff₀ hp]
        have := hlt.2
        rw [h2] at this
        push_cast
        linarith
    rw [this]
    simp

/-- A product of two doubles that are not negative, below half the smallest subnormal, is
`+0`. -/
theorem Fl.mul_underflow {x y : ℝ} (hx : 0 ≤ x) (hy : 0 ≤ y) (h : x * y < 2 ^ (-1075 : ℤ)) :
    Fl.fin x * Fl.fin y = Fl.fin 0 := by
  rw [Fl.mul_fin]
  have habs : |x * y| < 2 ^ (-1075 : ℤ) := by
    rw [abs_of_nonneg (mul_nonneg hx hy)]; exact h
  have hr := round64_small habs
  have hbig : ¬ ((2:ℝ) ^ 1024 ≤ |round64 (x * y)|) := by
    rw [hr]; norm_num
  unfold Fl.ofReal
  rw [if_neg hbig, if_pos hr]
  simp [not_lt.mpr hx, not_lt.mpr hy]

/-- A power of two at or below a real stays at or below its rounding. -/
theorem round64_ge_pow {r : ℝ} {k : ℤ} (hk : -1022 ≤ k) (h : (2:ℝ) ^ k ≤ r) :
    (2:ℝ) ^ k ≤ round64 r := by
  have hb : 1 < 2 := by norm_num
  have hr : 0 < r := lt_of_lt_of_le (by positivity) h
  have habs : |r| = r := abs_of_pos hr
  have hL : k ≤ Int.log 2 r := by
    rw [← Int.zpow_le_iff_le_log hb hr]
    exact_mod_cast h
  have hE : ulpExp r = Int.log 2 r - 52 := by
    unfold ulpExp
    rw [habs]
    exact max_eq_left (by omega)
  have hlow : (2:ℝ) ^ (Int.log 2 r) ≤ r := by
    have := Int.zpow_log_le_self hb hr
    exact_mod_cast this
  have hp : (0:ℝ) < 2 ^ (Int.log 2 r - 52) := by positivity
  have ht : ((2 ^ 52 : ℤ) : ℝ) ≤ r / 2 ^ (Int.log 2 r - 52) := by
    rw [le_div_iff₀ hp]
    have : ((2 ^ 52 : ℤ) : ℝ) * 2 ^ (Int.log 2 r - 52) = 2 ^ (Int.log 2 r) := by
      have h52 : ((2 ^ 52 : ℤ) : ℝ) = (2:ℝ) ^ (52:ℤ) := by norm_cast
      rw [h52, ← zpow_add₀ (by norm_num : (2:ℝ) ≠ 0)]
      congr 1
      ring
    rw [this]
    exact hlow
  have hfloor : (2 ^ 52 : ℤ) ≤ ⌊r / 2 ^ (Int.log 2 r - 52)⌋ := Int.le_floor.mpr ht
  have hrne : (2 ^ 52 : ℤ) ≤ rne (r / 2 ^ (Int.log 2 r - 52)) := by
    unfold rne
    split_ifs <;> omega
  unfold round64
  rw [hE]
  have h1 : ((2 ^ 52 : ℤ) : ℝ) ≤ (rne (r / 2 ^ (Int.log 2 r - 52)) : ℝ) := by
    exact_mod_cast hrne
  have h2 : (2:ℝ) ^ k ≤ ((2 ^ 52 : ℤ) : ℝ) * 2 ^ (Int.log 2 r - 52) := by
    have : ((2 ^ 52 : ℤ) : ℝ) * 2 ^ (Int.log 2 r - 52) = 2 ^ (Int.log 2 r) := by
      have h52 : ((2 ^ 52 : ℤ) : ℝ) = (2:ℝ) ^ (52:ℤ) := by norm_cast
      rw [h52, ← zpow_add₀ (by norm_num : (2:ℝ) ≠ 0)]
      congr 1
      ring
    rw [this]
    exact zpow_le_zpow_right₀ (by norm_num) hL
  exact le_trans h2 (mul_le_mul_of_nonneg_right h1 (le_of_lt hp))

/-- A product of two finite doubles at or above `2^1024` overflows to `+inf`. -/
theorem Fl.mul_overflow {x y : ℝ} (h : (2:ℝ) ^ 1024 ≤ x * y) :
    Fl.fin x * Fl.fin y = Fl.pinf := by
  rw [Fl.mul_fin]
  have h1 : (2:ℝ) ^ (1024:ℤ) ≤ x * y := by exact_mod_cast h
  have h2 := round64_ge_pow (by norm_num) h1
  have h3 : (2:ℝ) ^ 1024 ≤ |round64 (x * y)| := by
    refine le_trans ?_ (le_abs_self _)
    exact_mod_cast h2
  have hpos : 0 < x * y := lt_of_lt_of_le (by positivity) h
  unfold Fl.ofReal
  rw [if_pos h3, if_pos hpos]

/-- Rounding to nearest never passes an integer. -/
theorem rne_le {t : ℝ} {n : ℤ} (h : t ≤ n) : rne t ≤ n := by
  have hf : ⌊t⌋ ≤ n := Int.floor_le_iff.mpr (by linarith [Int.floor_le t])
  unfold rne
  by_cases hfr : t - ⌊t⌋ < 1 / 2
  · rw [if_pos hfr]; exact hf
  · have hne : ⌊t⌋ ≠ n := by
      intro he
      have : (⌊t⌋ : ℝ) = n := by exact_mod_cast he
      have h0 : t - ⌊t⌋ ≤ 0 := by rw [this]; linarith
      linarith
    have : ⌊t⌋ + 1 ≤ n := by omega
    rw [if_neg hfr]
    split_ifs <;> omega

/-- Rounding to nearest of a real that is not negative is not negative. -/
theorem rne_nonneg {t : ℝ} (h : 0 ≤ t) : 0 ≤ rne t := by
  have hf : 0 ≤ ⌊t⌋ := Int.floor_nonneg.mpr h
  unfold rne
  split_ifs <;> omega

/-- A real between 0 and a power of two rounds to a value between 0 and that power. -/
theorem round64_le_pow {r : ℝ} {k : ℤ} (hk : -1074 ≤ k) (h0 : 0 ≤ r) (h : r ≤ (2:ℝ) ^ k) :
    0 ≤ round64 r ∧ round64 r ≤ (2:ℝ) ^ k := by
  have hb : 1 < 2 := by norm_num
  have hp : ∀ e : ℤ, (0:ℝ) < 2 ^ e := fun e => by positivity
  constructor
  · unfold round64
    have : 0 ≤ r / 2 ^ ulpExp r := div_nonneg h0 (le_of_lt (hp _))
    have h1 : (0:ℝ) ≤ (rne (r / 2 ^ ulpExp r) : ℝ) := by exact_mod_cast rne_nonneg this
    exact mul_nonneg h1 (le_of_lt (hp _))
  · by_cases hr : r = 0
    · rw [hr, round64_zero]; exact le_of_lt (hp k)
    · have hr0 : 0 < r := lt_of_le_of_ne h0 (Ne.symm hr)
      have hE : ulpExp r ≤ k := by
        unfold ulpExp
        rw [abs_of_pos hr0]
        have hL : Int.log 2 r < k + 1 := by
          rw [← Int.lt_zpow_iff_log_lt hb hr0]
          have : (2:ℝ) ^ k < 2 ^ (k + 1) := zpow_lt_zpow_right₀ (by norm_num) (by omega)
          exact_mod_cast lt_of_le_of_lt h this
        exact max_le (by omega) hk
      obtain ⟨j, hj⟩ := Int.eq_ofNat_of_zero_le (sub_nonneg.mpr hE)
      have hpow : (2:ℝ) ^ k = ((2 ^ j : ℤ) : ℝ) * 2 ^ ulpExp r := by
        have : k = (j : ℤ) + ulpExp r := by omega
        rw [this, zpow_add₀ (by norm_num : (2:ℝ) ≠ 0)]
        push_cast
        rw [zpow_natCast]
      have ht : r / 2 ^ ulpExp r ≤ ((2 ^ j : ℤ) : ℝ) := by
        rw [div_le_iff₀ (hp _), ← hpow]
        exact h
      have h1 : (rne (r / 2 ^ ulpExp r) : ℝ) ≤ ((2 ^ j : ℤ) : ℝ) := by
        exact_mod_cast rne_le ht
      unfold round64
      rw [hpow]
      exact mul_le_mul_of_nonneg_right h1 (le_of_lt (hp _))

/-- Adding to 1 a real between 0 and `2^-53` rounds back to 1. -/
theorem round64_one_add {z : ℝ} (h0 : 0 ≤ z) (h : z ≤ 2 ^ (-53 : ℤ)) : round64 (1 + z) = 1 := by
  have h53 : (2:ℝ) ^ (-53 : ℤ) = 1 / 9007199254740992 := by norm_num
  rw [h53] at h
  by_cases hz : z = 1 / 9007199254740992
  · have := round64_tie_up (1 + z) (1 / 4503599627370496) 4503599627370496 (-52)
      (by norm_num) (by linarith) (by norm_num) (Or.inr (Or.inl (by norm_num; linarith)))
      ⟨by norm_num; linarith, by norm_num; linarith⟩ (by rw [hz]; norm_num)
      (by decide)
    rw [this]; norm_num
  · have hlt : z < 1 / 9007199254740992 := lt_of_le_of_ne h hz
    have := round64_eq (1 + z) (1 / 4503599627370496) 4503599627370496 (-52)
      (by norm_num) (by linarith) (by norm_num) (Or.inr (Or.inl (by norm_num; linarith)))
      ⟨by norm_num; linarith, by norm_num; linarith⟩ (by norm_num; linarith)
      (by norm_num; linarith)
    rw [this]; norm_num

/-- In binary64, 1 plus the exponential of a double at or below -37 is 1. -/
theorem Fl.one_add_exp_small {x : ℝ} (hx : x ≤ -37) :
    Fl.fin 1 + Fl.exp (Fl.fin x) = Fl.fin 1 := by
  have hexp : Real.exp x ≤ 2 ^ (-53 : ℤ) := by
    have h1 : Real.exp x ≤ Real.exp (-37) := Real.exp_le_exp.mpr hx
    have h2 : Real.exp (-37) = 1 / Real.exp 1 ^ 37 := by
      rw [Real.exp_neg, ← Real.exp_nat_mul]
      norm_num
    have h3 : (2.7182818283 : ℝ) ^ 37 ≤ Real.exp 1 ^ 37 :=
      pow_le_pow_left₀ (by norm_num) (le_of_lt Real.exp_one_gt_d9) 37
    have h4 : (2:ℝ) ^ (53 : ℕ) ≤ (2.7182818283 : ℝ) ^ 37 := by norm_num
    have h5 : (1:ℝ) / Real.exp 1 ^ 37 ≤ 1 / 2 ^ (53 : ℕ) :=
      one_div_le_one_div_of_le (by positivity) (le_trans h4 h3)
    have h6 : (2:ℝ) ^ (-53 : ℤ) = 1 / 2 ^ (53 : ℕ) := by norm_num
    rw [h6]
    exact le_trans h1 (by rw [h2]; exact h5)
  have hb := round64_le_pow (by norm_num) (le_of_lt (Real.exp_pos x)) hexp
  show Fl.fin 1 + Fl.ofReal false (Real.exp x) = Fl.fin 1
  have hone : Fl.ofReal false (1 + round64 (Real.exp x)) = Fl.fin 1 :=
    Fl.ofReal_eq false (round64_one_add hb.1 hb.2) (by norm_num) (by norm_num)
  have hsmall : ¬ ((2:ℝ) ^ 1024 ≤ |round64 (Real.exp x)|) := by
    rw [abs_of_nonneg hb.1, not_le]
    refine lt_of_le_of_lt hb.2 ?_
    norm_num
  unfold Fl.ofReal at hone ⊢
  rw [if_neg hsmall]
  by_cases hz : round64 (Real.exp x) = 0
  · rw [if_pos hz]
    simp only [Bool.false_eq_true, if_false]
    rw [hz] at hone
    exact hone
  · rw [if_neg hz]
    exact hone

/-- The loop of the solver leaves when the test on the bracket fails. -/
theorem Dbl.iterate_exit (dS pS v a tS : Fl) (n : ℕ) {A B fA fB t1 : Fl} (h1 : B - A = t1)
    (hc : ¬ Fl.fabs t1 > Dbl.kConvergence) :
    Dbl.Rating.Convergence.iterate dS pS v a tS (n + 1) A B fA fB = some A := by
  rw [Dbl.Rating.Convergence.iterate, h1, if_neg hc]

/-- A round of the solver's loop that moves `A` to `B`. -/
theorem Dbl.iterate_swap (dS pS v a tS : Fl) (n : ℕ) {A B fA fB t1 t2 t3 t4 t5 C fC pr : Fl}
    (h1 : B - A = t1) (hc : Fl.fabs t1 > Dbl.kConvergence) (h2 : A - B = t2)
    (h3 : t2 * fA = t3) (h4 : fB - fA = t4) (h5 : t3 / t4 = t5) (h6 : A + t5 = C)
    (hF : Dbl.Rating.F C dS pS v a tS = fC) (h7 : fC * fB = pr) (hs : pr < Fl.fin 0) :
    Dbl.Rating.Convergence.iterate dS pS v a tS (n + 1) A B fA fB =
      Dbl.Rating.Convergence.iterate dS pS v a tS n B C fB fC := by
  rw [Dbl.Rating.Convergence.iterate, h1, if_pos hc]
  simp only [h2, h3, h4, h5, h6, hF, h7]
  rw [if_pos hs]

/-- A round of the solver's loop that halves `fA`. -/
theorem Dbl.iterate_halve (dS pS v a tS : Fl) (n : ℕ)
    {A B fA fB t1 t2 t3 t4 t5 C fC pr fA2 : Fl}
    (h1 : B - A = t1) (hc : Fl.fabs t1 > Dbl.kConvergence) (h2 : A - B = t2)
    (h3 : t2 * fA = t3) (h4 : fB - fA = t4) (h5 : t3 / t4 = t5) (h6 : A + t5 = C)
    (hF : Dbl.Rating.F C dS pS v a tS = fC) (h7 : fC * fB = pr) (hs : ¬ pr < Fl.fin 0)
    (h8 : fA / Fl.fin 2 = fA2) :
    Dbl.Rating.Convergence.iterate dS pS v a tS (n + 1) A B fA fB =
      Dbl.Rating.Convergence.iterate dS pS v a tS n A C fA2 fC := by
  rw [Dbl.Rating.Convergence.iterate, h1, if_pos hc]
  simp only [h2, h3, h4, h5, h6, hF, h7]
  rw [if_neg hs, h8]

/-- The loop that looks for `B` stops at the first `B` where `F` is not negative. -/
theorem Dbl.bracket_exit (dS pS v a tS : Fl) (n : ℕ) {B fB : Fl}
    (hF : Dbl.Rating.F B dS pS v a tS = fB) (hc : ¬ fB < Fl.fin 0) :
    Dbl.Rating.Convergence.bracket dS pS v a tS (n + 1) B = some B := by
  rw [Dbl.Rating.Convergence.bracket, hF, if_neg hc]

/-- The solver when `dS - pS - v` is positive: the loop starts from `B = log(dS - pS - v)`. -/
theorem Dbl.Convergence_log (n : ℕ) {d v p s dS pS tS ss a t1 bTest B fA fB : Fl}
    (hdS : d * d = dS) (hpS : p * p = pS) (htS : Dbl.kSystemConst * Dbl.kSystemConst = tS)
    (hss : s * s = ss) (ha : Fl.log ss = a) (h1 : dS - pS = t1) (h2 : t1 - v = bTest)
    (hb : bTest > Fl.fin 0) (hB : Fl.log bTest = B)
    (hfA : Dbl.Rating.F a dS pS v a tS = fA) (hfB : Dbl.Rating.F B dS pS v a tS = fB) :
    Dbl.Rating.Convergence n d v p s =
      Dbl.Rating.Convergence.iterate dS pS v a tS n a B fA fB := by
  unfold Dbl.Rating.Convergence
  simp only [hdS, hpS, htS, hss, ha, h1, h2, if_pos hb, hB, hfA, hfB]

/-- The solver when `dS - pS - v` is not positive and the first candidate `B = a - tau` is
accepted. -/
theorem Dbl.Convergence_first (n : ℕ) {d v p s dS pS tS ss a t1 bTest B fA fB : Fl}
    (hdS : d * d = dS) (hpS : p * p = pS) (htS : Dbl.kSystemConst * Dbl.kSystemConst = tS)
    (hss : s * s = ss) (ha : Fl.log ss = a) (h1 : dS - pS = t1) (h2 : t1 - v = bTest)
    (hb : ¬ bTest > Fl.fin 0) (hB : a - Dbl.kSystemConst = B)
    (hfA : Dbl.Rating.F a dS pS v a tS = fA) (hfB : Dbl.Rating.F B dS pS v a tS = fB)
    (hc : ¬ fB < Fl.fin 0) :
    Dbl.Rating.Convergence (n + 1) d v p s =
      Dbl.Rating.Convergence.iterate dS pS v a tS (n + 1) a B fA fB := by
  unfold Dbl.Rating.Convergence
  simp only [hdS, hpS, htS, hss, ha, h1, h2, if_neg hb, hB,
    Dbl.bracket_exit dS pS v a tS n hfB hc, hfA, hfB]

/-- With no fuel the solver returns nothing. -/
theorem Dbl.Convergence_zero_fuel {d v p s dS pS tS ss a t1 bTest : Fl}
    (hdS : d * d = dS) (hpS : p * p = pS) (htS : Dbl.kSystemConst * Dbl.kSystemConst = tS)
    (hss : s * s = ss) (ha : Fl.log ss = a) (h1 : dS - pS = t1) (h2 : t1 - v = bTest)
    (hb : ¬ bTest > Fl.fin 0) : Dbl.Rating.Convergence 0 d v p s = none := by
  unfold Dbl.Rating.Convergence
  simp only [hdS, hpS, htS, hss, ha, h1, h2, if_neg hb, Dbl.Rating.Convergence.bracket]

/-- Product by a double scaled down by `2^j`, from the certificate of the unscaled product. -/
theorem Fl.mul_scale {x y z : ℝ} (m e : ℤ) (j : ℕ) (c : Fl.Cert (x * y) (x * y) z m e)
    (hj : -1074 ≤ e - j) : Fl.fin x * Fl.fin (y / 2 ^ j) = Fl.fin (z / 2 ^ j) := by
  rw [Fl.mul_fin]
  have h : x * (y / 2 ^ j) = x * y / 2 ^ j := by ring
  rw [h]
  exact Fl.ofReal_bnd _ m (e - j) (Bnd.const _) (c.scale j hj)

/-- Difference of `+0` and a double scaled down by `2^j`, from the certificate of the
unscaled difference. -/
theorem Fl.zero_sub_scale {y z : ℝ} (m e : ℤ) (j : ℕ) (c : Fl.Cert (0 - y) (0 - y) z m e)
    (hj : -1074 ≤ e - j) : Fl.fin 0 - Fl.fin (y / 2 ^ j) = Fl.fin (z / 2 ^ j) := by
  have hy : y ≠ 0 := by
    rcases c.2.2.2.2.1 with h | h
    · intro h0; rw [h0] at h; norm_num at h
    · intro h0; rw [h0] at h; norm_num at h
  have hp : (2:ℝ) ^ j ≠ 0 := by positivity
  rw [Fl.sub_fin 0 (y / 2 ^ j) (div_ne_zero hy hp)]
  have h : 0 - y / 2 ^ j = (0 - y) / 2 ^ j := by ring
  rw [h]
  exact Fl.ofReal_bnd _ m (e - j) (Bnd.const _) (c.scale j hj)

/-- Quotient of two doubles scaled down by the same `2^j`: the quotient of the unscaled
ones. -/
theorem Fl.div_scale {x y z : ℝ} (m e : ℤ) (j : ℕ) (hy : y ≠ 0)
    (c : Fl.Cert (x / y) (x / y) z m e) :
    Fl.fin (x / 2 ^ j) / Fl.fin (y / 2 ^ j) = Fl.fin z := by
  have hp : (2:ℝ) ^ j ≠ 0 := by positivity
  rw [Fl.div_fin _ _ (div_ne_zero hy hp)]
  have h : x / 2 ^ j / (y / 2 ^ j) = x / y := by field_simp
  rw [h]
  exact Fl.ofReal_bnd _ m e (Bnd.const _) c

/-- Half of a double scaled down by `2^j`, from the certificate of the unscaled half. -/
theorem Fl.half_scale {y z : ℝ} (m e : ℤ) (j : ℕ) (c : Fl.Cert (y / 2) (y / 2) z m e)
    (hj : -1074 ≤ e - j) : Fl.fin (y / 2 ^ j) / Fl.fin 2 = Fl.fin (z / 2 ^ j) := by
  rw [Fl.div_fin _ _ (by norm_num)]
  have h : y / 2 ^ j / 2 = y / 2 / 2 ^ j := by ring
  rw [h]
  exact Fl.ofReal_bnd _ m (e - j) (Bnd.const _) (c.scale j hj)

/-- A loop that steps to a state from which it never returns never returns. -/
theorem Dbl.iterate_none_of_step {dS pS v a tS A B fA fB A1 B1 fA1 fB1 : Fl}
    (hstep : ∀ n, Dbl.Rating.Convergence.iterate dS pS v a tS (n + 1) A B fA fB =
      Dbl.Rating.Convergence.iterate dS pS v a tS n A1 B1 fA1 fB1)
    (hnone : ∀ n, Dbl.Rating.Convergence.iterate dS pS v a tS n A1 B1 fA1 fB1 = none) (n : ℕ) :
    Dbl.Rating.Convergence.iterate dS pS v a tS n A B fA fB = none := by
  cases n with
  | zero => rfl
  | succ n => rw [hstep n, hnone n]

/-! ## The binary64 program, one operation at a time -/

/-- The weighting function `G`, one operation at a time. -/
theorem Dbl.G_eval (o : Dbl.Rating) {sc t1 t2 t3 t4 g : Fl} (h1 : o.p / Dbl.kPI = sc)
    (h2 : Fl.fin 3 * sc = t1) (h3 : t1 * sc = t2) (h4 : Fl.fin 1 + t2 = t3)
    (h5 : Fl.sqrt t3 = t4) (h6 : Fl.fin 1 / t4 = g) : o.G = g := by
  unfold Dbl.Rating.G
  simp only [h1, h2, h3, h4, h5, h6]

/-- The expected score `E`, one operation at a time. -/
theorem Dbl.E_eval (o self : Dbl.Rating) {g t1 t2 ex t3 t4 e : Fl} (h1 : Fl.fin (-1) * g = t1)
    (h2 : self.u - o.u = t2) (h3 : t1 * t2 = ex) (h4 : Fl.exp ex = t3)
    (h5 : Fl.fin 1 + t3 = t4) (h6 : Fl.fin 1 / t4 = e) : o.E g self = e := by
  unfold Dbl.Rating.E
  simp only [h1, h2, h3, h4, h5, h6]

/-- The function `F` of the solver, one operation at a time. -/
theorem Dbl.F_eval {x dS pS v a tS eX n1 n2 n3 num d1 den d2 d3 q x1 x2 f : Fl}
    (h1 : Fl.exp x = eX) (h2 : dS - pS = n1) (h3 : n1 - v = n2) (h4 : n2 - eX = n3)
    (h5 : eX * n3 = num) (h6 : pS + v = d1) (h7 : d1 + eX = den) (h8 : Fl.fin 2 * den = d2)
    (h9 : d2 * den = d3) (h10 : num / d3 = q) (h11 : x - a = x1) (h12 : x1 / tS = x2)
    (h13 : q - x2 = f) : Dbl.Rating.F x dS pS v a tS = f := by
  unfold Dbl.Rating.F
  simp only [h1, h2, h3, h4, h5, h6, h7, h8, h9, h10, h11, h12, h13]

/-- The single-opponent update up to the call of the finishing step, one operation at a
time. -/
theorem Dbl.UpdateSingle_eval (fuel : ℕ) {self o : Dbl.Rating}
    {score g e t1 t2 om invV v se dInner d : Fl} (hG : o.G = g) (hE : o.E g self = e)
    (h1 : g * g = t1) (h2 : t1 * e = t2) (h3 : Fl.fin 1 - e = om) (h4 : t2 * om = invV)
    (h5 : Fl.fin 1 / invV = v) (h6 : score - e = se) (h7 : g * se = dInner)
    (h8 : v * dInner = d) :
    Dbl.Rating.UpdateSingle fuel self o score = Dbl.Rating.UpdateFinal fuel self invV v dInner d := by
  unfold Dbl.Rating.UpdateSingle
  simp only [hG, hE, h1, h2, h3, h4, h5, h6, h7, h8]

/-- The batch update with one opponent is the finishing step on the `invV`, `v`, `dInner` and
`d` of that opponent. -/
theorem Dbl.UpdateBatch_single (fuel : ℕ) (scratch : Dbl.Scratch) (gNew eNew : ℕ → Fl)
    (self o : Dbl.Rating) (score : Fl) :
    Except.map Prod.fst
        (Dbl.Rating.UpdateBatch fuel scratch gNew eNew self 1 (some [o]) (some [score])) =
      Dbl.Rating.UpdateFinal fuel self
            (Fl.fin 0 + o.G * o.G * o.E o.G self * (Fl.fin 1 - o.E o.G self))
            (Fl.fin 1 / (Fl.fin 0 + o.G * o.G * o.E o.G self * (Fl.fin 1 - o.E o.G self)))
            (Fl.fin 0 + o.G * (score - o.E o.G self))
            (Fl.fin 1 / (Fl.fin 0 + o.G * o.G * o.E o.G self * (Fl.fin 1 - o.E o.G self)) *
              (Fl.fin 0 + o.G * (score - o.E o.G self))) := by
  show Except.map Prod.fst
    (match Dbl.Rating.UpdateFinal fuel self
            (Fl.fin 0 + o.G * o.G * o.E o.G self * (Fl.fin 1 - o.E o.G self))
            (Fl.fin 1 / (Fl.fin 0 + o.G * o.G * o.E o.G self * (Fl.fin 1 - o.E o.G self)))
            (Fl.fin 0 + o.G * (score - o.E o.G self))
            (Fl.fin 1 / (Fl.fin 0 + o.G * o.G * o.E o.G self * (Fl.fin 1 - o.E o.G self)) *
              (Fl.fin 0 + o.G * (score - o.E o.G self))) with
      | Except.error f => Except.error f
      | Except.ok r => Except.ok (r, Dbl.Scratch.mk
          (Function.update (Dbl.Rating.UpdateBatch.reserve scratch gNew eNew 1).gTable 0 o.G)
          (Function.update (Dbl.Rating.UpdateBatch.reserve scratch gNew eNew 1).eTable 0
            (o.E o.G self))
          (Dbl.Rating.UpdateBatch.reserve scratch gNew eNew 1).tableSize)) = _
  generalize Dbl.Rating.UpdateFinal fuel self
            (Fl.fin 0 + o.G * o.G * o.E o.G self * (Fl.fin 1 - o.E o.G self))
            (Fl.fin 1 / (Fl.fin 0 + o.G * o.G * o.E o.G self * (Fl.fin 1 - o.E o.G self)))
            (Fl.fin 0 + o.G * (score - o.E o.G self))
            (Fl.fin 1 / (Fl.fin 0 + o.G * o.G * o.E o.G self * (Fl.fin 1 - o.E o.G self)) *
              (Fl.fin 0 + o.G * (score - o.E o.G self))) = x
  cases x <;> rfl

/-- The batch update with one opponent up to the call of the finishing step, one operation at
a time. -/
theorem Dbl.UpdateBatch_eval (fuel : ℕ) (scratch : Dbl.Scratch) (gNew eNew : ℕ → Fl)
    {self o : Dbl.Rating} {score g e t1 t2 om t3 invV v se t4 dInner d : Fl} (hG : o.G = g)
    (hE : o.E g self = e) (h1 : g * g = t1) (h2 : t1 * e = t2) (h3 : Fl.fin 1 - e = om)
    (h4 : t2 * om = t3) (h4b : Fl.fin 0 + t3 = invV) (h5 : Fl.fin 1 / invV = v)
    (h6 : score - e = se) (h7 : g * se = t4) (h7b : Fl.fin 0 + t4 = dInner)
    (h8 : v * dInner = d) :
    Except.map Prod.fst
        (Dbl.Rating.UpdateBatch fuel scratch gNew eNew self 1 (some [o]) (some [score])) =
      Dbl.Rating.UpdateFinal fuel self invV v dInner d := by
  subst hG hE h1 h2 h3 h4 h4b h5 h6 h7 h7b h8
  exact Dbl.UpdateBatch_single fuel scratch gNew eNew self o score

/-- The finishing step when the solver does not return. -/
theorem Dbl.UpdateFinal_none {fuel : ℕ} {self : Dbl.Rating} {invV v dInner d : Fl}
    (h : Dbl.Rating.Convergence fuel d v self.p self.s = none) :
    Dbl.Rating.UpdateFinal fuel self invV v dInner d = Except.error Fault.fuel := by
  unfold Dbl.Rating.UpdateFinal
  simp only [h]

/-- The finishing step when the solver returns `A`, one operation at a time. -/
theorem Dbl.UpdateFinal_eval {fuel : ℕ} (self : Dbl.Rating)
    {invV v dInner d A t1 sP pp ss sm q q2 sq pP pp2 incr uP : Fl}
    (hC : Dbl.Rating.Convergence fuel d v self.p self.s = some A) (h1 : A / Fl.fin 2 = t1)
    (h2 : Fl.exp t1 = sP) (h3 : self.p * self.p = pp) (h4 : sP * sP = ss) (h5 : pp + ss = sm)
    (h6 : Fl.fin 1 / sm = q) (h7 : q + invV = q2) (h8 : Fl.sqrt q2 = sq)
    (h9 : Fl.fin 1 / sq = pP) (h10 : pP * pP = pp2) (h11 : pp2 * dInner = incr)
    (h12 : self.u + incr = uP) :
    Dbl.Rating.UpdateFinal fuel self invV v dInner d =
      Except.ok { self with sPrime := sP, pPrime := pP, uPrime := uP } := by
  unfold Dbl.Rating.UpdateFinal
  simp only [hC, h1, h2, h3, h4, h5, h6, h7, h8, h9, h10, h11, h12]

/-! ## Runs of the binary64 program where rounding, overflow or underflow decide -/

/-- The external deviation of `Rating(1400, 30)` in binary64 is 30.000000000000004: the quotient `30 / kScale` and its product with `kScale` are both rounded. -/
theorem dev30_Deviation1 (s : Fl) (j : Fl × Fl × Fl) :
    (Dbl.Rating.init (Fl.fin 1400) (Fl.fin 30) s j).Deviation1 = (Fl.fin (8444249301319681 / 2 ^ 48)) := by
  have h0 : (Fl.fin 1400) - (Fl.fin 1500) = (Fl.fin (-100)) :=
    Fl.sub_eq (-7036874417766400) (-46) (by norm_num) (by unfold Fl.Cert; norm_num)
  have h1 : (Fl.fin (-100)) / (Fl.fin (1528037928413325 / 2 ^ 43)) = (Fl.fin (-5184960467344735 / 2 ^ 53)) :=
    Fl.div_eq (-5184960467344735) (-53) (by norm_num) (by unfold Fl.Cert; norm_num)
  have h2 : (Fl.fin 30) / (Fl.fin (1528037928413325 / 2 ^ 43)) = (Fl.fin (3110976280406841 / 2 ^ 54)) :=
    Fl.div_eq 6221952560813682 (-55) (by norm_num) (by unfold Fl.Cert; norm_num)
  have h3 : (Fl.fin (3110976280406841 / 2 ^ 54)) * (Fl.fin (1528037928413325 / 2 ^ 43)) = (Fl.fin (8444249301319681 / 2 ^ 48)) :=
    Fl.mul_eq 8444249301319681 (-48) (by unfold Fl.Cert; norm_num)
  have hk0 : Dbl.Rating.init (Fl.fin 1400) (Fl.fin 30) s j = ({ u := (Fl.fin (-5184960467344735 / 2 ^ 53)), p := (Fl.fin (3110976280406841 / 2 ^ 54)), s := s, uPrime := j.1, pPrime := j.2.1, sPrime := j.2.2 } : Dbl.Rating) :=
    by
    unfold Dbl.Rating.init
    simp only [Dbl.kDefaultR, Dbl.kScale, h0, h1, h2]
  rw [hk0]
  exact h3


/-- The decay of `Rating(1500, 1e10)` in binary64: `s * s` is below half a unit in the last place of `p * p`, the sum rounds to `p * p` and its square root to `p`. -/
theorem dev1e10_Decay (j : Fl × Fl × Fl) :
    (Dbl.Rating.init (Fl.fin 1500) (Fl.fin 10000000000) Dbl.kDefaultS j).p = (Fl.fin (7726193170763157 / 2 ^ 27)) ∧
    (Dbl.Rating.init (Fl.fin 1500) (Fl.fin 10000000000) Dbl.kDefaultS j).Decay.pPrime = (Fl.fin (7726193170763157 / 2 ^ 27)) := by
  have h0 : (Fl.fin 1500) - (Fl.fin 1500) = (Fl.fin 0) :=
    Fl.sub_cancel (by norm_num)
  have h1 : (Fl.fin 0) / (Fl.fin (1528037928413325 / 2 ^ 43)) = (Fl.fin 0) :=
    Fl.zero_div_pos (by norm_num)
  have h2 : (Fl.fin 10000000000) / (Fl.fin (1528037928413325 / 2 ^ 43)) = (Fl.fin (7726193170763157 / 2 ^ 27)) :=
    Fl.div_eq 7726193170763157 (-27) (by norm_num) (by unfold Fl.Cert; norm_num)
  have h3 : (Fl.fin (7726193170763157 / 2 ^ 27)) * (Fl.fin (7726193170763157 / 2 ^ 27)) = (Fl.fin 3313686042891020) :=
    Fl.mul_eq 6627372085782040 (-1) (by unfold Fl.Cert; norm_num)
  have h4 : (Fl.fin (1080863910568919 / 2 ^ 54)) * (Fl.fin (1080863910568919 / 2 ^ 54)) = (Fl.fin (4150517416584649 / 2 ^ 60)) :=
    Fl.mul_eq 8301034833169298 (-61) (by unfold Fl.Cert; norm_num)
  have h5 : (Fl.fin 3313686042891020) + (Fl.fin (4150517416584649 / 2 ^ 60)) = (Fl.fin 3313686042891020) :=
    Fl.add_eq 6627372085782040 (-1) (by unfold Fl.Cert; norm_num)
  have h6 : Fl.sqrt (Fl.fin 3313686042891020) = (Fl.fin (7726193170763157 / 2 ^ 27)) :=
    Fl.sqrt_eq (259248023367236736813999 / 2 ^ 52) (1036992093468946947255997 / 2 ^ 54) 7726193170763157 (-27) (by norm_num) (by norm_num) (by norm_num) (by norm_num) (by unfold Fl.Cert; norm_num)
  have hk0 : Dbl.Rating.init (Fl.fin 1500) (Fl.fin 10000000000) Dbl.kDefaultS j = ({ u := (Fl.fin 0), p := (Fl.fin (7726193170763157 / 2 ^ 27)), s := Dbl.kDefaultS, uPrime := j.1, pPrime := j.2.1, sPrime := j.2.2 } : Dbl.Rating) :=
    by
    unfold Dbl.Rating.init
    simp only [Dbl.kDefaultR, Dbl.kScale, h0, h1, h2]
  rw [hk0]
  simp only [Dbl.Rating.Decay, Dbl.kDefaultS, h3, h4, h5, h6]
  refine ⟨?_, ?_⟩ <;> first | rfl | trivial

/-- The batch update of `Rating(1500, 350, 2^-600)` against `Rating(1500, 350)` in binary64: `s * s` underflows to 0, its logarithm is `-inf`, the solver returns `-inf` and the pending volatility is `exp(-inf) = 0`. -/
theorem tiny_batch_run (n : ℕ) (scratch : Dbl.Scratch) (gNew eNew : ℕ → Fl) (j0 j1 : Fl × Fl × Fl) :
    Except.map Prod.fst (Dbl.Rating.UpdateBatch (n + 1) scratch gNew eNew
      (Dbl.Rating.init (Fl.fin 1500) (Fl.fin 350) (Fl.fin (1 / 2 ^ 600)) j0) 1
      (some [Dbl.Rating.init (Fl.fin 1500) (Fl.fin 350) Dbl.kDefaultS j1]) (some [(Fl.fin (1 / 2))])) =
    Except.ok { ({ u := (Fl.fin 0), p := (Fl.fin (4536840408926643 / 2 ^ 51)), s := (Fl.fin (1 / 2 ^ 600)), uPrime := j0.1, pPrime := j0.2.1, sPrime := j0.2.2 } : Dbl.Rating) with sPrime := (Fl.fin 0), pPrime := (Fl.fin (3762084273170739 / 2 ^ 51)), uPrime := (Fl.fin 0) } := by
  have h0 : (Fl.fin 1500) - (Fl.fin 1500) = (Fl.fin 0) :=
    Fl.sub_cancel (by norm_num)
  have h1 : (Fl.fin 0) / (Fl.fin (1528037928413325 / 2 ^ 43)) = (Fl.fin 0) :=
    Fl.zero_div_pos (by norm_num)
  have h2 : (Fl.fin 350) / (Fl.fin (1528037928413325 / 2 ^ 43)) = (Fl.fin (4536840408926643 / 2 ^ 51)) :=
    Fl.div_eq 4536840408926643 (-51) (by norm_num) (by unfold Fl.Cert; norm_num)
  have h3 : (Fl.fin (4536840408926643 / 2 ^ 51)) / (Fl.fin (884279719003555 / 2 ^ 48)) = (Fl.fin (722060577099731 / 2 ^ 50)) :=
    Fl.div_eq 5776484616797848 (-53) (by norm_num) (by unfold Fl.Cert; norm_num)
  have h4 : (Fl.fin 3) * (Fl.fin (722060577099731 / 2 ^ 50)) = (Fl.fin (2166181731299193 / 2 ^ 50)) :=
    Fl.mul_eq 8664726925196772 (-52) (by unfold Fl.Cert; norm_num)
  have h5 : (Fl.fin (2166181731299193 / 2 ^ 50)) * (Fl.fin (722060577099731 / 2 ^ 50)) = (Fl.fin (5556850734239979 / 2 ^ 52)) :=
    Fl.mul_eq 5556850734239979 (-52) (by unfold Fl.Cert; norm_num)
  have h6 : (Fl.fin 1) + (Fl.fin (5556850734239979 / 2 ^ 52)) = (Fl.fin (2515112590402619 / 2 ^ 50)) :=
    Fl.add_tie 5030225180805238 (-51) true (by unfold Fl.CertTie; norm_num)
  have h7 : Fl.sqrt (Fl.fin (2515112590402619 / 2 ^ 50)) = (Fl.fin (6731139613745083 / 2 ^ 52)) :=
    Fl.sqrt_eq (451719132903831337060947 / 2 ^ 78) (903438265807662674121895 / 2 ^ 79) 6731139613745083 (-52) (by norm_num) (by norm_num) (by norm_num) (by norm_num) (by unfold Fl.Cert; norm_num)
  have h8 : (Fl.fin 1) / (Fl.fin (6731139613745083 / 2 ^ 52)) = (Fl.fin (6026441514371415 / 2 ^ 53)) :=
    Fl.div_eq 6026441514371415 (-53) (by norm_num) (by unfold Fl.Cert; norm_num)
  have h9 : (Fl.fin (-1)) * (Fl.fin (6026441514371415 / 2 ^ 53)) = (Fl.fin (-6026441514371415 / 2 ^ 53)) :=
    Fl.mul_eq (-6026441514371415) (-53) (by unfold Fl.Cert; norm_num)
  have h10 : (Fl.fin 0) - (Fl.fin 0) = (Fl.fin 0) :=
    Fl.sub_zero _
  have h11 : (Fl.fin (-6026441514371415 / 2 ^ 53)) * (Fl.fin 0) = Fl.nzero :=
    Fl.mul_zero_neg (by norm_num)
  have h12 : Fl.exp Fl.nzero = (Fl.fin 1) :=
    rfl
  have h13 : (Fl.fin 1) + (Fl.fin 1) = (Fl.fin 2) :=
    Fl.add_eq 4503599627370496 (-51) (by unfold Fl.Cert; norm_num)
  have h14 : (Fl.fin 1) / (Fl.fin 2) = (Fl.fin (1 / 2)) :=
    Fl.div_eq 4503599627370496 (-53) (by norm_num) (by unfold Fl.Cert; norm_num)
  have h15 : (Fl.fin (6026441514371415 / 2 ^ 53)) * (Fl.fin (6026441514371415 / 2 ^ 53)) = (Fl.fin (4032107683975465 / 2 ^ 53)) :=
    Fl.mul_eq 8064215367950930 (-54) (by unfold Fl.Cert; norm_num)
  have h16 : (Fl.fin (4032107683975465 / 2 ^ 53)) * (Fl.fin (1 / 2)) = (Fl.fin (4032107683975465 / 2 ^ 54)) :=
    Fl.mul_eq 8064215367950930 (-55) (by unfold Fl.Cert; norm_num)
  have h17 : (Fl.fin 1) - (Fl.fin (1 / 2)) = (Fl.fin (1 / 2)) :=
    Fl.sub_eq 4503599627370496 (-53) (by norm_num) (by unfold Fl.Cert; norm_num)
  have h18 : (Fl.fin (4032107683975465 / 2 ^ 54)) * (Fl.fin (1 / 2)) = (Fl.fin (4032107683975465 / 2 ^ 55)) :=
    Fl.mul_eq 8064215367950930 (-56) (by unfold Fl.Cert; norm_num)
  have h19 : (Fl.fin 0) + (Fl.fin (4032107683975465 / 2 ^ 55)) = (Fl.fin (4032107683975465 / 2 ^ 55)) :=
    Fl.add_eq 8064215367950930 (-56) (by unfold Fl.Cert; norm_num)
  have h20 : (Fl.fin 1) / (Fl.fin (4032107683975465 / 2 ^ 55)) = (Fl.fin (5030225180805237 / 2 ^ 49)) :=
    Fl.div_eq 5030225180805237 (-49) (by norm_num) (by unfold Fl.Cert; norm_num)
  have h21 : (Fl.fin (1 / 2)) - (Fl.fin (1 / 2)) = (Fl.fin 0) :=
    Fl.sub_cancel (by norm_num)
  have h22 : (Fl.fin (6026441514371415 / 2 ^ 53)) * (Fl.fin 0) = (Fl.fin 0) :=
    Fl.mul_zero_pos (by norm_num)
  have h23 : (Fl.fin 0) + (Fl.fin 0) = (Fl.fin 0) :=
    Fl.add_cancel (by norm_num)
  have h24 : (Fl.fin (5030225180805237 / 2 ^ 49)) * (Fl.fin 0) = (Fl.fin 0) :=
    Fl.mul_zero_pos (by norm_num)
  have h25 : (Fl.fin 0) * (Fl.fin 0) = (Fl.fin 0) :=
    Fl.mul_zero_pos (by norm_num)
  have h26 : (Fl.fin (4536840408926643 / 2 ^ 51)) * (Fl.fin (4536840408926643 / 2 ^ 51)) = (Fl.fin (4570326538570961 / 2 ^ 50)) :=
    Fl.mul_eq 4570326538570961 (-50) (by unfold Fl.Cert; norm_num)
  have h27 : (Fl.fin (1 / 2)) * (Fl.fin (1 / 2)) = (Fl.fin (1 / 4)) :=
    Fl.mul_eq 4503599627370496 (-54) (by unfold Fl.Cert; norm_num)
  have h28 : (Fl.fin (1 / 2 ^ 600)) * (Fl.fin (1 / 2 ^ 600)) = (Fl.fin 0) :=
    Fl.mul_underflow (by norm_num) (by norm_num) (by norm_num)
  have h29 : Fl.log (Fl.fin 0) = Fl.ninf :=
    Fl.log_zero
  have h30 : (Fl.fin 0) - (Fl.fin (4570326538570961 / 2 ^ 50)) = (Fl.fin (-4570326538570961 / 2 ^ 50)) :=
    Fl.sub_eq (-4570326538570961) (-50) (by norm_num) (by unfold Fl.Cert; norm_num)
  have h31 : (Fl.fin (-4570326538570961 / 2 ^ 50)) - (Fl.fin (5030225180805237 / 2 ^ 49)) = (Fl.fin (-3657694225045359 / 2 ^ 48)) :=
    Fl.sub_tie (-7315388450090718) (-49) false (by norm_num) (by unfold Fl.CertTie; norm_num)
  have h32 : Fl.ninf - (Fl.fin (1 / 2)) = Fl.ninf :=
    (Fl.sub_fin_eq _ (by norm_num)).trans rfl
  have h33 : Fl.exp Fl.ninf = (Fl.fin 0) :=
    rfl
  have h34 : (Fl.fin (-3657694225045359 / 2 ^ 48)) - (Fl.fin 0) = (Fl.fin (-3657694225045359 / 2 ^ 48)) :=
    Fl.sub_zero _
  have h35 : (Fl.fin 0) * (Fl.fin (-3657694225045359 / 2 ^ 48)) = Fl.nzero :=
    Fl.zero_mul_neg (by norm_num)
  have h36 : (Fl.fin (4570326538570961 / 2 ^ 50)) + (Fl.fin (5030225180805237 / 2 ^ 49)) = (Fl.fin (3657694225045359 / 2 ^ 48)) :=
    Fl.add_tie 7315388450090718 (-49) true (by unfold Fl.CertTie; norm_num)
  have h37 : (Fl.fin (3657694225045359 / 2 ^ 48)) + (Fl.fin 0) = (Fl.fin (3657694225045359 / 2 ^ 48)) :=
    Fl.add_eq 7315388450090718 (-49) (by unfold Fl.Cert; norm_num)
  have h38 : (Fl.fin 2) * (Fl.fin (3657694225045359 / 2 ^ 48)) = (Fl.fin (3657694225045359 / 2 ^ 47)) :=
    Fl.mul_eq 7315388450090718 (-48) (by unfold Fl.Cert; norm_num)
  have h39 : (Fl.fin (3657694225045359 / 2 ^ 47)) * (Fl.fin (3657694225045359 / 2 ^ 48)) = (Fl.fin (5941348321738613 / 2 ^ 44)) :=
    Fl.mul_eq 5941348321738613 (-44) (by unfold Fl.Cert; norm_num)
  have h40 : Fl.nzero / (Fl.fin (5941348321738613 / 2 ^ 44)) = Fl.nzero :=
    Fl.nzero_div_pos (by norm_num)
  have h41 : Fl.ninf - Fl.ninf = Fl.nan :=
    rfl
  have h42 : Fl.nan / (Fl.fin (1 / 4)) = Fl.nan :=
    rfl
  have h43 : Fl.nzero - Fl.nan = Fl.nan :=
    rfl
  have h44 : Fl.ninf / (Fl.fin 2) = Fl.ninf :=
    Fl.ninf_div_pos (by norm_num)
  have h45 : (Fl.fin (4570326538570961 / 2 ^ 50)) + (Fl.fin 0) = (Fl.fin (4570326538570961 / 2 ^ 50)) :=
    Fl.add_eq 4570326538570961 (-50) (by unfold Fl.Cert; norm_num)
  have h46 : (Fl.fin 1) / (Fl.fin (4570326538570961 / 2 ^ 50)) = (Fl.fin (8875693862344255 / 2 ^ 55)) :=
    Fl.div_eq 8875693862344255 (-55) (by norm_num) (by unfold Fl.Cert; norm_num)
  have h47 : (Fl.fin (8875693862344255 / 2 ^ 55)) + (Fl.fin (4032107683975465 / 2 ^ 55)) = (Fl.fin (1613475193289965 / 2 ^ 52)) :=
    Fl.add_eq 6453900773159860 (-54) (by unfold Fl.Cert; norm_num)
  have h48 : Fl.sqrt (Fl.fin (1613475193289965 / 2 ^ 52)) = (Fl.fin (168477166934891 / 2 ^ 48)) :=
    Fl.sqrt_eq (361801961054044710343863 / 2 ^ 79) (723603922108089420687727 / 2 ^ 80) 5391269341916512 (-53) (by norm_num) (by norm_num) (by norm_num) (by norm_num) (by unfold Fl.Cert; norm_num)
  have h49 : (Fl.fin 1) / (Fl.fin (168477166934891 / 2 ^ 48)) = (Fl.fin (3762084273170739 / 2 ^ 51)) :=
    Fl.div_eq 7524168546341478 (-52) (by norm_num) (by unfold Fl.Cert; norm_num)
  have h50 : (Fl.fin (3762084273170739 / 2 ^ 51)) * (Fl.fin (3762084273170739 / 2 ^ 51)) = (Fl.fin (3142659039321007 / 2 ^ 50)) :=
    Fl.mul_eq 6285318078642014 (-51) (by unfold Fl.Cert; norm_num)
  have h51 : (Fl.fin (3142659039321007 / 2 ^ 50)) * (Fl.fin 0) = (Fl.fin 0) :=
    Fl.mul_zero_pos (by norm_num)
  have hk0 : Dbl.Rating.init (Fl.fin 1500) (Fl.fin 350) (Fl.fin (1 / 2 ^ 600)) j0 = ({ u := (Fl.fin 0), p := (Fl.fin (4536840408926643 / 2 ^ 51)), s := (Fl.fin (1 / 2 ^ 600)), uPrime := j0.1, pPrime := j0.2.1, sPrime := j0.2.2 } : Dbl.Rating) :=
    by
    unfold Dbl.Rating.init
    simp only [Dbl.kDefaultR, Dbl.kScale, h0, h1, h2]
  have hk1 : Dbl.Rating.init (Fl.fin 1500) (Fl.fin 350) Dbl.kDefaultS j1 = ({ u := (Fl.fin 0), p := (Fl.fin (4536840408926643 / 2 ^ 51)), s := Dbl.kDefaultS, uPrime := j1.1, pPrime := j1.2.1, sPrime := j1.2.2 } : Dbl.Rating) :=
    by
    unfold Dbl.Rating.init
    simp only [Dbl.kDefaultR, Dbl.kScale, h0, h1, h2]
  have hk2 : ({ u := (Fl.fin 0), p := (Fl.fin (4536840408926643 / 2 ^ 51)), s := Dbl.kDefaultS, uPrime := j1.1, pPrime := j1.2.1, sPrime := j1.2.2 } : Dbl.Rating).G = (Fl.fin (6026441514371415 / 2 ^ 53)) :=
    Dbl.G_eval ({ u := (Fl.fin 0), p := (Fl.fin (4536840408926643 / 2 ^ 51)), s := Dbl.kDefaultS, uPrime := j1.1, pPrime := j1.2.1, sPrime := j1.2.2 } : Dbl.Rating) h3 h4 h5 h6 h7 h8
  have hk3 : ({ u := (Fl.fin 0), p := (Fl.fin (4536840408926643 / 2 ^ 51)), s := Dbl.kDefaultS, uPrime := j1.1, pPrime := j1.2.1, sPrime := j1.2.2 } : Dbl.Rating).E (Fl.fin (6026441514371415 / 2 ^ 53)) ({ u := (Fl.fin 0), p := (Fl.fin (4536840408926643 / 2 ^ 51)), s := (Fl.fin (1 / 2 ^ 600)), uPrime := j0.1, pPrime := j0.2.1, sPrime := j0.2.2 } : Dbl.Rating) = (Fl.fin (1 / 2)) :=
    Dbl.E_eval ({ u := (Fl.fin 0), p := (Fl.fin (4536840408926643 / 2 ^ 51)), s := Dbl.kDefaultS, uPrime := j1.1, pPrime := j1.2.1, sPrime := j1.2.2 } : Dbl.Rating) ({ u := (Fl.fin 0), p := (Fl.fin (4536840408926643 / 2 ^ 51)), s := (Fl.fin (1 / 2 ^ 600)), uPrime := j0.1, pPrime := j0.2.1, sPrime := j0.2.2 } : Dbl.Rating) h9 h10 h11 h12 h13 h14
  have hk4 : ¬ (Fl.fin 0) < (Fl.fin (-3657694225045359 / 2 ^ 48)) :=
    fun h => absurd ((Fl.fin_lt_fin _ _).mp h) (by norm_num)
  have hk5 : Dbl.Rating.F Fl.ninf (Fl.fin 0) (Fl.fin (4570326538570961 / 2 ^ 50)) (Fl.fin (5030225180805237 / 2 ^ 49)) Fl.ninf (Fl.fin (1 / 4)) = Fl.nan :=
    Dbl.F_eval h33 h30 h31 h34 h35 h36 h37 h38 h39 h40 h41 h42 h43
  have hk6 : Dbl.Rating.F Fl.ninf (Fl.fin 0) (Fl.fin (4570326538570961 / 2 ^ 50)) (Fl.fin (5030225180805237 / 2 ^ 49)) Fl.ninf (Fl.fin (1 / 4)) = Fl.nan :=
    Dbl.F_eval h33 h30 h31 h34 h35 h36 h37 h38 h39 h40 h41 h42 h43
  have hk7 : ¬ Fl.nan < (Fl.fin 0) :=
    fun h => h
  have hk8 : Dbl.Rating.Convergence (n + 1) (Fl.fin 0) (Fl.fin (5030225180805237 / 2 ^ 49)) (Fl.fin (4536840408926643 / 2 ^ 51)) (Fl.fin (1 / 2 ^ 600)) = Dbl.Rating.Convergence.iterate (Fl.fin 0) (Fl.fin (4570326538570961 / 2 ^ 50)) (Fl.fin (5030225180805237 / 2 ^ 49)) Fl.ninf (Fl.fin (1 / 4)) (n + 1) Fl.ninf Fl.ninf Fl.nan Fl.nan :=
    Dbl.Convergence_first n h25 h26 h27 h28 h29 h30 h31 hk4 h32 hk5 hk6 hk7
  have hk9 : Dbl.Rating.Convergence 0 (Fl.fin 0) (Fl.fin (5030225180805237 / 2 ^ 49)) (Fl.fin (4536840408926643 / 2 ^ 51)) (Fl.fin (1 / 2 ^ 600)) = none :=
    Dbl.Convergence_zero_fuel h25 h26 h27 h28 h29 h30 h31 hk4
  have hk10 : ¬ Fl.fabs Fl.nan > Dbl.kConvergence :=
    fun h => h
  have hk11 : Dbl.Rating.Convergence.iterate (Fl.fin 0) (Fl.fin (4570326538570961 / 2 ^ 50)) (Fl.fin (5030225180805237 / 2 ^ 49)) Fl.ninf (Fl.fin (1 / 4)) (n + 1) Fl.ninf Fl.ninf Fl.nan Fl.nan = some Fl.ninf :=
    Dbl.iterate_exit _ _ _ _ _ n h41 hk10
  have hk12 : Dbl.Rating.Convergence (n + 1) (Fl.fin 0) (Fl.fin (5030225180805237 / 2 ^ 49)) (Fl.fin (4536840408926643 / 2 ^ 51)) (Fl.fin (1 / 2 ^ 600)) = some Fl.ninf :=
    by
    rw [hk8, hk11]
  have hk13 : Dbl.Rating.UpdateFinal (n + 1) ({ u := (Fl.fin 0), p := (Fl.fin (4536840408926643 / 2 ^ 51)), s := (Fl.fin (1 / 2 ^ 600)), uPrime := j0.1, pPrime := j0.2.1, sPrime := j0.2.2 } : Dbl.Rating) (Fl.fin (4032107683975465 / 2 ^ 55)) (Fl.fin (5030225180805237 / 2 ^ 49)) (Fl.fin 0) (Fl.fin 0) = Except.ok { ({ u := (Fl.fin 0), p := (Fl.fin (4536840408926643 / 2 ^ 51)), s := (Fl.fin (1 / 2 ^ 600)), uPrime := j0.1, pPrime := j0.2.1, sPrime := j0.2.2 } : Dbl.Rating) with sPrime := (Fl.fin 0), pPrime := (Fl.fin (3762084273170739 / 2 ^ 51)), uPrime := (Fl.fin 0) } :=
    Dbl.UpdateFinal_eval ({ u := (Fl.fin 0), p := (Fl.fin (4536840408926643 / 2 ^ 51)), s := (Fl.fin (1 / 2 ^ 600)), uPrime := j0.1, pPrime := j0.2.1, sPrime := j0.2.2 } : Dbl.Rating) hk12 h44 h33 h26 h25 h45 h46 h47 h48 h49 h50 h51 h23
  rw [hk0, hk1, Dbl.UpdateBatch_eval (n + 1) scratch gNew eNew hk2 hk3 h15 h16 h17 h18 h19 h20 h21 h22 h23 h24, hk13]

/-- The solver at `d = 2^600`, `v = p = s = 1` in binary64: `d * d` overflows, the first round makes `B` a NaN, and the loop leaves with `A = log(s * s) = 0`. -/
theorem conv_overflow (n : ℕ) :
    Dbl.Rating.Convergence ((n + 1) + 1) (Fl.fin (2 ^ 600)) (Fl.fin 1) (Fl.fin 1) (Fl.fin 1) = some (Fl.fin 0) := by
  have h0 : (Fl.fin (2 ^ 600)) * (Fl.fin (2 ^ 600)) = Fl.pinf :=
    Fl.mul_overflow (by norm_num)
  have h1 : (Fl.fin 1) * (Fl.fin 1) = (Fl.fin 1) :=
    Fl.mul_eq 4503599627370496 (-52) (by unfold Fl.Cert; norm_num)
  have h2 : (Fl.fin (1 / 2)) * (Fl.fin (1 / 2)) = (Fl.fin (1 / 4)) :=
    Fl.mul_eq 4503599627370496 (-54) (by unfold Fl.Cert; norm_num)
  have h3 : Fl.log (Fl.fin 1) = (Fl.fin 0) :=
    Fl.log_one
  have h4 : Fl.pinf - (Fl.fin 1) = Fl.pinf :=
    (Fl.sub_fin_eq _ (by norm_num)).trans rfl
  have h5 : Fl.log Fl.pinf = Fl.pinf :=
    rfl
  have h6 : Fl.exp (Fl.fin 0) = (Fl.fin 1) :=
    Fl.exp_zero
  have h7 : (Fl.fin 1) * Fl.pinf = Fl.pinf :=
    Fl.mul_pinf_pos (by norm_num)
  have h8 : (Fl.fin 1) + (Fl.fin 1) = (Fl.fin 2) :=
    Fl.add_eq 4503599627370496 (-51) (by unfold Fl.Cert; norm_num)
  have h9 : (Fl.fin 2) + (Fl.fin 1) = (Fl.fin 3) :=
    Fl.add_eq 6755399441055744 (-51) (by unfold Fl.Cert; norm_num)
  have h10 : (Fl.fin 2) * (Fl.fin 3) = (Fl.fin 6) :=
    Fl.mul_eq 6755399441055744 (-50) (by unfold Fl.Cert; norm_num)
  have h11 : (Fl.fin 6) * (Fl.fin 3) = (Fl.fin 18) :=
    Fl.mul_eq 5066549580791808 (-48) (by unfold Fl.Cert; norm_num)
  have h12 : Fl.pinf / (Fl.fin 18) = Fl.pinf :=
    Fl.pinf_div_pos (by norm_num)
  have h13 : (Fl.fin 0) - (Fl.fin 0) = (Fl.fin 0) :=
    Fl.sub_zero _
  have h14 : (Fl.fin 0) / (Fl.fin (1 / 4)) = (Fl.fin 0) :=
    Fl.zero_div_pos (by norm_num)
  have h15 : Fl.pinf - (Fl.fin 0) = Fl.pinf :=
    (Fl.sub_fin_zero _).trans rfl
  have h16 : Fl.exp Fl.pinf = Fl.pinf :=
    rfl
  have h17 : Fl.pinf - Fl.pinf = Fl.nan :=
    rfl
  have h18 : Fl.pinf * Fl.nan = Fl.nan :=
    rfl
  have h19 : (Fl.fin 2) + Fl.pinf = Fl.pinf :=
    rfl
  have h20 : (Fl.fin 2) * Fl.pinf = Fl.pinf :=
    Fl.mul_pinf_pos (by norm_num)
  have h21 : Fl.pinf * Fl.pinf = Fl.pinf :=
    rfl
  have h22 : Fl.nan / Fl.pinf = Fl.nan :=
    rfl
  have h23 : Fl.pinf / (Fl.fin (1 / 4)) = Fl.pinf :=
    Fl.pinf_div_pos (by norm_num)
  have h24 : Fl.nan - Fl.pinf = Fl.nan :=
    rfl
  have h25 : (Fl.fin 0) - Fl.pinf = Fl.ninf :=
    rfl
  have h26 : Fl.ninf * Fl.pinf = Fl.ninf :=
    rfl
  have h27 : Fl.ninf / Fl.nan = Fl.nan :=
    rfl
  have h28 : (Fl.fin 0) + Fl.nan = Fl.nan :=
    rfl
  have h29 : Fl.exp Fl.nan = Fl.nan :=
    rfl
  have h30 : Fl.pinf - Fl.nan = Fl.nan :=
    rfl
  have h31 : Fl.nan * Fl.nan = Fl.nan :=
    rfl
  have h32 : (Fl.fin 2) + Fl.nan = Fl.nan :=
    rfl
  have h33 : (Fl.fin 2) * Fl.nan = Fl.nan :=
    rfl
  have h34 : Fl.nan / Fl.nan = Fl.nan :=
    rfl
  have h35 : Fl.nan - (Fl.fin 0) = Fl.nan :=
    (Fl.sub_fin_zero _).trans rfl
  have h36 : Fl.nan / (Fl.fin (1 / 4)) = Fl.nan :=
    rfl
  have h37 : Fl.nan - Fl.nan = Fl.nan :=
    rfl
  have h38 : Fl.pinf / (Fl.fin 2) = Fl.pinf :=
    Fl.pinf_div_pos (by norm_num)
  have hk0 : (Fl.fin 0) < Fl.pinf :=
    trivial
  have hk1 : Dbl.Rating.F (Fl.fin 0) Fl.pinf (Fl.fin 1) (Fl.fin 1) (Fl.fin 0) (Fl.fin (1 / 4)) = Fl.pinf :=
    Dbl.F_eval h6 h4 h4 h4 h7 h8 h9 h10 h11 h12 h13 h14 h15
  have hk2 : Dbl.Rating.F Fl.pinf Fl.pinf (Fl.fin 1) (Fl.fin 1) (Fl.fin 0) (Fl.fin (1 / 4)) = Fl.nan :=
    Dbl.F_eval h16 h4 h4 h17 h18 h8 h19 h20 h21 h22 h15 h23 h24
  have hk3 : Dbl.Rating.Convergence ((n + 1) + 1) (Fl.fin (2 ^ 600)) (Fl.fin 1) (Fl.fin 1) (Fl.fin 1) = Dbl.Rating.Convergence.iterate Fl.pinf (Fl.fin 1) (Fl.fin 1) (Fl.fin 0) (Fl.fin (1 / 4)) ((n + 1) + 1) (Fl.fin 0) Fl.pinf Fl.pinf Fl.nan :=
    Dbl.Convergence_log ((n + 1) + 1) h0 h1 h2 h1 h3 h4 h4 hk0 h5 hk1 hk2
  have hk4 : Fl.fabs Fl.pinf > Dbl.kConvergence :=
    trivial
  have hk5 : Dbl.Rating.F Fl.nan Fl.pinf (Fl.fin 1) (Fl.fin 1) (Fl.fin 0) (Fl.fin (1 / 4)) = Fl.nan :=
    Dbl.F_eval h29 h4 h4 h30 h31 h8 h32 h33 h31 h34 h35 h36 h37
  have hk6 : ¬ Fl.nan < (Fl.fin 0) :=
    fun h => h
  have hk7 : Dbl.Rating.Convergence.iterate Fl.pinf (Fl.fin 1) (Fl.fin 1) (Fl.fin 0) (Fl.fin (1 / 4)) ((n + 1) + 1) (Fl.fin 0) Fl.pinf Fl.pinf Fl.nan = Dbl.Rating.Convergence.iterate Fl.pinf (Fl.fin 1) (Fl.fin 1) (Fl.fin 0) (Fl.fin (1 / 4)) (n + 1) (Fl.fin 0) Fl.nan Fl.pinf Fl.nan :=
    Dbl.iterate_halve _ _ _ _ _ (n + 1) h15 hk4 h25 h26 h24 h27 h28 hk5 h31 hk6 h38
  have hk8 : ¬ Fl.fabs Fl.nan > Dbl.kConvergence :=
    fun h => h
  have hk9 : Dbl.Rating.Convergence.iterate Fl.pinf (Fl.fin 1) (Fl.fin 1) (Fl.fin 0) (Fl.fin (1 / 4)) (n + 1) (Fl.fin 0) Fl.nan Fl.pinf Fl.nan = some (Fl.fin 0) :=
    Dbl.iterate_exit _ _ _ _ _ n h35 hk8
  have hk10 : Dbl.Rating.Convergence ((n + 1) + 1) (Fl.fin (2 ^ 600)) (Fl.fin 1) (Fl.fin 1) (Fl.fin 1) = some (Fl.fin 0) :=
    by
    rw [hk3, hk7, hk9]
  exact hk10

/-- The reference function of the solver at `d = 2^600`, `v = p = s = 1` is positive at
every point within `1e-6` of 0, so it has no root there. -/
theorem f_overflow_pos (x : ℝ) (hx : |0 - x| ≤ 1 / 1000000) :
    0 < Spec.f (2 ^ 600) 1 1 1 x := by
  have hx2 : |x| ≤ 1 / 1000000 := by
    have h : |0 - x| = |x| := by rw [zero_sub, abs_neg]
    rw [h] at hx
    exact hx
  obtain ⟨hl, hu⟩ := abs_le.mp hx2
  have hE1 : 99 / 100 ≤ Real.exp x := by linarith [Real.add_one_le_exp x]
  have hE2 : Real.exp x ≤ 3 := by
    have h1 : Real.exp x ≤ Real.exp 1 := Real.exp_le_exp.mpr (by linarith)
    have h2 := Real.exp_one_lt_d9
    linarith
  have hD : (10000:ℝ) ≤ (2 ^ 600) ^ 2 := by norm_num
  unfold Spec.f
  simp only [one_pow, Real.log_one, sub_zero]
  generalize Real.exp x = E at hE1 hE2
  generalize ((2:ℝ) ^ 600) ^ 2 = D at hD
  have hden : 0 < 2 * (1 + 1 + E) ^ 2 := by positivity
  have hnum : 50 * (2 * (1 + 1 + E) ^ 2) ≤ E * (D - 1 - 1 - E) := by
    have h1 : 9995 ≤ D - 1 - 1 - E := by linarith
    have h2 : 99 / 100 * 9995 ≤ E * (D - 1 - 1 - E) :=
      mul_le_mul hE1 h1 (by norm_num) (by linarith)
    have h3 : (1 + 1 + E) ^ 2 ≤ 25 := by nlinarith
    linarith
  have hfrac : 50 ≤ E * (D - 1 - 1 - E) / (2 * (1 + 1 + E) ^ 2) := by
    rw [le_div_iff₀ hden]
    exact hnum
  have hlin : x / (1 / 2) ^ 2 ≤ 1 := by
    have : x / (1 / 2) ^ 2 = 4 * x := by ring
    rw [this]
    linarith
  linarith

/-- The win of `Rating(8000, 200, 1)` over `Rating(1500, 30)` in binary64: the expected score rounds to 1, so `invV` and `dInner` are 0, `v` is infinite, `d` is a NaN, and the pending rating is the committed one. -/
theorem sure_win_run (n : ℕ) (j0 j1 : Fl × Fl × Fl) :
    Dbl.Rating.UpdateSingle ((n + 1) + 1) (Dbl.Rating.init (Fl.fin 8000) (Fl.fin 200) (Fl.fin 1) j0)
      (Dbl.Rating.init (Fl.fin 1500) (Fl.fin 30) Dbl.kDefaultS j1) (Fl.fin 1) =
    Except.ok { ({ u := (Fl.fin (1316493868661749 / 2 ^ 45)), p := (Fl.fin (5184960467344735 / 2 ^ 52)), s := (Fl.fin 1), uPrime := j0.1, pPrime := j0.2.1, sPrime := j0.2.2 } : Dbl.Rating) with sPrime := (Fl.fin 1), pPrime := (Fl.fin (6867767079013339 / 2 ^ 52)), uPrime := (Fl.fin (1316493868661749 / 2 ^ 45)) } := by
  have h0 : (Fl.fin 8000) - (Fl.fin 1500) = (Fl.fin 6500) :=
    Fl.sub_eq 7146825580544000 (-40) (by norm_num) (by unfold Fl.Cert; norm_num)
  have h1 : (Fl.fin 6500) / (Fl.fin (1528037928413325 / 2 ^ 43)) = (Fl.fin (1316493868661749 / 2 ^ 45)) :=
    Fl.div_eq 5265975474646996 (-47) (by norm_num) (by unfold Fl.Cert; norm_num)
  have h2 : (Fl.fin 200) / (Fl.fin (1528037928413325 / 2 ^ 43)) = (Fl.fin (5184960467344735 / 2 ^ 52)) :=
    Fl.div_eq 5184960467344735 (-52) (by norm_num) (by unfold Fl.Cert; norm_num)
  have h3 : (Fl.fin 1500) - (Fl.fin 1500) = (Fl.fin 0) :=
    Fl.sub_cancel (by norm_num)
  have h4 : (Fl.fin 0) / (Fl.fin (1528037928413325 / 2 ^ 43)) = (Fl.fin 0) :=
    Fl.zero_div_pos (by norm_num)
  have h5 : (Fl.fin 30) / (Fl.fin (1528037928413325 / 2 ^ 43)) = (Fl.fin (3110976280406841 / 2 ^ 54)) :=
    Fl.div_eq 6221952560813682 (-55) (by norm_num) (by unfold Fl.Cert; norm_num)
  have h6 : (Fl.fin (3110976280406841 / 2 ^ 54)) / (Fl.fin (884279719003555 / 2 ^ 48)) = (Fl.fin (495127252868387 / 2 ^ 53)) :=
    Fl.div_eq 7922036045894192 (-57) (by norm_num) (by unfold Fl.Cert; norm_num)
  have h7 : (Fl.fin 3) * (Fl.fin (495127252868387 / 2 ^ 53)) = (Fl.fin (1485381758605161 / 2 ^ 53)) :=
    Fl.mul_eq 5941527034420644 (-55) (by unfold Fl.Cert; norm_num)
  have h8 : (Fl.fin (1485381758605161 / 2 ^ 53)) * (Fl.fin (495127252868387 / 2 ^ 53)) = (Fl.fin (5225707792526087 / 2 ^ 59)) :=
    Fl.mul_eq 5225707792526087 (-59) (by unfold Fl.Cert; norm_num)
  have h9 : (Fl.fin 1) + (Fl.fin (5225707792526087 / 2 ^ 59)) = (Fl.fin (2272212734749803 / 2 ^ 51)) :=
    Fl.add_eq 4544425469499606 (-52) (by unfold Fl.Cert; norm_num)
  have h10 : Fl.sqrt (Fl.fin (2272212734749803 / 2 ^ 51)) = (Fl.fin (4523966495350227 / 2 ^ 52)) :=
    Fl.sqrt_eq (151799126138507513487499 / 2 ^ 77) (607196504554030053949997 / 2 ^ 79) 4523966495350227 (-52) (by norm_num) (by norm_num) (by norm_num) (by norm_num) (by unfold Fl.Cert; norm_num)
  have h11 : (Fl.fin 1) / (Fl.fin (4523966495350227 / 2 ^ 52)) = (Fl.fin (4483324450899031 / 2 ^ 52)) :=
    Fl.div_eq 8966648901798062 (-53) (by norm_num) (by unfold Fl.Cert; norm_num)
  have h12 : (Fl.fin (-1)) * (Fl.fin (4483324450899031 / 2 ^ 52)) = (Fl.fin (-4483324450899031 / 2 ^ 52)) :=
    Fl.mul_eq (-8966648901798062) (-53) (by unfold Fl.Cert; norm_num)
  have h13 : (Fl.fin (1316493868661749 / 2 ^ 45)) - (Fl.fin 0) = (Fl.fin (1316493868661749 / 2 ^ 45)) :=
    Fl.sub_zero _
  have h14 : (Fl.fin (-4483324450899031 / 2 ^ 52)) * (Fl.fin (1316493868661749 / 2 ^ 45)) = (Fl.fin (-327641755439305 / 2 ^ 43)) :=
    Fl.mul_eq (-5242268087028880) (-47) (by unfold Fl.Cert; norm_num)
  have h15 : (Fl.fin 1) / (Fl.fin 1) = (Fl.fin 1) :=
    Fl.div_eq 4503599627370496 (-52) (by norm_num) (by unfold Fl.Cert; norm_num)
  have h16 : (Fl.fin (4483324450899031 / 2 ^ 52)) * (Fl.fin (4483324450899031 / 2 ^ 52)) = (Fl.fin (8926281106282507 / 2 ^ 53)) :=
    Fl.mul_eq 8926281106282507 (-53) (by unfold Fl.Cert; norm_num)
  have h17 : (Fl.fin (8926281106282507 / 2 ^ 53)) * (Fl.fin 1) = (Fl.fin (8926281106282507 / 2 ^ 53)) :=
    Fl.mul_eq 8926281106282507 (-53) (by unfold Fl.Cert; norm_num)
  have h18 : (Fl.fin 1) - (Fl.fin 1) = (Fl.fin 0) :=
    Fl.sub_cancel (by norm_num)
  have h19 : (Fl.fin (8926281106282507 / 2 ^ 53)) * (Fl.fin 0) = (Fl.fin 0) :=
    Fl.mul_zero_pos (by norm_num)
  have h20 : (Fl.fin 1) / (Fl.fin 0) = Fl.pinf :=
    Fl.div_zero_pos (by norm_num)
  have h21 : (Fl.fin (4483324450899031 / 2 ^ 52)) * (Fl.fin 0) = (Fl.fin 0) :=
    Fl.mul_zero_pos (by norm_num)
  have h22 : Fl.pinf * (Fl.fin 0) = Fl.nan :=
    Fl.pinf_mul_zero
  have h23 : Fl.nan * Fl.nan = Fl.nan :=
    rfl
  have h24 : (Fl.fin (5184960467344735 / 2 ^ 52)) * (Fl.fin (5184960467344735 / 2 ^ 52)) = (Fl.fin (5969406091194725 / 2 ^ 52)) :=
    Fl.mul_eq 5969406091194725 (-52) (by unfold Fl.Cert; norm_num)
  have h25 : (Fl.fin (1 / 2)) * (Fl.fin (1 / 2)) = (Fl.fin (1 / 4)) :=
    Fl.mul_eq 4503599627370496 (-54) (by unfold Fl.Cert; norm_num)
  have h26 : (Fl.fin 1) * (Fl.fin 1) = (Fl.fin 1) :=
    Fl.mul_eq 4503599627370496 (-52) (by unfold Fl.Cert; norm_num)
  have h27 : Fl.log (Fl.fin 1) = (Fl.fin 0) :=
    Fl.log_one
  have h28 : Fl.nan - (Fl.fin (5969406091194725 / 2 ^ 52)) = Fl.nan :=
    (Fl.sub_fin_eq _ (by norm_num)).trans rfl
  have h29 : Fl.nan - Fl.pinf = Fl.nan :=
    rfl
  have h30 : (Fl.fin 0) - (Fl.fin (1 / 2)) = (Fl.fin (-1 / 2)) :=
    Fl.sub_eq (-4503599627370496) (-53) (by norm_num) (by unfold Fl.Cert; norm_num)
  have h31 : Fl.exp (Fl.fin 0) = (Fl.fin 1) :=
    Fl.exp_zero
  have h32 : Fl.nan - (Fl.fin 1) = Fl.nan :=
    (Fl.sub_fin_eq _ (by norm_num)).trans rfl
  have h33 : (Fl.fin 1) * Fl.nan = Fl.nan :=
    rfl
  have h34 : (Fl.fin (5969406091194725 / 2 ^ 52)) + Fl.pinf = Fl.pinf :=
    rfl
  have h35 : Fl.pinf + (Fl.fin 1) = Fl.pinf :=
    rfl
  have h36 : (Fl.fin 2) * Fl.pinf = Fl.pinf :=
    Fl.mul_pinf_pos (by norm_num)
  have h37 : Fl.pinf * Fl.pinf = Fl.pinf :=
    rfl
  have h38 : Fl.nan / Fl.pinf = Fl.nan :=
    rfl
  have h39 : (Fl.fin 0) - (Fl.fin 0) = (Fl.fin 0) :=
    Fl.sub_zero _
  have h40 : (Fl.fin 0) / (Fl.fin (1 / 4)) = (Fl.fin 0) :=
    Fl.zero_div_pos (by norm_num)
  have h41 : Fl.nan - (Fl.fin 0) = Fl.nan :=
    (Fl.sub_fin_zero _).trans rfl
  have h42 : Fl.exp (Fl.fin (-1 / 2)) = (Fl.fin (2731571253070597 / 2 ^ 52)) :=
    Fl.exp_eq (91656321864312137912121 / 2 ^ 77) (91656321864312138146313 / 2 ^ 77) 5463142506141194 (-53) (Bnd.exp 16 (1 / 2) (91656321864312137912121 / 2 ^ 77) (91656321864312138146313 / 2 ^ 77) (Bnd.const (-1 / 2)) (by norm_num) (by norm_num) (by norm_num) (by norm_num) (by norm_num [expSum, expErr, Finset.sum_range_succ, Nat.factorial]) (by norm_num [expSum, expErr, Finset.sum_range_succ, Nat.factorial])) (by unfold Fl.Cert; norm_num)
  have h43 : Fl.nan - (Fl.fin (2731571253070597 / 2 ^ 52)) = Fl.nan :=
    (Fl.sub_fin_eq _ (by norm_num)).trans rfl
  have h44 : (Fl.fin (2731571253070597 / 2 ^ 52)) * Fl.nan = Fl.nan :=
    rfl
  have h45 : Fl.pinf + (Fl.fin (2731571253070597 / 2 ^ 52)) = Fl.pinf :=
    rfl
  have h46 : (Fl.fin (-1 / 2)) - (Fl.fin 0) = (Fl.fin (-1 / 2)) :=
    Fl.sub_zero _
  have h47 : (Fl.fin (-1 / 2)) / (Fl.fin (1 / 4)) = (Fl.fin (-2)) :=
    Fl.div_eq (-4503599627370496) (-51) (by norm_num) (by unfold Fl.Cert; norm_num)
  have h48 : Fl.nan - (Fl.fin (-2)) = Fl.nan :=
    (Fl.sub_fin_eq _ (by norm_num)).trans rfl
  have h49 : (Fl.fin 0) - (Fl.fin (-1 / 2)) = (Fl.fin (1 / 2)) :=
    Fl.sub_eq 4503599627370496 (-53) (by norm_num) (by unfold Fl.Cert; norm_num)
  have h50 : (Fl.fin (1 / 2)) * Fl.nan = Fl.nan :=
    rfl
  have h51 : Fl.nan - Fl.nan = Fl.nan :=
    rfl
  have h52 : Fl.nan / Fl.nan = Fl.nan :=
    rfl
  have h53 : (Fl.fin 0) + Fl.nan = Fl.nan :=
    rfl
  have h54 : Fl.exp Fl.nan = Fl.nan :=
    rfl
  have h55 : Fl.pinf + Fl.nan = Fl.nan :=
    rfl
  have h56 : (Fl.fin 2) * Fl.nan = Fl.nan :=
    rfl
  have h57 : Fl.nan / (Fl.fin (1 / 4)) = Fl.nan :=
    rfl
  have h58 : Fl.nan / (Fl.fin 2) = Fl.nan :=
    rfl
  have h59 : (Fl.fin 0) / (Fl.fin 2) = (Fl.fin 0) :=
    Fl.zero_div_pos (by norm_num)
  have h60 : (Fl.fin (5969406091194725 / 2 ^ 52)) + (Fl.fin 1) = (Fl.fin (2618251429641305 / 2 ^ 50)) :=
    Fl.add_tie 5236502859282610 (-51) false (by unfold Fl.CertTie; norm_num)
  have h61 : (Fl.fin 1) / (Fl.fin (2618251429641305 / 2 ^ 50)) = (Fl.fin (60519903946061 / 2 ^ 47)) :=
    Fl.div_eq 7746547705095808 (-54) (by norm_num) (by unfold Fl.Cert; norm_num)
  have h62 : (Fl.fin (60519903946061 / 2 ^ 47)) + (Fl.fin 0) = (Fl.fin (60519903946061 / 2 ^ 47)) :=
    Fl.add_eq 7746547705095808 (-54) (by unfold Fl.Cert; norm_num)
  have h63 : Fl.sqrt (Fl.fin (60519903946061 / 2 ^ 47)) = (Fl.fin (5906551392993821 / 2 ^ 53)) :=
    Fl.sqrt_eq (198190977070716456116307 / 2 ^ 78) (792763908282865824465229 / 2 ^ 80) 5906551392993821 (-53) (by norm_num) (by norm_num) (by norm_num) (by norm_num) (by unfold Fl.Cert; norm_num)
  have h64 : (Fl.fin 1) / (Fl.fin (5906551392993821 / 2 ^ 53)) = (Fl.fin (6867767079013339 / 2 ^ 52)) :=
    Fl.div_eq 6867767079013339 (-52) (by norm_num) (by unfold Fl.Cert; norm_num)
  have h65 : (Fl.fin (6867767079013339 / 2 ^ 52)) * (Fl.fin (6867767079013339 / 2 ^ 52)) = (Fl.fin (5236502859282611 / 2 ^ 51)) :=
    Fl.mul_eq 5236502859282611 (-51) (by unfold Fl.Cert; norm_num)
  have h66 : (Fl.fin (5236502859282611 / 2 ^ 51)) * (Fl.fin 0) = (Fl.fin 0) :=
    Fl.mul_zero_pos (by norm_num)
  have h67 : (Fl.fin (1316493868661749 / 2 ^ 45)) + (Fl.fin 0) = (Fl.fin (1316493868661749 / 2 ^ 45)) :=
    Fl.add_eq 5265975474646996 (-47) (by unfold Fl.Cert; norm_num)
  have hk0 : Dbl.Rating.init (Fl.fin 8000) (Fl.fin 200) (Fl.fin 1) j0 = ({ u := (Fl.fin (1316493868661749 / 2 ^ 45)), p := (Fl.fin (5184960467344735 / 2 ^ 52)), s := (Fl.fin 1), uPrime := j0.1, pPrime := j0.2.1, sPrime := j0.2.2 } : Dbl.Rating) :=
    by
    unfold Dbl.Rating.init
    simp only [Dbl.kDefaultR, Dbl.kScale, h0, h1, h2]
  have hk1 : Dbl.Rating.init (Fl.fin 1500) (Fl.fin 30) Dbl.kDefaultS j1 = ({ u := (Fl.fin 0), p := (Fl.fin (3110976280406841 / 2 ^ 54)), s := Dbl.kDefaultS, uPrime := j1.1, pPrime := j1.2.1, sPrime := j1.2.2 } : Dbl.Rating) :=
    by
    unfold Dbl.Rating.init
    simp only [Dbl.kDefaultR, Dbl.kScale, h3, h4, h5]
  have hk2 : ({ u := (Fl.fin 0), p := (Fl.fin (3110976280406841 / 2 ^ 54)), s := Dbl.kDefaultS, uPrime := j1.1, pPrime := j1.2.1, sPrime := j1.2.2 } : Dbl.Rating).G = (Fl.fin (4483324450899031 / 2 ^ 52)) :=
    Dbl.G_eval ({ u := (Fl.fin 0), p := (Fl.fin (3110976280406841 / 2 ^ 54)), s := Dbl.kDefaultS, uPrime := j1.1, pPrime := j1.2.1, sPrime := j1.2.2 } : Dbl.Rating) h6 h7 h8 h9 h10 h11
  have hk3 : ({ u := (Fl.fin 0), p := (Fl.fin (3110976280406841 / 2 ^ 54)), s := Dbl.kDefaultS, uPrime := j1.1, pPrime := j1.2.1, sPrime := j1.2.2 } : Dbl.Rating).E (Fl.fin (4483324450899031 / 2 ^ 52)) ({ u := (Fl.fin (1316493868661749 / 2 ^ 45)), p := (Fl.fin (5184960467344735 / 2 ^ 52)), s := (Fl.fin 1), uPrime := j0.1, pPrime := j0.2.1, sPrime := j0.2.2 } : Dbl.Rating) = (Fl.fin 1) :=
    by
    unfold Dbl.Rating.E
    simp only [h12, h13, h14, (Fl.one_add_exp_small (by norm_num) : Fl.fin 1 + Fl.exp (Fl.fin (-327641755439305 / 2 ^ 43)) = Fl.fin 1), h15]
  have hk4 : ¬ (Fl.fin 0) < Fl.nan :=
    fun h => h
  have hk5 : Dbl.Rating.F (Fl.fin 0) Fl.nan (Fl.fin (5969406091194725 / 2 ^ 52)) Fl.pinf (Fl.fin 0) (Fl.fin (1 / 4)) = Fl.nan :=
    Dbl.F_eval h31 h28 h29 h32 h33 h34 h35 h36 h37 h38 h39 h40 h41
  have hk6 : Dbl.Rating.F (Fl.fin (-1 / 2)) Fl.nan (Fl.fin (5969406091194725 / 2 ^ 52)) Fl.pinf (Fl.fin 0) (Fl.fin (1 / 4)) = Fl.nan :=
    Dbl.F_eval h42 h28 h29 h43 h44 h34 h45 h36 h37 h38 h46 h47 h48
  have hk7 : ¬ Fl.nan < (Fl.fin 0) :=
    fun h => h
  have hk8 : Dbl.Rating.Convergence ((n + 1) + 1) Fl.nan Fl.pinf (Fl.fin (5184960467344735 / 2 ^ 52)) (Fl.fin 1) = Dbl.Rating.Convergence.iterate Fl.nan (Fl.fin (5969406091194725 / 2 ^ 52)) Fl.pinf (Fl.fin 0) (Fl.fin (1 / 4)) ((n + 1) + 1) (Fl.fin 0) (Fl.fin (-1 / 2)) Fl.nan Fl.nan :=
    Dbl.Convergence_first (n + 1) h23 h24 h25 h26 h27 h28 h29 hk4 h30 hk5 hk6 hk7
  have hk9 : Dbl.Rating.Convergence 0 Fl.nan Fl.pinf (Fl.fin (5184960467344735 / 2 ^ 52)) (Fl.fin 1) = none :=
    Dbl.Convergence_zero_fuel h23 h24 h25 h26 h27 h28 h29 hk4
  have hk10 : Fl.fabs (Fl.fin (-1 / 2)) > Dbl.kConvergence :=
    show ((4722366482869645 / 2 ^ 72) : ℝ) < |(-1 / 2)| from by norm_num [lt_abs]
  have hk11 : Dbl.Rating.F Fl.nan Fl.nan (Fl.fin (5969406091194725 / 2 ^ 52)) Fl.pinf (Fl.fin 0) (Fl.fin (1 / 4)) = Fl.nan :=
    Dbl.F_eval h54 h28 h29 h51 h23 h34 h55 h56 h23 h52 h41 h57 h51
  have hk12 : ¬ Fl.nan < (Fl.fin 0) :=
    fun h => h
  have hk13 : Dbl.Rating.Convergence.iterate Fl.nan (Fl.fin (5969406091194725 / 2 ^ 52)) Fl.pinf (Fl.fin 0) (Fl.fin (1 / 4)) ((n + 1) + 1) (Fl.fin 0) (Fl.fin (-1 / 2)) Fl.nan Fl.nan = Dbl.Rating.Convergence.iterate Fl.nan (Fl.fin (5969406091194725 / 2 ^ 52)) Fl.pinf (Fl.fin 0) (Fl.fin (1 / 4)) (n + 1) (Fl.fin 0) Fl.nan Fl.nan Fl.nan :=
    Dbl.iterate_halve _ _ _ _ _ (n + 1) h46 hk10 h49 h50 h51 h52 h53 hk11 h23 hk12 h58
  have hk14 : ¬ Fl.fabs Fl.nan > Dbl.kConvergence :=
    fun h => h
  have hk15 : Dbl.Rating.Convergence.iterate Fl.nan (Fl.fin (5969406091194725 / 2 ^ 52)) Fl.pinf (Fl.fin 0) (Fl.fin (1 / 4)) (n + 1) (Fl.fin 0) Fl.nan Fl.nan Fl.nan = some (Fl.fin 0) :=
    Dbl.iterate_exit _ _ _ _ _ n h41 hk14
  have hk16 : Dbl.Rating.Convergence ((n + 1) + 1) Fl.nan Fl.pinf (Fl.fin (5184960467344735 / 2 ^ 52)) (Fl.fin 1) = some (Fl.fin 0) :=
    by
    rw [hk8, hk13, hk15]
  have hk17 : Dbl.Rating.UpdateFinal ((n + 1) + 1) ({ u := (Fl.fin (1316493868661749 / 2 ^ 45)), p := (Fl.fin (5184960467344735 / 2 ^ 52)), s := (Fl.fin 1), uPrime := j0.1, pPrime := j0.2.1, sPrime := j0.2.2 } : Dbl.Rating) (Fl.fin 0) Fl.pinf (Fl.fin 0) Fl.nan = Except.ok { ({ u := (Fl.fin (1316493868661749 / 2 ^ 45)), p := (Fl.fin (5184960467344735 / 2 ^ 52)), s := (Fl.fin 1), uPrime := j0.1, pPrime := j0.2.1, sPrime := j0.2.2 } : Dbl.Rating) with sPrime := (Fl.fin 1), pPrime := (Fl.fin (6867767079013339 / 2 ^ 52)), uPrime := (Fl.fin (1316493868661749 / 2 ^ 45)) } :=
    Dbl.UpdateFinal_eval ({ u := (Fl.fin (1316493868661749 / 2 ^ 45)), p := (Fl.fin (5184960467344735 / 2 ^ 52)), s := (Fl.fin 1), uPrime := j0.1, pPrime := j0.2.1, sPrime := j0.2.2 } : Dbl.Rating) hk16 h59 h31 h24 h26 h60 h61 h62 h63 h64 h65 h66 h67
  rw [hk0, hk1, Dbl.UpdateSingle_eval ((n + 1) + 1) hk2 hk3 h16 h17 h18 h19 h20 h18 h21 h22, hk17]

/-! ## A draw on which the binary64 solver runs for ever

`Rating(1500, 355, 1.0)` draws against `Rating(1500, 355)`.  Round 3 of the loop of the solver
finds an exact zero `fC = 0` of `F`.  From then on the test `fC * fB < 0` is false and `fA` is
halved, round after round, with `A`, `B = C` and `fB = fC = 0` unchanged, until the product
`(A - B) * fA` is subnormal and loses its last bits; in round 1011 this moves `C` by one unit
in the last place, and three rounds later the loop is back in the state it had before
round 4. -/

/-- The function of the solver at `x = 0.0` in binary64, for the draw of `Rating(1500, 355, 1)`: `F(x) = -0.035078934677194536`. -/
theorem cycF0 :
    Dbl.Rating.F (Fl.fin 0) (Fl.fin 0) (Fl.fin (4701840016517595 / 2 ^ 50)) (Fl.fin (5110175788308077 / 2 ^ 49)) (Fl.fin 0) (Fl.fin (1 / 4)) = (Fl.fin (-5055407268504553 / 2 ^ 57)) := by
  have h0 : Fl.exp (Fl.fin 0) = (Fl.fin 1) :=
    Fl.exp_zero
  have h1 : (Fl.fin 0) - (Fl.fin (4701840016517595 / 2 ^ 50)) = (Fl.fin (-4701840016517595 / 2 ^ 50)) :=
    Fl.sub_eq (-4701840016517595) (-50) (by norm_num) (by unfold Fl.Cert; norm_num)
  have h2 : (Fl.fin (-4701840016517595 / 2 ^ 50)) - (Fl.fin (5110175788308077 / 2 ^ 49)) = (Fl.fin (-3730547898283437 / 2 ^ 48)) :=
    Fl.sub_tie (-7461095796566874) (-49) true (by norm_num) (by unfold Fl.CertTie; norm_num)
  have h3 : (Fl.fin (-3730547898283437 / 2 ^ 48)) - (Fl.fin 1) = (Fl.fin (-4012022874994093 / 2 ^ 48)) :=
    Fl.sub_eq (-8024045749988186) (-49) (by norm_num) (by unfold Fl.Cert; norm_num)
  have h4 : (Fl.fin 1) * (Fl.fin (-4012022874994093 / 2 ^ 48)) = (Fl.fin (-4012022874994093 / 2 ^ 48)) :=
    Fl.mul_eq (-8024045749988186) (-49) (by unfold Fl.Cert; norm_num)
  have h5 : (Fl.fin (4701840016517595 / 2 ^ 50)) + (Fl.fin (5110175788308077 / 2 ^ 49)) = (Fl.fin (3730547898283437 / 2 ^ 48)) :=
    Fl.add_tie 7461095796566874 (-49) false (by unfold Fl.CertTie; norm_num)
  have h6 : (Fl.fin (3730547898283437 / 2 ^ 48)) + (Fl.fin 1) = (Fl.fin (4012022874994093 / 2 ^ 48)) :=
    Fl.add_eq 8024045749988186 (-49) (by unfold Fl.Cert; norm_num)
  have h7 : (Fl.fin 2) * (Fl.fin (4012022874994093 / 2 ^ 48)) = (Fl.fin (4012022874994093 / 2 ^ 47)) :=
    Fl.mul_eq 8024045749988186 (-48) (by unfold Fl.Cert; norm_num)
  have h8 : (Fl.fin (4012022874994093 / 2 ^ 47)) * (Fl.fin (4012022874994093 / 2 ^ 48)) = (Fl.fin (7148205382934533 / 2 ^ 44)) :=
    Fl.mul_eq 7148205382934533 (-44) (by unfold Fl.Cert; norm_num)
  have h9 : (Fl.fin (-4012022874994093 / 2 ^ 48)) / (Fl.fin (7148205382934533 / 2 ^ 44)) = (Fl.fin (-5055407268504553 / 2 ^ 57)) :=
    Fl.div_eq (-5055407268504553) (-57) (by norm_num) (by unfold Fl.Cert; norm_num)
  have h10 : (Fl.fin 0) - (Fl.fin 0) = (Fl.fin 0) :=
    Fl.sub_zero _
  have h11 : (Fl.fin 0) / (Fl.fin (1 / 4)) = (Fl.fin 0) :=
    Fl.zero_div_pos (by norm_num)
  have h12 : (Fl.fin (-5055407268504553 / 2 ^ 57)) - (Fl.fin 0) = (Fl.fin (-5055407268504553 / 2 ^ 57)) :=
    Fl.sub_zero _
  have hk0 : Dbl.Rating.F (Fl.fin 0) (Fl.fin 0) (Fl.fin (4701840016517595 / 2 ^ 50)) (Fl.fin (5110175788308077 / 2 ^ 49)) (Fl.fin 0) (Fl.fin (1 / 4)) = (Fl.fin (-5055407268504553 / 2 ^ 57)) :=
    Dbl.F_eval h0 h1 h2 h3 h4 h5 h6 h7 h8 h9 h10 h11 h12
  exact hk0


/-- The function of the solver at `x = -0.5` in binary64, for the draw of `Rating(1500, 355, 1)`: `F(x) = 1.9781195411866046`. -/
theorem cycF1 :
    Dbl.Rating.F (Fl.fin (-1 / 2)) (Fl.fin 0) (Fl.fin (4701840016517595 / 2 ^ 50)) (Fl.fin (5110175788308077 / 2 ^ 49)) (Fl.fin 0) (Fl.fin (1 / 4)) = (Fl.fin (8908658428582289 / 2 ^ 52)) := by
  have h0 : Fl.exp (Fl.fin (-1 / 2)) = (Fl.fin (2731571253070597 / 2 ^ 52)) :=
    Fl.exp_eq (91656321864312137912121 / 2 ^ 77) (91656321864312138146313 / 2 ^ 77) 5463142506141194 (-53) (Bnd.exp 16 (1 / 2) (91656321864312137912121 / 2 ^ 77) (91656321864312138146313 / 2 ^ 77) (Bnd.const (-1 / 2)) (by norm_num) (by norm_num) (by norm_num) (by norm_num) (by norm_num [expSum, expErr, Finset.sum_range_succ, Nat.factorial]) (by norm_num [expSum, expErr, Finset.sum_range_succ, Nat.factorial])) (by unfold Fl.Cert; norm_num)
  have h1 : (Fl.fin 0) - (Fl.fin (4701840016517595 / 2 ^ 50)) = (Fl.fin (-4701840016517595 / 2 ^ 50)) :=
    Fl.sub_eq (-4701840016517595) (-50) (by norm_num) (by unfold Fl.Cert; norm_num)
  have h2 : (Fl.fin (-4701840016517595 / 2 ^ 50)) - (Fl.fin (5110175788308077 / 2 ^ 49)) = (Fl.fin (-3730547898283437 / 2 ^ 48)) :=
    Fl.sub_tie (-7461095796566874) (-49) true (by norm_num) (by unfold Fl.CertTie; norm_num)
  have h3 : (Fl.fin (-3730547898283437 / 2 ^ 48)) - (Fl.fin (2731571253070597 / 2 ^ 52)) = (Fl.fin (-7802542203200699 / 2 ^ 49)) :=
    Fl.sub_eq (-7802542203200699) (-49) (by norm_num) (by unfold Fl.Cert; norm_num)
  have h4 : (Fl.fin (2731571253070597 / 2 ^ 52)) * (Fl.fin (-7802542203200699 / 2 ^ 49)) = (Fl.fin (-591560133742873 / 2 ^ 46)) :=
    Fl.mul_eq (-4732481069942984) (-49) (by unfold Fl.Cert; norm_num)
  have h5 : (Fl.fin (4701840016517595 / 2 ^ 50)) + (Fl.fin (5110175788308077 / 2 ^ 49)) = (Fl.fin (3730547898283437 / 2 ^ 48)) :=
    Fl.add_tie 7461095796566874 (-49) false (by unfold Fl.CertTie; norm_num)
  have h6 : (Fl.fin (3730547898283437 / 2 ^ 48)) + (Fl.fin (2731571253070597 / 2 ^ 52)) = (Fl.fin (7802542203200699 / 2 ^ 49)) :=
    Fl.add_eq 7802542203200699 (-49) (by unfold Fl.Cert; norm_num)
  have h7 : (Fl.fin 2) * (Fl.fin (7802542203200699 / 2 ^ 49)) = (Fl.fin (7802542203200699 / 2 ^ 48)) :=
    Fl.mul_eq 7802542203200699 (-48) (by unfold Fl.Cert; norm_num)
  have h8 : (Fl.fin (7802542203200699 / 2 ^ 48)) * (Fl.fin (7802542203200699 / 2 ^ 49)) = (Fl.fin (1689750140718927 / 2 ^ 42)) :=
    Fl.mul_eq 6759000562875708 (-44) (by unfold Fl.Cert; norm_num)
  have h9 : (Fl.fin (-591560133742873 / 2 ^ 46)) / (Fl.fin (1689750140718927 / 2 ^ 42)) = (Fl.fin (-98540826158703 / 2 ^ 52)) :=
    Fl.div_eq (-6306612874156992) (-58) (by norm_num) (by unfold Fl.Cert; norm_num)
  have h10 : (Fl.fin (-1 / 2)) - (Fl.fin 0) = (Fl.fin (-1 / 2)) :=
    Fl.sub_zero _
  have h11 : (Fl.fin (-1 / 2)) / (Fl.fin (1 / 4)) = (Fl.fin (-2)) :=
    Fl.div_eq (-4503599627370496) (-51) (by norm_num) (by unfold Fl.Cert; norm_num)
  have h12 : (Fl.fin (-98540826158703 / 2 ^ 52)) - (Fl.fin (-2)) = (Fl.fin (8908658428582289 / 2 ^ 52)) :=
    Fl.sub_eq 8908658428582289 (-52) (by norm_num) (by unfold Fl.Cert; norm_num)
  have hk0 : Dbl.Rating.F (Fl.fin (-1 / 2)) (Fl.fin 0) (Fl.fin (4701840016517595 / 2 ^ 50)) (Fl.fin (5110175788308077 / 2 ^ 49)) (Fl.fin 0) (Fl.fin (1 / 4)) = (Fl.fin (8908658428582289 / 2 ^ 52)) :=
    Dbl.F_eval h0 h1 h2 h3 h4 h5 h6 h7 h8 h9 h10 h11 h12
  exact hk0


/-- The function of the solver at `x = -0.008712239527735408` in binary64, for the draw of `Rating(1500, 355, 1)`: `F(x) = 5.313612595926609e-05`. -/
theorem cycF2 :
    Dbl.Rating.F (Fl.fin (-627783019050747 / 2 ^ 56)) (Fl.fin 0) (Fl.fin (4701840016517595 / 2 ^ 50)) (Fl.fin (5110175788308077 / 2 ^ 49)) (Fl.fin 0) (Fl.fin (1 / 4)) = (Fl.fin (3828861393121 / 2 ^ 56)) := by
  have h0 : Fl.exp (Fl.fin (-627783019050747 / 2 ^ 56)) = (Fl.fin (8929067224047511 / 2 ^ 53)) :=
    Fl.exp_eq (149804889496365489385113 / 2 ^ 77) (18725611187045686205777 / 2 ^ 74) 8929067224047511 (-53) (Bnd.exp 7 (627783019050747 / 2 ^ 56) (149804889496365489385113 / 2 ^ 77) (18725611187045686205777 / 2 ^ 74) (Bnd.const (-627783019050747 / 2 ^ 56)) (by norm_num) (by norm_num) (by norm_num) (by norm_num) (by norm_num [expSum, expErr, Finset.sum_range_succ, Nat.factorial]) (by norm_num [expSum, expErr, Finset.sum_range_succ, Nat.factorial])) (by unfold Fl.Cert; norm_num)
  have h1 : (Fl.fin 0) - (Fl.fin (4701840016517595 / 2 ^ 50)) = (Fl.fin (-4701840016517595 / 2 ^ 50)) :=
    Fl.sub_eq (-4701840016517595) (-50) (by norm_num) (by unfold Fl.Cert; norm_num)
  have h2 : (Fl.fin (-4701840016517595 / 2 ^ 50)) - (Fl.fin (5110175788308077 / 2 ^ 49)) = (Fl.fin (-3730547898283437 / 2 ^ 48)) :=
    Fl.sub_tie (-7461095796566874) (-49) true (by norm_num) (by unfold Fl.CertTie; norm_num)
  have h3 : (Fl.fin (-3730547898283437 / 2 ^ 48)) - (Fl.fin (8929067224047511 / 2 ^ 53)) = (Fl.fin (-8019162498069843 / 2 ^ 49)) :=
    Fl.sub_eq (-8019162498069843) (-49) (by norm_num) (by unfold Fl.Cert; norm_num)
  have h4 : (Fl.fin (8929067224047511 / 2 ^ 53)) * (Fl.fin (-8019162498069843 / 2 ^ 49)) = (Fl.fin (-7949601091386693 / 2 ^ 49)) :=
    Fl.mul_eq (-7949601091386693) (-49) (by unfold Fl.Cert; norm_num)
  have h5 : (Fl.fin (4701840016517595 / 2 ^ 50)) + (Fl.fin (5110175788308077 / 2 ^ 49)) = (Fl.fin (3730547898283437 / 2 ^ 48)) :=
    Fl.add_tie 7461095796566874 (-49) false (by unfold Fl.CertTie; norm_num)
  have h6 : (Fl.fin (3730547898283437 / 2 ^ 48)) + (Fl.fin (8929067224047511 / 2 ^ 53)) = (Fl.fin (8019162498069843 / 2 ^ 49)) :=
    Fl.add_eq 8019162498069843 (-49) (by unfold Fl.Cert; norm_num)
  have h7 : (Fl.fin 2) * (Fl.fin (8019162498069843 / 2 ^ 49)) = (Fl.fin (8019162498069843 / 2 ^ 48)) :=
    Fl.mul_eq 8019162498069843 (-48) (by unfold Fl.Cert; norm_num)
  have h8 : (Fl.fin (8019162498069843 / 2 ^ 48)) * (Fl.fin (8019162498069843 / 2 ^ 49)) = (Fl.fin (3569753779822369 / 2 ^ 43)) :=
    Fl.mul_eq 7139507559644738 (-44) (by unfold Fl.Cert; norm_num)
  have h9 : (Fl.fin (-7949601091386693 / 2 ^ 49)) / (Fl.fin (3569753779822369 / 2 ^ 43)) = (Fl.fin (-2507303214809867 / 2 ^ 56)) :=
    Fl.div_eq (-5014606429619734) (-57) (by norm_num) (by unfold Fl.Cert; norm_num)
  have h10 : (Fl.fin (-627783019050747 / 2 ^ 56)) - (Fl.fin 0) = (Fl.fin (-627783019050747 / 2 ^ 56)) :=
    Fl.sub_zero _
  have h11 : (Fl.fin (-627783019050747 / 2 ^ 56)) / (Fl.fin (1 / 4)) = (Fl.fin (-627783019050747 / 2 ^ 54)) :=
    Fl.div_eq (-5022264152405976) (-57) (by norm_num) (by unfold Fl.Cert; norm_num)
  have h12 : (Fl.fin (-2507303214809867 / 2 ^ 56)) - (Fl.fin (-627783019050747 / 2 ^ 54)) = (Fl.fin (3828861393121 / 2 ^ 56)) :=
    Fl.sub_eq 7841508133111808 (-67) (by norm_num) (by unfold Fl.Cert; norm_num)
  have hk0 : Dbl.Rating.F (Fl.fin (-627783019050747 / 2 ^ 56)) (Fl.fin 0) (Fl.fin (4701840016517595 / 2 ^ 50)) (Fl.fin (5110175788308077 / 2 ^ 49)) (Fl.fin 0) (Fl.fin (1 / 4)) = (Fl.fin (3828861393121 / 2 ^ 56)) :=
    Dbl.F_eval h0 h1 h2 h3 h4 h5 h6 h7 h8 h9 h10 h11 h12
  exact hk0


/-- The function of the solver at `x = -0.008685925363497823` in binary64, for the draw of `Rating(1500, 355, 1)`: `F(x) = -5.2972443906083855e-05`. -/
theorem cycF3 :
    Dbl.Rating.F (Fl.fin (-2503547534746671 / 2 ^ 58)) (Fl.fin 0) (Fl.fin (4701840016517595 / 2 ^ 50)) (Fl.fin (5110175788308077 / 2 ^ 49)) (Fl.fin 0) (Fl.fin (1 / 4)) = (Fl.fin (-7634133716363 / 2 ^ 57)) := by
  have h0 : Fl.exp (Fl.fin (-2503547534746671 / 2 ^ 58)) = (Fl.fin (8929302188080361 / 2 ^ 53)) :=
    Fl.exp_eq (149808831538696837197185 / 2 ^ 77) (149808831538696837452817 / 2 ^ 77) 8929302188080361 (-53) (Bnd.exp 7 (2503547534746671 / 2 ^ 58) (149808831538696837197185 / 2 ^ 77) (149808831538696837452817 / 2 ^ 77) (Bnd.const (-2503547534746671 / 2 ^ 58)) (by norm_num) (by norm_num) (by norm_num) (by norm_num) (by norm_num [expSum, expErr, Finset.sum_range_succ, Nat.factorial]) (by norm_num [expSum, expErr, Finset.sum_range_succ, Nat.factorial])) (by unfold Fl.Cert; norm_num)
  have h1 : (Fl.fin 0) - (Fl.fin (4701840016517595 / 2 ^ 50)) = (Fl.fin (-4701840016517595 / 2 ^ 50)) :=
    Fl.sub_eq (-4701840016517595) (-50) (by norm_num) (by unfold Fl.Cert; norm_num)
  have h2 : (Fl.fin (-4701840016517595 / 2 ^ 50)) - (Fl.fin (5110175788308077 / 2 ^ 49)) = (Fl.fin (-3730547898283437 / 2 ^ 48)) :=
    Fl.sub_tie (-7461095796566874) (-49) true (by norm_num) (by unfold Fl.CertTie; norm_num)
  have h3 : (Fl.fin (-3730547898283437 / 2 ^ 48)) - (Fl.fin (8929302188080361 / 2 ^ 53)) = (Fl.fin (-8019177183321897 / 2 ^ 49)) :=
    Fl.sub_eq (-8019177183321897) (-49) (by norm_num) (by unfold Fl.Cert; norm_num)
  have h4 : (Fl.fin (8929302188080361 / 2 ^ 53)) * (Fl.fin (-8019177183321897 / 2 ^ 49)) = (Fl.fin (-496864052468573 / 2 ^ 45)) :=
    Fl.mul_eq (-7949824839497168) (-49) (by unfold Fl.Cert; norm_num)
  have h5 : (Fl.fin (4701840016517595 / 2 ^ 50)) + (Fl.fin (5110175788308077 / 2 ^ 49)) = (Fl.fin (3730547898283437 / 2 ^ 48)) :=
    Fl.add_tie 7461095796566874 (-49) false (by unfold Fl.CertTie; norm_num)
  have h6 : (Fl.fin (3730547898283437 / 2 ^ 48)) + (Fl.fin (8929302188080361 / 2 ^ 53)) = (Fl.fin (8019177183321897 / 2 ^ 49)) :=
    Fl.add_eq 8019177183321897 (-49) (by unfold Fl.Cert; norm_num)
  have h7 : (Fl.fin 2) * (Fl.fin (8019177183321897 / 2 ^ 49)) = (Fl.fin (8019177183321897 / 2 ^ 48)) :=
    Fl.mul_eq 8019177183321897 (-48) (by unfold Fl.Cert; norm_num)
  have h8 : (Fl.fin (8019177183321897 / 2 ^ 48)) * (Fl.fin (8019177183321897 / 2 ^ 49)) = (Fl.fin (7139533708401315 / 2 ^ 44)) :=
    Fl.mul_eq 7139533708401315 (-44) (by unfold Fl.Cert; norm_num)
  have h9 : (Fl.fin (-496864052468573 / 2 ^ 45)) / (Fl.fin (7139533708401315 / 2 ^ 44)) = (Fl.fin (-5014729203209705 / 2 ^ 57)) :=
    Fl.div_eq (-5014729203209705) (-57) (by norm_num) (by unfold Fl.Cert; norm_num)
  have h10 : (Fl.fin (-2503547534746671 / 2 ^ 58)) - (Fl.fin 0) = (Fl.fin (-2503547534746671 / 2 ^ 58)) :=
    Fl.sub_zero _
  have h11 : (Fl.fin (-2503547534746671 / 2 ^ 58)) / (Fl.fin (1 / 4)) = (Fl.fin (-2503547534746671 / 2 ^ 56)) :=
    Fl.div_eq (-5007095069493342) (-57) (by norm_num) (by unfold Fl.Cert; norm_num)
  have h12 : (Fl.fin (-5014729203209705 / 2 ^ 57)) - (Fl.fin (-2503547534746671 / 2 ^ 56)) = (Fl.fin (-7634133716363 / 2 ^ 57)) :=
    Fl.sub_eq (-7817352925555712) (-67) (by norm_num) (by unfold Fl.Cert; norm_num)
  have hk0 : Dbl.Rating.F (Fl.fin (-2503547534746671 / 2 ^ 58)) (Fl.fin 0) (Fl.fin (4701840016517595 / 2 ^ 50)) (Fl.fin (5110175788308077 / 2 ^ 49)) (Fl.fin 0) (Fl.fin (1 / 4)) = (Fl.fin (-7634133716363 / 2 ^ 57)) :=
    Dbl.F_eval h0 h1 h2 h3 h4 h5 h6 h7 h8 h9 h10 h11 h12
  exact hk0


/-- The function of the solver at `x = -0.008699062149629044` in binary64, for the draw of `Rating(1500, 355, 1)`: `F(x) = 2.412146871133558e-12`. -/
theorem cycF4 :
    Dbl.Rating.F (Fl.fin (-5014667911109395 / 2 ^ 59)) (Fl.fin 0) (Fl.fin (4701840016517595 / 2 ^ 50)) (Fl.fin (5110175788308077 / 2 ^ 49)) (Fl.fin 0) (Fl.fin (1 / 4)) = (Fl.fin (347627 / 2 ^ 57)) := by
  have h0 : Fl.exp (Fl.fin (-5014667911109395 / 2 ^ 59)) = (Fl.fin (8929184886517699 / 2 ^ 53)) :=
    Fl.exp_eq (74903431772521464675419 / 2 ^ 76) (149806863545042929609189 / 2 ^ 77) 8929184886517699 (-53) (Bnd.exp 7 (5014667911109395 / 2 ^ 59) (74903431772521464675419 / 2 ^ 76) (149806863545042929609189 / 2 ^ 77) (Bnd.const (-5014667911109395 / 2 ^ 59)) (by norm_num) (by norm_num) (by norm_num) (by norm_num) (by norm_num [expSum, expErr, Finset.sum_range_succ, Nat.factorial]) (by norm_num [expSum, expErr, Finset.sum_range_succ, Nat.factorial])) (by unfold Fl.Cert; norm_num)
  have h1 : (Fl.fin 0) - (Fl.fin (4701840016517595 / 2 ^ 50)) = (Fl.fin (-4701840016517595 / 2 ^ 50)) :=
    Fl.sub_eq (-4701840016517595) (-50) (by norm_num) (by unfold Fl.Cert; norm_num)
  have h2 : (Fl.fin (-4701840016517595 / 2 ^ 50)) - (Fl.fin (5110175788308077 / 2 ^ 49)) = (Fl.fin (-3730547898283437 / 2 ^ 48)) :=
    Fl.sub_tie (-7461095796566874) (-49) true (by norm_num) (by unfold Fl.CertTie; norm_num)
  have h3 : (Fl.fin (-3730547898283437 / 2 ^ 48)) - (Fl.fin (8929184886517699 / 2 ^ 53)) = (Fl.fin (-4009584925987115 / 2 ^ 48)) :=
    Fl.sub_eq (-8019169851974230) (-49) (by norm_num) (by unfold Fl.Cert; norm_num)
  have h4 : (Fl.fin (8929184886517699 / 2 ^ 53)) * (Fl.fin (-4009584925987115 / 2 ^ 48)) = (Fl.fin (-1987428284296507 / 2 ^ 47)) :=
    Fl.mul_eq (-7949713137186028) (-49) (by unfold Fl.Cert; norm_num)
  have h5 : (Fl.fin (4701840016517595 / 2 ^ 50)) + (Fl.fin (5110175788308077 / 2 ^ 49)) = (Fl.fin (3730547898283437 / 2 ^ 48)) :=
    Fl.add_tie 7461095796566874 (-49) false (by unfold Fl.CertTie; norm_num)
  have h6 : (Fl.fin (3730547898283437 / 2 ^ 48)) + (Fl.fin (8929184886517699 / 2 ^ 53)) = (Fl.fin (4009584925987115 / 2 ^ 48)) :=
    Fl.add_eq 8019169851974230 (-49) (by unfold Fl.Cert; norm_num)
  have h7 : (Fl.fin 2) * (Fl.fin (4009584925987115 / 2 ^ 48)) = (Fl.fin (4009584925987115 / 2 ^ 47)) :=
    Fl.mul_eq 8019169851974230 (-48) (by unfold Fl.Cert; norm_num)
  have h8 : (Fl.fin (4009584925987115 / 2 ^ 47)) * (Fl.fin (4009584925987115 / 2 ^ 48)) = (Fl.fin (446220040881215 / 2 ^ 40)) :=
    Fl.mul_eq 7139520654099440 (-44) (by unfold Fl.Cert; norm_num)
  have h9 : (Fl.fin (-1987428284296507 / 2 ^ 47)) / (Fl.fin (446220040881215 / 2 ^ 40)) = (Fl.fin (-626833488845221 / 2 ^ 54)) :=
    Fl.div_eq (-5014667910761768) (-57) (by norm_num) (by unfold Fl.Cert; norm_num)
  have h10 : (Fl.fin (-5014667911109395 / 2 ^ 59)) - (Fl.fin 0) = (Fl.fin (-5014667911109395 / 2 ^ 59)) :=
    Fl.sub_zero _
  have h11 : (Fl.fin (-5014667911109395 / 2 ^ 59)) / (Fl.fin (1 / 4)) = (Fl.fin (-5014667911109395 / 2 ^ 57)) :=
    Fl.div_eq (-5014667911109395) (-57) (by norm_num) (by unfold Fl.Cert; norm_num)
  have h12 : (Fl.fin (-626833488845221 / 2 ^ 54)) - (Fl.fin (-5014667911109395 / 2 ^ 57)) = (Fl.fin (347627 / 2 ^ 57)) :=
    Fl.sub_eq 5972186384826368 (-91) (by norm_num) (by unfold Fl.Cert; norm_num)
  have hk0 : Dbl.Rating.F (Fl.fin (-5014667911109395 / 2 ^ 59)) (Fl.fin 0) (Fl.fin (4701840016517595 / 2 ^ 50)) (Fl.fin (5110175788308077 / 2 ^ 49)) (Fl.fin 0) (Fl.fin (1 / 4)) = (Fl.fin (347627 / 2 ^ 57)) :=
    Dbl.F_eval h0 h1 h2 h3 h4 h5 h6 h7 h8 h9 h10 h11 h12
  exact hk0


/-- The function of the solver at `x = -0.008699062149030849` in binary64, for the draw of `Rating(1500, 355, 1)`: `F(x) = 0.0`. -/
theorem cycF5 :
    Dbl.Rating.F (Fl.fin (-5014667910764559 / 2 ^ 59)) (Fl.fin 0) (Fl.fin (4701840016517595 / 2 ^ 50)) (Fl.fin (5110175788308077 / 2 ^ 49)) (Fl.fin 0) (Fl.fin (1 / 4)) = (Fl.fin 0) := by
  have h0 : Fl.exp (Fl.fin (-5014667910764559 / 2 ^ 59)) = (Fl.fin (8929184886523041 / 2 ^ 53)) :=
    Fl.exp_eq (149806863545132543083241 / 2 ^ 77) (18725857943141567917699 / 2 ^ 74) 8929184886523041 (-53) (Bnd.exp 7 (5014667910764559 / 2 ^ 59) (149806863545132543083241 / 2 ^ 77) (18725857943141567917699 / 2 ^ 74) (Bnd.const (-5014667910764559 / 2 ^ 59)) (by norm_num) (by norm_num) (by norm_num) (by norm_num) (by norm_num [expSum, expErr, Finset.sum_range_succ, Nat.factorial]) (by norm_num [expSum, expErr, Finset.sum_range_succ, Nat.factorial])) (by unfold Fl.Cert; norm_num)
  have h1 : (Fl.fin 0) - (Fl.fin (4701840016517595 / 2 ^ 50)) = (Fl.fin (-4701840016517595 / 2 ^ 50)) :=
    Fl.sub_eq (-4701840016517595) (-50) (by norm_num) (by unfold Fl.Cert; norm_num)
  have h2 : (Fl.fin (-4701840016517595 / 2 ^ 50)) - (Fl.fin (5110175788308077 / 2 ^ 49)) = (Fl.fin (-3730547898283437 / 2 ^ 48)) :=
    Fl.sub_tie (-7461095796566874) (-49) true (by norm_num) (by unfold Fl.CertTie; norm_num)
  have h3 : (Fl.fin (-3730547898283437 / 2 ^ 48)) - (Fl.fin (8929184886523041 / 2 ^ 53)) = (Fl.fin (-2004792462993641 / 2 ^ 47)) :=
    Fl.sub_eq (-8019169851974564) (-49) (by norm_num) (by unfold Fl.Cert; norm_num)
  have h4 : (Fl.fin (8929184886523041 / 2 ^ 53)) * (Fl.fin (-2004792462993641 / 2 ^ 47)) = (Fl.fin (-7949713137191115 / 2 ^ 49)) :=
    Fl.mul_eq (-7949713137191115) (-49) (by unfold Fl.Cert; norm_num)
  have h5 : (Fl.fin (4701840016517595 / 2 ^ 50)) + (Fl.fin (5110175788308077 / 2 ^ 49)) = (Fl.fin (3730547898283437 / 2 ^ 48)) :=
    Fl.add_tie 7461095796566874 (-49) false (by unfold Fl.CertTie; norm_num)
  have h6 : (Fl.fin (3730547898283437 / 2 ^ 48)) + (Fl.fin (8929184886523041 / 2 ^ 53)) = (Fl.fin (2004792462993641 / 2 ^ 47)) :=
    Fl.add_eq 8019169851974564 (-49) (by unfold Fl.Cert; norm_num)
  have h7 : (Fl.fin 2) * (Fl.fin (2004792462993641 / 2 ^ 47)) = (Fl.fin (2004792462993641 / 2 ^ 46)) :=
    Fl.mul_eq 8019169851974564 (-48) (by unfold Fl.Cert; norm_num)
  have h8 : (Fl.fin (2004792462993641 / 2 ^ 46)) * (Fl.fin (2004792462993641 / 2 ^ 47)) = (Fl.fin (7139520654100035 / 2 ^ 44)) :=
    Fl.mul_eq 7139520654100035 (-44) (by unfold Fl.Cert; norm_num)
  have h9 : (Fl.fin (-7949713137191115 / 2 ^ 49)) / (Fl.fin (7139520654100035 / 2 ^ 44)) = (Fl.fin (-5014667910764559 / 2 ^ 57)) :=
    Fl.div_eq (-5014667910764559) (-57) (by norm_num) (by unfold Fl.Cert; norm_num)
  have h10 : (Fl.fin (-5014667910764559 / 2 ^ 59)) - (Fl.fin 0) = (Fl.fin (-5014667910764559 / 2 ^ 59)) :=
    Fl.sub_zero _
  have h11 : (Fl.fin (-5014667910764559 / 2 ^ 59)) / (Fl.fin (1 / 4)) = (Fl.fin (-5014667910764559 / 2 ^ 57)) :=
    Fl.div_eq (-5014667910764559) (-57) (by norm_num) (by unfold Fl.Cert; norm_num)
  have h12 : (Fl.fin (-5014667910764559 / 2 ^ 57)) - (Fl.fin (-5014667910764559 / 2 ^ 57)) = (Fl.fin 0) :=
    Fl.sub_cancel (by norm_num)
  have hk0 : Dbl.Rating.F (Fl.fin (-5014667910764559 / 2 ^ 59)) (Fl.fin 0) (Fl.fin (4701840016517595 / 2 ^ 50)) (Fl.fin (5110175788308077 / 2 ^ 49)) (Fl.fin 0) (Fl.fin (1 / 4)) = (Fl.fin 0) :=
    Dbl.F_eval h0 h1 h2 h3 h4 h5 h6 h7 h8 h9 h10 h11 h12
  exact hk0


/-- The function of the solver at `x = -0.008699062149030977` in binary64, for the draw of `Rating(1500, 355, 1)`: `F(x) = 5.134781488891349e-16`. -/
theorem cycF6 :
    Dbl.Rating.F (Fl.fin (-5014667910764633 / 2 ^ 59)) (Fl.fin 0) (Fl.fin (4701840016517595 / 2 ^ 50)) (Fl.fin (5110175788308077 / 2 ^ 49)) (Fl.fin 0) (Fl.fin (1 / 4)) = (Fl.fin (37 / 2 ^ 56)) := by
  have h0 : Fl.exp (Fl.fin (-5014667910764633 / 2 ^ 59)) = (Fl.fin (279037027703845 / 2 ^ 48)) :=
    Fl.exp_eq (149806863545132523852603 / 2 ^ 77) (74903431772566262055477 / 2 ^ 76) 8929184886523040 (-53) (Bnd.exp 7 (5014667910764633 / 2 ^ 59) (149806863545132523852603 / 2 ^ 77) (74903431772566262055477 / 2 ^ 76) (Bnd.const (-5014667910764633 / 2 ^ 59)) (by norm_num) (by norm_num) (by norm_num) (by norm_num) (by norm_num [expSum, expErr, Finset.sum_range_succ, Nat.factorial]) (by norm_num [expSum, expErr, Finset.sum_range_succ, Nat.factorial])) (by unfold Fl.Cert; norm_num)
  have h1 : (Fl.fin 0) - (Fl.fin (4701840016517595 / 2 ^ 50)) = (Fl.fin (-4701840016517595 / 2 ^ 50)) :=
    Fl.sub_eq (-4701840016517595) (-50) (by norm_num) (by unfold Fl.Cert; norm_num)
  have h2 : (Fl.fin (-4701840016517595 / 2 ^ 50)) - (Fl.fin (5110175788308077 / 2 ^ 49)) = (Fl.fin (-3730547898283437 / 2 ^ 48)) :=
    Fl.sub_tie (-7461095796566874) (-49) true (by norm_num) (by unfold Fl.CertTie; norm_num)
  have h3 : (Fl.fin (-3730547898283437 / 2 ^ 48)) - (Fl.fin (279037027703845 / 2 ^ 48)) = (Fl.fin (-2004792462993641 / 2 ^ 47)) :=
    Fl.sub_eq (-8019169851974564) (-49) (by norm_num) (by unfold Fl.Cert; norm_num)
  have h4 : (Fl.fin (279037027703845 / 2 ^ 48)) * (Fl.fin (-2004792462993641 / 2 ^ 47)) = (Fl.fin (-7949713137191115 / 2 ^ 49)) :=
    Fl.mul_eq (-7949713137191115) (-49) (by unfold Fl.Cert; norm_num)
  have h5 : (Fl.fin (4701840016517595 / 2 ^ 50)) + (Fl.fin (5110175788308077 / 2 ^ 49)) = (Fl.fin (3730547898283437 / 2 ^ 48)) :=
    Fl.add_tie 7461095796566874 (-49) false (by unfold Fl.CertTie; norm_num)
  have h6 : (Fl.fin (3730547898283437 / 2 ^ 48)) + (Fl.fin (279037027703845 / 2 ^ 48)) = (Fl.fin (2004792462993641 / 2 ^ 47)) :=
    Fl.add_eq 8019169851974564 (-49) (by unfold Fl.Cert; norm_num)
  have h7 : (Fl.fin 2) * (Fl.fin (2004792462993641 / 2 ^ 47)) = (Fl.fin (2004792462993641 / 2 ^ 46)) :=
    Fl.mul_eq 8019169851974564 (-48) (by unfold Fl.Cert; norm_num)
  have h8 : (Fl.fin (2004792462993641 / 2 ^ 46)) * (Fl.fin (2004792462993641 / 2 ^ 47)) = (Fl.fin (7139520654100035 / 2 ^ 44)) :=
    Fl.mul_eq 7139520654100035 (-44) (by unfold Fl.Cert; norm_num)
  have h9 : (Fl.fin (-7949713137191115 / 2 ^ 49)) / (Fl.fin (7139520654100035 / 2 ^ 44)) = (Fl.fin (-5014667910764559 / 2 ^ 57)) :=
    Fl.div_eq (-5014667910764559) (-57) (by norm_num) (by unfold Fl.Cert; norm_num)
  have h10 : (Fl.fin (-5014667910764633 / 2 ^ 59)) - (Fl.fin 0) = (Fl.fin (-5014667910764633 / 2 ^ 59)) :=
    Fl.sub_zero _
  have h11 : (Fl.fin (-5014667910764633 / 2 ^ 59)) / (Fl.fin (1 / 4)) = (Fl.fin (-5014667910764633 / 2 ^ 57)) :=
    Fl.div_eq (-5014667910764633) (-57) (by norm_num) (by unfold Fl.Cert; norm_num)
  have h12 : (Fl.fin (-5014667910764559 / 2 ^ 57)) - (Fl.fin (-5014667910764633 / 2 ^ 57)) = (Fl.fin (37 / 2 ^ 56)) :=
    Fl.sub_eq 5207287069147136 (-103) (by norm_num) (by unfold Fl.Cert; norm_num)
  have hk0 : Dbl.Rating.F (Fl.fin (-5014667910764633 / 2 ^ 59)) (Fl.fin 0) (Fl.fin (4701840016517595 / 2 ^ 50)) (Fl.fin (5110175788308077 / 2 ^ 49)) (Fl.fin 0) (Fl.fin (1 / 4)) = (Fl.fin (37 / 2 ^ 56)) :=
    Dbl.F_eval h0 h1 h2 h3 h4 h5 h6 h7 h8 h9 h10 h11 h12
  exact hk0


/-- The function of the solver at `x = -0.00869906214903085` in binary64, for the draw of `Rating(1500, 355, 1)`: `F(x) = 6.938893903907228e-18`. -/
theorem cycF7 :
    Dbl.Rating.F (Fl.fin (-313416744422785 / 2 ^ 55)) (Fl.fin 0) (Fl.fin (4701840016517595 / 2 ^ 50)) (Fl.fin (5110175788308077 / 2 ^ 49)) (Fl.fin 0) (Fl.fin (1 / 4)) = (Fl.fin (1 / 2 ^ 57)) := by
  have h0 : Fl.exp (Fl.fin (-313416744422785 / 2 ^ 55)) = (Fl.fin (8929184886523041 / 2 ^ 53)) :=
    Fl.exp_eq (149806863545132542823367 / 2 ^ 77) (74903431772566271540859 / 2 ^ 76) 8929184886523041 (-53) (Bnd.exp 7 (313416744422785 / 2 ^ 55) (149806863545132542823367 / 2 ^ 77) (74903431772566271540859 / 2 ^ 76) (Bnd.const (-313416744422785 / 2 ^ 55)) (by norm_num) (by norm_num) (by norm_num) (by norm_num) (by norm_num [expSum, expErr, Finset.sum_range_succ, Nat.factorial]) (by norm_num [expSum, expErr, Finset.sum_range_succ, Nat.factorial])) (by unfold Fl.Cert; norm_num)
  have h1 : (Fl.fin 0) - (Fl.fin (4701840016517595 / 2 ^ 50)) = (Fl.fin (-4701840016517595 / 2 ^ 50)) :=
    Fl.sub_eq (-4701840016517595) (-50) (by norm_num) (by unfold Fl.Cert; norm_num)
  have h2 : (Fl.fin (-4701840016517595 / 2 ^ 50)) - (Fl.fin (5110175788308077 / 2 ^ 49)) = (Fl.fin (-3730547898283437 / 2 ^ 48)) :=
    Fl.sub_tie (-7461095796566874) (-49) true (by norm_num) (by unfold Fl.CertTie; norm_num)
  have h3 : (Fl.fin (-3730547898283437 / 2 ^ 48)) - (Fl.fin (8929184886523041 / 2 ^ 53)) = (Fl.fin (-2004792462993641 / 2 ^ 47)) :=
    Fl.sub_eq (-8019169851974564) (-49) (by norm_num) (by unfold Fl.Cert; norm_num)
  have h4 : (Fl.fin (8929184886523041 / 2 ^ 53)) * (Fl.fin (-2004792462993641 / 2 ^ 47)) = (Fl.fin (-7949713137191115 / 2 ^ 49)) :=
    Fl.mul_eq (-7949713137191115) (-49) (by unfold Fl.Cert; norm_num)
  have h5 : (Fl.fin (4701840016517595 / 2 ^ 50)) + (Fl.fin (5110175788308077 / 2 ^ 49)) = (Fl.fin (3730547898283437 / 2 ^ 48)) :=
    Fl.add_tie 7461095796566874 (-49) false (by unfold Fl.CertTie; norm_num)
  have h6 : (Fl.fin (3730547898283437 / 2 ^ 48)) + (Fl.fin (8929184886523041 / 2 ^ 53)) = (Fl.fin (2004792462993641 / 2 ^ 47)) :=
    Fl.add_eq 8019169851974564 (-49) (by unfold Fl.Cert; norm_num)
  have h7 : (Fl.fin 2) * (Fl.fin (2004792462993641 / 2 ^ 47)) = (Fl.fin (2004792462993641 / 2 ^ 46)) :=
    Fl.mul_eq 8019169851974564 (-48) (by unfold Fl.Cert; norm_num)
  have h8 : (Fl.fin (2004792462993641 / 2 ^ 46)) * (Fl.fin (2004792462993641 / 2 ^ 47)) = (Fl.fin (7139520654100035 / 2 ^ 44)) :=
    Fl.mul_eq 7139520654100035 (-44) (by unfold Fl.Cert; norm_num)
  have h9 : (Fl.fin (-7949713137191115 / 2 ^ 49)) / (Fl.fin (7139520654100035 / 2 ^ 44)) = (Fl.fin (-5014667910764559 / 2 ^ 57)) :=
    Fl.div_eq (-5014667910764559) (-57) (by norm_num) (by unfold Fl.Cert; norm_num)
  have h10 : (Fl.fin (-313416744422785 / 2 ^ 55)) - (Fl.fin 0) = (Fl.fin (-313416744422785 / 2 ^ 55)) :=
    Fl.sub_zero _
  have h11 : (Fl.fin (-313416744422785 / 2 ^ 55)) / (Fl.fin (1 / 4)) = (Fl.fin (-313416744422785 / 2 ^ 53)) :=
    Fl.div_eq (-5014667910764560) (-57) (by norm_num) (by unfold Fl.Cert; norm_num)
  have h12 : (Fl.fin (-5014667910764559 / 2 ^ 57)) - (Fl.fin (-313416744422785 / 2 ^ 53)) = (Fl.fin (1 / 2 ^ 57)) :=
    Fl.sub_eq 4503599627370496 (-109) (by norm_num) (by unfold Fl.Cert; norm_num)
  have hk0 : Dbl.Rating.F (Fl.fin (-313416744422785 / 2 ^ 55)) (Fl.fin 0) (Fl.fin (4701840016517595 / 2 ^ 50)) (Fl.fin (5110175788308077 / 2 ^ 49)) (Fl.fin 0) (Fl.fin (1 / 4)) = (Fl.fin (1 / 2 ^ 57)) :=
    Dbl.F_eval h0 h1 h2 h3 h4 h5 h6 h7 h8 h9 h10 h11 h12
  exact hk0

/-- Round 0 of the loop for the draw of `Rating(1500, 355, 1)` in binary64: it halves `fA`. -/
theorem cycR0 (n : ℕ) :
    Dbl.Rating.Convergence.iterate (Fl.fin 0) (Fl.fin (4701840016517595 / 2 ^ 50)) (Fl.fin (5110175788308077 / 2 ^ 49)) (Fl.fin 0) (Fl.fin (1 / 4)) (n + 1)
        (Fl.fin 0) (Fl.fin (-1 / 2))
        (Fl.fin (-5055407268504553 / 2 ^ 57)) (Fl.fin (8908658428582289 / 2 ^ 52)) =
      Dbl.Rating.Convergence.iterate (Fl.fin 0) (Fl.fin (4701840016517595 / 2 ^ 50)) (Fl.fin (5110175788308077 / 2 ^ 49)) (Fl.fin 0) (Fl.fin (1 / 4)) n
        (Fl.fin 0) (Fl.fin (-627783019050747 / 2 ^ 56))
        (Fl.fin (-5055407268504553 / 2 ^ 58)) (Fl.fin (3828861393121 / 2 ^ 56)) := by
  have h0 : (Fl.fin (-1 / 2)) - (Fl.fin 0) = (Fl.fin (-1 / 2)) :=
    Fl.sub_zero _
  have h1 : (Fl.fin 0) - (Fl.fin (-1 / 2)) = (Fl.fin (1 / 2)) :=
    Fl.sub_eq 4503599627370496 (-53) (by norm_num) (by unfold Fl.Cert; norm_num)
  have h2 : (Fl.fin (1 / 2)) * (Fl.fin (-5055407268504553 / 2 ^ 57)) = (Fl.fin (-5055407268504553 / 2 ^ 58)) :=
    Fl.mul_eq (-5055407268504553) (-58) (by unfold Fl.Cert; norm_num)
  have h3 : (Fl.fin (8908658428582289 / 2 ^ 52)) - (Fl.fin (-5055407268504553 / 2 ^ 57)) = (Fl.fin (566664994107691 / 2 ^ 48)) :=
    Fl.sub_eq 4533319952861528 (-51) (by norm_num) (by unfold Fl.Cert; norm_num)
  have h4 : (Fl.fin (-5055407268504553 / 2 ^ 58)) / (Fl.fin (566664994107691 / 2 ^ 48)) = (Fl.fin (-627783019050747 / 2 ^ 56)) :=
    Fl.div_eq (-5022264152405976) (-59) (by norm_num) (by unfold Fl.Cert; norm_num)
  have h5 : (Fl.fin 0) + (Fl.fin (-627783019050747 / 2 ^ 56)) = (Fl.fin (-627783019050747 / 2 ^ 56)) :=
    Fl.add_eq (-5022264152405976) (-59) (by unfold Fl.Cert; norm_num)
  have h6 : (Fl.fin (3828861393121 / 2 ^ 56)) * (Fl.fin (8908658428582289 / 2 ^ 52)) = (Fl.fin (7755720235241079 / 2 ^ 66)) :=
    Fl.mul_eq 7755720235241079 (-66) (by unfold Fl.Cert; norm_num)
  have h7 : (Fl.fin (-5055407268504553 / 2 ^ 57)) / (Fl.fin 2) = (Fl.fin (-5055407268504553 / 2 ^ 58)) :=
    Fl.div_eq (-5055407268504553) (-58) (by norm_num) (by unfold Fl.Cert; norm_num)
  have hk0 : Fl.fabs (Fl.fin (-1 / 2)) > Dbl.kConvergence :=
    show ((4722366482869645 / 2 ^ 72) : ℝ) < |(-1 / 2)| from by norm_num [lt_abs]
  have hk1 : ¬ (Fl.fin (7755720235241079 / 2 ^ 66)) < (Fl.fin 0) :=
    fun h => absurd ((Fl.fin_lt_fin _ _).mp h) (by norm_num)
  have hk2 : Dbl.Rating.Convergence.iterate (Fl.fin 0) (Fl.fin (4701840016517595 / 2 ^ 50)) (Fl.fin (5110175788308077 / 2 ^ 49)) (Fl.fin 0) (Fl.fin (1 / 4)) (n + 1) (Fl.fin 0) (Fl.fin (-1 / 2)) (Fl.fin (-5055407268504553 / 2 ^ 57)) (Fl.fin (8908658428582289 / 2 ^ 52)) = Dbl.Rating.Convergence.iterate (Fl.fin 0) (Fl.fin (4701840016517595 / 2 ^ 50)) (Fl.fin (5110175788308077 / 2 ^ 49)) (Fl.fin 0) (Fl.fin (1 / 4)) n (Fl.fin 0) (Fl.fin (-627783019050747 / 2 ^ 56)) (Fl.fin (-5055407268504553 / 2 ^ 58)) (Fl.fin (3828861393121 / 2 ^ 56)) :=
    Dbl.iterate_halve _ _ _ _ _ n h0 hk0 h1 h2 h3 h4 h5 cycF2 h6 hk1 h7
  exact hk2


/-- Round 1 of the loop for the draw of `Rating(1500, 355, 1)` in binary64: it moves `A` to `B`. -/
theorem cycR1 (n : ℕ) :
    Dbl.Rating.Convergence.iterate (Fl.fin 0) (Fl.fin (4701840016517595 / 2 ^ 50)) (Fl.fin (5110175788308077 / 2 ^ 49)) (Fl.fin 0) (Fl.fin (1 / 4)) (n + 1)
        (Fl.fin 0) (Fl.fin (-627783019050747 / 2 ^ 56))
        (Fl.fin (-5055407268504553 / 2 ^ 58)) (Fl.fin (3828861393121 / 2 ^ 56)) =
      Dbl.Rating.Convergence.iterate (Fl.fin 0) (Fl.fin (4701840016517595 / 2 ^ 50)) (Fl.fin (5110175788308077 / 2 ^ 49)) (Fl.fin 0) (Fl.fin (1 / 4)) n
        (Fl.fin (-627783019050747 / 2 ^ 56)) (Fl.fin (-2503547534746671 / 2 ^ 58))
        (Fl.fin (3828861393121 / 2 ^ 56)) (Fl.fin (-7634133716363 / 2 ^ 57)) := by
  have h0 : (Fl.fin (-627783019050747 / 2 ^ 56)) - (Fl.fin 0) = (Fl.fin (-627783019050747 / 2 ^ 56)) :=
    Fl.sub_zero _
  have h1 : (Fl.fin 0) - (Fl.fin (-627783019050747 / 2 ^ 56)) = (Fl.fin (627783019050747 / 2 ^ 56)) :=
    Fl.sub_eq 5022264152405976 (-59) (by norm_num) (by unfold Fl.Cert; norm_num)
  have h2 : (Fl.fin (627783019050747 / 2 ^ 56)) * (Fl.fin (-5055407268504553 / 2 ^ 58)) = (Fl.fin (-176175676133865 / 2 ^ 60)) :=
    Fl.mul_eq (-5637621636283680) (-65) (by unfold Fl.Cert; norm_num)
  have h3 : (Fl.fin (3828861393121 / 2 ^ 56)) - (Fl.fin (-5055407268504553 / 2 ^ 58)) = (Fl.fin (5070722714077037 / 2 ^ 58)) :=
    Fl.sub_eq 5070722714077037 (-58) (by norm_num) (by unfold Fl.Cert; norm_num)
  have h4 : (Fl.fin (-176175676133865 / 2 ^ 60)) / (Fl.fin (5070722714077037 / 2 ^ 58)) = (Fl.fin (-2503547534746671 / 2 ^ 58)) :=
    Fl.div_eq (-5007095069493342) (-59) (by norm_num) (by unfold Fl.Cert; norm_num)
  have h5 : (Fl.fin 0) + (Fl.fin (-2503547534746671 / 2 ^ 58)) = (Fl.fin (-2503547534746671 / 2 ^ 58)) :=
    Fl.add_eq (-5007095069493342) (-59) (by unfold Fl.Cert; norm_num)
  have h6 : (Fl.fin (-7634133716363 / 2 ^ 57)) * (Fl.fin (3828861393121 / 2 ^ 56)) = (Fl.fin (-3402824496909235 / 2 ^ 80)) :=
    Fl.mul_eq (-6805648993818470) (-81) (by unfold Fl.Cert; norm_num)
  have hk0 : Fl.fabs (Fl.fin (-627783019050747 / 2 ^ 56)) > Dbl.kConvergence :=
    show ((4722366482869645 / 2 ^ 72) : ℝ) < |(-627783019050747 / 2 ^ 56)| from by norm_num [lt_abs]
  have hk1 : (Fl.fin (-3402824496909235 / 2 ^ 80)) < (Fl.fin 0) :=
    (Fl.fin_lt_fin _ _).mpr (by norm_num)
  have hk2 : Dbl.Rating.Convergence.iterate (Fl.fin 0) (Fl.fin (4701840016517595 / 2 ^ 50)) (Fl.fin (5110175788308077 / 2 ^ 49)) (Fl.fin 0) (Fl.fin (1 / 4)) (n + 1) (Fl.fin 0) (Fl.fin (-627783019050747 / 2 ^ 56)) (Fl.fin (-5055407268504553 / 2 ^ 58)) (Fl.fin (3828861393121 / 2 ^ 56)) = Dbl.Rating.Convergence.iterate (Fl.fin 0) (Fl.fin (4701840016517595 / 2 ^ 50)) (Fl.fin (5110175788308077 / 2 ^ 49)) (Fl.fin 0) (Fl.fin (1 / 4)) n (Fl.fin (-627783019050747 / 2 ^ 56)) (Fl.fin (-2503547534746671 / 2 ^ 58)) (Fl.fin (3828861393121 / 2 ^ 56)) (Fl.fin (-7634133716363 / 2 ^ 57)) :=
    Dbl.iterate_swap _ _ _ _ _ n h0 hk0 h1 h2 h3 h4 h5 cycF3 h6 hk1
  exact hk2


/-- Round 2 of the loop for the draw of `Rating(1500, 355, 1)` in binary64: it moves `A` to `B`. -/
theorem cycR2 (n : ℕ) :
    Dbl.Rating.Convergence.iterate (Fl.fin 0) (Fl.fin (4701840016517595 / 2 ^ 50)) (Fl.fin (5110175788308077 / 2 ^ 49)) (Fl.fin 0) (Fl.fin (1 / 4)) (n + 1)
        (Fl.fin (-627783019050747 / 2 ^ 56)) (Fl.fin (-2503547534746671 / 2 ^ 58))
        (Fl.fin (3828861393121 / 2 ^ 56)) (Fl.fin (-7634133716363 / 2 ^ 57)) =
      Dbl.Rating.Convergence.iterate (Fl.fin 0) (Fl.fin (4701840016517595 / 2 ^ 50)) (Fl.fin (5110175788308077 / 2 ^ 49)) (Fl.fin 0) (Fl.fin (1 / 4)) n
        (Fl.fin (-2503547534746671 / 2 ^ 58)) (Fl.fin (-5014667911109395 / 2 ^ 59))
        (Fl.fin (-7634133716363 / 2 ^ 57)) (Fl.fin (347627 / 2 ^ 57)) := by
  have h0 : (Fl.fin (-2503547534746671 / 2 ^ 58)) - (Fl.fin (-627783019050747 / 2 ^ 56)) = (Fl.fin (7584541456317 / 2 ^ 58)) :=
    Fl.sub_eq 7766570451268608 (-68) (by norm_num) (by unfold Fl.Cert; norm_num)
  have h1 : (Fl.fin (-627783019050747 / 2 ^ 56)) - (Fl.fin (-2503547534746671 / 2 ^ 58)) = (Fl.fin (-7584541456317 / 2 ^ 58)) :=
    Fl.sub_eq (-7766570451268608) (-68) (by norm_num) (by unfold Fl.Cert; norm_num)
  have h2 : (Fl.fin (-7584541456317 / 2 ^ 58)) * (Fl.fin (3828861393121 / 2 ^ 56)) = (Fl.fin (-1690359667794423 / 2 ^ 80)) :=
    Fl.mul_eq (-6761438671177692) (-82) (by unfold Fl.Cert; norm_num)
  have h3 : (Fl.fin (-7634133716363 / 2 ^ 57)) - (Fl.fin (3828861393121 / 2 ^ 56)) = (Fl.fin (-15291856502605 / 2 ^ 57)) :=
    Fl.sub_eq (-7829430529333760) (-66) (by norm_num) (by unfold Fl.Cert; norm_num)
  have h4 : (Fl.fin (-1690359667794423 / 2 ^ 80)) / (Fl.fin (-15291856502605 / 2 ^ 57)) = (Fl.fin (3889275543849229 / 2 ^ 68)) :=
    Fl.div_eq 7778551087698458 (-69) (by norm_num) (by unfold Fl.Cert; norm_num)
  have h5 : (Fl.fin (-627783019050747 / 2 ^ 56)) + (Fl.fin (3889275543849229 / 2 ^ 68)) = (Fl.fin (-5014667911109395 / 2 ^ 59)) :=
    Fl.add_eq (-5014667911109395) (-59) (by unfold Fl.Cert; norm_num)
  have h6 : (Fl.fin (347627 / 2 ^ 57)) * (Fl.fin (-7634133716363 / 2 ^ 57)) = (Fl.fin (-5183263674644767 / 2 ^ 105)) :=
    Fl.mul_eq (-5183263674644767) (-105) (by unfold Fl.Cert; norm_num)
  have hk0 : Fl.fabs (Fl.fin (7584541456317 / 2 ^ 58)) > Dbl.kConvergence :=
    show ((4722366482869645 / 2 ^ 72) : ℝ) < |(7584541456317 / 2 ^ 58)| from by norm_num [lt_abs]
  have hk1 : (Fl.fin (-5183263674644767 / 2 ^ 105)) < (Fl.fin 0) :=
    (Fl.fin_lt_fin _ _).mpr (by norm_num)
  have hk2 : Dbl.Rating.Convergence.iterate (Fl.fin 0) (Fl.fin (4701840016517595 / 2 ^ 50)) (Fl.fin (5110175788308077 / 2 ^ 49)) (Fl.fin 0) (Fl.fin (1 / 4)) (n + 1) (Fl.fin (-627783019050747 / 2 ^ 56)) (Fl.fin (-2503547534746671 / 2 ^ 58)) (Fl.fin (3828861393121 / 2 ^ 56)) (Fl.fin (-7634133716363 / 2 ^ 57)) = Dbl.Rating.Convergence.iterate (Fl.fin 0) (Fl.fin (4701840016517595 / 2 ^ 50)) (Fl.fin (5110175788308077 / 2 ^ 49)) (Fl.fin 0) (Fl.fin (1 / 4)) n (Fl.fin (-2503547534746671 / 2 ^ 58)) (Fl.fin (-5014667911109395 / 2 ^ 59)) (Fl.fin (-7634133716363 / 2 ^ 57)) (Fl.fin (347627 / 2 ^ 57)) :=
    Dbl.iterate_swap _ _ _ _ _ n h0 hk0 h1 h2 h3 h4 h5 cycF4 h6 hk1
  exact hk2


/-- Round 3 of the loop for the draw of `Rating(1500, 355, 1)` in binary64: it halves `fA`. -/
theorem cycR3 (n : ℕ) :
    Dbl.Rating.Convergence.iterate (Fl.fin 0) (Fl.fin (4701840016517595 / 2 ^ 50)) (Fl.fin (5110175788308077 / 2 ^ 49)) (Fl.fin 0) (Fl.fin (1 / 4)) (n + 1)
        (Fl.fin (-2503547534746671 / 2 ^ 58)) (Fl.fin (-5014667911109395 / 2 ^ 59))
        (Fl.fin (-7634133716363 / 2 ^ 57)) (Fl.fin (347627 / 2 ^ 57)) =
      Dbl.Rating.Convergence.iterate (Fl.fin 0) (Fl.fin (4701840016517595 / 2 ^ 50)) (Fl.fin (5110175788308077 / 2 ^ 49)) (Fl.fin 0) (Fl.fin (1 / 4)) n
        (Fl.fin (-2503547534746671 / 2 ^ 58)) (Fl.fin (-5014667910764559 / 2 ^ 59))
        (Fl.fin (-7634133716363 / 2 ^ 58)) (Fl.fin 0) := by
  have h0 : (Fl.fin (-5014667911109395 / 2 ^ 59)) - (Fl.fin (-2503547534746671 / 2 ^ 58)) = (Fl.fin (-7572841616053 / 2 ^ 59)) :=
    Fl.sub_eq (-7754589814838272) (-69) (by norm_num) (by unfold Fl.Cert; norm_num)
  have h1 : (Fl.fin (-2503547534746671 / 2 ^ 58)) - (Fl.fin (-5014667911109395 / 2 ^ 59)) = (Fl.fin (7572841616053 / 2 ^ 59)) :=
    Fl.sub_eq 7754589814838272 (-69) (by norm_num) (by unfold Fl.Cert; norm_num)
  have h2 : (Fl.fin (7572841616053 / 2 ^ 59)) * (Fl.fin (-7634133716363 / 2 ^ 57)) = (Fl.fin (-6730212540108137 / 2 ^ 83)) :=
    Fl.mul_eq (-6730212540108137) (-83) (by unfold Fl.Cert; norm_num)
  have h3 : (Fl.fin (347627 / 2 ^ 57)) - (Fl.fin (-7634133716363 / 2 ^ 57)) = (Fl.fin (3817067031995 / 2 ^ 56)) :=
    Fl.sub_eq 7817353281525760 (-67) (by norm_num) (by unfold Fl.Cert; norm_num)
  have h4 : (Fl.fin (-6730212540108137 / 2 ^ 83)) / (Fl.fin (3817067031995 / 2 ^ 56)) = (Fl.fin (-7754589461726213 / 2 ^ 69)) :=
    Fl.div_eq (-7754589461726213) (-69) (by norm_num) (by unfold Fl.Cert; norm_num)
  have h5 : (Fl.fin (-2503547534746671 / 2 ^ 58)) + (Fl.fin (-7754589461726213 / 2 ^ 69)) = (Fl.fin (-5014667910764559 / 2 ^ 59)) :=
    Fl.add_eq (-5014667910764559) (-59) (by unfold Fl.Cert; norm_num)
  have h6 : (Fl.fin 0) * (Fl.fin (347627 / 2 ^ 57)) = (Fl.fin 0) :=
    Fl.zero_mul_pos (by norm_num)
  have h7 : (Fl.fin (-7634133716363 / 2 ^ 57)) / (Fl.fin 2) = (Fl.fin (-7634133716363 / 2 ^ 58)) :=
    Fl.div_eq (-7817352925555712) (-68) (by norm_num) (by unfold Fl.Cert; norm_num)
  have hk0 : Fl.fabs (Fl.fin (-7572841616053 / 2 ^ 59)) > Dbl.kConvergence :=
    show ((4722366482869645 / 2 ^ 72) : ℝ) < |(-7572841616053 / 2 ^ 59)| from by norm_num [lt_abs]
  have hk1 : ¬ (Fl.fin 0) < (Fl.fin 0) :=
    fun h => absurd ((Fl.fin_lt_fin _ _).mp h) (by norm_num)
  have hk2 : Dbl.Rating.Convergence.iterate (Fl.fin 0) (Fl.fin (4701840016517595 / 2 ^ 50)) (Fl.fin (5110175788308077 / 2 ^ 49)) (Fl.fin 0) (Fl.fin (1 / 4)) (n + 1) (Fl.fin (-2503547534746671 / 2 ^ 58)) (Fl.fin (-5014667911109395 / 2 ^ 59)) (Fl.fin (-7634133716363 / 2 ^ 57)) (Fl.fin (347627 / 2 ^ 57)) = Dbl.Rating.Convergence.iterate (Fl.fin 0) (Fl.fin (4701840016517595 / 2 ^ 50)) (Fl.fin (5110175788308077 / 2 ^ 49)) (Fl.fin 0) (Fl.fin (1 / 4)) n (Fl.fin (-2503547534746671 / 2 ^ 58)) (Fl.fin (-5014667910764559 / 2 ^ 59)) (Fl.fin (-7634133716363 / 2 ^ 58)) (Fl.fin 0) :=
    Dbl.iterate_halve _ _ _ _ _ n h0 hk0 h1 h2 h3 h4 h5 cycF5 h6 hk1 h7
  exact hk2


/-- Round 995 of the loop for the draw of `Rating(1500, 355, 1)` in binary64: it halves `fA`. -/
theorem cycR995 (n : ℕ) :
    Dbl.Rating.Convergence.iterate (Fl.fin 0) (Fl.fin (4701840016517595 / 2 ^ 50)) (Fl.fin (5110175788308077 / 2 ^ 49)) (Fl.fin 0) (Fl.fin (1 / 4)) (n + 1)
        (Fl.fin (-2503547534746671 / 2 ^ 58)) (Fl.fin (-5014667910764559 / 2 ^ 59))
        (Fl.fin (-7634133716363 / 2 ^ 1049)) (Fl.fin 0) =
      Dbl.Rating.Convergence.iterate (Fl.fin 0) (Fl.fin (4701840016517595 / 2 ^ 50)) (Fl.fin (5110175788308077 / 2 ^ 49)) (Fl.fin 0) (Fl.fin (1 / 4)) n
        (Fl.fin (-2503547534746671 / 2 ^ 58)) (Fl.fin (-5014667910764559 / 2 ^ 59))
        (Fl.fin (-7634133716363 / 2 ^ 1050)) (Fl.fin 0) := by
  have h0 : (Fl.fin (-5014667910764559 / 2 ^ 59)) - (Fl.fin (-2503547534746671 / 2 ^ 58)) = (Fl.fin (-7572841271217 / 2 ^ 59)) :=
    Fl.sub_eq (-7754589461726208) (-69) (by norm_num) (by unfold Fl.Cert; norm_num)
  have h1 : (Fl.fin (-2503547534746671 / 2 ^ 58)) - (Fl.fin (-5014667910764559 / 2 ^ 59)) = (Fl.fin (7572841271217 / 2 ^ 59)) :=
    Fl.sub_eq 7754589461726208 (-69) (by norm_num) (by unfold Fl.Cert; norm_num)
  have h2 : (Fl.fin (7572841271217 / 2 ^ 59)) * (Fl.fin (-7634133716363 / 2 ^ 1049)) = (Fl.fin (-841276529205249 / 2 ^ 1072)) :=
    Fl.mul_eq (-3365106116820996) (-1074) (by unfold Fl.Cert; norm_num)
  have h3 : (Fl.fin 0) - (Fl.fin (-7634133716363 / 2 ^ 1049)) = (Fl.fin (7634133716363 / 2 ^ 1049)) :=
    Fl.sub_eq 7817352925555712 (-1059) (by norm_num) (by unfold Fl.Cert; norm_num)
  have h4 : (Fl.fin (-841276529205249 / 2 ^ 1072)) / (Fl.fin (7634133716363 / 2 ^ 1049)) = (Fl.fin (-7754589461726207 / 2 ^ 69)) :=
    Fl.div_eq (-7754589461726207) (-69) (by norm_num) (by unfold Fl.Cert; norm_num)
  have h5 : (Fl.fin (-2503547534746671 / 2 ^ 58)) + (Fl.fin (-7754589461726207 / 2 ^ 69)) = (Fl.fin (-5014667910764559 / 2 ^ 59)) :=
    Fl.add_eq (-5014667910764559) (-59) (by unfold Fl.Cert; norm_num)
  have h6 : (Fl.fin 0) * (Fl.fin 0) = (Fl.fin 0) :=
    Fl.mul_zero_pos (by norm_num)
  have h7 : (Fl.fin (-7634133716363 / 2 ^ 1049)) / (Fl.fin 2) = (Fl.fin (-7634133716363 / 2 ^ 1050)) :=
    Fl.div_eq (-7817352925555712) (-1060) (by norm_num) (by unfold Fl.Cert; norm_num)
  have hk0 : Fl.fabs (Fl.fin (-7572841271217 / 2 ^ 59)) > Dbl.kConvergence :=
    show ((4722366482869645 / 2 ^ 72) : ℝ) < |(-7572841271217 / 2 ^ 59)| from by norm_num [lt_abs]
  have hk1 : ¬ (Fl.fin 0) < (Fl.fin 0) :=
    fun h => absurd ((Fl.fin_lt_fin _ _).mp h) (by norm_num)
  have hk2 : Dbl.Rating.Convergence.iterate (Fl.fin 0) (Fl.fin (4701840016517595 / 2 ^ 50)) (Fl.fin (5110175788308077 / 2 ^ 49)) (Fl.fin 0) (Fl.fin (1 / 4)) (n + 1) (Fl.fin (-2503547534746671 / 2 ^ 58)) (Fl.fin (-5014667910764559 / 2 ^ 59)) (Fl.fin (-7634133716363 / 2 ^ 1049)) (Fl.fin 0) = Dbl.Rating.Convergence.iterate (Fl.fin 0) (Fl.fin (4701840016517595 / 2 ^ 50)) (Fl.fin (5110175788308077 / 2 ^ 49)) (Fl.fin 0) (Fl.fin (1 / 4)) n (Fl.fin (-2503547534746671 / 2 ^ 58)) (Fl.fin (-5014667910764559 / 2 ^ 59)) (Fl.fin (-7634133716363 / 2 ^ 1050)) (Fl.fin 0) :=
    Dbl.iterate_halve _ _ _ _ _ n h0 hk0 h1 h2 h3 h4 h5 cycF5 h6 hk1 h7
  exact hk2


/-- Round 996 of the loop for the draw of `Rating(1500, 355, 1)` in binary64: it halves `fA`. -/
theorem cycR996 (n : ℕ) :
    Dbl.Rating.Convergence.iterate (Fl.fin 0) (Fl.fin (4701840016517595 / 2 ^ 50)) (Fl.fin (5110175788308077 / 2 ^ 49)) (Fl.fin 0) (Fl.fin (1 / 4)) (n + 1)
        (Fl.fin (-2503547534746671 / 2 ^ 58)) (Fl.fin (-5014667910764559 / 2 ^ 59))
        (Fl.fin (-7634133716363 / 2 ^ 1050)) (Fl.fin 0) =
      Dbl.Rating.Convergence.iterate (Fl.fin 0) (Fl.fin (4701840016517595 / 2 ^ 50)) (Fl.fin (5110175788308077 / 2 ^ 49)) (Fl.fin 0) (Fl.fin (1 / 4)) n
        (Fl.fin (-2503547534746671 / 2 ^ 58)) (Fl.fin (-5014667910764559 / 2 ^ 59))
        (Fl.fin (-7634133716363 / 2 ^ 1051)) (Fl.fin 0) := by
  have h0 : (Fl.fin (-5014667910764559 / 2 ^ 59)) - (Fl.fin (-2503547534746671 / 2 ^ 58)) = (Fl.fin (-7572841271217 / 2 ^ 59)) :=
    Fl.sub_eq (-7754589461726208) (-69) (by norm_num) (by unfold Fl.Cert; norm_num)
  have h1 : (Fl.fin (-2503547534746671 / 2 ^ 58)) - (Fl.fin (-5014667910764559 / 2 ^ 59)) = (Fl.fin (7572841271217 / 2 ^ 59)) :=
    Fl.sub_eq 7754589461726208 (-69) (by norm_num) (by unfold Fl.Cert; norm_num)
  have h2 : (Fl.fin (7572841271217 / 2 ^ 59)) * (Fl.fin (-7634133716363 / 2 ^ 1050)) = (Fl.fin (-841276529205249 / 2 ^ 1073)) :=
    Fl.mul_eq (-1682553058410498) (-1074) (by unfold Fl.Cert; norm_num)
  have h3 : (Fl.fin 0) - (Fl.fin (-7634133716363 / 2 ^ 1050)) = (Fl.fin (7634133716363 / 2 ^ 1050)) :=
    Fl.sub_eq 7817352925555712 (-1060) (by norm_num) (by unfold Fl.Cert; norm_num)
  have h4 : (Fl.fin (-841276529205249 / 2 ^ 1073)) / (Fl.fin (7634133716363 / 2 ^ 1050)) = (Fl.fin (-7754589461726207 / 2 ^ 69)) :=
    Fl.div_eq (-7754589461726207) (-69) (by norm_num) (by unfold Fl.Cert; norm_num)
  have h5 : (Fl.fin (-2503547534746671 / 2 ^ 58)) + (Fl.fin (-7754589461726207 / 2 ^ 69)) = (Fl.fin (-5014667910764559 / 2 ^ 59)) :=
    Fl.add_eq (-5014667910764559) (-59) (by unfold Fl.Cert; norm_num)
  have h6 : (Fl.fin 0) * (Fl.fin 0) = (Fl.fin 0) :=
    Fl.mul_zero_pos (by norm_num)
  have h7 : (Fl.fin (-7634133716363 / 2 ^ 1050)) / (Fl.fin 2) = (Fl.fin (-7634133716363 / 2 ^ 1051)) :=
    Fl.div_eq (-7817352925555712) (-1061) (by norm_num) (by unfold Fl.Cert; norm_num)
  have hk0 : Fl.fabs (Fl.fin (-7572841271217 / 2 ^ 59)) > Dbl.kConvergence :=
    show ((4722366482869645 / 2 ^ 72) : ℝ) < |(-7572841271217 / 2 ^ 59)| from by norm_num [lt_abs]
  have hk1 : ¬ (Fl.fin 0) < (Fl.fin 0) :=
    fun h => absurd ((Fl.fin_lt_fin _ _).mp h) (by norm_num)
  have hk2 : Dbl.Rating.Convergence.iterate (Fl.fin 0) (Fl.fin (4701840016517595 / 2 ^ 50)) (Fl.fin (5110175788308077 / 2 ^ 49)) (Fl.fin 0) (Fl.fin (1 / 4)) (n + 1) (Fl.fin (-2503547534746671 / 2 ^ 58)) (Fl.fin (-5014667910764559 / 2 ^ 59)) (Fl.fin (-7634133716363 / 2 ^ 1050)) (Fl.fin 0) = Dbl.Rating.Convergence.iterate (Fl.fin 0) (Fl.fin (4701840016517595 / 2 ^ 50)) (Fl.fin (5110175788308077 / 2 ^ 49)) (Fl.fin 0) (Fl.fin (1 / 4)) n (Fl.fin (-2503547534746671 / 2 ^ 58)) (Fl.fin (-5014667910764559 / 2 ^ 59)) (Fl.fin (-7634133716363 / 2 ^ 1051)) (Fl.fin 0) :=
    Dbl.iterate_halve _ _ _ _ _ n h0 hk0 h1 h2 h3 h4 h5 cycF5 h6 hk1 h7
  exact hk2


/-- Round 997 of the loop for the draw of `Rating(1500, 355, 1)` in binary64: it halves `fA`. -/
theorem cycR997 (n : ℕ) :
    Dbl.Rating.Convergence.iterate (Fl.fin 0) (Fl.fin (4701840016517595 / 2 ^ 50)) (Fl.fin (5110175788308077 / 2 ^ 49)) (Fl.fin 0) (Fl.fin (1 / 4)) (n + 1)
        (Fl.fin (-2503547534746671 / 2 ^ 58)) (Fl.fin (-5014667910764559 / 2 ^ 59))
        (Fl.fin (-7634133716363 / 2 ^ 1051)) (Fl.fin 0) =
      Dbl.Rating.Convergence.iterate (Fl.fin 0) (Fl.fin (4701840016517595 / 2 ^ 50)) (Fl.fin (5110175788308077 / 2 ^ 49)) (Fl.fin 0) (Fl.fin (1 / 4)) n
        (Fl.fin (-2503547534746671 / 2 ^ 58)) (Fl.fin (-5014667910764559 / 2 ^ 59))
        (Fl.fin (-7634133716363 / 2 ^ 1052)) (Fl.fin 0) := by
  have h0 : (Fl.fin (-5014667910764559 / 2 ^ 59)) - (Fl.fin (-2503547534746671 / 2 ^ 58)) = (Fl.fin (-7572841271217 / 2 ^ 59)) :=
    Fl.sub_eq (-7754589461726208) (-69) (by norm_num) (by unfold Fl.Cert; norm_num)
  have h1 : (Fl.fin (-2503547534746671 / 2 ^ 58)) - (Fl.fin (-5014667910764559 / 2 ^ 59)) = (Fl.fin (7572841271217 / 2 ^ 59)) :=
    Fl.sub_eq 7754589461726208 (-69) (by norm_num) (by unfold Fl.Cert; norm_num)
  have h2 : (Fl.fin (7572841271217 / 2 ^ 59)) * (Fl.fin (-7634133716363 / 2 ^ 1051)) = (Fl.fin (-841276529205249 / 2 ^ 1074)) :=
    Fl.mul_eq (-841276529205249) (-1074) (by unfold Fl.Cert; norm_num)
  have h3 : (Fl.fin 0) - (Fl.fin (-7634133716363 / 2 ^ 1051)) = (Fl.fin (7634133716363 / 2 ^ 1051)) :=
    Fl.sub_eq 7817352925555712 (-1061) (by norm_num) (by unfold Fl.Cert; norm_num)
  have h4 : (Fl.fin (-841276529205249 / 2 ^ 1074)) / (Fl.fin (7634133716363 / 2 ^ 1051)) = (Fl.fin (-7754589461726207 / 2 ^ 69)) :=
    Fl.div_eq (-7754589461726207) (-69) (by norm_num) (by unfold Fl.Cert; norm_num)
  have h5 : (Fl.fin (-2503547534746671 / 2 ^ 58)) + (Fl.fin (-7754589461726207 / 2 ^ 69)) = (Fl.fin (-5014667910764559 / 2 ^ 59)) :=
    Fl.add_eq (-5014667910764559) (-59) (by unfold Fl.Cert; norm_num)
  have h6 : (Fl.fin 0) * (Fl.fin 0) = (Fl.fin 0) :=
    Fl.mul_zero_pos (by norm_num)
  have h7 : (Fl.fin (-7634133716363 / 2 ^ 1051)) / (Fl.fin 2) = (Fl.fin (-7634133716363 / 2 ^ 1052)) :=
    Fl.div_eq (-7817352925555712) (-1062) (by norm_num) (by unfold Fl.Cert; norm_num)
  have hk0 : Fl.fabs (Fl.fin (-7572841271217 / 2 ^ 59)) > Dbl.kConvergence :=
    show ((4722366482869645 / 2 ^ 72) : ℝ) < |(-7572841271217 / 2 ^ 59)| from by norm_num [lt_abs]
  have hk1 : ¬ (Fl.fin 0) < (Fl.fin 0) :=
    fun h => absurd ((Fl.fin_lt_fin _ _).mp h) (by norm_num)
  have hk2 : Dbl.Rating.Convergence.iterate (Fl.fin 0) (Fl.fin (4701840016517595 / 2 ^ 50)) (Fl.fin (5110175788308077 / 2 ^ 49)) (Fl.fin 0) (Fl.fin (1 / 4)) (n + 1) (Fl.fin (-2503547534746671 / 2 ^ 58)) (Fl.fin (-5014667910764559 / 2 ^ 59)) (Fl.fin (-7634133716363 / 2 ^ 1051)) (Fl.fin 0) = Dbl.Rating.Convergence.iterate (Fl.fin 0) (Fl.fin (4701840016517595 / 2 ^ 50)) (Fl.fin (5110175788308077 / 2 ^ 49)) (Fl.fin 0) (Fl.fin (1 / 4)) n (Fl.fin (-2503547534746671 / 2 ^ 58)) (Fl.fin (-5014667910764559 / 2 ^ 59)) (Fl.fin (-7634133716363 / 2 ^ 1052)) (Fl.fin 0) :=
    Dbl.iterate_halve _ _ _ _ _ n h0 hk0 h1 h2 h3 h4 h5 cycF5 h6 hk1 h7
  exact hk2


/-- Round 998 of the loop for the draw of `Rating(1500, 355, 1)` in binary64: it halves `fA`. -/
theorem cycR998 (n : ℕ) :
    Dbl.Rating.Convergence.iterate (Fl.fin 0) (Fl.fin (4701840016517595 / 2 ^ 50)) (Fl.fin (5110175788308077 / 2 ^ 49)) (Fl.fin 0) (Fl.fin (1 / 4)) (n + 1)
        (Fl.fin (-2503547534746671 / 2 ^ 58)) (Fl.fin (-5014667910764559 / 2 ^ 59))
        (Fl.fin (-7634133716363 / 2 ^ 1052)) (Fl.fin 0) =
      Dbl.Rating.Convergence.iterate (Fl.fin 0) (Fl.fin (4701840016517595 / 2 ^ 50)) (Fl.fin (5110175788308077 / 2 ^ 49)) (Fl.fin 0) (Fl.fin (1 / 4)) n
        (Fl.fin (-2503547534746671 / 2 ^ 58)) (Fl.fin (-5014667910764559 / 2 ^ 59))
        (Fl.fin (-7634133716363 / 2 ^ 1053)) (Fl.fin 0) := by
  have h0 : (Fl.fin (-5014667910764559 / 2 ^ 59)) - (Fl.fin (-2503547534746671 / 2 ^ 58)) = (Fl.fin (-7572841271217 / 2 ^ 59)) :=
    Fl.sub_eq (-7754589461726208) (-69) (by norm_num) (by unfold Fl.Cert; norm_num)
  have h1 : (Fl.fin (-2503547534746671 / 2 ^ 58)) - (Fl.fin (-5014667910764559 / 2 ^ 59)) = (Fl.fin (7572841271217 / 2 ^ 59)) :=
    Fl.sub_eq 7754589461726208 (-69) (by norm_num) (by unfold Fl.Cert; norm_num)
  have h2 : (Fl.fin (7572841271217 / 2 ^ 59)) * (Fl.fin (-7634133716363 / 2 ^ 1052)) = (Fl.fin (-420638264602625 / 2 ^ 1074)) :=
    Fl.mul_eq (-420638264602625) (-1074) (by unfold Fl.Cert; norm_num)
  have h3 : (Fl.fin 0) - (Fl.fin (-7634133716363 / 2 ^ 1052)) = (Fl.fin (7634133716363 / 2 ^ 1052)) :=
    Fl.sub_eq 7817352925555712 (-1062) (by norm_num) (by unfold Fl.Cert; norm_num)
  have h4 : (Fl.fin (-420638264602625 / 2 ^ 1074)) / (Fl.fin (7634133716363 / 2 ^ 1052)) = (Fl.fin (-969323682715777 / 2 ^ 66)) :=
    Fl.div_eq (-7754589461726216) (-69) (by norm_num) (by unfold Fl.Cert; norm_num)
  have h5 : (Fl.fin (-2503547534746671 / 2 ^ 58)) + (Fl.fin (-969323682715777 / 2 ^ 66)) = (Fl.fin (-5014667910764559 / 2 ^ 59)) :=
    Fl.add_eq (-5014667910764559) (-59) (by unfold Fl.Cert; norm_num)
  have h6 : (Fl.fin 0) * (Fl.fin 0) = (Fl.fin 0) :=
    Fl.mul_zero_pos (by norm_num)
  have h7 : (Fl.fin (-7634133716363 / 2 ^ 1052)) / (Fl.fin 2) = (Fl.fin (-7634133716363 / 2 ^ 1053)) :=
    Fl.div_eq (-7817352925555712) (-1063) (by norm_num) (by unfold Fl.Cert; norm_num)
  have hk0 : Fl.fabs (Fl.fin (-7572841271217 / 2 ^ 59)) > Dbl.kConvergence :=
    show ((4722366482869645 / 2 ^ 72) : ℝ) < |(-7572841271217 / 2 ^ 59)| from by norm_num [lt_abs]
  have hk1 : ¬ (Fl.fin 0) < (Fl.fin 0) :=
    fun h => absurd ((Fl.fin_lt_fin _ _).mp h) (by norm_num)
  have hk2 : Dbl.Rating.Convergence.iterate (Fl.fin 0) (Fl.fin (4701840016517595 / 2 ^ 50)) (Fl.fin (5110175788308077 / 2 ^ 49)) (Fl.fin 0) (Fl.fin (1 / 4)) (n + 1) (Fl.fin (-2503547534746671 / 2 ^ 58)) (Fl.fin (-5014667910764559 / 2 ^ 59)) (Fl.fin (-7634133716363 / 2 ^ 1052)) (Fl.fin 0) = Dbl.Rating.Convergence.iterate (Fl.fin 0) (Fl.fin (4701840016517595 / 2 ^ 50)) (Fl.fin (5110175788308077 / 2 ^ 49)) (Fl.fin 0) (Fl.fin (1 / 4)) n (Fl.fin (-2503547534746671 / 2 ^ 58)) (Fl.fin (-5014667910764559 / 2 ^ 59)) (Fl.fin (-7634133716363 / 2 ^ 1053)) (Fl.fin 0) :=
    Dbl.iterate_halve _ _ _ _ _ n h0 hk0 h1 h2 h3 h4 h5 cycF5 h6 hk1 h7
  exact hk2


/-- Round 999 of the loop for the draw of `Rating(1500, 355, 1)` in binary64: it halves `fA`. -/
theorem cycR999 (n : ℕ) :
    Dbl.Rating.Convergence.iterate (Fl.fin 0) (Fl.fin (4701840016517595 / 2 ^ 50)) (Fl.fin (5110175788308077 / 2 ^ 49)) (Fl.fin 0) (Fl.fin (1 / 4)) (n + 1)
        (Fl.fin (-2503547534746671 / 2 ^ 58)) (Fl.fin (-5014667910764559 / 2 ^ 59))
        (Fl.fin (-7634133716363 / 2 ^ 1053)) (Fl.fin 0) =
      Dbl.Rating.Convergence.iterate (Fl.fin 0) (Fl.fin (4701840016517595 / 2 ^ 50)) (Fl.fin (5110175788308077 / 2 ^ 49)) (Fl.fin 0) (Fl.fin (1 / 4)) n
        (Fl.fin (-2503547534746671 / 2 ^ 58)) (Fl.fin (-5014667910764559 / 2 ^ 59))
        (Fl.fin (-7634133716363 / 2 ^ 1054)) (Fl.fin 0) := by
  have h0 : (Fl.fin (-5014667910764559 / 2 ^ 59)) - (Fl.fin (-2503547534746671 / 2 ^ 58)) = (Fl.fin (-7572841271217 / 2 ^ 59)) :=
    Fl.sub_eq (-7754589461726208) (-69) (by norm_num) (by unfold Fl.Cert; norm_num)
  have h1 : (Fl.fin (-2503547534746671 / 2 ^ 58)) - (Fl.fin (-5014667910764559 / 2 ^ 59)) = (Fl.fin (7572841271217 / 2 ^ 59)) :=
    Fl.sub_eq 7754589461726208 (-69) (by norm_num) (by unfold Fl.Cert; norm_num)
  have h2 : (Fl.fin (7572841271217 / 2 ^ 59)) * (Fl.fin (-7634133716363 / 2 ^ 1053)) = (Fl.fin (-102694888819 / 2 ^ 1063)) :=
    Fl.mul_eq (-210319132301312) (-1074) (by unfold Fl.Cert; norm_num)
  have h3 : (Fl.fin 0) - (Fl.fin (-7634133716363 / 2 ^ 1053)) = (Fl.fin (7634133716363 / 2 ^ 1053)) :=
    Fl.sub_eq 7817352925555712 (-1063) (by norm_num) (by unfold Fl.Cert; norm_num)
  have h4 : (Fl.fin (-102694888819 / 2 ^ 1063)) / (Fl.fin (7634133716363 / 2 ^ 1053)) = (Fl.fin (-3877294730863099 / 2 ^ 68)) :=
    Fl.div_eq (-7754589461726198) (-69) (by norm_num) (by unfold Fl.Cert; norm_num)
  have h5 : (Fl.fin (-2503547534746671 / 2 ^ 58)) + (Fl.fin (-3877294730863099 / 2 ^ 68)) = (Fl.fin (-5014667910764559 / 2 ^ 59)) :=
    Fl.add_eq (-5014667910764559) (-59) (by unfold Fl.Cert; norm_num)
  have h6 : (Fl.fin 0) * (Fl.fin 0) = (Fl.fin 0) :=
    Fl.mul_zero_pos (by norm_num)
  have h7 : (Fl.fin (-7634133716363 / 2 ^ 1053)) / (Fl.fin 2) = (Fl.fin (-7634133716363 / 2 ^ 1054)) :=
    Fl.div_eq (-7817352925555712) (-1064) (by norm_num) (by unfold Fl.Cert; norm_num)
  have hk0 : Fl.fabs (Fl.fin (-7572841271217 / 2 ^ 59)) > Dbl.kConvergence :=
    show ((4722366482869645 / 2 ^ 72) : ℝ) < |(-7572841271217 / 2 ^ 59)| from by norm_num [lt_abs]
  have hk1 : ¬ (Fl.fin 0) < (Fl.fin 0) :=
    fun h => absurd ((Fl.fin_lt_fin _ _).mp h) (by norm_num)
  have hk2 : Dbl.Rating.Convergence.iterate (Fl.fin 0) (Fl.fin (4701840016517595 / 2 ^ 50)) (Fl.fin (5110175788308077 / 2 ^ 49)) (Fl.fin 0) (Fl.fin (1 / 4)) (n + 1) (Fl.fin (-2503547534746671 / 2 ^ 58)) (Fl.fin (-5014667910764559 / 2 ^ 59)) (Fl.fin (-7634133716363 / 2 ^ 1053)) (Fl.fin 0) = Dbl.Rating.Convergence.iterate (Fl.fin 0) (Fl.fin (4701840016517595 / 2 ^ 50)) (Fl.fin (5110175788308077 / 2 ^ 49)) (Fl.fin 0) (Fl.fin (1 / 4)) n (Fl.fin (-2503547534746671 / 2 ^ 58)) (Fl.fin (-5014667910764559 / 2 ^ 59)) (Fl.fin (-7634133716363 / 2 ^ 1054)) (Fl.fin 0) :=
    Dbl.iterate_halve _ _ _ _ _ n h0 hk0 h1 h2 h3 h4 h5 cycF5 h6 hk1 h7
  exact hk2


/-- Round 1000 of the loop for the draw of `Rating(1500, 355, 1)` in binary64: it halves `fA`. -/
theorem cycR1000 (n : ℕ) :
    Dbl.Rating.Convergence.iterate (Fl.fin 0) (Fl.fin (4701840016517595 / 2 ^ 50)) (Fl.fin (5110175788308077 / 2 ^ 49)) (Fl.fin 0) (Fl.fin (1 / 4)) (n + 1)
        (Fl.fin (-2503547534746671 / 2 ^ 58)) (Fl.fin (-5014667910764559 / 2 ^ 59))
        (Fl.fin (-7634133716363 / 2 ^ 1054)) (Fl.fin 0) =
      Dbl.Rating.Convergence.iterate (Fl.fin 0) (Fl.fin (4701840016517595 / 2 ^ 50)) (Fl.fin (5110175788308077 / 2 ^ 49)) (Fl.fin 0) (Fl.fin (1 / 4)) n
        (Fl.fin (-2503547534746671 / 2 ^ 58)) (Fl.fin (-5014667910764559 / 2 ^ 59))
        (Fl.fin (-7634133716363 / 2 ^ 1055)) (Fl.fin 0) := by
  have h0 : (Fl.fin (-5014667910764559 / 2 ^ 59)) - (Fl.fin (-2503547534746671 / 2 ^ 58)) = (Fl.fin (-7572841271217 / 2 ^ 59)) :=
    Fl.sub_eq (-7754589461726208) (-69) (by norm_num) (by unfold Fl.Cert; norm_num)
  have h1 : (Fl.fin (-2503547534746671 / 2 ^ 58)) - (Fl.fin (-5014667910764559 / 2 ^ 59)) = (Fl.fin (7572841271217 / 2 ^ 59)) :=
    Fl.sub_eq 7754589461726208 (-69) (by norm_num) (by unfold Fl.Cert; norm_num)
  have h2 : (Fl.fin (7572841271217 / 2 ^ 59)) * (Fl.fin (-7634133716363 / 2 ^ 1054)) = (Fl.fin (-102694888819 / 2 ^ 1064)) :=
    Fl.mul_eq (-105159566150656) (-1074) (by unfold Fl.Cert; norm_num)
  have h3 : (Fl.fin 0) - (Fl.fin (-7634133716363 / 2 ^ 1054)) = (Fl.fin (7634133716363 / 2 ^ 1054)) :=
    Fl.sub_eq 7817352925555712 (-1064) (by norm_num) (by unfold Fl.Cert; norm_num)
  have h4 : (Fl.fin (-102694888819 / 2 ^ 1064)) / (Fl.fin (7634133716363 / 2 ^ 1054)) = (Fl.fin (-3877294730863099 / 2 ^ 68)) :=
    Fl.div_eq (-7754589461726198) (-69) (by norm_num) (by unfold Fl.Cert; norm_num)
  have h5 : (Fl.fin (-2503547534746671 / 2 ^ 58)) + (Fl.fin (-3877294730863099 / 2 ^ 68)) = (Fl.fin (-5014667910764559 / 2 ^ 59)) :=
    Fl.add_eq (-5014667910764559) (-59) (by unfold Fl.Cert; norm_num)
  have h6 : (Fl.fin 0) * (Fl.fin 0) = (Fl.fin 0) :=
    Fl.mul_zero_pos (by norm_num)
  have h7 : (Fl.fin (-7634133716363 / 2 ^ 1054)) / (Fl.fin 2) = (Fl.fin (-7634133716363 / 2 ^ 1055)) :=
    Fl.div_eq (-7817352925555712) (-1065) (by norm_num) (by unfold Fl.Cert; norm_num)
  have hk0 : Fl.fabs (Fl.fin (-7572841271217 / 2 ^ 59)) > Dbl.kConvergence :=
    show ((4722366482869645 / 2 ^ 72) : ℝ) < |(-7572841271217 / 2 ^ 59)| from by norm_num [lt_abs]
  have hk1 : ¬ (Fl.fin 0) < (Fl.fin 0) :=
    fun h => absurd ((Fl.fin_lt_fin _ _).mp h) (by norm_num)
  have hk2 : Dbl.Rating.Convergence.iterate (Fl.fin 0) (Fl.fin (4701840016517595 / 2 ^ 50)) (Fl.fin (5110175788308077 / 2 ^ 49)) (Fl.fin 0) (Fl.fin (1 / 4)) (n + 1) (Fl.fin (-2503547534746671 / 2 ^ 58)) (Fl.fin (-5014667910764559 / 2 ^ 59)) (Fl.fin (-7634133716363 / 2 ^ 1054)) (Fl.fin 0) = Dbl.Rating.Convergence.iterate (Fl.fin 0) (Fl.fin (4701840016517595 / 2 ^ 50)) (Fl.fin (5110175788308077 / 2 ^ 49)) (Fl.fin 0) (Fl.fin (1 / 4)) n (Fl.fin (-2503547534746671 / 2 ^ 58)) (Fl.fin (-5014667910764559 / 2 ^ 59)) (Fl.fin (-7634133716363 / 2 ^ 1055)) (Fl.fin 0) :=
    Dbl.iterate_halve _ _ _ _ _ n h0 hk0 h1 h2 h3 h4 h5 cycF5 h6 hk1 h7
  exact hk2


/-- Round 1001 of the loop for the draw of `Rating(1500, 355, 1)` in binary64: it halves `fA`. -/
theorem cycR1001 (n : ℕ) :
    Dbl.Rating.Convergence.iterate (Fl.fin 0) (Fl.fin (4701840016517595 / 2 ^ 50)) (Fl.fin (5110175788308077 / 2 ^ 49)) (Fl.fin 0) (Fl.fin (1 / 4)) (n + 1)
        (Fl.fin (-2503547534746671 / 2 ^ 58)) (Fl.fin (-5014667910764559 / 2 ^ 59))
        (Fl.fin (-7634133716363 / 2 ^ 1055)) (Fl.fin 0) =
      Dbl.Rating.Convergence.iterate (Fl.fin 0) (Fl.fin (4701840016517595 / 2 ^ 50)) (Fl.fin (5110175788308077 / 2 ^ 49)) (Fl.fin 0) (Fl.fin (1 / 4)) n
        (Fl.fin (-2503547534746671 / 2 ^ 58)) (Fl.fin (-5014667910764559 / 2 ^ 59))
        (Fl.fin (-7634133716363 / 2 ^ 1056)) (Fl.fin 0) := by
  have h0 : (Fl.fin (-5014667910764559 / 2 ^ 59)) - (Fl.fin (-2503547534746671 / 2 ^ 58)) = (Fl.fin (-7572841271217 / 2 ^ 59)) :=
    Fl.sub_eq (-7754589461726208) (-69) (by norm_num) (by unfold Fl.Cert; norm_num)
  have h1 : (Fl.fin (-2503547534746671 / 2 ^ 58)) - (Fl.fin (-5014667910764559 / 2 ^ 59)) = (Fl.fin (7572841271217 / 2 ^ 59)) :=
    Fl.sub_eq 7754589461726208 (-69) (by norm_num) (by unfold Fl.Cert; norm_num)
  have h2 : (Fl.fin (7572841271217 / 2 ^ 59)) * (Fl.fin (-7634133716363 / 2 ^ 1055)) = (Fl.fin (-102694888819 / 2 ^ 1065)) :=
    Fl.mul_eq (-52579783075328) (-1074) (by unfold Fl.Cert; norm_num)
  have h3 : (Fl.fin 0) - (Fl.fin (-7634133716363 / 2 ^ 1055)) = (Fl.fin (7634133716363 / 2 ^ 1055)) :=
    Fl.sub_eq 7817352925555712 (-1065) (by norm_num) (by unfold Fl.Cert; norm_num)
  have h4 : (Fl.fin (-102694888819 / 2 ^ 1065)) / (Fl.fin (7634133716363 / 2 ^ 1055)) = (Fl.fin (-3877294730863099 / 2 ^ 68)) :=
    Fl.div_eq (-7754589461726198) (-69) (by norm_num) (by unfold Fl.Cert; norm_num)
  have h5 : (Fl.fin (-2503547534746671 / 2 ^ 58)) + (Fl.fin (-3877294730863099 / 2 ^ 68)) = (Fl.fin (-5014667910764559 / 2 ^ 59)) :=
    Fl.add_eq (-5014667910764559) (-59) (by unfold Fl.Cert; norm_num)
  have h6 : (Fl.fin 0) * (Fl.fin 0) = (Fl.fin 0) :=
    Fl.mul_zero_pos (by norm_num)
  have h7 : (Fl.fin (-7634133716363 / 2 ^ 1055)) / (Fl.fin 2) = (Fl.fin (-7634133716363 / 2 ^ 1056)) :=
    Fl.div_eq (-7817352925555712) (-1066) (by norm_num) (by unfold Fl.Cert; norm_num)
  have hk0 : Fl.fabs (Fl.fin (-7572841271217 / 2 ^ 59)) > Dbl.kConvergence :=
    show ((4722366482869645 / 2 ^ 72) : ℝ) < |(-7572841271217 / 2 ^ 59)| from by norm_num [lt_abs]
  have hk1 : ¬ (Fl.fin 0) < (Fl.fin 0) :=
    fun h => absurd ((Fl.fin_lt_fin _ _).mp h) (by norm_num)
  have hk2 : Dbl.Rating.Convergence.iterate (Fl.fin 0) (Fl.fin (4701840016517595 / 2 ^ 50)) (Fl.fin (5110175788308077 / 2 ^ 49)) (Fl.fin 0) (Fl.fin (1 / 4)) (n + 1) (Fl.fin (-2503547534746671 / 2 ^ 58)) (Fl.fin (-5014667910764559 / 2 ^ 59)) (Fl.fin (-7634133716363 / 2 ^ 1055)) (Fl.fin 0) = Dbl.Rating.Convergence.iterate (Fl.fin 0) (Fl.fin (4701840016517595 / 2 ^ 50)) (Fl.fin (5110175788308077 / 2 ^ 49)) (Fl.fin 0) (Fl.fin (1 / 4)) n (Fl.fin (-2503547534746671 / 2 ^ 58)) (Fl.fin (-5014667910764559 / 2 ^ 59)) (Fl.fin (-7634133716363 / 2 ^ 1056)) (Fl.fin 0) :=
    Dbl.iterate_halve _ _ _ _ _ n h0 hk0 h1 h2 h3 h4 h5 cycF5 h6 hk1 h7
  exact hk2


/-- Round 1002 of the loop for the draw of `Rating(1500, 355, 1)` in binary64: it halves `fA`. -/
theorem cycR1002 (n : ℕ) :
    Dbl.Rating.Convergence.iterate (Fl.fin 0) (Fl.fin (4701840016517595 / 2 ^ 50)) (Fl.fin (5110175788308077 / 2 ^ 49)) (Fl.fin 0) (Fl.fin (1 / 4)) (n + 1)
        (Fl.fin (-2503547534746671 / 2 ^ 58)) (Fl.fin (-5014667910764559 / 2 ^ 59))
        (Fl.fin (-7634133716363 / 2 ^ 1056)) (Fl.fin 0) =
      Dbl.Rating.Convergence.iterate (Fl.fin 0) (Fl.fin (4701840016517595 / 2 ^ 50)) (Fl.fin (5110175788308077 / 2 ^ 49)) (Fl.fin 0) (Fl.fin (1 / 4)) n
        (Fl.fin (-2503547534746671 / 2 ^ 58)) (Fl.fin (-5014667910764559 / 2 ^ 59))
        (Fl.fin (-7634133716363 / 2 ^ 1057)) (Fl.fin 0) := by
  have h0 : (Fl.fin (-5014667910764559 / 2 ^ 59)) - (Fl.fin (-2503547534746671 / 2 ^ 58)) = (Fl.fin (-7572841271217 / 2 ^ 59)) :=
    Fl.sub_eq (-7754589461726208) (-69) (by norm_num) (by unfold Fl.Cert; norm_num)
  have h1 : (Fl.fin (-2503547534746671 / 2 ^ 58)) - (Fl.fin (-5014667910764559 / 2 ^ 59)) = (Fl.fin (7572841271217 / 2 ^ 59)) :=
    Fl.sub_eq 7754589461726208 (-69) (by norm_num) (by unfold Fl.Cert; norm_num)
  have h2 : (Fl.fin (7572841271217 / 2 ^ 59)) * (Fl.fin (-7634133716363 / 2 ^ 1056)) = (Fl.fin (-102694888819 / 2 ^ 1066)) :=
    Fl.mul_eq (-26289891537664) (-1074) (by unfold Fl.Cert; norm_num)
  have h3 : (Fl.fin 0) - (Fl.fin (-7634133716363 / 2 ^ 1056)) = (Fl.fin (7634133716363 / 2 ^ 1056)) :=
    Fl.sub_eq 7817352925555712 (-1066) (by norm_num) (by unfold Fl.Cert; norm_num)
  have h4 : (Fl.fin (-102694888819 / 2 ^ 1066)) / (Fl.fin (7634133716363 / 2 ^ 1056)) = (Fl.fin (-3877294730863099 / 2 ^ 68)) :=
    Fl.div_eq (-7754589461726198) (-69) (by norm_num) (by unfold Fl.Cert; norm_num)
  have h5 : (Fl.fin (-2503547534746671 / 2 ^ 58)) + (Fl.fin (-3877294730863099 / 2 ^ 68)) = (Fl.fin (-5014667910764559 / 2 ^ 59)) :=
    Fl.add_eq (-5014667910764559) (-59) (by unfold Fl.Cert; norm_num)
  have h6 : (Fl.fin 0) * (Fl.fin 0) = (Fl.fin 0) :=
    Fl.mul_zero_pos (by norm_num)
  have h7 : (Fl.fin (-7634133716363 / 2 ^ 1056)) / (Fl.fin 2) = (Fl.fin (-7634133716363 / 2 ^ 1057)) :=
    Fl.div_eq (-7817352925555712) (-1067) (by norm_num) (by unfold Fl.Cert; norm_num)
  have hk0 : Fl.fabs (Fl.fin (-7572841271217 / 2 ^ 59)) > Dbl.kConvergence :=
    show ((4722366482869645 / 2 ^ 72) : ℝ) < |(-7572841271217 / 2 ^ 59)| from by norm_num [lt_abs]
  have hk1 : ¬ (Fl.fin 0) < (Fl.fin 0) :=
    fun h => absurd ((Fl.fin_lt_fin _ _).mp h) (by norm_num)
  have hk2 : Dbl.Rating.Convergence.iterate (Fl.fin 0) (Fl.fin (4701840016517595 / 2 ^ 50)) (Fl.fin (5110175788308077 / 2 ^ 49)) (Fl.fin 0) (Fl.fin (1 / 4)) (n + 1) (Fl.fin (-2503547534746671 / 2 ^ 58)) (Fl.fin (-5014667910764559 / 2 ^ 59)) (Fl.fin (-7634133716363 / 2 ^ 1056)) (Fl.fin 0) = Dbl.Rating.Convergence.iterate (Fl.fin 0) (Fl.fin (4701840016517595 / 2 ^ 50)) (Fl.fin (5110175788308077 / 2 ^ 49)) (Fl.fin 0) (Fl.fin (1 / 4)) n (Fl.fin (-2503547534746671 / 2 ^ 58)) (Fl.fin (-5014667910764559 / 2 ^ 59)) (Fl.fin (-7634133716363 / 2 ^ 1057)) (Fl.fin 0) :=
    Dbl.iterate_halve _ _ _ _ _ n h0 hk0 h1 h2 h3 h4 h5 cycF5 h6 hk1 h7
  exact hk2


/-- Round 1003 of the loop for the draw of `Rating(1500, 355, 1)` in binary64: it halves `fA`. -/
theorem cycR1003 (n : ℕ) :
    Dbl.Rating.Convergence.iterate (Fl.fin 0) (Fl.fin (4701840016517595 / 2 ^ 50)) (Fl.fin (5110175788308077 / 2 ^ 49)) (Fl.fin 0) (Fl.fin (1 / 4)) (n + 1)
        (Fl.fin (-2503547534746671 / 2 ^ 58)) (Fl.fin (-5014667910764559 / 2 ^ 59))
        (Fl.fin (-7634133716363 / 2 ^ 1057)) (Fl.fin 0) =
      Dbl.Rating.Convergence.iterate (Fl.fin 0) (Fl.fin (4701840016517595 / 2 ^ 50)) (Fl.fin (5110175788308077 / 2 ^ 49)) (Fl.fin 0) (Fl.fin (1 / 4)) n
        (Fl.fin (-2503547534746671 / 2 ^ 58)) (Fl.fin (-5014667910764559 / 2 ^ 59))
        (Fl.fin (-7634133716363 / 2 ^ 1058)) (Fl.fin 0) := by
  have h0 : (Fl.fin (-5014667910764559 / 2 ^ 59)) - (Fl.fin (-2503547534746671 / 2 ^ 58)) = (Fl.fin (-7572841271217 / 2 ^ 59)) :=
    Fl.sub_eq (-7754589461726208) (-69) (by norm_num) (by unfold Fl.Cert; norm_num)
  have h1 : (Fl.fin (-2503547534746671 / 2 ^ 58)) - (Fl.fin (-5014667910764559 / 2 ^ 59)) = (Fl.fin (7572841271217 / 2 ^ 59)) :=
    Fl.sub_eq 7754589461726208 (-69) (by norm_num) (by unfold Fl.Cert; norm_num)
  have h2 : (Fl.fin (7572841271217 / 2 ^ 59)) * (Fl.fin (-7634133716363 / 2 ^ 1057)) = (Fl.fin (-102694888819 / 2 ^ 1067)) :=
    Fl.mul_eq (-13144945768832) (-1074) (by unfold Fl.Cert; norm_num)
  have h3 : (Fl.fin 0) - (Fl.fin (-7634133716363 / 2 ^ 1057)) = (Fl.fin (7634133716363 / 2 ^ 1057)) :=
    Fl.sub_eq 7817352925555712 (-1067) (by norm_num) (by unfold Fl.Cert; norm_num)
  have h4 : (Fl.fin (-102694888819 / 2 ^ 1067)) / (Fl.fin (7634133716363 / 2 ^ 1057)) = (Fl.fin (-3877294730863099 / 2 ^ 68)) :=
    Fl.div_eq (-7754589461726198) (-69) (by norm_num) (by unfold Fl.Cert; norm_num)
  have h5 : (Fl.fin (-2503547534746671 / 2 ^ 58)) + (Fl.fin (-3877294730863099 / 2 ^ 68)) = (Fl.fin (-5014667910764559 / 2 ^ 59)) :=
    Fl.add_eq (-5014667910764559) (-59) (by unfold Fl.Cert; norm_num)
  have h6 : (Fl.fin 0) * (Fl.fin 0) = (Fl.fin 0) :=
    Fl.mul_zero_pos (by norm_num)
  have h7 : (Fl.fin (-7634133716363 / 2 ^ 1057)) / (Fl.fin 2) = (Fl.fin (-7634133716363 / 2 ^ 1058)) :=
    Fl.div_eq (-7817352925555712) (-1068) (by norm_num) (by unfold Fl.Cert; norm_num)
  have hk0 : Fl.fabs (Fl.fin (-7572841271217 / 2 ^ 59)) > Dbl.kConvergence :=
    show ((4722366482869645 / 2 ^ 72) : ℝ) < |(-7572841271217 / 2 ^ 59)| from by norm_num [lt_abs]
  have hk1 : ¬ (Fl.fin 0) < (Fl.fin 0) :=
    fun h => absurd ((Fl.fin_lt_fin _ _).mp h) (by norm_num)
  have hk2 : Dbl.Rating.Convergence.iterate (Fl.fin 0) (Fl.fin (4701840016517595 / 2 ^ 50)) (Fl.fin (5110175788308077 / 2 ^ 49)) (Fl.fin 0) (Fl.fin (1 / 4)) (n + 1) (Fl.fin (-2503547534746671 / 2 ^ 58)) (Fl.fin (-5014667910764559 / 2 ^ 59)) (Fl.fin (-7634133716363 / 2 ^ 1057)) (Fl.fin 0) = Dbl.Rating.Convergence.iterate (Fl.fin 0) (Fl.fin (4701840016517595 / 2 ^ 50)) (Fl.fin (5110175788308077 / 2 ^ 49)) (Fl.fin 0) (Fl.fin (1 / 4)) n (Fl.fin (-2503547534746671 / 2 ^ 58)) (Fl.fin (-5014667910764559 / 2 ^ 59)) (Fl.fin (-7634133716363 / 2 ^ 1058)) (Fl.fin 0) :=
    Dbl.iterate_halve _ _ _ _ _ n h0 hk0 h1 h2 h3 h4 h5 cycF5 h6 hk1 h7
  exact hk2


/-- Round 1004 of the loop for the draw of `Rating(1500, 355, 1)` in binary64: it halves `fA`. -/
theorem cycR1004 (n : ℕ) :
    Dbl.Rating.Convergence.iterate (Fl.fin 0) (Fl.fin (4701840016517595 / 2 ^ 50)) (Fl.fin (5110175788308077 / 2 ^ 49)) (Fl.fin 0) (Fl.fin (1 / 4)) (n + 1)
        (Fl.fin (-2503547534746671 / 2 ^ 58)) (Fl.fin (-5014667910764559 / 2 ^ 59))
        (Fl.fin (-7634133716363 / 2 ^ 1058)) (Fl.fin 0) =
      Dbl.Rating.Convergence.iterate (Fl.fin 0) (Fl.fin (4701840016517595 / 2 ^ 50)) (Fl.fin (5110175788308077 / 2 ^ 49)) (Fl.fin 0) (Fl.fin (1 / 4)) n
        (Fl.fin (-2503547534746671 / 2 ^ 58)) (Fl.fin (-5014667910764559 / 2 ^ 59))
        (Fl.fin (-7634133716363 / 2 ^ 1059)) (Fl.fin 0) := by
  have h0 : (Fl.fin (-5014667910764559 / 2 ^ 59)) - (Fl.fin (-2503547534746671 / 2 ^ 58)) = (Fl.fin (-7572841271217 / 2 ^ 59)) :=
    Fl.sub_eq (-7754589461726208) (-69) (by norm_num) (by unfold Fl.Cert; norm_num)
  have h1 : (Fl.fin (-2503547534746671 / 2 ^ 58)) - (Fl.fin (-5014667910764559 / 2 ^ 59)) = (Fl.fin (7572841271217 / 2 ^ 59)) :=
    Fl.sub_eq 7754589461726208 (-69) (by norm_num) (by unfold Fl.Cert; norm_num)
  have h2 : (Fl.fin (7572841271217 / 2 ^ 59)) * (Fl.fin (-7634133716363 / 2 ^ 1058)) = (Fl.fin (-102694888819 / 2 ^ 1068)) :=
    Fl.mul_eq (-6572472884416) (-1074) (by unfold Fl.Cert; norm_num)
  have h3 : (Fl.fin 0) - (Fl.fin (-7634133716363 / 2 ^ 1058)) = (Fl.fin (7634133716363 / 2 ^ 1058)) :=
    Fl.sub_eq 7817352925555712 (-1068) (by norm_num) (by unfold Fl.Cert; norm_num)
  have h4 : (Fl.fin (-102694888819 / 2 ^ 1068)) / (Fl.fin (7634133716363 / 2 ^ 1058)) = (Fl.fin (-3877294730863099 / 2 ^ 68)) :=
    Fl.div_eq (-7754589461726198) (-69) (by norm_num) (by unfold Fl.Cert; norm_num)
  have h5 : (Fl.fin (-2503547534746671 / 2 ^ 58)) + (Fl.fin (-3877294730863099 / 2 ^ 68)) = (Fl.fin (-5014667910764559 / 2 ^ 59)) :=
    Fl.add_eq (-5014667910764559) (-59) (by unfold Fl.Cert; norm_num)
  have h6 : (Fl.fin 0) * (Fl.fin 0) = (Fl.fin 0) :=
    Fl.mul_zero_pos (by norm_num)
  have h7 : (Fl.fin (-7634133716363 / 2 ^ 1058)) / (Fl.fin 2) = (Fl.fin (-7634133716363 / 2 ^ 1059)) :=
    Fl.div_eq (-7817352925555712) (-1069) (by norm_num) (by unfold Fl.Cert; norm_num)
  have hk0 : Fl.fabs (Fl.fin (-7572841271217 / 2 ^ 59)) > Dbl.kConvergence :=
    show ((4722366482869645 / 2 ^ 72) : ℝ) < |(-7572841271217 / 2 ^ 59)| from by norm_num [lt_abs]
  have hk1 : ¬ (Fl.fin 0) < (Fl.fin 0) :=
    fun h => absurd ((Fl.fin_lt_fin _ _).mp h) (by norm_num)
  have hk2 : Dbl.Rating.Convergence.iterate (Fl.fin 0) (Fl.fin (4701840016517595 / 2 ^ 50)) (Fl.fin (5110175788308077 / 2 ^ 49)) (Fl.fin 0) (Fl.fin (1 / 4)) (n + 1) (Fl.fin (-2503547534746671 / 2 ^ 58)) (Fl.fin (-5014667910764559 / 2 ^ 59)) (Fl.fin (-7634133716363 / 2 ^ 1058)) (Fl.fin 0) = Dbl.Rating.Convergence.iterate (Fl.fin 0) (Fl.fin (4701840016517595 / 2 ^ 50)) (Fl.fin (5110175788308077 / 2 ^ 49)) (Fl.fin 0) (Fl.fin (1 / 4)) n (Fl.fin (-2503547534746671 / 2 ^ 58)) (Fl.fin (-5014667910764559 / 2 ^ 59)) (Fl.fin (-7634133716363 / 2 ^ 1059)) (Fl.fin 0) :=
    Dbl.iterate_halve _ _ _ _ _ n h0 hk0 h1 h2 h3 h4 h5 cycF5 h6 hk1 h7
  exact hk2


/-- Round 1005 of the loop for the draw of `Rating(1500, 355, 1)` in binary64: it halves `fA`. -/
theorem cycR1005 (n : ℕ) :
    Dbl.Rating.Convergence.iterate (Fl.fin 0) (Fl.fin (4701840016517595 / 2 ^ 50)) (Fl.fin (5110175788308077 / 2 ^ 49)) (Fl.fin 0) (Fl.fin (1 / 4)) (n + 1)
        (Fl.fin (-2503547534746671 / 2 ^ 58)) (Fl.fin (-5014667910764559 / 2 ^ 59))
        (Fl.fin (-7634133716363 / 2 ^ 1059)) (Fl.fin 0) =
      Dbl.Rating.Convergence.iterate (Fl.fin 0) (Fl.fin (4701840016517595 / 2 ^ 50)) (Fl.fin (5110175788308077 / 2 ^ 49)) (Fl.fin 0) (Fl.fin (1 / 4)) n
        (Fl.fin (-2503547534746671 / 2 ^ 58)) (Fl.fin (-5014667910764559 / 2 ^ 59))
        (Fl.fin (-7634133716363 / 2 ^ 1060)) (Fl.fin 0) := by
  have h0 : (Fl.fin (-5014667910764559 / 2 ^ 59)) - (Fl.fin (-2503547534746671 / 2 ^ 58)) = (Fl.fin (-7572841271217 / 2 ^ 59)) :=
    Fl.sub_eq (-7754589461726208) (-69) (by norm_num) (by unfold Fl.Cert; norm_num)
  have h1 : (Fl.fin (-2503547534746671 / 2 ^ 58)) - (Fl.fin (-5014667910764559 / 2 ^ 59)) = (Fl.fin (7572841271217 / 2 ^ 59)) :=
    Fl.sub_eq 7754589461726208 (-69) (by norm_num) (by unfold Fl.Cert; norm_num)
  have h2 : (Fl.fin (7572841271217 / 2 ^ 59)) * (Fl.fin (-7634133716363 / 2 ^ 1059)) = (Fl.fin (-102694888819 / 2 ^ 1069)) :=
    Fl.mul_eq (-3286236442208) (-1074) (by unfold Fl.Cert; norm_num)
  have h3 : (Fl.fin 0) - (Fl.fin (-7634133716363 / 2 ^ 1059)) = (Fl.fin (7634133716363 / 2 ^ 1059)) :=
    Fl.sub_eq 7817352925555712 (-1069) (by norm_num) (by unfold Fl.Cert; norm_num)
  have h4 : (Fl.fin (-102694888819 / 2 ^ 1069)) / (Fl.fin (7634133716363 / 2 ^ 1059)) = (Fl.fin (-3877294730863099 / 2 ^ 68)) :=
    Fl.div_eq (-7754589461726198) (-69) (by norm_num) (by unfold Fl.Cert; norm_num)
  have h5 : (Fl.fin (-2503547534746671 / 2 ^ 58)) + (Fl.fin (-3877294730863099 / 2 ^ 68)) = (Fl.fin (-5014667910764559 / 2 ^ 59)) :=
    Fl.add_eq (-5014667910764559) (-59) (by unfold Fl.Cert; norm_num)
  have h6 : (Fl.fin 0) * (Fl.fin 0) = (Fl.fin 0) :=
    Fl.mul_zero_pos (by norm_num)
  have h7 : (Fl.fin (-7634133716363 / 2 ^ 1059)) / (Fl.fin 2) = (Fl.fin (-7634133716363 / 2 ^ 1060)) :=
    Fl.div_eq (-7817352925555712) (-1070) (by norm_num) (by unfold Fl.Cert; norm_num)
  have hk0 : Fl.fabs (Fl.fin (-7572841271217 / 2 ^ 59)) > Dbl.kConvergence :=
    show ((4722366482869645 / 2 ^ 72) : ℝ) < |(-7572841271217 / 2 ^ 59)| from by norm_num [lt_abs]
  have hk1 : ¬ (Fl.fin 0) < (Fl.fin 0) :=
    fun h => absurd ((Fl.fin_lt_fin _ _).mp h) (by norm_num)
  have hk2 : Dbl.Rating.Convergence.iterate (Fl.fin 0) (Fl.fin (4701840016517595 / 2 ^ 50)) (Fl.fin (5110175788308077 / 2 ^ 49)) (Fl.fin 0) (Fl.fin (1 / 4)) (n + 1) (Fl.fin (-2503547534746671 / 2 ^ 58)) (Fl.fin (-5014667910764559 / 2 ^ 59)) (Fl.fin (-7634133716363 / 2 ^ 1059)) (Fl.fin 0) = Dbl.Rating.Convergence.iterate (Fl.fin 0) (Fl.fin (4701840016517595 / 2 ^ 50)) (Fl.fin (5110175788308077 / 2 ^ 49)) (Fl.fin 0) (Fl.fin (1 / 4)) n (Fl.fin (-2503547534746671 / 2 ^ 58)) (Fl.fin (-5014667910764559 / 2 ^ 59)) (Fl.fin (-7634133716363 / 2 ^ 1060)) (Fl.fin 0) :=
    Dbl.iterate_halve _ _ _ _ _ n h0 hk0 h1 h2 h3 h4 h5 cycF5 h6 hk1 h7
  exact hk2


/-- Round 1006 of the loop for the draw of `Rating(1500, 355, 1)` in binary64: it halves `fA`. -/
theorem cycR1006 (n : ℕ) :
    Dbl.Rating.Convergence.iterate (Fl.fin 0) (Fl.fin (4701840016517595 / 2 ^ 50)) (Fl.fin (5110175788308077 / 2 ^ 49)) (Fl.fin 0) (Fl.fin (1 / 4)) (n + 1)
        (Fl.fin (-2503547534746671 / 2 ^ 58)) (Fl.fin (-5014667910764559 / 2 ^ 59))
        (Fl.fin (-7634133716363 / 2 ^ 1060)) (Fl.fin 0) =
      Dbl.Rating.Convergence.iterate (Fl.fin 0) (Fl.fin (4701840016517595 / 2 ^ 50)) (Fl.fin (5110175788308077 / 2 ^ 49)) (Fl.fin 0) (Fl.fin (1 / 4)) n
        (Fl.fin (-2503547534746671 / 2 ^ 58)) (Fl.fin (-5014667910764559 / 2 ^ 59))
        (Fl.fin (-7634133716363 / 2 ^ 1061)) (Fl.fin 0) := by
  have h0 : (Fl.fin (-5014667910764559 / 2 ^ 59)) - (Fl.fin (-2503547534746671 / 2 ^ 58)) = (Fl.fin (-7572841271217 / 2 ^ 59)) :=
    Fl.sub_eq (-7754589461726208) (-69) (by norm_num) (by unfold Fl.Cert; norm_num)
  have h1 : (Fl.fin (-2503547534746671 / 2 ^ 58)) - (Fl.fin (-5014667910764559 / 2 ^ 59)) = (Fl.fin (7572841271217 / 2 ^ 59)) :=
    Fl.sub_eq 7754589461726208 (-69) (by norm_num) (by unfold Fl.Cert; norm_num)
  have h2 : (Fl.fin (7572841271217 / 2 ^ 59)) * (Fl.fin (-7634133716363 / 2 ^ 1060)) = (Fl.fin (-102694888819 / 2 ^ 1070)) :=
    Fl.mul_eq (-1643118221104) (-1074) (by unfold Fl.Cert; norm_num)
  have h3 : (Fl.fin 0) - (Fl.fin (-7634133716363 / 2 ^ 1060)) = (Fl.fin (7634133716363 / 2 ^ 1060)) :=
    Fl.sub_eq 7817352925555712 (-1070) (by norm_num) (by unfold Fl.Cert; norm_num)
  have h4 : (Fl.fin (-102694888819 / 2 ^ 1070)) / (Fl.fin (7634133716363 / 2 ^ 1060)) = (Fl.fin (-3877294730863099 / 2 ^ 68)) :=
    Fl.div_eq (-7754589461726198) (-69) (by norm_num) (by unfold Fl.Cert; norm_num)
  have h5 : (Fl.fin (-2503547534746671 / 2 ^ 58)) + (Fl.fin (-3877294730863099 / 2 ^ 68)) = (Fl.fin (-5014667910764559 / 2 ^ 59)) :=
    Fl.add_eq (-5014667910764559) (-59) (by unfold Fl.Cert; norm_num)
  have h6 : (Fl.fin 0) * (Fl.fin 0) = (Fl.fin 0) :=
    Fl.mul_zero_pos (by norm_num)
  have h7 : (Fl.fin (-7634133716363 / 2 ^ 1060)) / (Fl.fin 2) = (Fl.fin (-7634133716363 / 2 ^ 1061)) :=
    Fl.div_eq (-7817352925555712) (-1071) (by norm_num) (by unfold Fl.Cert; norm_num)
  have hk0 : Fl.fabs (Fl.fin (-7572841271217 / 2 ^ 59)) > Dbl.kConvergence :=
    show ((4722366482869645 / 2 ^ 72) : ℝ) < |(-7572841271217 / 2 ^ 59)| from by norm_num [lt_abs]
  have hk1 : ¬ (Fl.fin 0) < (Fl.fin 0) :=
    fun h => absurd ((Fl.fin_lt_fin _ _).mp h) (by norm_num)
  have hk2 : Dbl.Rating.Convergence.iterate (Fl.fin 0) (Fl.fin (4701840016517595 / 2 ^ 50)) (Fl.fin (5110175788308077 / 2 ^ 49)) (Fl.fin 0) (Fl.fin (1 / 4)) (n + 1) (Fl.fin (-2503547534746671 / 2 ^ 58)) (Fl.fin (-5014667910764559 / 2 ^ 59)) (Fl.fin (-7634133716363 / 2 ^ 1060)) (Fl.fin 0) = Dbl.Rating.Convergence.iterate (Fl.fin 0) (Fl.fin (4701840016517595 / 2 ^ 50)) (Fl.fin (5110175788308077 / 2 ^ 49)) (Fl.fin 0) (Fl.fin (1 / 4)) n (Fl.fin (-2503547534746671 / 2 ^ 58)) (Fl.fin (-5014667910764559 / 2 ^ 59)) (Fl.fin (-7634133716363 / 2 ^ 1061)) (Fl.fin 0) :=
    Dbl.iterate_halve _ _ _ _ _ n h0 hk0 h1 h2 h3 h4 h5 cycF5 h6 hk1 h7
  exact hk2


/-- Round 1007 of the loop for the draw of `Rating(1500, 355, 1)` in binary64: it halves `fA`. -/
theorem cycR1007 (n : ℕ) :
    Dbl.Rating.Convergence.iterate (Fl.fin 0) (Fl.fin (4701840016517595 / 2 ^ 50)) (Fl.fin (5110175788308077 / 2 ^ 49)) (Fl.fin 0) (Fl.fin (1 / 4)) (n + 1)
        (Fl.fin (-2503547534746671 / 2 ^ 58)) (Fl.fin (-5014667910764559 / 2 ^ 59))
        (Fl.fin (-7634133716363 / 2 ^ 1061)) (Fl.fin 0) =
      Dbl.Rating.Convergence.iterate (Fl.fin 0) (Fl.fin (4701840016517595 / 2 ^ 50)) (Fl.fin (5110175788308077 / 2 ^ 49)) (Fl.fin 0) (Fl.fin (1 / 4)) n
        (Fl.fin (-2503547534746671 / 2 ^ 58)) (Fl.fin (-5014667910764559 / 2 ^ 59))
        (Fl.fin (-7634133716363 / 2 ^ 1062)) (Fl.fin 0) := by
  have h0 : (Fl.fin (-5014667910764559 / 2 ^ 59)) - (Fl.fin (-2503547534746671 / 2 ^ 58)) = (Fl.fin (-7572841271217 / 2 ^ 59)) :=
    Fl.sub_eq (-7754589461726208) (-69) (by norm_num) (by unfold Fl.Cert; norm_num)
  have h1 : (Fl.fin (-2503547534746671 / 2 ^ 58)) - (Fl.fin (-5014667910764559 / 2 ^ 59)) = (Fl.fin (7572841271217 / 2 ^ 59)) :=
    Fl.sub_eq 7754589461726208 (-69) (by norm_num) (by unfold Fl.Cert; norm_num)
  have h2 : (Fl.fin (7572841271217 / 2 ^ 59)) * (Fl.fin (-7634133716363 / 2 ^ 1061)) = (Fl.fin (-102694888819 / 2 ^ 1071)) :=
    Fl.mul_eq (-821559110552) (-1074) (by unfold Fl.Cert; norm_num)
  have h3 : (Fl.fin 0) - (Fl.fin (-7634133716363 / 2 ^ 1061)) = (Fl.fin (7634133716363 / 2 ^ 1061)) :=
    Fl.sub_eq 7817352925555712 (-1071) (by norm_num) (by unfold Fl.Cert; norm_num)
  have h4 : (Fl.fin (-102694888819 / 2 ^ 1071)) / (Fl.fin (7634133716363 / 2 ^ 1061)) = (Fl.fin (-3877294730863099 / 2 ^ 68)) :=
    Fl.div_eq (-7754589461726198) (-69) (by norm_num) (by unfold Fl.Cert; norm_num)
  have h5 : (Fl.fin (-2503547534746671 / 2 ^ 58)) + (Fl.fin (-3877294730863099 / 2 ^ 68)) = (Fl.fin (-5014667910764559 / 2 ^ 59)) :=
    Fl.add_eq (-5014667910764559) (-59) (by unfold Fl.Cert; norm_num)
  have h6 : (Fl.fin 0) * (Fl.fin 0) = (Fl.fin 0) :=
    Fl.mul_zero_pos (by norm_num)
  have h7 : (Fl.fin (-7634133716363 / 2 ^ 1061)) / (Fl.fin 2) = (Fl.fin (-7634133716363 / 2 ^ 1062)) :=
    Fl.div_eq (-7817352925555712) (-1072) (by norm_num) (by unfold Fl.Cert; norm_num)
  have hk0 : Fl.fabs (Fl.fin (-7572841271217 / 2 ^ 59)) > Dbl.kConvergence :=
    show ((4722366482869645 / 2 ^ 72) : ℝ) < |(-7572841271217 / 2 ^ 59)| from by norm_num [lt_abs]
  have hk1 : ¬ (Fl.fin 0) < (Fl.fin 0) :=
    fun h => absurd ((Fl.fin_lt_fin _ _).mp h) (by norm_num)
  have hk2 : Dbl.Rating.Convergence.iterate (Fl.fin 0) (Fl.fin (4701840016517595 / 2 ^ 50)) (Fl.fin (5110175788308077 / 2 ^ 49)) (Fl.fin 0) (Fl.fin (1 / 4)) (n + 1) (Fl.fin (-2503547534746671 / 2 ^ 58)) (Fl.fin (-5014667910764559 / 2 ^ 59)) (Fl.fin (-7634133716363 / 2 ^ 1061)) (Fl.fin 0) = Dbl.Rating.Convergence.iterate (Fl.fin 0) (Fl.fin (4701840016517595 / 2 ^ 50)) (Fl.fin (5110175788308077 / 2 ^ 49)) (Fl.fin 0) (Fl.fin (1 / 4)) n (Fl.fin (-2503547534746671 / 2 ^ 58)) (Fl.fin (-5014667910764559 / 2 ^ 59)) (Fl.fin (-7634133716363 / 2 ^ 1062)) (Fl.fin 0) :=
    Dbl.iterate_halve _ _ _ _ _ n h0 hk0 h1 h2 h3 h4 h5 cycF5 h6 hk1 h7
  exact hk2


/-- Round 1008 of the loop for the draw of `Rating(1500, 355, 1)` in binary64: it halves `fA`. -/
theorem cycR1008 (n : ℕ) :
    Dbl.Rating.Convergence.iterate (Fl.fin 0) (Fl.fin (4701840016517595 / 2 ^ 50)) (Fl.fin (5110175788308077 / 2 ^ 49)) (Fl.fin 0) (Fl.fin (1 / 4)) (n + 1)
        (Fl.fin (-2503547534746671 / 2 ^ 58)) (Fl.fin (-5014667910764559 / 2 ^ 59))
        (Fl.fin (-7634133716363 / 2 ^ 1062)) (Fl.fin 0) =
      Dbl.Rating.Convergence.iterate (Fl.fin 0) (Fl.fin (4701840016517595 / 2 ^ 50)) (Fl.fin (5110175788308077 / 2 ^ 49)) (Fl.fin 0) (Fl.fin (1 / 4)) n
        (Fl.fin (-2503547534746671 / 2 ^ 58)) (Fl.fin (-5014667910764559 / 2 ^ 59))
        (Fl.fin (-7634133716363 / 2 ^ 1063)) (Fl.fin 0) := by
  have h0 : (Fl.fin (-5014667910764559 / 2 ^ 59)) - (Fl.fin (-2503547534746671 / 2 ^ 58)) = (Fl.fin (-7572841271217 / 2 ^ 59)) :=
    Fl.sub_eq (-7754589461726208) (-69) (by norm_num) (by unfold Fl.Cert; norm_num)
  have h1 : (Fl.fin (-2503547534746671 / 2 ^ 58)) - (Fl.fin (-5014667910764559 / 2 ^ 59)) = (Fl.fin (7572841271217 / 2 ^ 59)) :=
    Fl.sub_eq 7754589461726208 (-69) (by norm_num) (by unfold Fl.Cert; norm_num)
  have h2 : (Fl.fin (7572841271217 / 2 ^ 59)) * (Fl.fin (-7634133716363 / 2 ^ 1062)) = (Fl.fin (-102694888819 / 2 ^ 1072)) :=
    Fl.mul_eq (-410779555276) (-1074) (by unfold Fl.Cert; norm_num)
  have h3 : (Fl.fin 0) - (Fl.fin (-7634133716363 / 2 ^ 1062)) = (Fl.fin (7634133716363 / 2 ^ 1062)) :=
    Fl.sub_eq 7817352925555712 (-1072) (by norm_num) (by unfold Fl.Cert; norm_num)
  have h4 : (Fl.fin (-102694888819 / 2 ^ 1072)) / (Fl.fin (7634133716363 / 2 ^ 1062)) = (Fl.fin (-3877294730863099 / 2 ^ 68)) :=
    Fl.div_eq (-7754589461726198) (-69) (by norm_num) (by unfold Fl.Cert; norm_num)
  have h5 : (Fl.fin (-2503547534746671 / 2 ^ 58)) + (Fl.fin (-3877294730863099 / 2 ^ 68)) = (Fl.fin (-5014667910764559 / 2 ^ 59)) :=
    Fl.add_eq (-5014667910764559) (-59) (by unfold Fl.Cert; norm_num)
  have h6 : (Fl.fin 0) * (Fl.fin 0) = (Fl.fin 0) :=
    Fl.mul_zero_pos (by norm_num)
  have h7 : (Fl.fin (-7634133716363 / 2 ^ 1062)) / (Fl.fin 2) = (Fl.fin (-7634133716363 / 2 ^ 1063)) :=
    Fl.div_eq (-7817352925555712) (-1073) (by norm_num) (by unfold Fl.Cert; norm_num)
  have hk0 : Fl.fabs (Fl.fin (-7572841271217 / 2 ^ 59)) > Dbl.kConvergence :=
    show ((4722366482869645 / 2 ^ 72) : ℝ) < |(-7572841271217 / 2 ^ 59)| from by norm_num [lt_abs]
  have hk1 : ¬ (Fl.fin 0) < (Fl.fin 0) :=
    fun h => absurd ((Fl.fin_lt_fin _ _).mp h) (by norm_num)
  have hk2 : Dbl.Rating.Convergence.iterate (Fl.fin 0) (Fl.fin (4701840016517595 / 2 ^ 50)) (Fl.fin (5110175788308077 / 2 ^ 49)) (Fl.fin 0) (Fl.fin (1 / 4)) (n + 1) (Fl.fin (-2503547534746671 / 2 ^ 58)) (Fl.fin (-5014667910764559 / 2 ^ 59)) (Fl.fin (-7634133716363 / 2 ^ 1062)) (Fl.fin 0) = Dbl.Rating.Convergence.iterate (Fl.fin 0) (Fl.fin (4701840016517595 / 2 ^ 50)) (Fl.fin (5110175788308077 / 2 ^ 49)) (Fl.fin 0) (Fl.fin (1 / 4)) n (Fl.fin (-2503547534746671 / 2 ^ 58)) (Fl.fin (-5014667910764559 / 2 ^ 59)) (Fl.fin (-7634133716363 / 2 ^ 1063)) (Fl.fin 0) :=
    Dbl.iterate_halve _ _ _ _ _ n h0 hk0 h1 h2 h3 h4 h5 cycF5 h6 hk1 h7
  exact hk2


/-- Round 1009 of the loop for the draw of `Rating(1500, 355, 1)` in binary64: it halves `fA`. -/
theorem cycR1009 (n : ℕ) :
    Dbl.Rating.Convergence.iterate (Fl.fin 0) (Fl.fin (4701840016517595 / 2 ^ 50)) (Fl.fin (5110175788308077 / 2 ^ 49)) (Fl.fin 0) (Fl.fin (1 / 4)) (n + 1)
        (Fl.fin (-2503547534746671 / 2 ^ 58)) (Fl.fin (-5014667910764559 / 2 ^ 59))
        (Fl.fin (-7634133716363 / 2 ^ 1063)) (Fl.fin 0) =
      Dbl.Rating.Convergence.iterate (Fl.fin 0) (Fl.fin (4701840016517595 / 2 ^ 50)) (Fl.fin (5110175788308077 / 2 ^ 49)) (Fl.fin 0) (Fl.fin (1 / 4)) n
        (Fl.fin (-2503547534746671 / 2 ^ 58)) (Fl.fin (-5014667910764559 / 2 ^ 59))
        (Fl.fin (-7634133716363 / 2 ^ 1064)) (Fl.fin 0) := by
  have h0 : (Fl.fin (-5014667910764559 / 2 ^ 59)) - (Fl.fin (-2503547534746671 / 2 ^ 58)) = (Fl.fin (-7572841271217 / 2 ^ 59)) :=
    Fl.sub_eq (-7754589461726208) (-69) (by norm_num) (by unfold Fl.Cert; norm_num)
  have h1 : (Fl.fin (-2503547534746671 / 2 ^ 58)) - (Fl.fin (-5014667910764559 / 2 ^ 59)) = (Fl.fin (7572841271217 / 2 ^ 59)) :=
    Fl.sub_eq 7754589461726208 (-69) (by norm_num) (by unfold Fl.Cert; norm_num)
  have h2 : (Fl.fin (7572841271217 / 2 ^ 59)) * (Fl.fin (-7634133716363 / 2 ^ 1063)) = (Fl.fin (-102694888819 / 2 ^ 1073)) :=
    Fl.mul_eq (-205389777638) (-1074) (by unfold Fl.Cert; norm_num)
  have h3 : (Fl.fin 0) - (Fl.fin (-7634133716363 / 2 ^ 1063)) = (Fl.fin (7634133716363 / 2 ^ 1063)) :=
    Fl.sub_eq 7817352925555712 (-1073) (by norm_num) (by unfold Fl.Cert; norm_num)
  have h4 : (Fl.fin (-102694888819 / 2 ^ 1073)) / (Fl.fin (7634133716363 / 2 ^ 1063)) = (Fl.fin (-3877294730863099 / 2 ^ 68)) :=
    Fl.div_eq (-7754589461726198) (-69) (by norm_num) (by unfold Fl.Cert; norm_num)
  have h5 : (Fl.fin (-2503547534746671 / 2 ^ 58)) + (Fl.fin (-3877294730863099 / 2 ^ 68)) = (Fl.fin (-5014667910764559 / 2 ^ 59)) :=
    Fl.add_eq (-5014667910764559) (-59) (by unfold Fl.Cert; norm_num)
  have h6 : (Fl.fin 0) * (Fl.fin 0) = (Fl.fin 0) :=
    Fl.mul_zero_pos (by norm_num)
  have h7 : (Fl.fin (-7634133716363 / 2 ^ 1063)) / (Fl.fin 2) = (Fl.fin (-7634133716363 / 2 ^ 1064)) :=
    Fl.div_eq (-7817352925555712) (-1074) (by norm_num) (by unfold Fl.Cert; norm_num)
  have hk0 : Fl.fabs (Fl.fin (-7572841271217 / 2 ^ 59)) > Dbl.kConvergence :=
    show ((4722366482869645 / 2 ^ 72) : ℝ) < |(-7572841271217 / 2 ^ 59)| from by norm_num [lt_abs]
  have hk1 : ¬ (Fl.fin 0) < (Fl.fin 0) :=
    fun h => absurd ((Fl.fin_lt_fin _ _).mp h) (by norm_num)
  have hk2 : Dbl.Rating.Convergence.iterate (Fl.fin 0) (Fl.fin (4701840016517595 / 2 ^ 50)) (Fl.fin (5110175788308077 / 2 ^ 49)) (Fl.fin 0) (Fl.fin (1 / 4)) (n + 1) (Fl.fin (-2503547534746671 / 2 ^ 58)) (Fl.fin (-5014667910764559 / 2 ^ 59)) (Fl.fin (-7634133716363 / 2 ^ 1063)) (Fl.fin 0) = Dbl.Rating.Convergence.iterate (Fl.fin 0) (Fl.fin (4701840016517595 / 2 ^ 50)) (Fl.fin (5110175788308077 / 2 ^ 49)) (Fl.fin 0) (Fl.fin (1 / 4)) n (Fl.fin (-2503547534746671 / 2 ^ 58)) (Fl.fin (-5014667910764559 / 2 ^ 59)) (Fl.fin (-7634133716363 / 2 ^ 1064)) (Fl.fin 0) :=
    Dbl.iterate_halve _ _ _ _ _ n h0 hk0 h1 h2 h3 h4 h5 cycF5 h6 hk1 h7
  exact hk2


/-- Round 1010 of the loop for the draw of `Rating(1500, 355, 1)` in binary64: it halves `fA`. -/
theorem cycR1010 (n : ℕ) :
    Dbl.Rating.Convergence.iterate (Fl.fin 0) (Fl.fin (4701840016517595 / 2 ^ 50)) (Fl.fin (5110175788308077 / 2 ^ 49)) (Fl.fin 0) (Fl.fin (1 / 4)) (n + 1)
        (Fl.fin (-2503547534746671 / 2 ^ 58)) (Fl.fin (-5014667910764559 / 2 ^ 59))
        (Fl.fin (-7634133716363 / 2 ^ 1064)) (Fl.fin 0) =
      Dbl.Rating.Convergence.iterate (Fl.fin 0) (Fl.fin (4701840016517595 / 2 ^ 50)) (Fl.fin (5110175788308077 / 2 ^ 49)) (Fl.fin 0) (Fl.fin (1 / 4)) n
        (Fl.fin (-2503547534746671 / 2 ^ 58)) (Fl.fin (-5014667910764559 / 2 ^ 59))
        (Fl.fin (-7634133716363 / 2 ^ 1065)) (Fl.fin 0) := by
  have h0 : (Fl.fin (-5014667910764559 / 2 ^ 59)) - (Fl.fin (-2503547534746671 / 2 ^ 58)) = (Fl.fin (-7572841271217 / 2 ^ 59)) :=
    Fl.sub_eq (-7754589461726208) (-69) (by norm_num) (by unfold Fl.Cert; norm_num)
  have h1 : (Fl.fin (-2503547534746671 / 2 ^ 58)) - (Fl.fin (-5014667910764559 / 2 ^ 59)) = (Fl.fin (7572841271217 / 2 ^ 59)) :=
    Fl.sub_eq 7754589461726208 (-69) (by norm_num) (by unfold Fl.Cert; norm_num)
  have h2 : (Fl.fin (7572841271217 / 2 ^ 59)) * (Fl.fin (-7634133716363 / 2 ^ 1064)) = (Fl.fin (-102694888819 / 2 ^ 1074)) :=
    Fl.mul_eq (-102694888819) (-1074) (by unfold Fl.Cert; norm_num)
  have h3 : (Fl.fin 0) - (Fl.fin (-7634133716363 / 2 ^ 1064)) = (Fl.fin (7634133716363 / 2 ^ 1064)) :=
    Fl.sub_eq 7817352925555712 (-1074) (by norm_num) (by unfold Fl.Cert; norm_num)
  have h4 : (Fl.fin (-102694888819 / 2 ^ 1074)) / (Fl.fin (7634133716363 / 2 ^ 1064)) = (Fl.fin (-3877294730863099 / 2 ^ 68)) :=
    Fl.div_eq (-7754589461726198) (-69) (by norm_num) (by unfold Fl.Cert; norm_num)
  have h5 : (Fl.fin (-2503547534746671 / 2 ^ 58)) + (Fl.fin (-3877294730863099 / 2 ^ 68)) = (Fl.fin (-5014667910764559 / 2 ^ 59)) :=
    Fl.add_eq (-5014667910764559) (-59) (by unfold Fl.Cert; norm_num)
  have h6 : (Fl.fin 0) * (Fl.fin 0) = (Fl.fin 0) :=
    Fl.mul_zero_pos (by norm_num)
  have h7 : (Fl.fin (-7634133716363 / 2 ^ 1064)) / (Fl.fin 2) = (Fl.fin (-7634133716363 / 2 ^ 1065)) :=
    Fl.div_eq (-3908676462777856) (-1074) (by norm_num) (by unfold Fl.Cert; norm_num)
  have hk0 : Fl.fabs (Fl.fin (-7572841271217 / 2 ^ 59)) > Dbl.kConvergence :=
    show ((4722366482869645 / 2 ^ 72) : ℝ) < |(-7572841271217 / 2 ^ 59)| from by norm_num [lt_abs]
  have hk1 : ¬ (Fl.fin 0) < (Fl.fin 0) :=
    fun h => absurd ((Fl.fin_lt_fin _ _).mp h) (by norm_num)
  have hk2 : Dbl.Rating.Convergence.iterate (Fl.fin 0) (Fl.fin (4701840016517595 / 2 ^ 50)) (Fl.fin (5110175788308077 / 2 ^ 49)) (Fl.fin 0) (Fl.fin (1 / 4)) (n + 1) (Fl.fin (-2503547534746671 / 2 ^ 58)) (Fl.fin (-5014667910764559 / 2 ^ 59)) (Fl.fin (-7634133716363 / 2 ^ 1064)) (Fl.fin 0) = Dbl.Rating.Convergence.iterate (Fl.fin 0) (Fl.fin (4701840016517595 / 2 ^ 50)) (Fl.fin (5110175788308077 / 2 ^ 49)) (Fl.fin 0) (Fl.fin (1 / 4)) n (Fl.fin (-2503547534746671 / 2 ^ 58)) (Fl.fin (-5014667910764559 / 2 ^ 59)) (Fl.fin (-7634133716363 / 2 ^ 1065)) (Fl.fin 0) :=
    Dbl.iterate_halve _ _ _ _ _ n h0 hk0 h1 h2 h3 h4 h5 cycF5 h6 hk1 h7
  exact hk2


/-- Round 1011 of the loop for the draw of `Rating(1500, 355, 1)` in binary64: it halves `fA`. -/
theorem cycR1011 (n : ℕ) :
    Dbl.Rating.Convergence.iterate (Fl.fin 0) (Fl.fin (4701840016517595 / 2 ^ 50)) (Fl.fin (5110175788308077 / 2 ^ 49)) (Fl.fin 0) (Fl.fin (1 / 4)) (n + 1)
        (Fl.fin (-2503547534746671 / 2 ^ 58)) (Fl.fin (-5014667910764559 / 2 ^ 59))
        (Fl.fin (-7634133716363 / 2 ^ 1065)) (Fl.fin 0) =
      Dbl.Rating.Convergence.iterate (Fl.fin 0) (Fl.fin (4701840016517595 / 2 ^ 50)) (Fl.fin (5110175788308077 / 2 ^ 49)) (Fl.fin 0) (Fl.fin (1 / 4)) n
        (Fl.fin (-2503547534746671 / 2 ^ 58)) (Fl.fin (-5014667910764633 / 2 ^ 59))
        (Fl.fin (-7634133716363 / 2 ^ 1066)) (Fl.fin (37 / 2 ^ 56)) := by
  have h0 : (Fl.fin (-5014667910764559 / 2 ^ 59)) - (Fl.fin (-2503547534746671 / 2 ^ 58)) = (Fl.fin (-7572841271217 / 2 ^ 59)) :=
    Fl.sub_eq (-7754589461726208) (-69) (by norm_num) (by unfold Fl.Cert; norm_num)
  have h1 : (Fl.fin (-2503547534746671 / 2 ^ 58)) - (Fl.fin (-5014667910764559 / 2 ^ 59)) = (Fl.fin (7572841271217 / 2 ^ 59)) :=
    Fl.sub_eq 7754589461726208 (-69) (by norm_num) (by unfold Fl.Cert; norm_num)
  have h2 : (Fl.fin (7572841271217 / 2 ^ 59)) * (Fl.fin (-7634133716363 / 2 ^ 1065)) = (Fl.fin (-25673722205 / 2 ^ 1073)) :=
    Fl.mul_eq (-51347444410) (-1074) (by unfold Fl.Cert; norm_num)
  have h3 : (Fl.fin 0) - (Fl.fin (-7634133716363 / 2 ^ 1065)) = (Fl.fin (7634133716363 / 2 ^ 1065)) :=
    Fl.sub_eq 3908676462777856 (-1074) (by norm_num) (by unfold Fl.Cert; norm_num)
  have h4 : (Fl.fin (-25673722205 / 2 ^ 1073)) / (Fl.fin (7634133716363 / 2 ^ 1065)) = (Fl.fin (-7754589461801709 / 2 ^ 69)) :=
    Fl.div_eq (-7754589461801709) (-69) (by norm_num) (by unfold Fl.Cert; norm_num)
  have h5 : (Fl.fin (-2503547534746671 / 2 ^ 58)) + (Fl.fin (-7754589461801709 / 2 ^ 69)) = (Fl.fin (-5014667910764633 / 2 ^ 59)) :=
    Fl.add_eq (-5014667910764633) (-59) (by unfold Fl.Cert; norm_num)
  have h6 : (Fl.fin (37 / 2 ^ 56)) * (Fl.fin 0) = (Fl.fin 0) :=
    Fl.mul_zero_pos (by norm_num)
  have h7 : (Fl.fin (-7634133716363 / 2 ^ 1065)) / (Fl.fin 2) = (Fl.fin (-7634133716363 / 2 ^ 1066)) :=
    Fl.div_eq (-1954338231388928) (-1074) (by norm_num) (by unfold Fl.Cert; norm_num)
  have hk0 : Fl.fabs (Fl.fin (-7572841271217 / 2 ^ 59)) > Dbl.kConvergence :=
    show ((4722366482869645 / 2 ^ 72) : ℝ) < |(-7572841271217 / 2 ^ 59)| from by norm_num [lt_abs]
  have hk1 : ¬ (Fl.fin 0) < (Fl.fin 0) :=
    fun h => absurd ((Fl.fin_lt_fin _ _).mp h) (by norm_num)
  have hk2 : Dbl.Rating.Convergence.iterate (Fl.fin 0) (Fl.fin (4701840016517595 / 2 ^ 50)) (Fl.fin (5110175788308077 / 2 ^ 49)) (Fl.fin 0) (Fl.fin (1 / 4)) (n + 1) (Fl.fin (-2503547534746671 / 2 ^ 58)) (Fl.fin (-5014667910764559 / 2 ^ 59)) (Fl.fin (-7634133716363 / 2 ^ 1065)) (Fl.fin 0) = Dbl.Rating.Convergence.iterate (Fl.fin 0) (Fl.fin (4701840016517595 / 2 ^ 50)) (Fl.fin (5110175788308077 / 2 ^ 49)) (Fl.fin 0) (Fl.fin (1 / 4)) n (Fl.fin (-2503547534746671 / 2 ^ 58)) (Fl.fin (-5014667910764633 / 2 ^ 59)) (Fl.fin (-7634133716363 / 2 ^ 1066)) (Fl.fin (37 / 2 ^ 56)) :=
    Dbl.iterate_halve _ _ _ _ _ n h0 hk0 h1 h2 h3 h4 h5 cycF6 h6 hk1 h7
  exact hk2


/-- Round 1012 of the loop for the draw of `Rating(1500, 355, 1)` in binary64: it moves `A` to `B`. -/
theorem cycR1012 (n : ℕ) :
    Dbl.Rating.Convergence.iterate (Fl.fin 0) (Fl.fin (4701840016517595 / 2 ^ 50)) (Fl.fin (5110175788308077 / 2 ^ 49)) (Fl.fin 0) (Fl.fin (1 / 4)) (n + 1)
        (Fl.fin (-2503547534746671 / 2 ^ 58)) (Fl.fin (-5014667910764633 / 2 ^ 59))
        (Fl.fin (-7634133716363 / 2 ^ 1066)) (Fl.fin (37 / 2 ^ 56)) =
      Dbl.Rating.Convergence.iterate (Fl.fin 0) (Fl.fin (4701840016517595 / 2 ^ 50)) (Fl.fin (5110175788308077 / 2 ^ 49)) (Fl.fin 0) (Fl.fin (1 / 4)) n
        (Fl.fin (-5014667910764633 / 2 ^ 59)) (Fl.fin (-2503547534746671 / 2 ^ 58))
        (Fl.fin (37 / 2 ^ 56)) (Fl.fin (-7634133716363 / 2 ^ 57)) := by
  have h0 : (Fl.fin (-5014667910764633 / 2 ^ 59)) - (Fl.fin (-2503547534746671 / 2 ^ 58)) = (Fl.fin (-7572841271291 / 2 ^ 59)) :=
    Fl.sub_eq (-7754589461801984) (-69) (by norm_num) (by unfold Fl.Cert; norm_num)
  have h1 : (Fl.fin (-2503547534746671 / 2 ^ 58)) - (Fl.fin (-5014667910764633 / 2 ^ 59)) = (Fl.fin (7572841271291 / 2 ^ 59)) :=
    Fl.sub_eq 7754589461801984 (-69) (by norm_num) (by unfold Fl.Cert; norm_num)
  have h2 : (Fl.fin (7572841271291 / 2 ^ 59)) * (Fl.fin (-7634133716363 / 2 ^ 1066)) = (Fl.fin (-25673722205 / 2 ^ 1074)) :=
    Fl.mul_eq (-25673722205) (-1074) (by unfold Fl.Cert; norm_num)
  have h3 : (Fl.fin (37 / 2 ^ 56)) - (Fl.fin (-7634133716363 / 2 ^ 1066)) = (Fl.fin (37 / 2 ^ 56)) :=
    Fl.sub_eq 5207287069147136 (-103) (by norm_num) (by unfold Fl.Cert; norm_num)
  have h4 : (Fl.fin (-25673722205 / 2 ^ 1074)) / (Fl.fin (37 / 2 ^ 56)) = (Fl.fin (-5820724094017315 / 2 ^ 1041)) :=
    Fl.div_eq (-5820724094017315) (-1041) (by norm_num) (by unfold Fl.Cert; norm_num)
  have h5 : (Fl.fin (-2503547534746671 / 2 ^ 58)) + (Fl.fin (-5820724094017315 / 2 ^ 1041)) = (Fl.fin (-2503547534746671 / 2 ^ 58)) :=
    Fl.add_eq (-5007095069493342) (-59) (by unfold Fl.Cert; norm_num)
  have h6 : (Fl.fin (-7634133716363 / 2 ^ 57)) * (Fl.fin (37 / 2 ^ 56)) = (Fl.fin (-282462947505431 / 2 ^ 113)) :=
    Fl.mul_eq (-4519407160086896) (-117) (by unfold Fl.Cert; norm_num)
  have hk0 : Fl.fabs (Fl.fin (-7572841271291 / 2 ^ 59)) > Dbl.kConvergence :=
    show ((4722366482869645 / 2 ^ 72) : ℝ) < |(-7572841271291 / 2 ^ 59)| from by norm_num [lt_abs]
  have hk1 : (Fl.fin (-282462947505431 / 2 ^ 113)) < (Fl.fin 0) :=
    (Fl.fin_lt_fin _ _).mpr (by norm_num)
  have hk2 : Dbl.Rating.Convergence.iterate (Fl.fin 0) (Fl.fin (4701840016517595 / 2 ^ 50)) (Fl.fin (5110175788308077 / 2 ^ 49)) (Fl.fin 0) (Fl.fin (1 / 4)) (n + 1) (Fl.fin (-2503547534746671 / 2 ^ 58)) (Fl.fin (-5014667910764633 / 2 ^ 59)) (Fl.fin (-7634133716363 / 2 ^ 1066)) (Fl.fin (37 / 2 ^ 56)) = Dbl.Rating.Convergence.iterate (Fl.fin 0) (Fl.fin (4701840016517595 / 2 ^ 50)) (Fl.fin (5110175788308077 / 2 ^ 49)) (Fl.fin 0) (Fl.fin (1 / 4)) n (Fl.fin (-5014667910764633 / 2 ^ 59)) (Fl.fin (-2503547534746671 / 2 ^ 58)) (Fl.fin (37 / 2 ^ 56)) (Fl.fin (-7634133716363 / 2 ^ 57)) :=
    Dbl.iterate_swap _ _ _ _ _ n h0 hk0 h1 h2 h3 h4 h5 cycF3 h6 hk1
  exact hk2


/-- Round 1013 of the loop for the draw of `Rating(1500, 355, 1)` in binary64: it moves `A` to `B`. -/
theorem cycR1013 (n : ℕ) :
    Dbl.Rating.Convergence.iterate (Fl.fin 0) (Fl.fin (4701840016517595 / 2 ^ 50)) (Fl.fin (5110175788308077 / 2 ^ 49)) (Fl.fin 0) (Fl.fin (1 / 4)) (n + 1)
        (Fl.fin (-5014667910764633 / 2 ^ 59)) (Fl.fin (-2503547534746671 / 2 ^ 58))
        (Fl.fin (37 / 2 ^ 56)) (Fl.fin (-7634133716363 / 2 ^ 57)) =
      Dbl.Rating.Convergence.iterate (Fl.fin 0) (Fl.fin (4701840016517595 / 2 ^ 50)) (Fl.fin (5110175788308077 / 2 ^ 49)) (Fl.fin 0) (Fl.fin (1 / 4)) n
        (Fl.fin (-2503547534746671 / 2 ^ 58)) (Fl.fin (-313416744422785 / 2 ^ 55))
        (Fl.fin (-7634133716363 / 2 ^ 57)) (Fl.fin (1 / 2 ^ 57)) := by
  have h0 : (Fl.fin (-2503547534746671 / 2 ^ 58)) - (Fl.fin (-5014667910764633 / 2 ^ 59)) = (Fl.fin (7572841271291 / 2 ^ 59)) :=
    Fl.sub_eq 7754589461801984 (-69) (by norm_num) (by unfold Fl.Cert; norm_num)
  have h1 : (Fl.fin (-5014667910764633 / 2 ^ 59)) - (Fl.fin (-2503547534746671 / 2 ^ 58)) = (Fl.fin (-7572841271291 / 2 ^ 59)) :=
    Fl.sub_eq (-7754589461801984) (-69) (by norm_num) (by unfold Fl.Cert; norm_num)
  have h2 : (Fl.fin (-7572841271291 / 2 ^ 59)) * (Fl.fin (37 / 2 ^ 56)) = (Fl.fin (-280195127037767 / 2 ^ 115)) :=
    Fl.mul_eq (-8966244065208544) (-120) (by unfold Fl.Cert; norm_num)
  have h3 : (Fl.fin (-7634133716363 / 2 ^ 57)) - (Fl.fin (37 / 2 ^ 56)) = (Fl.fin (-7634133716437 / 2 ^ 57)) :=
    Fl.sub_eq (-7817352925631488) (-67) (by norm_num) (by unfold Fl.Cert; norm_num)
  have h4 : (Fl.fin (-280195127037767 / 2 ^ 115)) / (Fl.fin (-7634133716437 / 2 ^ 57)) = (Fl.fin (1291369783836521 / 2 ^ 103)) :=
    Fl.div_eq 5165479135346084 (-105) (by norm_num) (by unfold Fl.Cert; norm_num)
  have h5 : (Fl.fin (-5014667910764633 / 2 ^ 59)) + (Fl.fin (1291369783836521 / 2 ^ 103)) = (Fl.fin (-313416744422785 / 2 ^ 55)) :=
    Fl.add_eq (-5014667910764560) (-59) (by unfold Fl.Cert; norm_num)
  have h6 : (Fl.fin (1 / 2 ^ 57)) * (Fl.fin (-7634133716363 / 2 ^ 57)) = (Fl.fin (-7634133716363 / 2 ^ 114)) :=
    Fl.mul_eq (-7817352925555712) (-124) (by unfold Fl.Cert; norm_num)
  have hk0 : Fl.fabs (Fl.fin (7572841271291 / 2 ^ 59)) > Dbl.kConvergence :=
    show ((4722366482869645 / 2 ^ 72) : ℝ) < |(7572841271291 / 2 ^ 59)| from by norm_num [lt_abs]
  have hk1 : (Fl.fin (-7634133716363 / 2 ^ 114)) < (Fl.fin 0) :=
    (Fl.fin_lt_fin _ _).mpr (by norm_num)
  have hk2 : Dbl.Rating.Convergence.iterate (Fl.fin 0) (Fl.fin (4701840016517595 / 2 ^ 50)) (Fl.fin (5110175788308077 / 2 ^ 49)) (Fl.fin 0) (Fl.fin (1 / 4)) (n + 1) (Fl.fin (-5014667910764633 / 2 ^ 59)) (Fl.fin (-2503547534746671 / 2 ^ 58)) (Fl.fin (37 / 2 ^ 56)) (Fl.fin (-7634133716363 / 2 ^ 57)) = Dbl.Rating.Convergence.iterate (Fl.fin 0) (Fl.fin (4701840016517595 / 2 ^ 50)) (Fl.fin (5110175788308077 / 2 ^ 49)) (Fl.fin 0) (Fl.fin (1 / 4)) n (Fl.fin (-2503547534746671 / 2 ^ 58)) (Fl.fin (-313416744422785 / 2 ^ 55)) (Fl.fin (-7634133716363 / 2 ^ 57)) (Fl.fin (1 / 2 ^ 57)) :=
    Dbl.iterate_swap _ _ _ _ _ n h0 hk0 h1 h2 h3 h4 h5 cycF7 h6 hk1
  exact hk2


/-- Round 1014 of the loop for the draw of `Rating(1500, 355, 1)` in binary64: it halves `fA`. -/
theorem cycR1014 (n : ℕ) :
    Dbl.Rating.Convergence.iterate (Fl.fin 0) (Fl.fin (4701840016517595 / 2 ^ 50)) (Fl.fin (5110175788308077 / 2 ^ 49)) (Fl.fin 0) (Fl.fin (1 / 4)) (n + 1)
        (Fl.fin (-2503547534746671 / 2 ^ 58)) (Fl.fin (-313416744422785 / 2 ^ 55))
        (Fl.fin (-7634133716363 / 2 ^ 57)) (Fl.fin (1 / 2 ^ 57)) =
      Dbl.Rating.Convergence.iterate (Fl.fin 0) (Fl.fin (4701840016517595 / 2 ^ 50)) (Fl.fin (5110175788308077 / 2 ^ 49)) (Fl.fin 0) (Fl.fin (1 / 4)) n
        (Fl.fin (-2503547534746671 / 2 ^ 58)) (Fl.fin (-5014667910764559 / 2 ^ 59))
        (Fl.fin (-7634133716363 / 2 ^ 58)) (Fl.fin 0) := by
  have h0 : (Fl.fin (-313416744422785 / 2 ^ 55)) - (Fl.fin (-2503547534746671 / 2 ^ 58)) = (Fl.fin (-3786420635609 / 2 ^ 58)) :=
    Fl.sub_eq (-7754589461727232) (-69) (by norm_num) (by unfold Fl.Cert; norm_num)
  have h1 : (Fl.fin (-2503547534746671 / 2 ^ 58)) - (Fl.fin (-313416744422785 / 2 ^ 55)) = (Fl.fin (3786420635609 / 2 ^ 58)) :=
    Fl.sub_eq 7754589461727232 (-69) (by norm_num) (by unfold Fl.Cert; norm_num)
  have h2 : (Fl.fin (3786420635609 / 2 ^ 58)) * (Fl.fin (-7634133716363 / 2 ^ 57)) = (Fl.fin (-3365106116821441 / 2 ^ 82)) :=
    Fl.mul_eq (-6730212233642882) (-83) (by unfold Fl.Cert; norm_num)
  have h3 : (Fl.fin (1 / 2 ^ 57)) - (Fl.fin (-7634133716363 / 2 ^ 57)) = (Fl.fin (1908533429091 / 2 ^ 55)) :=
    Fl.sub_eq 7817352925556736 (-67) (by norm_num) (by unfold Fl.Cert; norm_num)
  have h4 : (Fl.fin (-3365106116821441 / 2 ^ 82)) / (Fl.fin (1908533429091 / 2 ^ 55)) = (Fl.fin (-7754589461726217 / 2 ^ 69)) :=
    Fl.div_eq (-7754589461726217) (-69) (by norm_num) (by unfold Fl.Cert; norm_num)
  have h5 : (Fl.fin (-2503547534746671 / 2 ^ 58)) + (Fl.fin (-7754589461726217 / 2 ^ 69)) = (Fl.fin (-5014667910764559 / 2 ^ 59)) :=
    Fl.add_eq (-5014667910764559) (-59) (by unfold Fl.Cert; norm_num)
  have h6 : (Fl.fin 0) * (Fl.fin (1 / 2 ^ 57)) = (Fl.fin 0) :=
    Fl.zero_mul_pos (by norm_num)
  have h7 : (Fl.fin (-7634133716363 / 2 ^ 57)) / (Fl.fin 2) = (Fl.fin (-7634133716363 / 2 ^ 58)) :=
    Fl.div_eq (-7817352925555712) (-68) (by norm_num) (by unfold Fl.Cert; norm_num)
  have hk0 : Fl.fabs (Fl.fin (-3786420635609 / 2 ^ 58)) > Dbl.kConvergence :=
    show ((4722366482869645 / 2 ^ 72) : ℝ) < |(-3786420635609 / 2 ^ 58)| from by norm_num [lt_abs]
  have hk1 : ¬ (Fl.fin 0) < (Fl.fin 0) :=
    fun h => absurd ((Fl.fin_lt_fin _ _).mp h) (by norm_num)
  have hk2 : Dbl.Rating.Convergence.iterate (Fl.fin 0) (Fl.fin (4701840016517595 / 2 ^ 50)) (Fl.fin (5110175788308077 / 2 ^ 49)) (Fl.fin 0) (Fl.fin (1 / 4)) (n + 1) (Fl.fin (-2503547534746671 / 2 ^ 58)) (Fl.fin (-313416744422785 / 2 ^ 55)) (Fl.fin (-7634133716363 / 2 ^ 57)) (Fl.fin (1 / 2 ^ 57)) = Dbl.Rating.Convergence.iterate (Fl.fin 0) (Fl.fin (4701840016517595 / 2 ^ 50)) (Fl.fin (5110175788308077 / 2 ^ 49)) (Fl.fin 0) (Fl.fin (1 / 4)) n (Fl.fin (-2503547534746671 / 2 ^ 58)) (Fl.fin (-5014667910764559 / 2 ^ 59)) (Fl.fin (-7634133716363 / 2 ^ 58)) (Fl.fin 0) :=
    Dbl.iterate_halve _ _ _ _ _ n h0 hk0 h1 h2 h3 h4 h5 cycF5 h6 hk1 h7
  exact hk2

/-- A round of the loop for the draw of `Rating(1500, 355, 1)` in binary64 while `B` is an exact zero of `F` and the products stay normal: `C` is `B` again, `fC` is 0, and `fA` is halved. -/
theorem cycHalve (j : ℕ) (hj : j ≤ 990) (n : ℕ) :
    Dbl.Rating.Convergence.iterate (Fl.fin 0) (Fl.fin (4701840016517595 / 2 ^ 50)) (Fl.fin (5110175788308077 / 2 ^ 49)) (Fl.fin 0) (Fl.fin (1 / 4)) (n + 1)
        (Fl.fin (-2503547534746671 / 2 ^ 58)) (Fl.fin (-5014667910764559 / 2 ^ 59))
        (Fl.fin ((-7634133716363 / 2 ^ 58) / 2 ^ j)) (Fl.fin 0) =
      Dbl.Rating.Convergence.iterate (Fl.fin 0) (Fl.fin (4701840016517595 / 2 ^ 50)) (Fl.fin (5110175788308077 / 2 ^ 49)) (Fl.fin 0) (Fl.fin (1 / 4)) n
        (Fl.fin (-2503547534746671 / 2 ^ 58)) (Fl.fin (-5014667910764559 / 2 ^ 59))
        (Fl.fin ((-7634133716363 / 2 ^ 58) / 2 ^ (j + 1))) (Fl.fin 0) := by
  have h0 : (Fl.fin (-5014667910764559 / 2 ^ 59)) - (Fl.fin (-2503547534746671 / 2 ^ 58)) = (Fl.fin (-7572841271217 / 2 ^ 59)) :=
    Fl.sub_eq (-7754589461726208) (-69) (by norm_num) (by unfold Fl.Cert; norm_num)
  have h1 : (Fl.fin (-2503547534746671 / 2 ^ 58)) - (Fl.fin (-5014667910764559 / 2 ^ 59)) = (Fl.fin (7572841271217 / 2 ^ 59)) :=
    Fl.sub_eq 7754589461726208 (-69) (by norm_num) (by unfold Fl.Cert; norm_num)
  have h2 : (Fl.fin (-2503547534746671 / 2 ^ 58)) + (Fl.fin (-7572841271217 / 2 ^ 59)) = (Fl.fin (-5014667910764559 / 2 ^ 59)) :=
    Fl.add_eq (-5014667910764559) (-59) (by unfold Fl.Cert; norm_num)
  have h3 : (Fl.fin 0) * (Fl.fin 0) = (Fl.fin 0) :=
    Fl.mul_zero_pos (by norm_num)
  have hk0 : Fl.fabs (Fl.fin (-7572841271217 / 2 ^ 59)) > Dbl.kConvergence :=
    show ((4722366482869645 / 2 ^ 72) : ℝ) < |(-7572841271217 / 2 ^ 59)| from by norm_num [lt_abs]
  have hk1 : ¬ (Fl.fin 0) < (Fl.fin 0) :=
    fun h => absurd ((Fl.fin_lt_fin _ _).mp h) (by norm_num)
  have hmul : (Fl.fin (7572841271217 / 2 ^ 59)) * Fl.fin ((-7634133716363 / 2 ^ 58) / 2 ^ j) = Fl.fin ((-6730212233641993 / 2 ^ 84) / 2 ^ j) :=
    Fl.mul_scale (-6730212233641993) (-84) j (by unfold Fl.Cert; norm_num) (by omega)
  have hsub : Fl.fin 0 - Fl.fin ((-7634133716363 / 2 ^ 58) / 2 ^ j) = Fl.fin ((7634133716363 / 2 ^ 58) / 2 ^ j) :=
    Fl.zero_sub_scale 7817352925555712 (-68) j (by unfold Fl.Cert; norm_num) (by omega)
  have hdiv : Fl.fin ((-6730212233641993 / 2 ^ 84) / 2 ^ j) / Fl.fin ((7634133716363 / 2 ^ 58) / 2 ^ j) = (Fl.fin (-7572841271217 / 2 ^ 59)) :=
    Fl.div_scale (-7754589461726208) (-69) j (by norm_num) (by unfold Fl.Cert; norm_num)
  have hhalf : Fl.fin ((-7634133716363 / 2 ^ 58) / 2 ^ j) / Fl.fin 2 = Fl.fin ((-7634133716363 / 2 ^ 59) / 2 ^ j) :=
    Fl.half_scale (-7817352925555712) (-69) j (by unfold Fl.Cert; norm_num) (by omega)
  have hpow : ((-7634133716363 / 2 ^ 59) / 2 ^ j : ℝ) = (-7634133716363 / 2 ^ 58) / 2 ^ (j + 1) := by
    rw [pow_succ]; ring
  rw [← hpow]
  exact Dbl.iterate_halve _ _ _ _ _ n h0 hk0 h1 hmul hsub hdiv h2 cycF5 h3 hk1 hhalf


/-- From round 4 on, the loop for the draw of `Rating(1500, 355, 1)` in binary64 runs through 1011 states for ever: with any fuel it returns nothing from any of them. -/
theorem cyc_none (n : ℕ) :
    (∀ j : ℕ, j ≤ 991 →
      Dbl.Rating.Convergence.iterate (Fl.fin 0) (Fl.fin (4701840016517595 / 2 ^ 50)) (Fl.fin (5110175788308077 / 2 ^ 49)) (Fl.fin 0) (Fl.fin (1 / 4)) n
        (Fl.fin (-2503547534746671 / 2 ^ 58)) (Fl.fin (-5014667910764559 / 2 ^ 59))
        (Fl.fin ((-7634133716363 / 2 ^ 58) / 2 ^ j)) (Fl.fin 0) = none) ∧
    Dbl.Rating.Convergence.iterate (Fl.fin 0) (Fl.fin (4701840016517595 / 2 ^ 50)) (Fl.fin (5110175788308077 / 2 ^ 49)) (Fl.fin 0) (Fl.fin (1 / 4)) n
        (Fl.fin (-2503547534746671 / 2 ^ 58)) (Fl.fin (-5014667910764559 / 2 ^ 59))
        (Fl.fin (-7634133716363 / 2 ^ 1050)) (Fl.fin 0) = none ∧
    Dbl.Rating.Convergence.iterate (Fl.fin 0) (Fl.fin (4701840016517595 / 2 ^ 50)) (Fl.fin (5110175788308077 / 2 ^ 49)) (Fl.fin 0) (Fl.fin (1 / 4)) n
        (Fl.fin (-2503547534746671 / 2 ^ 58)) (Fl.fin (-5014667910764559 / 2 ^ 59))
        (Fl.fin (-7634133716363 / 2 ^ 1051)) (Fl.fin 0) = none ∧
    Dbl.Rating.Convergence.iterate (Fl.fin 0) (Fl.fin (4701840016517595 / 2 ^ 50)) (Fl.fin (5110175788308077 / 2 ^ 49)) (Fl.fin 0) (Fl.fin (1 / 4)) n
        (Fl.fin (-2503547534746671 / 2 ^ 58)) (Fl.fin (-5014667910764559 / 2 ^ 59))
        (Fl.fin (-7634133716363 / 2 ^ 1052)) (Fl.fin 0) = none ∧
    Dbl.Rating.Convergence.iterate (Fl.fin 0) (Fl.fin (4701840016517595 / 2 ^ 50)) (Fl.fin (5110175788308077 / 2 ^ 49)) (Fl.fin 0) (Fl.fin (1 / 4)) n
        (Fl.fin (-2503547534746671 / 2 ^ 58)) (Fl.fin (-5014667910764559 / 2 ^ 59))
        (Fl.fin (-7634133716363 / 2 ^ 1053)) (Fl.fin 0) = none ∧
    Dbl.Rating.Convergence.iterate (Fl.fin 0) (Fl.fin (4701840016517595 / 2 ^ 50)) (Fl.fin (5110175788308077 / 2 ^ 49)) (Fl.fin 0) (Fl.fin (1 / 4)) n
        (Fl.fin (-2503547534746671 / 2 ^ 58)) (Fl.fin (-5014667910764559 / 2 ^ 59))
        (Fl.fin (-7634133716363 / 2 ^ 1054)) (Fl.fin 0) = none ∧
    Dbl.Rating.Convergence.iterate (Fl.fin 0) (Fl.fin (4701840016517595 / 2 ^ 50)) (Fl.fin (5110175788308077 / 2 ^ 49)) (Fl.fin 0) (Fl.fin (1 / 4)) n
        (Fl.fin (-2503547534746671 / 2 ^ 58)) (Fl.fin (-5014667910764559 / 2 ^ 59))
        (Fl.fin (-7634133716363 / 2 ^ 1055)) (Fl.fin 0) = none ∧
    Dbl.Rating.Convergence.iterate (Fl.fin 0) (Fl.fin (4701840016517595 / 2 ^ 50)) (Fl.fin (5110175788308077 / 2 ^ 49)) (Fl.fin 0) (Fl.fin (1 / 4)) n
        (Fl.fin (-2503547534746671 / 2 ^ 58)) (Fl.fin (-5014667910764559 / 2 ^ 59))
        (Fl.fin (-7634133716363 / 2 ^ 1056)) (Fl.fin 0) = none ∧
    Dbl.Rating.Convergence.iterate (Fl.fin 0) (Fl.fin (4701840016517595 / 2 ^ 50)) (Fl.fin (5110175788308077 / 2 ^ 49)) (Fl.fin 0) (Fl.fin (1 / 4)) n
        (Fl.fin (-2503547534746671 / 2 ^ 58)) (Fl.fin (-5014667910764559 / 2 ^ 59))
        (Fl.fin (-7634133716363 / 2 ^ 1057)) (Fl.fin 0) = none ∧
    Dbl.Rating.Convergence.iterate (Fl.fin 0) (Fl.fin (4701840016517595 / 2 ^ 50)) (Fl.fin (5110175788308077 / 2 ^ 49)) (Fl.fin 0) (Fl.fin (1 / 4)) n
        (Fl.fin (-2503547534746671 / 2 ^ 58)) (Fl.fin (-5014667910764559 / 2 ^ 59))
        (Fl.fin (-7634133716363 / 2 ^ 1058)) (Fl.fin 0) = none ∧
    Dbl.Rating.Convergence.iterate (Fl.fin 0) (Fl.fin (4701840016517595 / 2 ^ 50)) (Fl.fin (5110175788308077 / 2 ^ 49)) (Fl.fin 0) (Fl.fin (1 / 4)) n
        (Fl.fin (-2503547534746671 / 2 ^ 58)) (Fl.fin (-5014667910764559 / 2 ^ 59))
        (Fl.fin (-7634133716363 / 2 ^ 1059)) (Fl.fin 0) = none ∧
    Dbl.Rating.Convergence.iterate (Fl.fin 0) (Fl.fin (4701840016517595 / 2 ^ 50)) (Fl.fin (5110175788308077 / 2 ^ 49)) (Fl.fin 0) (Fl.fin (1 / 4)) n
        (Fl.fin (-2503547534746671 / 2 ^ 58)) (Fl.fin (-5014667910764559 / 2 ^ 59))
        (Fl.fin (-7634133716363 / 2 ^ 1060)) (Fl.fin 0) = none ∧
    Dbl.Rating.Convergence.iterate (Fl.fin 0) (Fl.fin (4701840016517595 / 2 ^ 50)) (Fl.fin (5110175788308077 / 2 ^ 49)) (Fl.fin 0) (Fl.fin (1 / 4)) n
        (Fl.fin (-2503547534746671 / 2 ^ 58)) (Fl.fin (-5014667910764559 / 2 ^ 59))
        (Fl.fin (-7634133716363 / 2 ^ 1061)) (Fl.fin 0) = none ∧
    Dbl.Rating.Convergence.iterate (Fl.fin 0) (Fl.fin (4701840016517595 / 2 ^ 50)) (Fl.fin (5110175788308077 / 2 ^ 49)) (Fl.fin 0) (Fl.fin (1 / 4)) n
        (Fl.fin (-2503547534746671 / 2 ^ 58)) (Fl.fin (-5014667910764559 / 2 ^ 59))
        (Fl.fin (-7634133716363 / 2 ^ 1062)) (Fl.fin 0) = none ∧
    Dbl.Rating.Convergence.iterate (Fl.fin 0) (Fl.fin (4701840016517595 / 2 ^ 50)) (Fl.fin (5110175788308077 / 2 ^ 49)) (Fl.fin 0) (Fl.fin (1 / 4)) n
        (Fl.fin (-2503547534746671 / 2 ^ 58)) (Fl.fin (-5014667910764559 / 2 ^ 59))
        (Fl.fin (-7634133716363 / 2 ^ 1063)) (Fl.fin 0) = none ∧
    Dbl.Rating.Convergence.iterate (Fl.fin 0) (Fl.fin (4701840016517595 / 2 ^ 50)) (Fl.fin (5110175788308077 / 2 ^ 49)) (Fl.fin 0) (Fl.fin (1 / 4)) n
        (Fl.fin (-2503547534746671 / 2 ^ 58)) (Fl.fin (-5014667910764559 / 2 ^ 59))
        (Fl.fin (-7634133716363 / 2 ^ 1064)) (Fl.fin 0) = none ∧
    Dbl.Rating.Convergence.iterate (Fl.fin 0) (Fl.fin (4701840016517595 / 2 ^ 50)) (Fl.fin (5110175788308077 / 2 ^ 49)) (Fl.fin 0) (Fl.fin (1 / 4)) n
        (Fl.fin (-2503547534746671 / 2 ^ 58)) (Fl.fin (-5014667910764559 / 2 ^ 59))
        (Fl.fin (-7634133716363 / 2 ^ 1065)) (Fl.fin 0) = none ∧
    Dbl.Rating.Convergence.iterate (Fl.fin 0) (Fl.fin (4701840016517595 / 2 ^ 50)) (Fl.fin (5110175788308077 / 2 ^ 49)) (Fl.fin 0) (Fl.fin (1 / 4)) n
        (Fl.fin (-2503547534746671 / 2 ^ 58)) (Fl.fin (-5014667910764633 / 2 ^ 59))
        (Fl.fin (-7634133716363 / 2 ^ 1066)) (Fl.fin (37 / 2 ^ 56)) = none ∧
    Dbl.Rating.Convergence.iterate (Fl.fin 0) (Fl.fin (4701840016517595 / 2 ^ 50)) (Fl.fin (5110175788308077 / 2 ^ 49)) (Fl.fin 0) (Fl.fin (1 / 4)) n
        (Fl.fin (-5014667910764633 / 2 ^ 59)) (Fl.fin (-2503547534746671 / 2 ^ 58))
        (Fl.fin (37 / 2 ^ 56)) (Fl.fin (-7634133716363 / 2 ^ 57)) = none ∧
    Dbl.Rating.Convergence.iterate (Fl.fin 0) (Fl.fin (4701840016517595 / 2 ^ 50)) (Fl.fin (5110175788308077 / 2 ^ 49)) (Fl.fin 0) (Fl.fin (1 / 4)) n
        (Fl.fin (-2503547534746671 / 2 ^ 58)) (Fl.fin (-313416744422785 / 2 ^ 55))
        (Fl.fin (-7634133716363 / 2 ^ 57)) (Fl.fin (1 / 2 ^ 57)) = none := by
  have h0 : ((-7634133716363 / 2 ^ 58) / 2 ^ 0 : ℝ) = (-7634133716363 / 2 ^ 58) := by norm_num
  have hJ : ((-7634133716363 / 2 ^ 58) / 2 ^ 991 : ℝ) = (-7634133716363 / 2 ^ 1049) := by norm_num
  induction n with
  | zero => exact ⟨fun j hj => rfl, rfl, rfl, rfl, rfl, rfl, rfl, rfl, rfl, rfl, rfl, rfl, rfl, rfl, rfl, rfl, rfl, rfl, rfl, rfl⟩
  | succ n ih =>
    obtain ⟨ihS, ih996, ih997, ih998, ih999, ih1000, ih1001, ih1002, ih1003, ih1004, ih1005, ih1006, ih1007, ih1008, ih1009, ih1010, ih1011, ih1012, ih1013, ih1014⟩ := ih
    refine ⟨?_, ?_, ?_, ?_, ?_, ?_, ?_, ?_, ?_, ?_, ?_, ?_, ?_, ?_, ?_, ?_, ?_, ?_, ?_, ?_⟩
    · intro j hj
      rcases Nat.lt_or_ge j 991 with h | h
      · rw [cycHalve j (by omega) n]
        exact ihS (j + 1) (by omega)
      · have hj2 : j = 991 := by omega
        rw [hj2, hJ, cycR995 n]
        exact ih996
    · rw [cycR996 n]
      exact ih997
    · rw [cycR997 n]
      exact ih998
    · rw [cycR998 n]
      exact ih999
    · rw [cycR999 n]
      exact ih1000
    · rw [cycR1000 n]
      exact ih1001
    · rw [cycR1001 n]
      exact ih1002
    · rw [cycR1002 n]
      exact ih1003
    · rw [cycR1003 n]
      exact ih1004
    · rw [cycR1004 n]
      exact ih1005
    · rw [cycR1005 n]
      exact ih1006
    · rw [cycR1006 n]
      exact ih1007
    · rw [cycR1007 n]
      exact ih1008
    · rw [cycR1008 n]
      exact ih1009
    · rw [cycR1009 n]
      exact ih1010
    · rw [cycR1010 n]
      exact ih1011
    · rw [cycR1011 n]
      exact ih1012
    · rw [cycR1012 n]
      exact ih1013
    · rw [cycR1013 n]
      exact ih1014
    · rw [cycR1014 n]
      have h := ihS 0 (by omega)
      rw [h0] at h
      exact h

/-- The loop for the draw of `Rating(1500, 355, 1)` in binary64 returns nothing, whatever the fuel. -/
theorem cyc_start_none (n : ℕ) :
    Dbl.Rating.Convergence.iterate (Fl.fin 0) (Fl.fin (4701840016517595 / 2 ^ 50)) (Fl.fin (5110175788308077 / 2 ^ 49)) (Fl.fin 0) (Fl.fin (1 / 4)) n
        (Fl.fin 0) (Fl.fin (-1 / 2))
        (Fl.fin (-5055407268504553 / 2 ^ 57)) (Fl.fin (8908658428582289 / 2 ^ 52)) = none := by
  have h4 : ∀ n, Dbl.Rating.Convergence.iterate (Fl.fin 0) (Fl.fin (4701840016517595 / 2 ^ 50)) (Fl.fin (5110175788308077 / 2 ^ 49)) (Fl.fin 0) (Fl.fin (1 / 4)) n
        (Fl.fin (-2503547534746671 / 2 ^ 58)) (Fl.fin (-5014667910764559 / 2 ^ 59))
        (Fl.fin (-7634133716363 / 2 ^ 58)) (Fl.fin 0) = none := fun n => by
    have h := (cyc_none n).1 0 (by omega)
    have h0 : ((-7634133716363 / 2 ^ 58) / 2 ^ 0 : ℝ) = (-7634133716363 / 2 ^ 58) := by norm_num
    rw [h0] at h
    exact h
  have h3 : ∀ n, Dbl.Rating.Convergence.iterate (Fl.fin 0) (Fl.fin (4701840016517595 / 2 ^ 50)) (Fl.fin (5110175788308077 / 2 ^ 49)) (Fl.fin 0) (Fl.fin (1 / 4)) n
        (Fl.fin (-2503547534746671 / 2 ^ 58)) (Fl.fin (-5014667911109395 / 2 ^ 59))
        (Fl.fin (-7634133716363 / 2 ^ 57)) (Fl.fin (347627 / 2 ^ 57)) = none :=
    Dbl.iterate_none_of_step cycR3 h4
  have h2 : ∀ n, Dbl.Rating.Convergence.iterate (Fl.fin 0) (Fl.fin (4701840016517595 / 2 ^ 50)) (Fl.fin (5110175788308077 / 2 ^ 49)) (Fl.fin 0) (Fl.fin (1 / 4)) n
        (Fl.fin (-627783019050747 / 2 ^ 56)) (Fl.fin (-2503547534746671 / 2 ^ 58))
        (Fl.fin (3828861393121 / 2 ^ 56)) (Fl.fin (-7634133716363 / 2 ^ 57)) = none :=
    Dbl.iterate_none_of_step cycR2 h3
  have h1 : ∀ n, Dbl.Rating.Convergence.iterate (Fl.fin 0) (Fl.fin (4701840016517595 / 2 ^ 50)) (Fl.fin (5110175788308077 / 2 ^ 49)) (Fl.fin 0) (Fl.fin (1 / 4)) n
        (Fl.fin 0) (Fl.fin (-627783019050747 / 2 ^ 56))
        (Fl.fin (-5055407268504553 / 2 ^ 58)) (Fl.fin (3828861393121 / 2 ^ 56)) = none :=
    Dbl.iterate_none_of_step cycR1 h2
  exact Dbl.iterate_none_of_step cycR0 h1 n

/-- The solver call of the draw of `Rating(1500, 355, 1)` in binary64 returns nothing, whatever the fuel. -/
theorem cyc_Convergence_none (n : ℕ) :
    Dbl.Rating.Convergence n (Fl.fin 0) (Fl.fin (5110175788308077 / 2 ^ 49)) (Fl.fin (1150413103692113 / 2 ^ 49)) (Fl.fin 1) = none := by
  have h0 : (Fl.fin 0) * (Fl.fin 0) = (Fl.fin 0) :=
    Fl.mul_zero_pos (by norm_num)
  have h1 : (Fl.fin (1150413103692113 / 2 ^ 49)) * (Fl.fin (1150413103692113 / 2 ^ 49)) = (Fl.fin (4701840016517595 / 2 ^ 50)) :=
    Fl.mul_eq 4701840016517595 (-50) (by unfold Fl.Cert; norm_num)
  have h2 : (Fl.fin (1 / 2)) * (Fl.fin (1 / 2)) = (Fl.fin (1 / 4)) :=
    Fl.mul_eq 4503599627370496 (-54) (by unfold Fl.Cert; norm_num)
  have h3 : (Fl.fin 1) * (Fl.fin 1) = (Fl.fin 1) :=
    Fl.mul_eq 4503599627370496 (-52) (by unfold Fl.Cert; norm_num)
  have h4 : Fl.log (Fl.fin 1) = (Fl.fin 0) :=
    Fl.log_one
  have h5 : (Fl.fin 0) - (Fl.fin (4701840016517595 / 2 ^ 50)) = (Fl.fin (-4701840016517595 / 2 ^ 50)) :=
    Fl.sub_eq (-4701840016517595) (-50) (by norm_num) (by unfold Fl.Cert; norm_num)
  have h6 : (Fl.fin (-4701840016517595 / 2 ^ 50)) - (Fl.fin (5110175788308077 / 2 ^ 49)) = (Fl.fin (-3730547898283437 / 2 ^ 48)) :=
    Fl.sub_tie (-7461095796566874) (-49) true (by norm_num) (by unfold Fl.CertTie; norm_num)
  have h7 : (Fl.fin 0) - (Fl.fin (1 / 2)) = (Fl.fin (-1 / 2)) :=
    Fl.sub_eq (-4503599627370496) (-53) (by norm_num) (by unfold Fl.Cert; norm_num)
  have hk0 : ¬ (Fl.fin 0) < (Fl.fin (-3730547898283437 / 2 ^ 48)) :=
    fun h => absurd ((Fl.fin_lt_fin _ _).mp h) (by norm_num)
  have hk1 : ¬ (Fl.fin (8908658428582289 / 2 ^ 52)) < (Fl.fin 0) :=
    fun h => absurd ((Fl.fin_lt_fin _ _).mp h) (by norm_num)
  have hk2 : ∀ m : ℕ, Dbl.Rating.Convergence (m + 1) (Fl.fin 0) (Fl.fin (5110175788308077 / 2 ^ 49)) (Fl.fin (1150413103692113 / 2 ^ 49)) (Fl.fin 1) = Dbl.Rating.Convergence.iterate (Fl.fin 0) (Fl.fin (4701840016517595 / 2 ^ 50)) (Fl.fin (5110175788308077 / 2 ^ 49)) (Fl.fin 0) (Fl.fin (1 / 4)) (m + 1) (Fl.fin 0) (Fl.fin (-1 / 2)) (Fl.fin (-5055407268504553 / 2 ^ 57)) (Fl.fin (8908658428582289 / 2 ^ 52)) :=
    fun m => Dbl.Convergence_first m h0 h1 h2 h3 h4 h5 h6 hk0 h7 cycF0 cycF1 hk1
  have hk3 : Dbl.Rating.Convergence 0 (Fl.fin 0) (Fl.fin (5110175788308077 / 2 ^ 49)) (Fl.fin (1150413103692113 / 2 ^ 49)) (Fl.fin 1) = none :=
    Dbl.Convergence_zero_fuel h0 h1 h2 h3 h4 h5 h6 hk0
  cases n with
  | zero => exact hk3
  | succ n =>
    rw [hk2 n]
    exact cyc_start_none (n + 1)

/-- The constructor call `Rating(1500, 355, s)` in binary64: `u = 0` and `p = 355 / kScale = 2.0435441848791545`. -/
theorem cyc_init (s : Fl) (j : Fl × Fl × Fl) :
    Dbl.Rating.init (Fl.fin 1500) (Fl.fin 355) s j =
      ({ u := (Fl.fin 0), p := (Fl.fin (1150413103692113 / 2 ^ 49)), s := s, uPrime := j.1, pPrime := j.2.1, sPrime := j.2.2 } : Dbl.Rating) := by
  have h0 : (Fl.fin 1500) - (Fl.fin 1500) = (Fl.fin 0) :=
    Fl.sub_cancel (by norm_num)
  have h1 : (Fl.fin 0) / (Fl.fin (1528037928413325 / 2 ^ 43)) = (Fl.fin 0) :=
    Fl.zero_div_pos (by norm_num)
  have h2 : (Fl.fin 355) / (Fl.fin (1528037928413325 / 2 ^ 43)) = (Fl.fin (1150413103692113 / 2 ^ 49)) :=
    Fl.div_eq 4601652414768452 (-51) (by norm_num) (by unfold Fl.Cert; norm_num)
  have hk0 : Dbl.Rating.init (Fl.fin 1500) (Fl.fin 355) s j = ({ u := (Fl.fin 0), p := (Fl.fin (1150413103692113 / 2 ^ 49)), s := s, uPrime := j.1, pPrime := j.2.1, sPrime := j.2.2 } : Dbl.Rating) :=
    by
    unfold Dbl.Rating.init
    simp only [Dbl.kDefaultR, Dbl.kScale, h0, h1, h2]
  exact hk0

/-- The draw of `Rating(1500, 355, 1)` against `Rating(1500, 355)` in binary64, up to the finishing step: `invV = 0.11016254170929383`, `v = 9.077495712098619`, `dInner = 0` and `d = 0`. -/
theorem cyc_single_pre (n : ℕ) (j0 j1 : Fl × Fl × Fl) :
    Dbl.Rating.UpdateSingle n (Dbl.Rating.init (Fl.fin 1500) (Fl.fin 355) (Fl.fin 1) j0)
      (Dbl.Rating.init (Fl.fin 1500) (Fl.fin 355) Dbl.kDefaultS j1) (Fl.fin (1 / 2)) =
    Dbl.Rating.UpdateFinal n (Dbl.Rating.init (Fl.fin 1500) (Fl.fin 355) (Fl.fin 1) j0)
      (Fl.fin (7938047708674599 / 2 ^ 56)) (Fl.fin (5110175788308077 / 2 ^ 49)) (Fl.fin 0) (Fl.fin 0) := by
  have h0 : (Fl.fin 1500) - (Fl.fin 1500) = (Fl.fin 0) :=
    Fl.sub_cancel (by norm_num)
  have h1 : (Fl.fin 0) / (Fl.fin (1528037928413325 / 2 ^ 43)) = (Fl.fin 0) :=
    Fl.zero_div_pos (by norm_num)
  have h2 : (Fl.fin 355) / (Fl.fin (1528037928413325 / 2 ^ 43)) = (Fl.fin (1150413103692113 / 2 ^ 49)) :=
    Fl.div_eq 4601652414768452 (-51) (by norm_num) (by unfold Fl.Cert; norm_num)
  have h3 : (Fl.fin (1150413103692113 / 2 ^ 49)) / (Fl.fin (884279719003555 / 2 ^ 48)) = (Fl.fin (2929502912804623 / 2 ^ 52)) :=
    Fl.div_eq 5859005825609246 (-53) (by norm_num) (by unfold Fl.Cert; norm_num)
  have h4 : (Fl.fin 3) * (Fl.fin (2929502912804623 / 2 ^ 52)) = (Fl.fin (8788508738413869 / 2 ^ 52)) :=
    Fl.mul_eq 8788508738413869 (-52) (by unfold Fl.Cert; norm_num)
  have h5 : (Fl.fin (8788508738413869 / 2 ^ 52)) * (Fl.fin (2929502912804623 / 2 ^ 52)) = (Fl.fin (1429187987311415 / 2 ^ 50)) :=
    Fl.mul_eq 5716751949245660 (-52) (by unfold Fl.Cert; norm_num)
  have h6 : (Fl.fin 1) + (Fl.fin (1429187987311415 / 2 ^ 50)) = (Fl.fin (2555087894154039 / 2 ^ 50)) :=
    Fl.add_eq 5110175788308078 (-51) (by unfold Fl.Cert; norm_num)
  have h7 : Fl.sqrt (Fl.fin (2555087894154039 / 2 ^ 50)) = (Fl.fin (6784421239283715 / 2 ^ 52)) :=
    Fl.sqrt_eq (910589604531604596429191 / 2 ^ 79) (113823700566450574553649 / 2 ^ 76) 6784421239283715 (-52) (by norm_num) (by norm_num) (by norm_num) (by norm_num) (by unfold Fl.Cert; norm_num)
  have h8 : (Fl.fin 1) / (Fl.fin (6784421239283715 / 2 ^ 52)) = (Fl.fin (5979112701968089 / 2 ^ 53)) :=
    Fl.div_eq 5979112701968089 (-53) (by norm_num) (by unfold Fl.Cert; norm_num)
  have h9 : (Fl.fin (-1)) * (Fl.fin (5979112701968089 / 2 ^ 53)) = (Fl.fin (-5979112701968089 / 2 ^ 53)) :=
    Fl.mul_eq (-5979112701968089) (-53) (by unfold Fl.Cert; norm_num)
  have h10 : (Fl.fin 0) - (Fl.fin 0) = (Fl.fin 0) :=
    Fl.sub_zero _
  have h11 : (Fl.fin (-5979112701968089 / 2 ^ 53)) * (Fl.fin 0) = Fl.nzero :=
    Fl.mul_zero_neg (by norm_num)
  have h12 : Fl.exp Fl.nzero = (Fl.fin 1) :=
    rfl
  have h13 : (Fl.fin 1) + (Fl.fin 1) = (Fl.fin 2) :=
    Fl.add_eq 4503599627370496 (-51) (by unfold Fl.Cert; norm_num)
  have h14 : (Fl.fin 1) / (Fl.fin 2) = (Fl.fin (1 / 2)) :=
    Fl.div_eq 4503599627370496 (-53) (by norm_num) (by unfold Fl.Cert; norm_num)
  have h15 : (Fl.fin (5979112701968089 / 2 ^ 53)) * (Fl.fin (5979112701968089 / 2 ^ 53)) = (Fl.fin (7938047708674599 / 2 ^ 54)) :=
    Fl.mul_eq 7938047708674599 (-54) (by unfold Fl.Cert; norm_num)
  have h16 : (Fl.fin (7938047708674599 / 2 ^ 54)) * (Fl.fin (1 / 2)) = (Fl.fin (7938047708674599 / 2 ^ 55)) :=
    Fl.mul_eq 7938047708674599 (-55) (by unfold Fl.Cert; norm_num)
  have h17 : (Fl.fin 1) - (Fl.fin (1 / 2)) = (Fl.fin (1 / 2)) :=
    Fl.sub_eq 4503599627370496 (-53) (by norm_num) (by unfold Fl.Cert; norm_num)
  have h18 : (Fl.fin (7938047708674599 / 2 ^ 55)) * (Fl.fin (1 / 2)) = (Fl.fin (7938047708674599 / 2 ^ 56)) :=
    Fl.mul_eq 7938047708674599 (-56) (by unfold Fl.Cert; norm_num)
  have h19 : (Fl.fin 1) / (Fl.fin (7938047708674599 / 2 ^ 56)) = (Fl.fin (5110175788308077 / 2 ^ 49)) :=
    Fl.div_eq 5110175788308077 (-49) (by norm_num) (by unfold Fl.Cert; norm_num)
  have h20 : (Fl.fin (1 / 2)) - (Fl.fin (1 / 2)) = (Fl.fin 0) :=
    Fl.sub_cancel (by norm_num)
  have h21 : (Fl.fin (5979112701968089 / 2 ^ 53)) * (Fl.fin 0) = (Fl.fin 0) :=
    Fl.mul_zero_pos (by norm_num)
  have h22 : (Fl.fin (5110175788308077 / 2 ^ 49)) * (Fl.fin 0) = (Fl.fin 0) :=
    Fl.mul_zero_pos (by norm_num)
  have hk0 : Dbl.Rating.init (Fl.fin 1500) (Fl.fin 355) (Fl.fin 1) j0 = ({ u := (Fl.fin 0), p := (Fl.fin (1150413103692113 / 2 ^ 49)), s := (Fl.fin 1), uPrime := j0.1, pPrime := j0.2.1, sPrime := j0.2.2 } : Dbl.Rating) :=
    by
    unfold Dbl.Rating.init
    simp only [Dbl.kDefaultR, Dbl.kScale, h0, h1, h2]
  have hk1 : Dbl.Rating.init (Fl.fin 1500) (Fl.fin 355) Dbl.kDefaultS j1 = ({ u := (Fl.fin 0), p := (Fl.fin (1150413103692113 / 2 ^ 49)), s := Dbl.kDefaultS, uPrime := j1.1, pPrime := j1.2.1, sPrime := j1.2.2 } : Dbl.Rating) :=
    by
    unfold Dbl.Rating.init
    simp only [Dbl.kDefaultR, Dbl.kScale, h0, h1, h2]
  have hk2 : ({ u := (Fl.fin 0), p := (Fl.fin (1150413103692113 / 2 ^ 49)), s := Dbl.kDefaultS, uPrime := j1.1, pPrime := j1.2.1, sPrime := j1.2.2 } : Dbl.Rating).G = (Fl.fin (5979112701968089 / 2 ^ 53)) :=
    Dbl.G_eval ({ u := (Fl.fin 0), p := (Fl.fin (1150413103692113 / 2 ^ 49)), s := Dbl.kDefaultS, uPrime := j1.1, pPrime := j1.2.1, sPrime := j1.2.2 } : Dbl.Rating) h3 h4 h5 h6 h7 h8
  have hk3 : ({ u := (Fl.fin 0), p := (Fl.fin (1150413103692113 / 2 ^ 49)), s := Dbl.kDefaultS, uPrime := j1.1, pPrime := j1.2.1, sPrime := j1.2.2 } : Dbl.Rating).E (Fl.fin (5979112701968089 / 2 ^ 53)) ({ u := (Fl.fin 0), p := (Fl.fin (1150413103692113 / 2 ^ 49)), s := (Fl.fin 1), uPrime := j0.1, pPrime := j0.2.1, sPrime := j0.2.2 } : Dbl.Rating) = (Fl.fin (1 / 2)) :=
    Dbl.E_eval ({ u := (Fl.fin 0), p := (Fl.fin (1150413103692113 / 2 ^ 49)), s := Dbl.kDefaultS, uPrime := j1.1, pPrime := j1.2.1, sPrime := j1.2.2 } : Dbl.Rating) ({ u := (Fl.fin 0), p := (Fl.fin (1150413103692113 / 2 ^ 49)), s := (Fl.fin 1), uPrime := j0.1, pPrime := j0.2.1, sPrime := j0.2.2 } : Dbl.Rating) h9 h10 h11 h12 h13 h14
  rw [hk0, hk1, Dbl.UpdateSingle_eval n hk2 hk3 h15 h16 h17 h18 h19 h20 h21 h22]

/-- The draw of `Rating(1500, 355, 1)` against `Rating(1500, 355)` in binary64 does not return, whatever the fuel. -/
theorem cyc_single (n : ℕ) (j0 j1 : Fl × Fl × Fl) :
    Dbl.Rating.UpdateSingle n (Dbl.Rating.init (Fl.fin 1500) (Fl.fin 355) (Fl.fin 1) j0)
      (Dbl.Rating.init (Fl.fin 1500) (Fl.fin 355) Dbl.kDefaultS j1) (Fl.fin (1 / 2)) =
    Except.error Fault.fuel := by
  rw [cyc_single_pre n j0 j1, cyc_init]
  exact Dbl.UpdateFinal_none (cyc_Convergence_none n)

/-- The batch update of `Rating(1500, 355, 1)` with the one opponent `Rating(1500, 355)` and the score 0.5 in binary64 does not return, whatever the fuel. -/
theorem cyc_batch (n : ℕ) (scratch : Dbl.Scratch) (gNew eNew : ℕ → Fl) (j0 j1 : Fl × Fl × Fl) :
    Dbl.Rating.UpdateBatch n scratch gNew eNew (Dbl.Rating.init (Fl.fin 1500) (Fl.fin 355) (Fl.fin 1) j0) 1
      (some [Dbl.Rating.init (Fl.fin 1500) (Fl.fin 355) Dbl.kDefaultS j1]) (some [(Fl.fin (1 / 2))]) =
    Except.error Fault.fuel := by
  have h0 : (Fl.fin 1500) - (Fl.fin 1500) = (Fl.fin 0) :=
    Fl.sub_cancel (by norm_num)
  have h1 : (Fl.fin 0) / (Fl.fin (1528037928413325 / 2 ^ 43)) = (Fl.fin 0) :=
    Fl.zero_div_pos (by norm_num)
  have h2 : (Fl.fin 355) / (Fl.fin (1528037928413325 / 2 ^ 43)) = (Fl.fin (1150413103692113 / 2 ^ 49)) :=
    Fl.div_eq 4601652414768452 (-51) (by norm_num) (by unfold Fl.Cert; norm_num)
  have h3 : (Fl.fin (1150413103692113 / 2 ^ 49)) / (Fl.fin (884279719003555 / 2 ^ 48)) = (Fl.fin (2929502912804623 / 2 ^ 52)) :=
    Fl.div_eq 5859005825609246 (-53) (by norm_num) (by unfold Fl.Cert; norm_num)
  have h4 : (Fl.fin 3) * (Fl.fin (2929502912804623 / 2 ^ 52)) = (Fl.fin (8788508738413869 / 2 ^ 52)) :=
    Fl.mul_eq 8788508738413869 (-52) (by unfold Fl.Cert; norm_num)
  have h5 : (Fl.fin (8788508738413869 / 2 ^ 52)) * (Fl.fin (2929502912804623 / 2 ^ 52)) = (Fl.fin (1429187987311415 / 2 ^ 50)) :=
    Fl.mul_eq 5716751949245660 (-52) (by unfold Fl.Cert; norm_num)
  have h6 : (Fl.fin 1) + (Fl.fin (1429187987311415 / 2 ^ 50)) = (Fl.fin (2555087894154039 / 2 ^ 50)) :=
    Fl.add_eq 5110175788308078 (-51) (by unfold Fl.Cert; norm_num)
  have h7 : Fl.sqrt (Fl.fin (2555087894154039 / 2 ^ 50)) = (Fl.fin (6784421239283715 / 2 ^ 52)) :=
    Fl.sqrt_eq (910589604531604596429191 / 2 ^ 79) (113823700566450574553649 / 2 ^ 76) 6784421239283715 (-52) (by norm_num) (by norm_num) (by norm_num) (by norm_num) (by unfold Fl.Cert; norm_num)
  have h8 : (Fl.fin 1) / (Fl.fin (6784421239283715 / 2 ^ 52)) = (Fl.fin (5979112701968089 / 2 ^ 53)) :=
    Fl.div_eq 5979112701968089 (-53) (by norm_num) (by unfold Fl.Cert; norm_num)
  have h9 : (Fl.fin (-1)) * (Fl.fin (5979112701968089 / 2 ^ 53)) = (Fl.fin (-5979112701968089 / 2 ^ 53)) :=
    Fl.mul_eq (-5979112701968089) (-53) (by unfold Fl.Cert; norm_num)
  have h10 : (Fl.fin 0) - (Fl.fin 0) = (Fl.fin 0) :=
    Fl.sub_zero _
  have h11 : (Fl.fin (-5979112701968089 / 2 ^ 53)) * (Fl.fin 0) = Fl.nzero :=
    Fl.mul_zero_neg (by norm_num)
  have h12 : Fl.exp Fl.nzero = (Fl.fin 1) :=
    rfl
  have h13 : (Fl.fin 1) + (Fl.fin 1) = (Fl.fin 2) :=
    Fl.add_eq 4503599627370496 (-51) (by unfold Fl.Cert; norm_num)
  have h14 : (Fl.fin 1) / (Fl.fin 2) = (Fl.fin (1 / 2)) :=
    Fl.div_eq 4503599627370496 (-53) (by norm_num) (by unfold Fl.Cert; norm_num)
  have h15 : (Fl.fin (5979112701968089 / 2 ^ 53)) * (Fl.fin (5979112701968089 / 2 ^ 53)) = (Fl.fin (7938047708674599 / 2 ^ 54)) :=
    Fl.mul_eq 7938047708674599 (-54) (by unfold Fl.Cert; norm_num)
  have h16 : (Fl.fin (7938047708674599 / 2 ^ 54)) * (Fl.fin (1 / 2)) = (Fl.fin (7938047708674599 / 2 ^ 55)) :=
    Fl.mul_eq 7938047708674599 (-55) (by unfold Fl.Cert; norm_num)
  have h17 : (Fl.fin 1) - (Fl.fin (1 / 2)) = (Fl.fin (1 / 2)) :=
    Fl.sub_eq 4503599627370496 (-53) (by norm_num) (by unfold Fl.Cert; norm_num)
  have h18 : (Fl.fin (7938047708674599 / 2 ^ 55)) * (Fl.fin (1 / 2)) = (Fl.fin (7938047708674599 / 2 ^ 56)) :=
    Fl.mul_eq 7938047708674599 (-56) (by unfold Fl.Cert; norm_num)
  have h19 : (Fl.fin 0) + (Fl.fin (7938047708674599 / 2 ^ 56)) = (Fl.fin (7938047708674599 / 2 ^ 56)) :=
    Fl.add_eq 7938047708674599 (-56) (by unfold Fl.Cert; norm_num)
  have h20 : (Fl.fin 1) / (Fl.fin (7938047708674599 / 2 ^ 56)) = (Fl.fin (5110175788308077 / 2 ^ 49)) :=
    Fl.div_eq 5110175788308077 (-49) (by norm_num) (by unfold Fl.Cert; norm_num)
  have h21 : (Fl.fin (1 / 2)) - (Fl.fin (1 / 2)) = (Fl.fin 0) :=
    Fl.sub_cancel (by norm_num)
  have h22 : (Fl.fin (5979112701968089 / 2 ^ 53)) * (Fl.fin 0) = (Fl.fin 0) :=
    Fl.mul_zero_pos (by norm_num)
  have h23 : (Fl.fin 0) + (Fl.fin 0) = (Fl.fin 0) :=
    Fl.add_cancel (by norm_num)
  have h24 : (Fl.fin (5110175788308077 / 2 ^ 49)) * (Fl.fin 0) = (Fl.fin 0) :=
    Fl.mul_zero_pos (by norm_num)
  have hk0 : Dbl.Rating.init (Fl.fin 1500) (Fl.fin 355) (Fl.fin 1) j0 = ({ u := (Fl.fin 0), p := (Fl.fin (1150413103692113 / 2 ^ 49)), s := (Fl.fin 1), uPrime := j0.1, pPrime := j0.2.1, sPrime := j0.2.2 } : Dbl.Rating) :=
    by
    unfold Dbl.Rating.init
    simp only [Dbl.kDefaultR, Dbl.kScale, h0, h1, h2]
  have hk1 : Dbl.Rating.init (Fl.fin 1500) (Fl.fin 355) Dbl.kDefaultS j1 = ({ u := (Fl.fin 0), p := (Fl.fin (1150413103692113 / 2 ^ 49)), s := Dbl.kDefaultS, uPrime := j1.1, pPrime := j1.2.1, sPrime := j1.2.2 } : Dbl.Rating) :=
    by
    unfold Dbl.Rating.init
    simp only [Dbl.kDefaultR, Dbl.kScale, h0, h1, h2]
  have hk2 : ({ u := (Fl.fin 0), p := (Fl.fin (1150413103692113 / 2 ^ 49)), s := Dbl.kDefaultS, uPrime := j1.1, pPrime := j1.2.1, sPrime := j1.2.2 } : Dbl.Rating).G = (Fl.fin (5979112701968089 / 2 ^ 53)) :=
    Dbl.G_eval ({ u := (Fl.fin 0), p := (Fl.fin (1150413103692113 / 2 ^ 49)), s := Dbl.kDefaultS, uPrime := j1.1, pPrime := j1.2.1, sPrime := j1.2.2 } : Dbl.Rating) h3 h4 h5 h6 h7 h8
  have hk3 : ({ u := (Fl.fin 0), p := (Fl.fin (1150413103692113 / 2 ^ 49)), s := Dbl.kDefaultS, uPrime := j1.1, pPrime := j1.2.1, sPrime := j1.2.2 } : Dbl.Rating).E (Fl.fin (5979112701968089 / 2 ^ 53)) ({ u := (Fl.fin 0), p := (Fl.fin (1150413103692113 / 2 ^ 49)), s := (Fl.fin 1), uPrime := j0.1, pPrime := j0.2.1, sPrime := j0.2.2 } : Dbl.Rating) = (Fl.fin (1 / 2)) :=
    Dbl.E_eval ({ u := (Fl.fin 0), p := (Fl.fin (1150413103692113 / 2 ^ 49)), s := Dbl.kDefaultS, uPrime := j1.1, pPrime := j1.2.1, sPrime := j1.2.2 } : Dbl.Rating) ({ u := (Fl.fin 0), p := (Fl.fin (1150413103692113 / 2 ^ 49)), s := (Fl.fin 1), uPrime := j0.1, pPrime := j0.2.1, sPrime := j0.2.2 } : Dbl.Rating) h9 h10 h11 h12 h13 h14
  apply error_of_map_fst
  rw [hk0, hk1, Dbl.UpdateBatch_eval n scratch gNew eNew hk2 hk3 h15 h16 h17 h18 h19 h20 h21 h22 h23 h24]
  exact Dbl.UpdateFinal_none (cyc_Convergence_none n)

/-! ## The claims -/

/-- C1. End-to-end reference scenario: `main` builds `Rating(1500, 200)` (volatility 0.06),
runs the batch update against `Rating(1400, 30)`, `Rating(1550, 100)`, `Rating(1700, 300)`
with scores 1, 0, 0 and applies it.  For every fuel of at least 3, every earlier state of the
scratch tables and every content of the uninitialised members, it returns, `Rating1()` is
within 0.01 of 1464.06 and `Deviation1()` within 0.01 of 151.52. -/
theorem C1_reference_scenario (n : ℕ) (scratch : Scratch) (gNew eNew : ℕ → ℝ)
    (junk : Fin 4 → ℝ × ℝ × ℝ) :
    ∃ R1 D1, main (n + 3) scratch gNew eNew junk = Except.ok (R1, D1) ∧
      |R1 - 1464.06| < 0.01 ∧ |D1 - 151.52| < 0.01 := by
  obtain ⟨R1, D1, hrun, hR, hD⟩ := main_run n scratch gNew eNew junk
  refine ⟨R1, D1, hrun, ?_, ?_⟩
  · rw [abs_lt]
    constructor
    · linarith [hR.1]
    · linarith [hR.2]
  · rw [abs_lt]
    constructor
    · linarith [hD.1]
    · linarith [hD.2]

/-- C2. Batch/single equivalence: the batch update called with `m = 1` on one opponent and
one score ends exactly as the single-opponent update with that opponent and score: the same
rating state, pending members included, or the same failure to return. -/
theorem C2_batch_single_equivalence (fuel : ℕ) (scratch : Scratch) (gNew eNew : ℕ → ℝ)
    (self opponent : Rating) (score : ℝ) (restO : List Rating) (restS : List ℝ) :
    Except.map Prod.fst
        (Rating.UpdateBatch fuel scratch gNew eNew self 1 (some (opponent :: restO))
          (some (score :: restS)))
      = Rating.UpdateSingle fuel self opponent score :=
  UpdateBatch_one fuel scratch gNew eNew self opponent score restO restS

/-- C3. Reads never observe uncommitted values: whenever the batch update or the
single-opponent update returns, and after `Decay`, the committed `u`, `p`, `s` are unchanged,
so `Rating1()`, `Deviation1()`, `Rating2()` and `Deviation2()` return what they returned
before the call. -/
theorem C3_updates_keep_committed (fuel : ℕ) (scratch : Scratch) (gNew eNew : ℕ → ℝ)
    (self : Rating) (m : ℕ) (opponents : Option (List Rating)) (score : Option (List ℝ))
    (opponent : Rating) (sc : ℝ) :
    (∀ r scratch1, Rating.UpdateBatch fuel scratch gNew eNew self m opponents score
        = Except.ok (r, scratch1) → self.sameCommitted r) ∧
    (∀ r, Rating.UpdateSingle fuel self opponent sc = Except.ok r → self.sameCommitted r) ∧
    self.sameCommitted self.Decay := by
  refine ⟨?_, ?_, ?_⟩
  · intro r scratch1 h
    exact sameCommitted_of_eq (UpdateBatch_frame h)
  · intro r h
    exact sameCommitted_of_eq (UpdateFinal_frame h)
  · exact sameCommitted_of_eq ⟨rfl, rfl, rfl⟩

/-- C3 at concrete inputs: the batch update of `main` and a draw between two default ratings
both return, with the committed members and accessors unchanged. -/
theorem C3_witness :
    (∃ r scratch1, Rating.UpdateBatch 3 emptyScratch (fun _ => 0) (fun _ => 0) mainPlayer 3
        (some mainPlayers) (some mainScores) = Except.ok (r, scratch1) ∧
      mainPlayer.sameCommitted r) ∧
    (∃ r, Rating.UpdateSingle 3 defaultRating defaultRating (1 / 2) = Except.ok r ∧
      defaultRating.sameCommitted r) ∧
    defaultRating.sameCommitted defaultRating.Decay := by
  obtain ⟨r, scratch1, hrun, -⟩ :=
    main_batch_run 0 emptyScratch (fun _ => 0) (fun _ => 0) (fun _ => (0, 0, 0))
  obtain ⟨r1, hrun1⟩ := draw_run 0 (0, 0, 0) (0, 0, 0)
  have h := C3_updates_keep_committed 3 emptyScratch (fun _ => 0) (fun _ => 0) mainPlayer 3
    (some mainPlayers) (some mainScores) defaultRating (1 / 2)
  have h1 := C3_updates_keep_committed 3 emptyScratch (fun _ => 0) (fun _ => 0) defaultRating 3
    (some mainPlayers) (some mainScores) defaultRating (1 / 2)
  exact ⟨⟨r, scratch1, hrun, h.1 r scratch1 hrun⟩, ⟨r1, hrun1, h1.2.1 r1 hrun1⟩, h1.2.2⟩

/-- C4. `Apply` is a pure copy: afterwards the committed `u`, `p`, `s` are the pending
members held before the call, the pending members are unchanged, and a second `Apply`
changes nothing. -/
theorem C4_apply_is_copy (r : Rating) :
    r.Apply.u = r.uPrime ∧ r.Apply.p = r.pPrime ∧ r.Apply.s = r.sPrime ∧
    r.Apply.uPrime = r.uPrime ∧ r.Apply.pPrime = r.pPrime ∧ r.Apply.sPrime = r.sPrime ∧
    r.Apply.Apply = r.Apply :=
  ⟨rfl, rfl, rfl, rfl, rfl, rfl, rfl⟩

/-- C6. The batch update on `N ≥ 1` opponents with `N` scores equals the reference
definition: with `invV`, `dInner` the reference sums, `v = 1 / invV` and `d = v * dInner`, it
returns exactly when `Convergence(d, v, p, s)` returns some `A`, and the rating it leaves has
`sPrime = exp(A/2)`, `pPrime = 1 / sqrt(1 / (p^2 + sPrime^2) + invV)` and
`uPrime = u + pPrime^2 * dInner`. -/
theorem C6_batch_update_reference (fuel : ℕ) (scratch : Scratch) (gNew eNew : ℕ → ℝ)
    (self : Rating) (opps : List Rating) (scs : List ℝ) (hlen : scs.length = opps.length)
    (hpos : 1 ≤ opps.length) :
    Except.map Prod.fst
        (Rating.UpdateBatch fuel scratch gNew eNew self opps.length (some opps) (some scs))
      = match Rating.Convergence fuel (1 / Spec.invV self opps * Spec.dInner self opps scs)
          (1 / Spec.invV self opps) self.p self.s with
        | none => Except.error Fault.fuel
        | some A =>
          Except.ok (Spec.pending self (Spec.invV self opps) (Spec.dInner self opps scs) A) :=
  UpdateBatch_spec fuel scratch gNew eNew self opps scs hlen hpos

/-- C6 at the inputs of `main`: the batch update returns the reference pending state of a
solver result. -/
theorem C6_witness :
    ∃ A, Rating.Convergence 3
        (1 / Spec.invV mainPlayer mainPlayers * Spec.dInner mainPlayer mainPlayers mainScores)
        (1 / Spec.invV mainPlayer mainPlayers) mainPlayer.p mainPlayer.s = some A ∧
      Except.map Prod.fst (Rating.UpdateBatch 3 emptyScratch (fun _ => 0) (fun _ => 0)
          mainPlayer mainPlayers.length (some mainPlayers) (some mainScores))
        = Except.ok (Spec.pending mainPlayer (Spec.invV mainPlayer mainPlayers)
            (Spec.dInner mainPlayer mainPlayers mainScores) A) := by
  have h := C6_batch_update_reference 3 emptyScratch (fun _ => 0) (fun _ => 0) mainPlayer
    mainPlayers mainScores rfl (by simp [mainPlayers])
  obtain ⟨r, scratch1, hrun, -⟩ :=
    main_batch_run 0 emptyScratch (fun _ => 0) (fun _ => 0) (fun _ => (0, 0, 0))
  have hrun1 : Rating.UpdateBatch 3 emptyScratch (fun _ => 0) (fun _ => 0) mainPlayer
      mainPlayers.length (some mainPlayers) (some mainScores) = Except.ok (r, scratch1) := hrun
  cases hc : Rating.Convergence 3
      (1 / Spec.invV mainPlayer mainPlayers * Spec.dInner mainPlayer mainPlayers mainScores)
      (1 / Spec.invV mainPlayer mainPlayers) mainPlayer.p mainPlayer.s with
  | none =>
    rw [hc, hrun1] at h
    simp [Except.map] at h
  | some A =>
    rw [hc] at h
    exact ⟨A, rfl, h⟩

/-- C8, evaluated on the code: `Decay` writes `pPrime` only.  On a state whose pending
`uPrime = 1` and `sPrime = 2` differ from the committed `u = 0` and `s = 1`, the pending
members still differ after `Decay`, and `Decay` followed by `Apply` changes the committed
rating to 1 and the volatility to 2.  On a freshly constructed rating, `Decay` followed by
`Apply` commits the uninitialised members. -/
theorem C8_decay_keeps_stale_pending :
    staleRating.Decay.uPrime = 1 ∧ staleRating.u = 0 ∧
    staleRating.Decay.sPrime = 2 ∧ staleRating.s = 1 ∧
    staleRating.Decay.Apply.u = 1 ∧ staleRating.Decay.Apply.s = 2 ∧
    (Rating.init 1500 350 kDefaultS (1, 0, 2)).Decay.Apply.Rating2 = 1 ∧
    (Rating.init 1500 350 kDefaultS (1, 0, 2)).Rating2 = 0 := by
  refine ⟨rfl, rfl, rfl, rfl, rfl, rfl, rfl, ?_⟩
  norm_num [Rating.init, Rating.Rating2, kDefaultR, kScale]

/-- C14, as amended.  The copy constructor duplicates the three committed scalars `u`, `p`,
`s`, so the four accessors of the copy return what they return on the original, and a
single-opponent update of the copy ends in the same state as that update of the original.
The pending members are not copied: those of the copy are the indeterminate contents of its
storage. -/
theorem C14_copy_duplicates_committed (r : Rating) (junk : ℝ × ℝ × ℝ) :
    r.sameCommitted (Rating.copy r junk) ∧
    (Rating.copy r junk).uPrime = junk.1 ∧ (Rating.copy r junk).pPrime = junk.2.1 ∧
    (Rating.copy r junk).sPrime = junk.2.2 ∧
    ∀ (fuel : ℕ) (opponent : Rating) (score : ℝ),
      Rating.UpdateSingle fuel (Rating.copy r junk) opponent score
        = Rating.UpdateSingle fuel r opponent score := by
  refine ⟨sameCommitted_of_eq ⟨rfl, rfl, rfl⟩, rfl, rfl, rfl, ?_⟩
  intro fuel opponent score
  unfold Rating.UpdateSingle
  have hE : ∀ g, opponent.E g (Rating.copy r junk) = opponent.E g r := fun g => rfl
  simp only [hE]
  exact UpdateFinal_congr fuel _ _ _ _ _ _ rfl rfl rfl

/-- C14 as stated fails: the copy of a rating whose pending members are 1, 1, 2, made in
storage that holds zeros, has pending `uPrime`, `pPrime`, `sPrime` equal to 0, and `Apply` on
the copy commits 0 where `Apply` on the original commits 1. -/
theorem C14_counterexample :
    (Rating.copy staleRating (0, 0, 0)).uPrime ≠ staleRating.uPrime ∧
    (Rating.copy staleRating (0, 0, 0)).pPrime ≠ staleRating.pPrime ∧
    (Rating.copy staleRating (0, 0, 0)).sPrime ≠ staleRating.sPrime ∧
    (Rating.copy staleRating (0, 0, 0)).Apply.u ≠ staleRating.Apply.u := by
  simp [Rating.copy, staleRating, Rating.Apply]

/-- C16 fails in the code: `Convergence(d, v, p, s)` with `d = 0`,
`v = 5110175788308077 / 2^49 = 9.077495712098619`,
`p = 1150413103692113 / 2^49 = 2.0435441848791545` and `s = 1` does not return for any fuel.
These are the arguments of the solver call made by
`Rating(1500, 355, 1.0).Update(Rating(1500, 355), 0.5)`, which does not return either.
Round 3 of the loop finds an exact zero `fC = 0` of `F`; the test `fC * fB < 0` is false from
then on and `fA` is halved until the product `(A - B) * fA` loses its last bits, which moves
`C` by one unit in the last place, and three rounds later the loop is back in the state it
had before round 4. -/
theorem C16_solver_does_not_return :
    (0:ℝ) < 5110175788308077 / 2 ^ 49 ∧ (0:ℝ) ≤ 1150413103692113 / 2 ^ 49 ∧ (0:ℝ) < 1 ∧
    (∀ fuel : ℕ, Dbl.Rating.Convergence fuel (Fl.fin 0) (Fl.fin (5110175788308077 / 2 ^ 49))
      (Fl.fin (1150413103692113 / 2 ^ 49)) (Fl.fin 1) = none) ∧
    Dbl.cycleRating.p = Fl.fin (1150413103692113 / 2 ^ 49) ∧ Dbl.cycleRating.s = Fl.fin 1 ∧
    (∀ fuel : ℕ, Dbl.Rating.UpdateSingle fuel Dbl.cycleRating Dbl.cycleOpponent (Fl.fin (1 / 2))
      = Dbl.Rating.UpdateFinal fuel Dbl.cycleRating (Fl.fin (7938047708674599 / 2 ^ 56))
          (Fl.fin (5110175788308077 / 2 ^ 49)) (Fl.fin 0) (Fl.fin 0)) ∧
    (∀ fuel : ℕ, Dbl.Rating.UpdateSingle fuel Dbl.cycleRating Dbl.cycleOpponent (Fl.fin (1 / 2))
      = Except.error Fault.fuel) := by
  have hp : Dbl.cycleRating.p = Fl.fin (1150413103692113 / 2 ^ 49) := by
    unfold Dbl.cycleRating
    rw [cyc_init]
  exact ⟨by norm_num, by norm_num, by norm_num, cyc_Convergence_none, hp, rfl,
    fun fuel => cyc_single_pre fuel (Fl.nan, Fl.nan, Fl.nan) (Fl.nan, Fl.nan, Fl.nan),
    fun fuel => cyc_single fuel (Fl.nan, Fl.nan, Fl.nan) (Fl.nan, Fl.nan, Fl.nan)⟩

/-- C18. No leak from the reused scratch tables: for `N ≥ 1` opponents and `N` scores, the
batch update ends in the same rating state, or the same failure, whatever the tables and their
size held before and whatever the fresh arrays contain; the result depends only on the
committed `u`, `p`, `s` of the caller, on `u`, `p` of the opponents and on the scores. -/
theorem C18_scratch_tables_do_not_leak (fuel : ℕ) (scratchA scratchB : Scratch)
    (gNewA eNewA gNewB eNewB : ℕ → ℝ) (selfA selfB : Rating) (oppsA oppsB : List Rating)
    (scs : List ℝ) (hu : selfA.u = selfB.u) (hp : selfA.p = selfB.p) (hs : selfA.s = selfB.s)
    (hopp : oppsA.map (fun o => (o.u, o.p)) = oppsB.map (fun o => (o.u, o.p)))
    (hlen : scs.length = oppsA.length) (hpos : 0 < oppsA.length) :
    Except.map Prod.fst
        (Rating.UpdateBatch fuel scratchA gNewA eNewA selfA oppsA.length (some oppsA) (some scs))
      = Except.map Prod.fst
        (Rating.UpdateBatch fuel scratchB gNewB eNewB selfB oppsB.length (some oppsB)
          (some scs)) := by
  have hl : oppsA.length = oppsB.length := by
    have := congrArg List.length hopp
    simpa using this
  obtain ⟨h1, h2⟩ := sums_congr hu oppsA oppsB scs hopp
  rw [UpdateBatch_eq fuel scratchA gNewA eNewA selfA oppsA scs hlen hpos,
    UpdateBatch_eq fuel scratchB gNewB eNewB selfB oppsB scs (by rw [hlen, hl]) (by omega),
    h1, h2]
  exact UpdateFinal_congr fuel selfA selfB _ _ _ _ hu hp hs

/-- C18 at the inputs of `main`: with no table yet, or with tables of five stale entries
equal to 7 and 9, and with fresh arrays of zeros or of ones, the batch update ends in the
same state. -/
theorem C18_witness :
    Except.map Prod.fst
        (Rating.UpdateBatch 3 emptyScratch (fun _ => 0) (fun _ => 0) mainPlayer
          mainPlayers.length (some mainPlayers) (some mainScores))
      = Except.map Prod.fst
        (Rating.UpdateBatch 3 { gTable := fun _ => 7, eTable := fun _ => 9, tableSize := 5 }
          (fun _ => 1) (fun _ => 1) mainPlayer mainPlayers.length (some mainPlayers)
          (some mainScores)) :=
  C18_scratch_tables_do_not_leak 3 emptyScratch
    { gTable := fun _ => 7, eTable := fun _ => 9, tableSize := 5 } (fun _ => 0) (fun _ => 0)
    (fun _ => 1) (fun _ => 1) mainPlayer mainPlayer mainPlayers mainPlayers mainScores rfl rfl
    rfl rfl rfl (by simp [mainPlayers])

/-- C19. The inversion `v = 1 / invV` never divides by zero over the reals: for every rating
and every nonempty list of opponents, each `g_j` lies in `(0, 1]` and each `e_j` strictly
between 0 and 1, the first loop of the batch update returns an `invV > 0`, so `v = 1 / invV`
is positive; likewise `invV > 0` and `v > 0` in the single-opponent update. -/
theorem C19_invV_is_positive (self : Rating) (opps : List Rating) (gTable eTable : ℕ → ℝ)
    (hne : opps ≠ []) :
    (∀ o ∈ opps, 0 < o.G ∧ o.G ≤ 1 ∧ 0 < o.E o.G self ∧ o.E o.G self < 1) ∧
    (∃ gT1 eT1 invV, Rating.UpdateBatch.loop1 self opps opps.length 0 gTable eTable 0
        = Except.ok (gT1, eT1, invV) ∧ 0 < invV ∧ 0 < 1 / invV) ∧
    ∀ o : Rating, 0 < o.G * o.G * o.E o.G self * (1 - o.E o.G self) ∧
      0 < 1 / (o.G * o.G * o.E o.G self * (1 - o.E o.G self)) := by
  refine ⟨?_, ?_, ?_⟩
  · intro o _
    exact ⟨G_pos o, G_le_one o, E_pos o self o.G, E_lt_one o self o.G⟩
  · obtain ⟨gT1, eT1, hrun, -, -⟩ := loop1_spec self opps [] gTable eTable 0
    simp only [List.nil_append, List.length_nil, zero_add] at hrun
    have hI := invV_sum_pos self opps hne
    exact ⟨gT1, eT1, _, hrun, hI, by positivity⟩
  · intro o
    have hI := invVTerm_pos self o
    unfold invVTerm at hI
    exact ⟨hI, by positivity⟩

/-- C19 at the inputs of `main`: the first loop over the three opponents returns a positive
`invV`. -/
theorem C19_witness :
    ∃ gT1 eT1 invV, Rating.UpdateBatch.loop1 mainPlayer mainPlayers mainPlayers.length 0
        (fun _ => 0) (fun _ => 0) 0 = Except.ok (gT1, eT1, invV) ∧ 0 < invV ∧ 0 < 1 / invV :=
  (C19_invV_is_positive mainPlayer mainPlayers (fun _ => 0) (fun _ => 0)
    (by simp [mainPlayers])).2.1

end Glicko

end
